import Mathlib

/-!
Motion-blur demo: render targets, render passes, framebuffers, descriptor sets
and command recording.

A shallow embedding of `src/core/vulkan_utils.{h,cpp}`, `src/core/vulkan_context.h`
and `src/examples/motion_blur/motion_blur_example.{h,cpp}`.

* Vulkan handles are natural numbers, `0` being `VK_NULL_HANDLE`.
* The driver is a `Device`: a counter of handles handed out, the list of creation
  requests that the driver refuses, and the log of every API call in program order.
* A C++ function that can throw returns `Except String _`; the state after a throw is
  not observable (the exception ends the run). The exception of `utils::CreatePipeline` and
  of `CreatePipelines` also carries the driver state at the throw.
* Bit masks are natural numbers combined with `|||`, with the values of the Vulkan headers.
-/

namespace vkdemo

/-! ## Floating-point values -/

/-- A value of type `float`, represented by the computation that yields it: a literal of the
sources (or an input such as a delta time), the conversion of an unsigned integer, a sum, a
product or a quotient of floats, or `glm::radians` of a float. Two values written by the same
computation are the same float; nothing is assumed about rounding. -/
inductive FloatVal
  | lit (q : ℚ)
  | ofUInt (n : Nat)
  | add (a b : FloatVal)
  | mul (a b : FloatVal)
  | div (a b : FloatVal)
  | radians (degrees : FloatVal)
  deriving DecidableEq, Repr

/-- The value of a float computation in exact arithmetic (the float is its rounding): `none`
when the computation divides by zero or leaves the rationals (`glm::radians`). -/
def FloatVal.exact : FloatVal → Option ℚ
  | .lit q => some q
  | .ofUInt n => some (n : ℚ)
  | .add a b =>
    match a.exact, b.exact with
    | some x, some y => some (x + y)
    | _, _ => none
  | .mul a b =>
    match a.exact, b.exact with
    | some x, some y => some (x * y)
    | _, _ => none
  | .div a b =>
    match a.exact, b.exact with
    | some x, some y => if y = 0 then none else some (x / y)
    | _, _ => none
  | .radians _ => none

/-! ## Vulkan vocabulary -/

abbrev Handle := Nat

abbrev VK_NULL_HANDLE : Handle := 0

abbrev VkFormat := Nat

abbrev VK_FORMAT_UNDEFINED : VkFormat := 0
abbrev VK_FORMAT_R16G16_SFLOAT : VkFormat := 83
abbrev VK_FORMAT_R16G16B16A16_SFLOAT : VkFormat := 97
abbrev VK_FORMAT_R32G32_SFLOAT : VkFormat := 103
abbrev VK_FORMAT_R32G32B32_SFLOAT : VkFormat := 106

abbrev VkFlags := Nat

abbrev VK_IMAGE_USAGE_SAMPLED_BIT : VkFlags := 0x4
abbrev VK_IMAGE_USAGE_COLOR_ATTACHMENT_BIT : VkFlags := 0x10
abbrev VK_IMAGE_USAGE_DEPTH_STENCIL_ATTACHMENT_BIT : VkFlags := 0x20

abbrev VK_IMAGE_ASPECT_COLOR_BIT : VkFlags := 0x1
abbrev VK_IMAGE_ASPECT_DEPTH_BIT : VkFlags := 0x2

abbrev VK_MEMORY_PROPERTY_DEVICE_LOCAL_BIT : VkFlags := 0x1
abbrev VK_MEMORY_PROPERTY_HOST_VISIBLE_BIT : VkFlags := 0x2
abbrev VK_MEMORY_PROPERTY_HOST_COHERENT_BIT : VkFlags := 0x4

abbrev VK_BUFFER_USAGE_TRANSFER_SRC_BIT : VkFlags := 0x1
abbrev VK_BUFFER_USAGE_TRANSFER_DST_BIT : VkFlags := 0x2
abbrev VK_BUFFER_USAGE_UNIFORM_BUFFER_BIT : VkFlags := 0x10
abbrev VK_BUFFER_USAGE_INDEX_BUFFER_BIT : VkFlags := 0x40
abbrev VK_BUFFER_USAGE_VERTEX_BUFFER_BIT : VkFlags := 0x80

abbrev VK_PIPELINE_STAGE_FRAGMENT_SHADER_BIT : VkFlags := 0x80
abbrev VK_PIPELINE_STAGE_EARLY_FRAGMENT_TESTS_BIT : VkFlags := 0x100
abbrev VK_PIPELINE_STAGE_LATE_FRAGMENT_TESTS_BIT : VkFlags := 0x200
abbrev VK_PIPELINE_STAGE_COLOR_ATTACHMENT_OUTPUT_BIT : VkFlags := 0x400

abbrev VK_ACCESS_SHADER_READ_BIT : VkFlags := 0x20
abbrev VK_ACCESS_COLOR_ATTACHMENT_WRITE_BIT : VkFlags := 0x100
abbrev VK_ACCESS_DEPTH_STENCIL_ATTACHMENT_WRITE_BIT : VkFlags := 0x400

abbrev VK_SHADER_STAGE_VERTEX_BIT : VkFlags := 0x1
abbrev VK_SHADER_STAGE_FRAGMENT_BIT : VkFlags := 0x10

abbrev VK_COLOR_COMPONENT_R_BIT : VkFlags := 0x1
abbrev VK_COLOR_COMPONENT_G_BIT : VkFlags := 0x2
abbrev VK_COLOR_COMPONENT_B_BIT : VkFlags := 0x4
abbrev VK_COLOR_COMPONENT_A_BIT : VkFlags := 0x8

abbrev VK_CULL_MODE_NONE : VkFlags := 0

abbrev VK_SAMPLE_COUNT_1_BIT : VkFlags := 0x1

abbrev VK_DESCRIPTOR_POOL_CREATE_FREE_DESCRIPTOR_SET_BIT : VkFlags := 0x1

/-- The special subpass index `VK_SUBPASS_EXTERNAL` (`~0U`). -/
abbrev VK_SUBPASS_EXTERNAL : Nat := 0xFFFFFFFF

/-- A mask `m` contains every bit of `bits`. -/
def hasBits (m bits : VkFlags) : Bool := m &&& bits == bits

inductive VkImageTiling
  | VK_IMAGE_TILING_OPTIMAL
  | VK_IMAGE_TILING_LINEAR
  deriving DecidableEq, Repr

inductive VkImageLayout
  | VK_IMAGE_LAYOUT_UNDEFINED
  | VK_IMAGE_LAYOUT_COLOR_ATTACHMENT_OPTIMAL
  | VK_IMAGE_LAYOUT_DEPTH_STENCIL_ATTACHMENT_OPTIMAL
  | VK_IMAGE_LAYOUT_SHADER_READ_ONLY_OPTIMAL
  | VK_IMAGE_LAYOUT_PRESENT_SRC_KHR
  deriving DecidableEq, Repr

inductive VkAttachmentLoadOp
  | VK_ATTACHMENT_LOAD_OP_LOAD
  | VK_ATTACHMENT_LOAD_OP_CLEAR
  | VK_ATTACHMENT_LOAD_OP_DONT_CARE
  deriving DecidableEq, Repr

inductive VkAttachmentStoreOp
  | VK_ATTACHMENT_STORE_OP_STORE
  | VK_ATTACHMENT_STORE_OP_DONT_CARE
  deriving DecidableEq, Repr

inductive VkPipelineBindPoint
  | VK_PIPELINE_BIND_POINT_GRAPHICS
  | VK_PIPELINE_BIND_POINT_COMPUTE
  deriving DecidableEq, Repr

inductive VkDescriptorType
  | VK_DESCRIPTOR_TYPE_COMBINED_IMAGE_SAMPLER
  | VK_DESCRIPTOR_TYPE_UNIFORM_BUFFER
  deriving DecidableEq, Repr

inductive VkCompareOp
  | VK_COMPARE_OP_NEVER
  | VK_COMPARE_OP_LESS
  | VK_COMPARE_OP_ALWAYS
  deriving DecidableEq, Repr

inductive VkFilter
  | VK_FILTER_NEAREST
  | VK_FILTER_LINEAR
  deriving DecidableEq, Repr

inductive VkSamplerMipmapMode
  | VK_SAMPLER_MIPMAP_MODE_NEAREST
  | VK_SAMPLER_MIPMAP_MODE_LINEAR
  deriving DecidableEq, Repr

inductive VkIndexType
  | VK_INDEX_TYPE_UINT16
  | VK_INDEX_TYPE_UINT32
  deriving DecidableEq, Repr

inductive VkVertexInputRate
  | VK_VERTEX_INPUT_RATE_VERTEX
  | VK_VERTEX_INPUT_RATE_INSTANCE
  deriving DecidableEq, Repr

structure VkExtent2D where
  width : Nat
  height : Nat
  deriving DecidableEq, Repr

structure VkOffset2D where
  x : Int
  y : Int
  deriving DecidableEq, Repr

structure VkRect2D where
  offset : VkOffset2D
  extent : VkExtent2D
  deriving DecidableEq, Repr

structure VkAttachmentDescription where
  format : VkFormat
  samples : VkFlags
  loadOp : VkAttachmentLoadOp
  storeOp : VkAttachmentStoreOp
  stencilLoadOp : VkAttachmentLoadOp
  stencilStoreOp : VkAttachmentStoreOp
  initialLayout : VkImageLayout
  finalLayout : VkImageLayout
  deriving DecidableEq, Repr

structure VkAttachmentReference where
  attachment : Nat
  layout : VkImageLayout
  deriving DecidableEq, Repr

structure VkSubpassDescription where
  pipelineBindPoint : VkPipelineBindPoint
  pColorAttachments : List VkAttachmentReference
  pDepthStencilAttachment : Option VkAttachmentReference
  deriving DecidableEq, Repr

structure VkSubpassDependency where
  srcSubpass : Nat
  dstSubpass : Nat
  srcStageMask : VkFlags
  srcAccessMask : VkFlags
  dstStageMask : VkFlags
  dstAccessMask : VkFlags
  deriving DecidableEq, Repr

structure VkRenderPassCreateInfo where
  pAttachments : List VkAttachmentDescription
  pSubpasses : List VkSubpassDescription
  pDependencies : List VkSubpassDependency
  deriving DecidableEq, Repr

structure VkDescriptorSetLayoutBinding where
  binding : Nat
  descriptorType : VkDescriptorType
  descriptorCount : Nat
  stageFlags : VkFlags
  deriving DecidableEq, Repr

structure VkFramebufferCreateInfo where
  renderPass : Handle
  pAttachments : List Handle
  width : Nat
  height : Nat
  layers : Nat
  deriving DecidableEq, Repr

structure VkVertexInputBindingDescription where
  binding : Nat
  stride : Nat
  inputRate : VkVertexInputRate
  deriving DecidableEq, Repr

structure VkVertexInputAttributeDescription where
  binding : Nat
  location : Nat
  format : VkFormat
  offset : Nat
  deriving DecidableEq, Repr

structure VkViewport where
  x : FloatVal
  y : FloatVal
  width : FloatVal
  height : FloatVal
  minDepth : FloatVal
  maxDepth : FloatVal
  deriving DecidableEq, Repr

structure VkPipelineColorBlendAttachmentState where
  colorWriteMask : VkFlags
  blendEnable : Bool
  deriving DecidableEq, Repr

/-- The parts of `VkGraphicsPipelineCreateInfo` that the sources fill in. -/
structure VkGraphicsPipelineCreateInfo where
  vertShaderModule : Handle
  fragShaderModule : Handle
  bindingDescription : VkVertexInputBindingDescription
  attributeDescriptions : List VkVertexInputAttributeDescription
  viewport : VkViewport
  scissor : VkRect2D
  cullMode : VkFlags
  depthTestEnable : Bool
  depthWriteEnable : Bool
  depthCompareOp : VkCompareOp
  colorBlendAttachments : List VkPipelineColorBlendAttachmentState
  layout : Handle
  renderPass : Handle
  subpass : Nat
  deriving DecidableEq, Repr

structure VkDescriptorPoolSize where
  type : VkDescriptorType
  descriptorCount : Nat
  deriving DecidableEq, Repr

structure VkDescriptorPoolCreateInfo where
  pPoolSizes : List VkDescriptorPoolSize
  maxSets : Nat
  flags : VkFlags
  deriving DecidableEq, Repr

structure VkDescriptorImageInfo where
  sampler : Handle
  imageView : Handle
  imageLayout : VkImageLayout
  deriving DecidableEq, Repr

structure VkDescriptorBufferInfo where
  buffer : Handle
  offset : Nat
  range : Nat
  deriving DecidableEq, Repr

structure VkWriteDescriptorSet where
  dstSet : Handle
  dstBinding : Nat
  dstArrayElement : Nat
  descriptorType : VkDescriptorType
  descriptorCount : Nat
  pImageInfo : Option VkDescriptorImageInfo
  pBufferInfo : Option VkDescriptorBufferInfo
  deriving DecidableEq, Repr

/-- Host data handed to `memcpy`: the scalars of the source array and the byte width of each. -/
structure HostData where
  scalarBytes : Nat
  scalars : List ℚ
  deriving DecidableEq, Repr

/-! ## The GLM types -/

namespace glm

/-- A `glm::vec2`. -/
structure vec2 where
  x : FloatVal
  y : FloatVal
  deriving DecidableEq, Repr

/-- A `glm::vec3`. -/
structure vec3 where
  x : FloatVal
  y : FloatVal
  z : FloatVal
  deriving DecidableEq, Repr

/-- A `glm::mat4`, represented by the GLM computation that yields it: `glm::mat4(1.0f)`,
`glm::rotate`, `glm::lookAt`, `glm::perspective`, a matrix product `a * b`, or the update
`m[col][row] *= k` of one element. -/
inductive mat4
  | identity
  | rotate (m : mat4) (angle : FloatVal) (axis : vec3)
  | lookAt (eye center up : vec3)
  | perspective (fovy aspect zNear zFar : FloatVal)
  | mul (a b : mat4)
  | mulElem (m : mat4) (col row : Nat) (k : FloatVal)
  deriving DecidableEq, Repr

end glm

/-! ## Uniform blocks (motion_blur_example.h) -/

structure MotionBlurMVPUBO where
  currMVP : glm.mat4
  prevMVP : glm.mat4
  deriving DecidableEq, Repr

structure MotionBlurPostProcessParams where
  blurStrength : FloatVal
  motionScale : FloatVal
  texelSize : glm.vec2
  deriving DecidableEq, Repr

/-- A uniform block handed to `memcpy` by address. -/
inductive UniformData
  | mvp (ubo : MotionBlurMVPUBO)
  | params (params : MotionBlurPostProcessParams)
  deriving DecidableEq, Repr

/-! ## The driver -/

/-- One call into the Vulkan API or into the device helpers of `VulkanContext`, with its
arguments and the handles it returned. -/
inductive Call
  | vkCreateSampler (magFilter minFilter : VkFilter) (mipmapMode : VkSamplerMipmapMode) (sampler : Handle)
  | CreateImage (width height : Nat) (format : VkFormat) (tiling : VkImageTiling) (usage : VkFlags)
      (properties : VkFlags) (image memory : Handle)
  | CreateImageView (image : Handle) (format : VkFormat) (aspectFlags : VkFlags) (view : Handle)
  | vkCreateRenderPass (info : VkRenderPassCreateInfo) (renderPass : Handle)
  | vkCreateDescriptorSetLayout (pBindings : List VkDescriptorSetLayoutBinding) (layout : Handle)
  | vkCreatePipelineLayout (pSetLayouts : List Handle) (layout : Handle)
  | CreateShaderModule (code : List Nat) (shaderModule : Handle)
  | vkCreateGraphicsPipelines (info : VkGraphicsPipelineCreateInfo) (pipeline : Handle)
  | vkCreateFramebuffer (info : VkFramebufferCreateInfo) (framebuffer : Handle)
  | CreateBuffer (size : Nat) (usage : VkFlags) (properties : VkFlags) (buffer memory : Handle)
  | vkMapMemory (memory : Handle) (offset size : Nat)
  | memcpy (dstMemory : Handle) (src : HostData) (size : Nat)
  | memcpyBlock (dst : Option Handle) (src : UniformData) (size : Nat)
  | vkUnmapMemory (memory : Handle)
  | CopyBuffer (srcBuffer dstBuffer : Handle) (size : Nat)
  | vkCreateDescriptorPool (info : VkDescriptorPoolCreateInfo) (pool : Handle)
  | vkAllocateDescriptorSets (pool : Handle) (pSetLayouts : List Handle) (sets : List Handle)
  | vkUpdateDescriptorSets (writes : List VkWriteDescriptorSet)
  | vkResetDescriptorPool (pool : Handle)
  | vkDestroySampler (sampler : Handle)
  | vkDestroyImageView (view : Handle)
  | vkDestroyImage (image : Handle)
  | vkFreeMemory (memory : Handle)
  | vkDestroyFramebuffer (framebuffer : Handle)
  | vkDestroyShaderModule (shaderModule : Handle)
  | vkDestroyPipeline (pipeline : Handle)
  | vkDestroyPipelineLayout (layout : Handle)
  | vkDestroyRenderPass (renderPass : Handle)
  | vkDestroyDescriptorSetLayout (layout : Handle)
  | vkDestroyDescriptorPool (pool : Handle)
  | vkDestroyBuffer (buffer : Handle)
  deriving DecidableEq, Repr

/-- State of the driver. `next` counts the handles handed out so far (the handles issued are
`1 .. next`, never `VK_NULL_HANDLE`, never reused); `failing` lists the values of `next` at
which a creation request is refused; `log` holds every call made, oldest first. -/
structure Device where
  next : Nat
  failing : List Nat
  log : List Call
  deriving DecidableEq, Repr

/-- Record a call that creates nothing. -/
def Device.emit (d : Device) (c : Call) : Device :=
  { d with log := d.log ++ [c] }

/-- A creation request for `n` objects: refused (`none`, anything but `VK_SUCCESS`) when the
driver is set to fail at this point, otherwise the fresh handles `next+1 .. next+n` are
issued, the first of which is returned, and the call is logged. -/
def Device.request (d : Device) (n : Nat) (call : Handle → Call) : Option (Handle × Device) :=
  if d.next ∈ d.failing then none
  else some (d.next + 1, { d with next := d.next + n, log := d.log ++ [call (d.next + 1)] })

/-- The C++ idiom `if (vkCreateX(...) != VK_SUCCESS) throw std::runtime_error(msg);`. -/
def check {α : Type} (result : Option α) (msg : String) : Except String α :=
  match result with
  | some a => .ok a
  | none => .error msg

/-- A statement that can throw, in a function that has brought the driver to the state `d`:
the exception leaves the function with the driver in that state, which is recorded next to the
message. -/
def throwsAt {α : Type} (d : Device) (x : Except String α) : Except (String × Device) α :=
  match x with
  | .ok a => .ok a
  | .error msg => .error (msg, d)

/-- An exception that carries the driver state, passing through a caller of which only the
message of the failure is observed. -/
def messageOnly {α : Type} (x : Except (String × Device) α) : Except String α :=
  match x with
  | .ok a => .ok a
  | .error (msg, _) => .error msg

def vkDestroyImageView (d : Device) (view : Handle) : Device := d.emit (.vkDestroyImageView view)

def vkDestroyImage (d : Device) (image : Handle) : Device := d.emit (.vkDestroyImage image)

def vkFreeMemory (d : Device) (memory : Handle) : Device := d.emit (.vkFreeMemory memory)

def vkDestroyFramebuffer (d : Device) (framebuffer : Handle) : Device :=
  d.emit (.vkDestroyFramebuffer framebuffer)

def vkDestroySampler (d : Device) (sampler : Handle) : Device := d.emit (.vkDestroySampler sampler)

def vkDestroyShaderModule (d : Device) (shaderModule : Handle) : Device :=
  d.emit (.vkDestroyShaderModule shaderModule)

def vkDestroyPipeline (d : Device) (pipeline : Handle) : Device := d.emit (.vkDestroyPipeline pipeline)

def vkDestroyPipelineLayout (d : Device) (layout : Handle) : Device :=
  d.emit (.vkDestroyPipelineLayout layout)

def vkDestroyRenderPass (d : Device) (renderPass : Handle) : Device :=
  d.emit (.vkDestroyRenderPass renderPass)

def vkDestroyDescriptorSetLayout (d : Device) (layout : Handle) : Device :=
  d.emit (.vkDestroyDescriptorSetLayout layout)

def vkDestroyDescriptorPool (d : Device) (pool : Handle) : Device :=
  d.emit (.vkDestroyDescriptorPool pool)

def vkDestroyBuffer (d : Device) (buffer : Handle) : Device := d.emit (.vkDestroyBuffer buffer)

def vkResetDescriptorPool (d : Device) (pool : Handle) : Device := d.emit (.vkResetDescriptorPool pool)

def vkUpdateDescriptorSets (d : Device) (writes : List VkWriteDescriptorSet) : Device :=
  d.emit (.vkUpdateDescriptorSets writes)

/-- The return value of `vkMapMemory` is ignored by the sources; the mapped pointer is
represented by the handle of the memory it points into. -/
def vkMapMemory (d : Device) (memory : Handle) (offset size : Nat) : Handle × Device :=
  (memory, d.emit (.vkMapMemory memory offset size))

def vkUnmapMemory (d : Device) (memory : Handle) : Device := d.emit (.vkUnmapMemory memory)

def memcpy (d : Device) (dst : Handle) (src : HostData) (size : Nat) : Device :=
  d.emit (.memcpy dst src size)

/-- The call `memcpy(mapped[i], &block, size)` into persistently mapped memory; the destination is
read out of a `std::vector` by an unchecked index and kept as `List.get?` of that vector. -/
def memcpyBlock (d : Device) (dst : Option Handle) (src : UniformData) (size : Nat) : Device :=
  d.emit (.memcpyBlock dst src size)

def vkCreateSampler (d : Device) (magFilter minFilter : VkFilter) (mipmapMode : VkSamplerMipmapMode) :
    Option (Handle × Device) :=
  d.request 1 fun h => .vkCreateSampler magFilter minFilter mipmapMode h

def vkCreateRenderPass (d : Device) (info : VkRenderPassCreateInfo) : Option (Handle × Device) :=
  d.request 1 fun h => .vkCreateRenderPass info h

def vkCreateDescriptorSetLayout (d : Device) (pBindings : List VkDescriptorSetLayoutBinding) :
    Option (Handle × Device) :=
  d.request 1 fun h => .vkCreateDescriptorSetLayout pBindings h

def vkCreatePipelineLayout (d : Device) (pSetLayouts : List Handle) : Option (Handle × Device) :=
  d.request 1 fun h => .vkCreatePipelineLayout pSetLayouts h

def vkCreateGraphicsPipelines (d : Device) (info : VkGraphicsPipelineCreateInfo) :
    Option (Handle × Device) :=
  d.request 1 fun h => .vkCreateGraphicsPipelines info h

def vkCreateFramebuffer (d : Device) (info : VkFramebufferCreateInfo) : Option (Handle × Device) :=
  d.request 1 fun h => .vkCreateFramebuffer info h

def vkCreateDescriptorPool (d : Device) (info : VkDescriptorPoolCreateInfo) : Option (Handle × Device) :=
  d.request 1 fun h => .vkCreateDescriptorPool info h

/-- Allocates one set per element of `pSetLayouts`; the sets get consecutive fresh handles. -/
def vkAllocateDescriptorSets (d : Device) (pool : Handle) (pSetLayouts : List Handle) :
    Option (List Handle × Device) :=
  match d.request pSetLayouts.length fun h =>
      .vkAllocateDescriptorSets pool pSetLayouts ((List.range pSetLayouts.length).map fun i => h + i) with
  | some (h, d) => some ((List.range pSetLayouts.length).map fun i => h + i, d)
  | none => none

/-- The element `xs[i]` of a `std::vector`; the sources do not check the index, and the run has
no defined continuation when it is past the end. -/
def elemAt {α : Type} (xs : List α) (i : Nat) : Except String α :=
  match xs[i]? with
  | some x => .ok x
  | none => .error "vector subscript out of range"

/-- The effect of `std::vector::resize(n)` on a vector of handles: the first `n` elements are
kept and missing ones are value-initialised. -/
def resize (xs : List Handle) (n : Nat) : List Handle :=
  xs.take n ++ List.replicate (n - xs.length) VK_NULL_HANDLE

/-! ## `VulkanContext` (vulkan_context.h) -/

/-- The members of `VulkanContext` that the example reads through its inline getters, and the
format that `FindDepthFormat` reports for the physical device. -/
structure VulkanContext where
  swapChainImageFormat : VkFormat
  swapChainExtent : VkExtent2D
  swapChainImageViews : List Handle
  currentFrame : Nat
  depthFormat : VkFormat
  deriving DecidableEq, Repr

abbrev VulkanContext.MAX_FRAMES_IN_FLIGHT : Nat := 2

def VulkanContext.GetSwapChainFormat (ctx : VulkanContext) : VkFormat := ctx.swapChainImageFormat

def VulkanContext.GetSwapChainExtent (ctx : VulkanContext) : VkExtent2D := ctx.swapChainExtent

def VulkanContext.GetSwapChainImageViews (ctx : VulkanContext) : List Handle := ctx.swapChainImageViews

def VulkanContext.GetCurrentFrame (ctx : VulkanContext) : Nat := ctx.currentFrame

/-- Modelled from the spec: the body of `VulkanContext::FindDepthFormat` (vulkan_context.cpp) is
not part of the sources; it yields the "platform depth format", a property of the device. -/
def VulkanContext.FindDepthFormat (ctx : VulkanContext) : VkFormat := ctx.depthFormat

/-- Modelled from the spec: the body of `VulkanContext::CreateImage` (vulkan_context.cpp) is
not part of the sources. It creates an image of the given size, format, tiling and usage,
allocates memory with the given properties for it, and stores both handles through its
reference parameters; a GPU object-creation failure is fatal (it throws). -/
def VulkanContext.CreateImage (_ctx : VulkanContext) (d : Device) (width height : Nat)
    (format : VkFormat) (tiling : VkImageTiling) (usage properties : VkFlags) :
    Except String (Handle × Handle × Device) := do
  let (image, d) ← check
    (d.request 2 fun h => .CreateImage width height format tiling usage properties h (h + 1))
    "failed to create image!"
  return (image, image + 1, d)

/-- Modelled from the spec: the body of `VulkanContext::CreateImageView` (vulkan_context.cpp)
is not part of the sources. It creates and returns a view of `image` with the given format
and aspect; a GPU object-creation failure is fatal (it throws). -/
def VulkanContext.CreateImageView (_ctx : VulkanContext) (d : Device) (image : Handle)
    (format : VkFormat) (aspectFlags : VkFlags) : Except String (Handle × Device) :=
  check (d.request 1 fun h => .CreateImageView image format aspectFlags h)
    "failed to create image view!"

/-- Modelled from the spec: the body of `VulkanContext::CreateBuffer` (vulkan_context.cpp) is
not part of the sources. It creates a buffer of `size` bytes with the given usage, allocates
memory with the given properties for it, and stores both handles through its reference
parameters; a GPU object-creation failure is fatal (it throws). -/
def VulkanContext.CreateBuffer (_ctx : VulkanContext) (d : Device) (size : Nat)
    (usage properties : VkFlags) : Except String (Handle × Handle × Device) := do
  let (buffer, d) ← check (d.request 2 fun h => .CreateBuffer size usage properties h (h + 1))
    "failed to create buffer!"
  return (buffer, buffer + 1, d)

/-- Modelled from the spec: the body of `VulkanContext::CreateShaderModule`
(vulkan_context.cpp) is not part of the sources. It wraps the bytes of a shader binary in a
shader module; a GPU object-creation failure is fatal (it throws). -/
def VulkanContext.CreateShaderModule (_ctx : VulkanContext) (d : Device) (code : List Nat) :
    Except String (Handle × Device) :=
  check (d.request 1 fun h => .CreateShaderModule code h) "failed to create shader module!"

/-- Modelled from the spec: the body of `VulkanContext::CopyBuffer` (vulkan_context.cpp) is not
part of the sources. It is the staging-buffer copy of the first `size` bytes of `srcBuffer`
into `dstBuffer`. -/
def VulkanContext.CopyBuffer (_ctx : VulkanContext) (d : Device) (srcBuffer dstBuffer : Handle)
    (size : Nat) : Device :=
  d.emit (.CopyBuffer srcBuffer dstBuffer size)

/-! ## `RenderTarget` (vulkan_utils.h, vulkan_utils.cpp) -/

structure RenderTarget where
  image : Handle := VK_NULL_HANDLE
  memory : Handle := VK_NULL_HANDLE
  view : Handle := VK_NULL_HANDLE
  format : VkFormat := VK_FORMAT_UNDEFINED
  currentLayout : VkImageLayout := .VK_IMAGE_LAYOUT_UNDEFINED
  width : Nat := 0
  height : Nat := 0
  deriving DecidableEq, Repr

def RenderTarget.Cleanup (self : RenderTarget) (device : Device) : Device × RenderTarget := Id.run do
  let mut self := self
  let mut device := device
  if self.view ≠ VK_NULL_HANDLE then
    device := vkDestroyImageView device self.view
    self := { self with view := VK_NULL_HANDLE }
  if self.image ≠ VK_NULL_HANDLE then
    device := vkDestroyImage device self.image
    self := { self with image := VK_NULL_HANDLE }
  if self.memory ≠ VK_NULL_HANDLE then
    device := vkFreeMemory device self.memory
    self := { self with memory := VK_NULL_HANDLE }
  return (device, self)


/-! ## Utilities (vulkan_utils.h, vulkan_utils.cpp) -/

structure PipelineConfig where
  vertShaderPath : String := ""
  fragShaderPath : String := ""
  renderPass : Handle := VK_NULL_HANDLE
  pipelineLayout : Handle := VK_NULL_HANDLE
  colorAttachmentCount : Nat := 1
  hasDepthAttachment : Bool := false
  isFullscreenQuad : Bool := false
  cullMode : VkFlags := VK_CULL_MODE_NONE
  depthCompareOp : VkCompareOp := .VK_COMPARE_OP_LESS
  enableBlending : Bool := false
  deriving DecidableEq, Repr

/-- A `glm::vec2` of floats. -/
structure Vec2 where
  x : ℚ
  y : ℚ
  deriving DecidableEq, Repr

/-- A `glm::vec3` of floats. -/
structure Vec3 where
  x : ℚ
  y : ℚ
  z : ℚ
  deriving DecidableEq, Repr

structure FullscreenVertex where
  position : Vec2
  texCoord : Vec2
  deriving DecidableEq, Repr

/-- The value of `sizeof(FullscreenVertex)`: four 4-byte floats. -/
abbrev FullscreenVertex.sizeof : Nat := 16

def FullscreenVertex.GetBindingDescription : VkVertexInputBindingDescription :=
  { binding := 0, stride := FullscreenVertex.sizeof, inputRate := .VK_VERTEX_INPUT_RATE_VERTEX }

def FullscreenVertex.GetAttributeDescriptions : List VkVertexInputAttributeDescription :=
  [ { binding := 0, location := 0, format := VK_FORMAT_R32G32_SFLOAT, offset := 0 },
    { binding := 0, location := 1, format := VK_FORMAT_R32G32_SFLOAT, offset := 8 } ]

/-- A file as `std::ifstream` sees it: the value of `static_cast<size_t>(file.tellg())` after
opening at the end, and the bytes that a read from the start delivers. -/
structure File where
  fileSize : Nat
  delivered : List Nat
  deriving DecidableEq, Repr

/-- The environment of `ReadFile`: the files that can be opened, by name, and the largest
number of bytes for which the construction of a `std::vector<char>` succeeds (for a larger one
the constructor throws `std::length_error` or `std::bad_alloc`). -/
structure FileSystem where
  files : List (String × File)
  maxBuffer : Nat
  deriving DecidableEq, Repr

namespace utils

/-- The function `ReadFile`. The exception of the constructor of the buffer is not a
`std::runtime_error` and its message is the implementation's; it is rendered as
"std::bad_alloc". -/
def ReadFile (fs : FileSystem) (filename : String) : Except String (List Nat) :=
  match fs.files.lookup filename with
  | none => .error ("Failed to open file: " ++ filename)
  | some file =>
    let fileSize := file.fileSize
    if fs.maxBuffer < fileSize then .error "std::bad_alloc"
    else
      let buffer := List.replicate fileSize 0
      let got := file.delivered.take fileSize
      .ok (got ++ buffer.drop got.length)

def CreatePipeline (fs : FileSystem) (ctx : VulkanContext) (d : Device) (config : PipelineConfig) :
    Except (String × Device) (Handle × Device) := do
  let vertShaderCode ← throwsAt d (ReadFile fs config.vertShaderPath)
  let fragShaderCode ← throwsAt d (ReadFile fs config.fragShaderPath)
  let (vertShaderModule, d) ← throwsAt d (ctx.CreateShaderModule d vertShaderCode)
  let (fragShaderModule, d) ← throwsAt d (ctx.CreateShaderModule d fragShaderCode)
  let bindingDescription := FullscreenVertex.GetBindingDescription
  let attributeDescriptions := FullscreenVertex.GetAttributeDescriptions
  let extent := ctx.GetSwapChainExtent
  let viewport : VkViewport :=
    { x := .lit 0
      y := .lit 0
      width := .ofUInt extent.width
      height := .ofUInt extent.height
      minDepth := .lit 0
      maxDepth := .lit 1 }
  let scissor : VkRect2D := { offset := { x := 0, y := 0 }, extent := extent }
  let colorBlendAttachments := List.replicate config.colorAttachmentCount
    ({ colorWriteMask := VK_COLOR_COMPONENT_R_BIT ||| VK_COLOR_COMPONENT_G_BIT |||
          VK_COLOR_COMPONENT_B_BIT ||| VK_COLOR_COMPONENT_A_BIT,
       blendEnable := config.enableBlending } : VkPipelineColorBlendAttachmentState)
  let pipelineInfo : VkGraphicsPipelineCreateInfo :=
    { vertShaderModule := vertShaderModule
      fragShaderModule := fragShaderModule
      bindingDescription := bindingDescription
      attributeDescriptions := attributeDescriptions
      viewport := viewport
      scissor := scissor
      cullMode := config.cullMode
      depthTestEnable := config.hasDepthAttachment
      depthWriteEnable := config.hasDepthAttachment
      depthCompareOp := config.depthCompareOp
      colorBlendAttachments := colorBlendAttachments
      layout := config.pipelineLayout
      renderPass := config.renderPass
      subpass := 0 }
  let (pipeline, d) ← throwsAt d
    (check (vkCreateGraphicsPipelines d pipelineInfo) "Failed to create graphics pipeline!")
  let d := vkDestroyShaderModule d fragShaderModule
  let d := vkDestroyShaderModule d vertShaderModule
  return (pipeline, d)

def CreateLinearSampler (d : Device) : Except String (Handle × Device) :=
  check (vkCreateSampler d .VK_FILTER_LINEAR .VK_FILTER_LINEAR .VK_SAMPLER_MIPMAP_MODE_LINEAR)
    "Failed to create linear sampler!"

def CreateNearestSampler (d : Device) : Except String (Handle × Device) :=
  check (vkCreateSampler d .VK_FILTER_NEAREST .VK_FILTER_NEAREST .VK_SAMPLER_MIPMAP_MODE_NEAREST)
    "Failed to create nearest sampler!"

end utils

/-! ## Command buffers -/

/-- A `VkClearValue`, seen through the first member of the union (`color.float32`); the depth of
a depth-stencil clear value occupies the same bytes as `float32[0]`. -/
structure VkClearValue where
  float32 : List ℚ
  deriving DecidableEq, Repr

/-- A command recorded into a command buffer. An operand that the sources read out of a
`std::vector` by an unchecked index is kept as `List.get?` of that vector. -/
inductive Cmd
  | vkCmdBeginRenderPass (renderPass : Handle) (framebuffer : Option Handle) (renderArea : VkRect2D)
      (pClearValues : List VkClearValue)
  | vkCmdBindPipeline (pipelineBindPoint : VkPipelineBindPoint) (pipeline : Handle)
  | vkCmdBindVertexBuffers (firstBinding : Nat) (pBuffers : List Handle) (pOffsets : List Nat)
  | vkCmdBindIndexBuffer (buffer : Handle) (offset : Nat) (indexType : VkIndexType)
  | vkCmdBindDescriptorSets (pipelineBindPoint : VkPipelineBindPoint) (layout : Handle) (firstSet : Nat)
      (pDescriptorSets : List (Option Handle))
  | vkCmdDraw (vertexCount instanceCount firstVertex firstInstance : Nat)
  | vkCmdDrawIndexed (indexCount instanceCount firstIndex vertexOffset firstInstance : Nat)
  | vkCmdEndRenderPass
  deriving DecidableEq, Repr

def vkCmdBeginRenderPass (cmd : List Cmd) (renderPass : Handle) (framebuffer : Option Handle)
    (renderArea : VkRect2D) (pClearValues : List VkClearValue) : List Cmd :=
  cmd ++ [Cmd.vkCmdBeginRenderPass renderPass framebuffer renderArea pClearValues]

def vkCmdBindPipeline (cmd : List Cmd) (pipelineBindPoint : VkPipelineBindPoint) (pipeline : Handle) :
    List Cmd :=
  cmd ++ [Cmd.vkCmdBindPipeline pipelineBindPoint pipeline]

def vkCmdBindVertexBuffers (cmd : List Cmd) (firstBinding : Nat) (pBuffers : List Handle)
    (pOffsets : List Nat) : List Cmd :=
  cmd ++ [Cmd.vkCmdBindVertexBuffers firstBinding pBuffers pOffsets]

def vkCmdBindIndexBuffer (cmd : List Cmd) (buffer : Handle) (offset : Nat) (indexType : VkIndexType) :
    List Cmd :=
  cmd ++ [Cmd.vkCmdBindIndexBuffer buffer offset indexType]

def vkCmdBindDescriptorSets (cmd : List Cmd) (pipelineBindPoint : VkPipelineBindPoint) (layout : Handle)
    (firstSet : Nat) (pDescriptorSets : List (Option Handle)) : List Cmd :=
  cmd ++ [Cmd.vkCmdBindDescriptorSets pipelineBindPoint layout firstSet pDescriptorSets]

def vkCmdDraw (cmd : List Cmd) (vertexCount instanceCount firstVertex firstInstance : Nat) : List Cmd :=
  cmd ++ [Cmd.vkCmdDraw vertexCount instanceCount firstVertex firstInstance]

def vkCmdDrawIndexed (cmd : List Cmd)
    (indexCount instanceCount firstIndex vertexOffset firstInstance : Nat) : List Cmd :=
  cmd ++ [Cmd.vkCmdDrawIndexed indexCount instanceCount firstIndex vertexOffset firstInstance]

def vkCmdEndRenderPass (cmd : List Cmd) : List Cmd :=
  cmd ++ [Cmd.vkCmdEndRenderPass]

/-! ## `FullscreenQuad` (vulkan_utils.h, vulkan_utils.cpp) -/

structure FullscreenQuad where
  vertexBuffer : Handle := VK_NULL_HANDLE
  vertexBufferMemory : Handle := VK_NULL_HANDLE
  indexBuffer : Handle := VK_NULL_HANDLE
  indexBufferMemory : Handle := VK_NULL_HANDLE
  initialized : Bool := false
  deriving DecidableEq, Repr

namespace FullscreenQuad

def vertices : List FullscreenVertex :=
  [ { position := { x := -1, y := -1 }, texCoord := { x := 0, y := 0 } },
    { position := { x := 1, y := -1 }, texCoord := { x := 1, y := 0 } },
    { position := { x := 1, y := 1 }, texCoord := { x := 1, y := 1 } },
    { position := { x := -1, y := 1 }, texCoord := { x := 0, y := 1 } } ]

def indices : List Nat := [0, 1, 2, 0, 2, 3]

/-- The value of `sizeof(uint16_t)`. -/
abbrev indexSizeof : Nat := 2

def vertexData : HostData :=
  { scalarBytes := 4
    scalars := vertices.flatMap fun v => [v.position.x, v.position.y, v.texCoord.x, v.texCoord.y] }

def indexData : HostData :=
  { scalarBytes := indexSizeof, scalars := indices.map fun i => (i : ℚ) }

def Initialize (self : FullscreenQuad) (ctx : VulkanContext) (d : Device) :
    Except String (Device × FullscreenQuad) := do
  if self.initialized then
    return (d, self)
  let mut self := self
  -- Create vertex buffer
  let vertexBufferSize := FullscreenVertex.sizeof * vertices.length
  let (stagingBuffer, stagingBufferMemory, d) ← ctx.CreateBuffer d vertexBufferSize
    VK_BUFFER_USAGE_TRANSFER_SRC_BIT
    (VK_MEMORY_PROPERTY_HOST_VISIBLE_BIT ||| VK_MEMORY_PROPERTY_HOST_COHERENT_BIT)
  let (data, d) := vkMapMemory d stagingBufferMemory 0 vertexBufferSize
  let d := memcpy d data vertexData vertexBufferSize
  let d := vkUnmapMemory d stagingBufferMemory
  let (vertexBuffer, vertexBufferMemory, d) ← ctx.CreateBuffer d vertexBufferSize
    (VK_BUFFER_USAGE_TRANSFER_DST_BIT ||| VK_BUFFER_USAGE_VERTEX_BUFFER_BIT)
    VK_MEMORY_PROPERTY_DEVICE_LOCAL_BIT
  self := { self with vertexBuffer := vertexBuffer, vertexBufferMemory := vertexBufferMemory }
  let d := ctx.CopyBuffer d stagingBuffer self.vertexBuffer vertexBufferSize
  let d := vkDestroyBuffer d stagingBuffer
  let d := vkFreeMemory d stagingBufferMemory
  -- Create index buffer
  let indexBufferSize := indexSizeof * indices.length
  let (stagingBuffer, stagingBufferMemory, d) ← ctx.CreateBuffer d indexBufferSize
    VK_BUFFER_USAGE_TRANSFER_SRC_BIT
    (VK_MEMORY_PROPERTY_HOST_VISIBLE_BIT ||| VK_MEMORY_PROPERTY_HOST_COHERENT_BIT)
  let (data, d) := vkMapMemory d stagingBufferMemory 0 indexBufferSize
  let d := memcpy d data indexData indexBufferSize
  let d := vkUnmapMemory d stagingBufferMemory
  let (indexBuffer, indexBufferMemory, d) ← ctx.CreateBuffer d indexBufferSize
    (VK_BUFFER_USAGE_TRANSFER_DST_BIT ||| VK_BUFFER_USAGE_INDEX_BUFFER_BIT)
    VK_MEMORY_PROPERTY_DEVICE_LOCAL_BIT
  self := { self with indexBuffer := indexBuffer, indexBufferMemory := indexBufferMemory }
  let d := ctx.CopyBuffer d stagingBuffer self.indexBuffer indexBufferSize
  let d := vkDestroyBuffer d stagingBuffer
  let d := vkFreeMemory d stagingBufferMemory
  self := { self with initialized := true }
  return (d, self)

def Cleanup (self : FullscreenQuad) (device : Device) : Device × FullscreenQuad :=
  if !self.initialized then
    (device, self)
  else
    let device := vkDestroyBuffer device self.indexBuffer
    let device := vkFreeMemory device self.indexBufferMemory
    let device := vkDestroyBuffer device self.vertexBuffer
    let device := vkFreeMemory device self.vertexBufferMemory
    (device, { self with
      indexBuffer := VK_NULL_HANDLE
      indexBufferMemory := VK_NULL_HANDLE
      vertexBuffer := VK_NULL_HANDLE
      vertexBufferMemory := VK_NULL_HANDLE
      initialized := false })

def Bind (self : FullscreenQuad) (cmd : List Cmd) : List Cmd :=
  let vertexBuffers := [self.vertexBuffer]
  let offsets := [0]
  let cmd := vkCmdBindVertexBuffers cmd 0 vertexBuffers offsets
  vkCmdBindIndexBuffer cmd self.indexBuffer 0 .VK_INDEX_TYPE_UINT16

def Draw (_self : FullscreenQuad) (cmd : List Cmd) : List Cmd :=
  vkCmdDrawIndexed cmd 6 1 0 0 0

end FullscreenQuad

/-! ## `MotionBlurExample` (motion_blur_example.h, motion_blur_example.cpp) -/

/-- A non-static data member of a struct: its name, `sizeof` its type, and its alignment
requirement (the `alignas` of the declaration), in bytes. A `float` has 4 bytes, a `glm::vec2`
is two floats and a `glm::mat4` sixteen. -/
structure Member where
  name : String
  size : Nat
  align : Nat
  deriving DecidableEq, Repr

/-- The least multiple of `a` that is not below `n`. -/
def alignUp (n a : Nat) : Nat := (n + a - 1) / a * a

/-- The offsets of the members of a standard-layout struct laid out from offset `start` on:
the members are placed in declaration order, each at the first offset past the previous member
that satisfies its alignment. -/
def layoutFrom : Nat → List Member → List (String × Nat)
  | _, [] => []
  | start, m :: ms => (m.name, alignUp start m.align) :: layoutFrom (alignUp start m.align + m.size) ms

/-- The offset at which the next member would start. -/
def layoutEnd : Nat → List Member → Nat
  | start, [] => start
  | start, m :: ms => layoutEnd (alignUp start m.align + m.size) ms

/-- The value of `offsetof` for each member. -/
def offsets (ms : List Member) : List (String × Nat) := layoutFrom 0 ms

/-- The value of `sizeof` for the struct: the end of the last member, rounded up to the
strictest member alignment. -/
def structSize (ms : List Member) : Nat :=
  alignUp (layoutEnd 0 ms) (ms.foldl (fun a m => max a m.align) 1)

/-- The members of `MotionBlurMVPUBO`: `alignas(16) glm::mat4 currMVP, prevMVP`. -/
def MotionBlurMVPUBO.members : List Member :=
  [ { name := "currMVP", size := 64, align := 16 },
    { name := "prevMVP", size := 64, align := 16 } ]

/-- The members of `MotionBlurPostProcessParams`: `alignas(4) float blurStrength, motionScale`
and `alignas(8) glm::vec2 texelSize`. -/
def MotionBlurPostProcessParams.members : List Member :=
  [ { name := "blurStrength", size := 4, align := 4 },
    { name := "motionScale", size := 4, align := 4 },
    { name := "texelSize", size := 8, align := 8 } ]

/-- The value of `sizeof(MotionBlurMVPUBO)`: two 16-byte aligned 4x4 float matrices. -/
abbrev MotionBlurMVPUBO.sizeof : Nat := 128

/-- The value of `sizeof(MotionBlurPostProcessParams)`: two floats and a 2-vector of floats. -/
abbrev MotionBlurPostProcessParams.sizeof : Nat := 16

structure TriangleVertex where
  position : Vec3
  color : Vec3
  deriving DecidableEq, Repr

/-- The value of `sizeof(TriangleVertex)`: six 4-byte floats. -/
abbrev TriangleVertex.sizeof : Nat := 24

def triangleVertices : List TriangleVertex :=
  [ { position := { x := 0, y := -1/2, z := 0 }, color := { x := 1, y := 0, z := 0 } },
    { position := { x := 1/2, y := 1/2, z := 0 }, color := { x := 0, y := 1, z := 0 } },
    { position := { x := -1/2, y := 1/2, z := 0 }, color := { x := 0, y := 0, z := 1 } } ]

def triangleVertexData : HostData :=
  { scalarBytes := 4
    scalars := triangleVertices.flatMap fun v =>
      [v.position.x, v.position.y, v.position.z, v.color.x, v.color.y, v.color.z] }

def TriangleVertex.GetBindingDescription : VkVertexInputBindingDescription :=
  { binding := 0, stride := TriangleVertex.sizeof, inputRate := .VK_VERTEX_INPUT_RATE_VERTEX }

def TriangleVertex.GetAttributeDescriptions : List VkVertexInputAttributeDescription :=
  [ { binding := 0, location := 0, format := VK_FORMAT_R32G32B32_SFLOAT, offset := 0 },
    { binding := 0, location := 1, format := VK_FORMAT_R32G32B32_SFLOAT, offset := 12 } ]

/-- The data members of `MotionBlurExample` with their default member initialisers. -/
structure MotionBlurExample where
  rtSceneColor : RenderTarget := {}
  rtVelocity : RenderTarget := {}
  rtDepth : RenderTarget := {}
  rtMotion : RenderTarget := {}
  rtBlurIntermediate : RenderTarget := {}
  rtBlurFinal : RenderTarget := {}
  fbGBuffer : Handle := VK_NULL_HANDLE
  fbMotionApply : Handle := VK_NULL_HANDLE
  fbBlurVertical : Handle := VK_NULL_HANDLE
  fbBlurHorizontal : Handle := VK_NULL_HANDLE
  swapChainFramebuffers : List Handle := []
  renderPassGBuffer : Handle := VK_NULL_HANDLE
  renderPassMotionApply : Handle := VK_NULL_HANDLE
  renderPassBlurVertical : Handle := VK_NULL_HANDLE
  renderPassBlurHorizontal : Handle := VK_NULL_HANDLE
  renderPassFinal : Handle := VK_NULL_HANDLE
  descriptorSetLayoutGBuffer : Handle := VK_NULL_HANDLE
  descriptorSetLayoutPostProcess : Handle := VK_NULL_HANDLE
  descriptorSetLayoutFinal : Handle := VK_NULL_HANDLE
  pipelineLayoutGBuffer : Handle := VK_NULL_HANDLE
  pipelineLayoutMotionApply : Handle := VK_NULL_HANDLE
  pipelineLayoutBlur : Handle := VK_NULL_HANDLE
  pipelineLayoutFinal : Handle := VK_NULL_HANDLE
  pipelineGBuffer : Handle := VK_NULL_HANDLE
  pipelineMotionApply : Handle := VK_NULL_HANDLE
  pipelineBlurVertical : Handle := VK_NULL_HANDLE
  pipelineBlurHorizontal : Handle := VK_NULL_HANDLE
  pipelineFinal : Handle := VK_NULL_HANDLE
  triangleVertexBuffer : Handle := VK_NULL_HANDLE
  triangleVertexBufferMemory : Handle := VK_NULL_HANDLE
  mvpUniformBuffers : List Handle := []
  mvpUniformBuffersMemory : List Handle := []
  mvpUniformBuffersMapped : List Handle := []
  postProcessUniformBuffers : List Handle := []
  postProcessUniformBuffersMemory : List Handle := []
  postProcessUniformBuffersMapped : List Handle := []
  descriptorPool : Handle := VK_NULL_HANDLE
  descriptorSetsGBuffer : List Handle := []
  descriptorSetsMotionApply : List Handle := []
  descriptorSetsBlurVertical : List Handle := []
  descriptorSetsBlurHorizontal : List Handle := []
  descriptorSetsFinal : List Handle := []
  samplerLinear : Handle := VK_NULL_HANDLE
  samplerNearest : Handle := VK_NULL_HANDLE
  fullscreenQuad : FullscreenQuad := {}
  totalTime : FloatVal := .lit 0
  previousMVP : glm.mat4 := .identity
  deriving DecidableEq, Repr

namespace MotionBlurExample

def CreateSamplers (self : MotionBlurExample) (d : Device) : Except String (Device × MotionBlurExample) := do
  let (samplerLinear, d) ← utils.CreateLinearSampler d
  let (samplerNearest, d) ← utils.CreateNearestSampler d
  return (d, { self with samplerLinear := samplerLinear, samplerNearest := samplerNearest })

def CreateRenderTargets (self : MotionBlurExample) (ctx : VulkanContext) (d : Device) :
    Except String (Device × MotionBlurExample) := do
  let mut self := self
  let extent := ctx.GetSwapChainExtent
  -- Scene Color
  self := { self with rtSceneColor := { self.rtSceneColor with
    format := VK_FORMAT_R16G16B16A16_SFLOAT, width := extent.width, height := extent.height } }
  let (image, memory, d) ← ctx.CreateImage d extent.width extent.height self.rtSceneColor.format
    .VK_IMAGE_TILING_OPTIMAL (VK_IMAGE_USAGE_COLOR_ATTACHMENT_BIT ||| VK_IMAGE_USAGE_SAMPLED_BIT)
    VK_MEMORY_PROPERTY_DEVICE_LOCAL_BIT
  self := { self with rtSceneColor := { self.rtSceneColor with image := image, memory := memory } }
  let (view, d) ← ctx.CreateImageView d self.rtSceneColor.image self.rtSceneColor.format
    VK_IMAGE_ASPECT_COLOR_BIT
  self := { self with rtSceneColor := { self.rtSceneColor with view := view } }
  -- Velocity
  self := { self with rtVelocity := { self.rtVelocity with
    format := VK_FORMAT_R16G16_SFLOAT, width := extent.width, height := extent.height } }
  let (image, memory, d) ← ctx.CreateImage d extent.width extent.height self.rtVelocity.format
    .VK_IMAGE_TILING_OPTIMAL (VK_IMAGE_USAGE_COLOR_ATTACHMENT_BIT ||| VK_IMAGE_USAGE_SAMPLED_BIT)
    VK_MEMORY_PROPERTY_DEVICE_LOCAL_BIT
  self := { self with rtVelocity := { self.rtVelocity with image := image, memory := memory } }
  let (view, d) ← ctx.CreateImageView d self.rtVelocity.image self.rtVelocity.format
    VK_IMAGE_ASPECT_COLOR_BIT
  self := { self with rtVelocity := { self.rtVelocity with view := view } }
  -- Depth
  self := { self with rtDepth := { self.rtDepth with
    format := ctx.FindDepthFormat, width := extent.width, height := extent.height } }
  let (image, memory, d) ← ctx.CreateImage d extent.width extent.height self.rtDepth.format
    .VK_IMAGE_TILING_OPTIMAL (VK_IMAGE_USAGE_DEPTH_STENCIL_ATTACHMENT_BIT ||| VK_IMAGE_USAGE_SAMPLED_BIT)
    VK_MEMORY_PROPERTY_DEVICE_LOCAL_BIT
  self := { self with rtDepth := { self.rtDepth with image := image, memory := memory } }
  let (view, d) ← ctx.CreateImageView d self.rtDepth.image self.rtDepth.format
    VK_IMAGE_ASPECT_DEPTH_BIT
  self := { self with rtDepth := { self.rtDepth with view := view } }
  -- Motion output
  self := { self with rtMotion := { self.rtMotion with
    format := VK_FORMAT_R16G16B16A16_SFLOAT, width := extent.width, height := extent.height } }
  let (image, memory, d) ← ctx.CreateImage d extent.width extent.height self.rtMotion.format
    .VK_IMAGE_TILING_OPTIMAL (VK_IMAGE_USAGE_COLOR_ATTACHMENT_BIT ||| VK_IMAGE_USAGE_SAMPLED_BIT)
    VK_MEMORY_PROPERTY_DEVICE_LOCAL_BIT
  self := { self with rtMotion := { self.rtMotion with image := image, memory := memory } }
  let (view, d) ← ctx.CreateImageView d self.rtMotion.image self.rtMotion.format
    VK_IMAGE_ASPECT_COLOR_BIT
  self := { self with rtMotion := { self.rtMotion with view := view } }
  -- Blur Intermediate
  self := { self with rtBlurIntermediate := { self.rtBlurIntermediate with
    format := VK_FORMAT_R16G16B16A16_SFLOAT, width := extent.width, height := extent.height } }
  let (image, memory, d) ← ctx.CreateImage d extent.width extent.height self.rtBlurIntermediate.format
    .VK_IMAGE_TILING_OPTIMAL (VK_IMAGE_USAGE_COLOR_ATTACHMENT_BIT ||| VK_IMAGE_USAGE_SAMPLED_BIT)
    VK_MEMORY_PROPERTY_DEVICE_LOCAL_BIT
  self := { self with rtBlurIntermediate := { self.rtBlurIntermediate with image := image, memory := memory } }
  let (view, d) ← ctx.CreateImageView d self.rtBlurIntermediate.image self.rtBlurIntermediate.format
    VK_IMAGE_ASPECT_COLOR_BIT
  self := { self with rtBlurIntermediate := { self.rtBlurIntermediate with view := view } }
  -- Blur Final
  self := { self with rtBlurFinal := { self.rtBlurFinal with
    format := VK_FORMAT_R16G16B16A16_SFLOAT, width := extent.width, height := extent.height } }
  let (image, memory, d) ← ctx.CreateImage d extent.width extent.height self.rtBlurFinal.format
    .VK_IMAGE_TILING_OPTIMAL (VK_IMAGE_USAGE_COLOR_ATTACHMENT_BIT ||| VK_IMAGE_USAGE_SAMPLED_BIT)
    VK_MEMORY_PROPERTY_DEVICE_LOCAL_BIT
  self := { self with rtBlurFinal := { self.rtBlurFinal with image := image, memory := memory } }
  let (view, d) ← ctx.CreateImageView d self.rtBlurFinal.image self.rtBlurFinal.format
    VK_IMAGE_ASPECT_COLOR_BIT
  self := { self with rtBlurFinal := { self.rtBlurFinal with view := view } }
  return (d, self)

def CleanupRenderTargets (self : MotionBlurExample) (device : Device) : Device × MotionBlurExample :=
  let (device, rtSceneColor) := self.rtSceneColor.Cleanup device
  let (device, rtVelocity) := self.rtVelocity.Cleanup device
  let (device, rtDepth) := self.rtDepth.Cleanup device
  let (device, rtMotion) := self.rtMotion.Cleanup device
  let (device, rtBlurIntermediate) := self.rtBlurIntermediate.Cleanup device
  let (device, rtBlurFinal) := self.rtBlurFinal.Cleanup device
  (device, { self with
    rtSceneColor := rtSceneColor
    rtVelocity := rtVelocity
    rtDepth := rtDepth
    rtMotion := rtMotion
    rtBlurIntermediate := rtBlurIntermediate
    rtBlurFinal := rtBlurFinal })

/-- The `VkRenderPassCreateInfo` that the lambda `createPostProcessRenderPass` fills in. -/
def postProcessRenderPassInfo (format : VkFormat) : VkRenderPassCreateInfo :=
  let colorAttachment : VkAttachmentDescription :=
    { format := format
      samples := VK_SAMPLE_COUNT_1_BIT
      loadOp := .VK_ATTACHMENT_LOAD_OP_CLEAR
      storeOp := .VK_ATTACHMENT_STORE_OP_STORE
      stencilLoadOp := .VK_ATTACHMENT_LOAD_OP_DONT_CARE
      stencilStoreOp := .VK_ATTACHMENT_STORE_OP_DONT_CARE
      initialLayout := .VK_IMAGE_LAYOUT_UNDEFINED
      finalLayout := .VK_IMAGE_LAYOUT_SHADER_READ_ONLY_OPTIMAL }
  let colorRef : VkAttachmentReference :=
    { attachment := 0, layout := .VK_IMAGE_LAYOUT_COLOR_ATTACHMENT_OPTIMAL }
  let subpass : VkSubpassDescription :=
    { pipelineBindPoint := .VK_PIPELINE_BIND_POINT_GRAPHICS
      pColorAttachments := [colorRef]
      pDepthStencilAttachment := none }
  let dependency : VkSubpassDependency :=
    { srcSubpass := VK_SUBPASS_EXTERNAL
      dstSubpass := 0
      srcStageMask := VK_PIPELINE_STAGE_FRAGMENT_SHADER_BIT
      srcAccessMask := VK_ACCESS_SHADER_READ_BIT
      dstStageMask := VK_PIPELINE_STAGE_COLOR_ATTACHMENT_OUTPUT_BIT
      dstAccessMask := VK_ACCESS_COLOR_ATTACHMENT_WRITE_BIT }
  { pAttachments := [colorAttachment], pSubpasses := [subpass], pDependencies := [dependency] }

/-- The lambda `createPostProcessRenderPass` of `CreateRenderPasses`. -/
def createPostProcessRenderPass (device : Device) (format : VkFormat) : Except String (Handle × Device) :=
  check (vkCreateRenderPass device (postProcessRenderPassInfo format))
    "Failed to create post-process render pass!"

/-- The `VkRenderPassCreateInfo` that `CreateRenderPasses` fills in for the G-Buffer pass. -/
def gBufferRenderPassInfo (self : MotionBlurExample) : VkRenderPassCreateInfo :=
  let attachments : List VkAttachmentDescription :=
    [ -- SceneColor
      { format := self.rtSceneColor.format
        samples := VK_SAMPLE_COUNT_1_BIT
        loadOp := .VK_ATTACHMENT_LOAD_OP_CLEAR
        storeOp := .VK_ATTACHMENT_STORE_OP_STORE
        stencilLoadOp := .VK_ATTACHMENT_LOAD_OP_DONT_CARE
        stencilStoreOp := .VK_ATTACHMENT_STORE_OP_DONT_CARE
        initialLayout := .VK_IMAGE_LAYOUT_UNDEFINED
        finalLayout := .VK_IMAGE_LAYOUT_SHADER_READ_ONLY_OPTIMAL },
      -- Velocity
      { format := self.rtVelocity.format
        samples := VK_SAMPLE_COUNT_1_BIT
        loadOp := .VK_ATTACHMENT_LOAD_OP_CLEAR
        storeOp := .VK_ATTACHMENT_STORE_OP_STORE
        stencilLoadOp := .VK_ATTACHMENT_LOAD_OP_DONT_CARE
        stencilStoreOp := .VK_ATTACHMENT_STORE_OP_DONT_CARE
        initialLayout := .VK_IMAGE_LAYOUT_UNDEFINED
        finalLayout := .VK_IMAGE_LAYOUT_SHADER_READ_ONLY_OPTIMAL },
      -- Depth
      { format := self.rtDepth.format
        samples := VK_SAMPLE_COUNT_1_BIT
        loadOp := .VK_ATTACHMENT_LOAD_OP_CLEAR
        storeOp := .VK_ATTACHMENT_STORE_OP_STORE
        stencilLoadOp := .VK_ATTACHMENT_LOAD_OP_DONT_CARE
        stencilStoreOp := .VK_ATTACHMENT_STORE_OP_DONT_CARE
        initialLayout := .VK_IMAGE_LAYOUT_UNDEFINED
        finalLayout := .VK_IMAGE_LAYOUT_SHADER_READ_ONLY_OPTIMAL } ]
  let colorRefs : List VkAttachmentReference :=
    [ { attachment := 0, layout := .VK_IMAGE_LAYOUT_COLOR_ATTACHMENT_OPTIMAL },
      { attachment := 1, layout := .VK_IMAGE_LAYOUT_COLOR_ATTACHMENT_OPTIMAL } ]
  let depthRef : VkAttachmentReference :=
    { attachment := 2, layout := .VK_IMAGE_LAYOUT_DEPTH_STENCIL_ATTACHMENT_OPTIMAL }
  let subpass : VkSubpassDescription :=
    { pipelineBindPoint := .VK_PIPELINE_BIND_POINT_GRAPHICS
      pColorAttachments := colorRefs
      pDepthStencilAttachment := some depthRef }
  let dependency : VkSubpassDependency :=
    { srcSubpass := VK_SUBPASS_EXTERNAL
      dstSubpass := 0
      srcStageMask :=
        VK_PIPELINE_STAGE_COLOR_ATTACHMENT_OUTPUT_BIT ||| VK_PIPELINE_STAGE_EARLY_FRAGMENT_TESTS_BIT
      srcAccessMask := 0
      dstStageMask :=
        VK_PIPELINE_STAGE_COLOR_ATTACHMENT_OUTPUT_BIT ||| VK_PIPELINE_STAGE_EARLY_FRAGMENT_TESTS_BIT
      dstAccessMask := VK_ACCESS_COLOR_ATTACHMENT_WRITE_BIT ||| VK_ACCESS_DEPTH_STENCIL_ATTACHMENT_WRITE_BIT }
  { pAttachments := attachments, pSubpasses := [subpass], pDependencies := [dependency] }

/-- The `VkRenderPassCreateInfo` that `CreateRenderPasses` fills in for the final pass. -/
def finalRenderPassInfo (ctx : VulkanContext) : VkRenderPassCreateInfo :=
  let colorAttachment : VkAttachmentDescription :=
    { format := ctx.GetSwapChainFormat
      samples := VK_SAMPLE_COUNT_1_BIT
      loadOp := .VK_ATTACHMENT_LOAD_OP_CLEAR
      storeOp := .VK_ATTACHMENT_STORE_OP_STORE
      stencilLoadOp := .VK_ATTACHMENT_LOAD_OP_DONT_CARE
      stencilStoreOp := .VK_ATTACHMENT_STORE_OP_DONT_CARE
      initialLayout := .VK_IMAGE_LAYOUT_UNDEFINED
      finalLayout := .VK_IMAGE_LAYOUT_PRESENT_SRC_KHR }
  let colorRef : VkAttachmentReference :=
    { attachment := 0, layout := .VK_IMAGE_LAYOUT_COLOR_ATTACHMENT_OPTIMAL }
  let subpass : VkSubpassDescription :=
    { pipelineBindPoint := .VK_PIPELINE_BIND_POINT_GRAPHICS
      pColorAttachments := [colorRef]
      pDepthStencilAttachment := none }
  let dependency : VkSubpassDependency :=
    { srcSubpass := VK_SUBPASS_EXTERNAL
      dstSubpass := 0
      srcStageMask := VK_PIPELINE_STAGE_FRAGMENT_SHADER_BIT
      srcAccessMask := VK_ACCESS_SHADER_READ_BIT
      dstStageMask := VK_PIPELINE_STAGE_COLOR_ATTACHMENT_OUTPUT_BIT
      dstAccessMask := VK_ACCESS_COLOR_ATTACHMENT_WRITE_BIT }
  { pAttachments := [colorAttachment], pSubpasses := [subpass], pDependencies := [dependency] }

def CreateRenderPasses (self : MotionBlurExample) (ctx : VulkanContext) (device : Device) :
    Except String (Device × MotionBlurExample) := do
  let mut self := self
  -- G-Buffer (SceneColor + Velocity + Depth)
  let (renderPass, device) ← check (vkCreateRenderPass device (gBufferRenderPassInfo self))
    "Failed to create G-Buffer render pass!"
  self := { self with renderPassGBuffer := renderPass }
  -- Post-process passes
  let (renderPass, device) ← createPostProcessRenderPass device self.rtMotion.format
  self := { self with renderPassMotionApply := renderPass }
  let (renderPass, device) ← createPostProcessRenderPass device self.rtBlurIntermediate.format
  self := { self with renderPassBlurVertical := renderPass }
  let (renderPass, device) ← createPostProcessRenderPass device self.rtBlurFinal.format
  self := { self with renderPassBlurHorizontal := renderPass }
  -- Final pass
  let (renderPass, device) ← check (vkCreateRenderPass device (finalRenderPassInfo ctx))
    "Failed to create final render pass!"
  self := { self with renderPassFinal := renderPass }
  return (device, self)

/-- The bindings of the G-Buffer descriptor set layout (UBO only). -/
def gBufferLayoutBindings : List VkDescriptorSetLayoutBinding :=
  [ { binding := 0, descriptorType := .VK_DESCRIPTOR_TYPE_UNIFORM_BUFFER, descriptorCount := 1,
      stageFlags := VK_SHADER_STAGE_VERTEX_BIT } ]

/-- The bindings of the post-process descriptor set layout (input texture, velocity, depth, UBO). -/
def postProcessLayoutBindings : List VkDescriptorSetLayoutBinding :=
  [ { binding := 0, descriptorType := .VK_DESCRIPTOR_TYPE_COMBINED_IMAGE_SAMPLER, descriptorCount := 1,
      stageFlags := VK_SHADER_STAGE_FRAGMENT_BIT },
    { binding := 1, descriptorType := .VK_DESCRIPTOR_TYPE_COMBINED_IMAGE_SAMPLER, descriptorCount := 1,
      stageFlags := VK_SHADER_STAGE_FRAGMENT_BIT },
    { binding := 2, descriptorType := .VK_DESCRIPTOR_TYPE_COMBINED_IMAGE_SAMPLER, descriptorCount := 1,
      stageFlags := VK_SHADER_STAGE_FRAGMENT_BIT },
    { binding := 3, descriptorType := .VK_DESCRIPTOR_TYPE_UNIFORM_BUFFER, descriptorCount := 1,
      stageFlags := VK_SHADER_STAGE_FRAGMENT_BIT } ]

/-- The bindings of the final-pass descriptor set layout (motion result and blur result). -/
def finalLayoutBindings : List VkDescriptorSetLayoutBinding :=
  [ { binding := 0, descriptorType := .VK_DESCRIPTOR_TYPE_COMBINED_IMAGE_SAMPLER, descriptorCount := 1,
      stageFlags := VK_SHADER_STAGE_FRAGMENT_BIT },
    { binding := 1, descriptorType := .VK_DESCRIPTOR_TYPE_COMBINED_IMAGE_SAMPLER, descriptorCount := 1,
      stageFlags := VK_SHADER_STAGE_FRAGMENT_BIT } ]

def CreateDescriptorSetLayouts (self : MotionBlurExample) (device : Device) :
    Except String (Device × MotionBlurExample) := do
  let mut self := self
  -- G-Buffer layout (UBO only)
  let (layout, device) ← check (vkCreateDescriptorSetLayout device gBufferLayoutBindings)
    "Failed to create G-Buffer descriptor set layout!"
  self := { self with descriptorSetLayoutGBuffer := layout }
  -- Post-process layout (samplers for input texture, velocity, depth)
  let (layout, device) ← check (vkCreateDescriptorSetLayout device postProcessLayoutBindings)
    "Failed to create post-process descriptor set layout!"
  self := { self with descriptorSetLayoutPostProcess := layout }
  -- Final pass layout (two samplers: motion result and blur result)
  let (layout, device) ← check (vkCreateDescriptorSetLayout device finalLayoutBindings)
    "Failed to create final descriptor set layout!"
  self := { self with descriptorSetLayoutFinal := layout }
  return (device, self)

def CreatePipelineLayouts (self : MotionBlurExample) (device : Device) :
    Except String (Device × MotionBlurExample) := do
  let mut self := self
  -- G-Buffer pipeline layout
  let (layout, device) ← check (vkCreatePipelineLayout device [self.descriptorSetLayoutGBuffer])
    "Failed to create G-Buffer pipeline layout!"
  self := { self with pipelineLayoutGBuffer := layout }
  -- Motion Apply pipeline layout
  let (layout, device) ← check (vkCreatePipelineLayout device [self.descriptorSetLayoutPostProcess])
    "Failed to create motion apply pipeline layout!"
  self := { self with pipelineLayoutMotionApply := layout }
  -- Blur pipeline layout
  let (layout, device) ← check (vkCreatePipelineLayout device [self.descriptorSetLayoutPostProcess])
    "Failed to create blur pipeline layout!"
  self := { self with pipelineLayoutBlur := layout }
  -- Final pipeline layout
  let (layout, device) ← check (vkCreatePipelineLayout device [self.descriptorSetLayoutFinal])
    "Failed to create final pipeline layout!"
  self := { self with pipelineLayoutFinal := layout }
  return (device, self)

def CreatePipelines (self : MotionBlurExample) (fs : FileSystem) (ctx : VulkanContext) (d : Device) :
    Except (String × Device) (Device × MotionBlurExample) := do
  let mut self := self
  -- G-Buffer pipeline
  let vertShaderCode ← throwsAt d (utils.ReadFile fs "shaders/gbuffer.vert.spv")
  let fragShaderCode ← throwsAt d (utils.ReadFile fs "shaders/gbuffer.frag.spv")
  let (vertShaderModule, d) ← throwsAt d (ctx.CreateShaderModule d vertShaderCode)
  let (fragShaderModule, d) ← throwsAt d (ctx.CreateShaderModule d fragShaderCode)
  let bindingDescription := TriangleVertex.GetBindingDescription
  let attributeDescriptions := TriangleVertex.GetAttributeDescriptions
  let extent := ctx.GetSwapChainExtent
  let viewport : VkViewport :=
    { x := .lit 0
      y := .lit 0
      width := .ofUInt extent.width
      height := .ofUInt extent.height
      minDepth := .lit 0
      maxDepth := .lit 1 }
  let scissor : VkRect2D := { offset := { x := 0, y := 0 }, extent := extent }
  let colorBlendAttachments := List.replicate 2
    ({ colorWriteMask := VK_COLOR_COMPONENT_R_BIT ||| VK_COLOR_COMPONENT_G_BIT |||
          VK_COLOR_COMPONENT_B_BIT ||| VK_COLOR_COMPONENT_A_BIT,
       blendEnable := false } : VkPipelineColorBlendAttachmentState)
  let pipelineInfo : VkGraphicsPipelineCreateInfo :=
    { vertShaderModule := vertShaderModule
      fragShaderModule := fragShaderModule
      bindingDescription := bindingDescription
      attributeDescriptions := attributeDescriptions
      viewport := viewport
      scissor := scissor
      cullMode := VK_CULL_MODE_NONE
      depthTestEnable := true
      depthWriteEnable := true
      depthCompareOp := .VK_COMPARE_OP_LESS
      colorBlendAttachments := colorBlendAttachments
      layout := self.pipelineLayoutGBuffer
      renderPass := self.renderPassGBuffer
      subpass := 0 }
  let (pipeline, d) ← throwsAt d
    (check (vkCreateGraphicsPipelines d pipelineInfo) "Failed to create G-Buffer pipeline!")
  self := { self with pipelineGBuffer := pipeline }
  let d := vkDestroyShaderModule d fragShaderModule
  let d := vkDestroyShaderModule d vertShaderModule
  -- Post-process pipelines
  let configMotion : PipelineConfig :=
    { vertShaderPath := "shaders/motion_apply.vert.spv"
      fragShaderPath := "shaders/motion_apply.frag.spv"
      renderPass := self.renderPassMotionApply
      pipelineLayout := self.pipelineLayoutMotionApply
      colorAttachmentCount := 1
      hasDepthAttachment := false
      isFullscreenQuad := true }
  let (pipeline, d) ← utils.CreatePipeline fs ctx d configMotion
  self := { self with pipelineMotionApply := pipeline }
  let configBlurV : PipelineConfig :=
    { vertShaderPath := "shaders/blur_vertical.vert.spv"
      fragShaderPath := "shaders/blur_vertical.frag.spv"
      renderPass := self.renderPassBlurVertical
      pipelineLayout := self.pipelineLayoutBlur
      colorAttachmentCount := 1
      hasDepthAttachment := false
      isFullscreenQuad := true }
  let (pipeline, d) ← utils.CreatePipeline fs ctx d configBlurV
  self := { self with pipelineBlurVertical := pipeline }
  let configBlurH : PipelineConfig :=
    { vertShaderPath := "shaders/blur_horizontal.vert.spv"
      fragShaderPath := "shaders/blur_horizontal.frag.spv"
      renderPass := self.renderPassBlurHorizontal
      pipelineLayout := self.pipelineLayoutBlur
      colorAttachmentCount := 1
      hasDepthAttachment := false
      isFullscreenQuad := true }
  let (pipeline, d) ← utils.CreatePipeline fs ctx d configBlurH
  self := { self with pipelineBlurHorizontal := pipeline }
  let configFinal : PipelineConfig :=
    { vertShaderPath := "shaders/final_apply.vert.spv"
      fragShaderPath := "shaders/final_apply.frag.spv"
      renderPass := self.renderPassFinal
      pipelineLayout := self.pipelineLayoutFinal
      colorAttachmentCount := 1
      hasDepthAttachment := false
      isFullscreenQuad := true }
  let (pipeline, d) ← utils.CreatePipeline fs ctx d configFinal
  self := { self with pipelineFinal := pipeline }
  return (d, self)

/-- The loop of `CreateFramebuffers` over the swapchain image views, from index `i` on:
`views` are the image views not yet visited. -/
def createSwapChainFramebuffers (renderPassFinal : Handle) (extent : VkExtent2D) :
    List Handle → Nat → Device → List Handle → Except String (Device × List Handle)
  | [], _, device, swapChainFramebuffers => .ok (device, swapChainFramebuffers)
  | view :: views, i, device, swapChainFramebuffers => do
    let attachments := [view]
    let framebufferInfo : VkFramebufferCreateInfo :=
      { renderPass := renderPassFinal
        pAttachments := attachments
        width := extent.width
        height := extent.height
        layers := 1 }
    let (framebuffer, device) ← check (vkCreateFramebuffer device framebufferInfo)
      "Failed to create swapchain framebuffer!"
    createSwapChainFramebuffers renderPassFinal extent views (i + 1) device
      (swapChainFramebuffers.set i framebuffer)

def CreateFramebuffers (self : MotionBlurExample) (ctx : VulkanContext) (device : Device) :
    Except String (Device × MotionBlurExample) := do
  let mut self := self
  let extent := ctx.GetSwapChainExtent
  let swapChainImageViews := ctx.GetSwapChainImageViews
  -- Swapchain framebuffers for final pass
  self := { self with swapChainFramebuffers := resize self.swapChainFramebuffers swapChainImageViews.length }
  let (device, swapChainFramebuffers) ← createSwapChainFramebuffers self.renderPassFinal extent
    swapChainImageViews 0 device self.swapChainFramebuffers
  self := { self with swapChainFramebuffers := swapChainFramebuffers }
  -- G-Buffer framebuffer
  let framebufferInfo : VkFramebufferCreateInfo :=
    { renderPass := self.renderPassGBuffer
      pAttachments := [self.rtSceneColor.view, self.rtVelocity.view, self.rtDepth.view]
      width := extent.width
      height := extent.height
      layers := 1 }
  let (framebuffer, device) ← check (vkCreateFramebuffer device framebufferInfo)
    "Failed to create G-Buffer framebuffer!"
  self := { self with fbGBuffer := framebuffer }
  -- Motion Apply framebuffer
  let framebufferInfo : VkFramebufferCreateInfo :=
    { renderPass := self.renderPassMotionApply
      pAttachments := [self.rtMotion.view]
      width := extent.width
      height := extent.height
      layers := 1 }
  let (framebuffer, device) ← check (vkCreateFramebuffer device framebufferInfo)
    "Failed to create motion apply framebuffer!"
  self := { self with fbMotionApply := framebuffer }
  -- Blur Vertical framebuffer
  let framebufferInfo : VkFramebufferCreateInfo :=
    { renderPass := self.renderPassBlurVertical
      pAttachments := [self.rtBlurIntermediate.view]
      width := extent.width
      height := extent.height
      layers := 1 }
  let (framebuffer, device) ← check (vkCreateFramebuffer device framebufferInfo)
    "Failed to create blur vertical framebuffer!"
  self := { self with fbBlurVertical := framebuffer }
  -- Blur Horizontal framebuffer
  let framebufferInfo : VkFramebufferCreateInfo :=
    { renderPass := self.renderPassBlurHorizontal
      pAttachments := [self.rtBlurFinal.view]
      width := extent.width
      height := extent.height
      layers := 1 }
  let (framebuffer, device) ← check (vkCreateFramebuffer device framebufferInfo)
    "Failed to create blur horizontal framebuffer!"
  self := { self with fbBlurHorizontal := framebuffer }
  return (device, self)

def CleanupFramebuffers (self : MotionBlurExample) (device : Device) : Device × MotionBlurExample := Id.run do
  let mut self := self
  let mut device := device
  device := self.swapChainFramebuffers.foldl vkDestroyFramebuffer device
  self := { self with swapChainFramebuffers := [] }
  if self.fbGBuffer ≠ VK_NULL_HANDLE then
    device := vkDestroyFramebuffer device self.fbGBuffer
    self := { self with fbGBuffer := VK_NULL_HANDLE }
  if self.fbMotionApply ≠ VK_NULL_HANDLE then
    device := vkDestroyFramebuffer device self.fbMotionApply
    self := { self with fbMotionApply := VK_NULL_HANDLE }
  if self.fbBlurVertical ≠ VK_NULL_HANDLE then
    device := vkDestroyFramebuffer device self.fbBlurVertical
    self := { self with fbBlurVertical := VK_NULL_HANDLE }
  if self.fbBlurHorizontal ≠ VK_NULL_HANDLE then
    device := vkDestroyFramebuffer device self.fbBlurHorizontal
    self := { self with fbBlurHorizontal := VK_NULL_HANDLE }
  return (device, self)

def CreateTriangleVertexBuffer (self : MotionBlurExample) (ctx : VulkanContext) (d : Device) :
    Except String (Device × MotionBlurExample) := do
  let bufferSize := TriangleVertex.sizeof * triangleVertices.length
  let (stagingBuffer, stagingBufferMemory, d) ← ctx.CreateBuffer d bufferSize
    VK_BUFFER_USAGE_TRANSFER_SRC_BIT
    (VK_MEMORY_PROPERTY_HOST_VISIBLE_BIT ||| VK_MEMORY_PROPERTY_HOST_COHERENT_BIT)
  let (data, d) := vkMapMemory d stagingBufferMemory 0 bufferSize
  let d := memcpy d data triangleVertexData bufferSize
  let d := vkUnmapMemory d stagingBufferMemory
  let (triangleVertexBuffer, triangleVertexBufferMemory, d) ← ctx.CreateBuffer d bufferSize
    (VK_BUFFER_USAGE_TRANSFER_DST_BIT ||| VK_BUFFER_USAGE_VERTEX_BUFFER_BIT)
    VK_MEMORY_PROPERTY_DEVICE_LOCAL_BIT
  let self := { self with
    triangleVertexBuffer := triangleVertexBuffer
    triangleVertexBufferMemory := triangleVertexBufferMemory }
  let d := ctx.CopyBuffer d stagingBuffer self.triangleVertexBuffer bufferSize
  let d := vkDestroyBuffer d stagingBuffer
  let d := vkFreeMemory d stagingBufferMemory
  return (d, self)

def CreateUniformBuffers (self : MotionBlurExample) (ctx : VulkanContext) (d : Device) :
    Except String (Device × MotionBlurExample) := do
  let mut self := self
  let mut d := d
  let mvpBufferSize := MotionBlurMVPUBO.sizeof
  let postProcessBufferSize := MotionBlurPostProcessParams.sizeof
  self := { self with
    mvpUniformBuffers := resize self.mvpUniformBuffers VulkanContext.MAX_FRAMES_IN_FLIGHT
    mvpUniformBuffersMemory := resize self.mvpUniformBuffersMemory VulkanContext.MAX_FRAMES_IN_FLIGHT
    mvpUniformBuffersMapped := resize self.mvpUniformBuffersMapped VulkanContext.MAX_FRAMES_IN_FLIGHT
    postProcessUniformBuffers := resize self.postProcessUniformBuffers VulkanContext.MAX_FRAMES_IN_FLIGHT
    postProcessUniformBuffersMemory :=
      resize self.postProcessUniformBuffersMemory VulkanContext.MAX_FRAMES_IN_FLIGHT
    postProcessUniformBuffersMapped :=
      resize self.postProcessUniformBuffersMapped VulkanContext.MAX_FRAMES_IN_FLIGHT }
  for i in List.range VulkanContext.MAX_FRAMES_IN_FLIGHT do
    let (buffer, memory, d1) ← ctx.CreateBuffer d mvpBufferSize VK_BUFFER_USAGE_UNIFORM_BUFFER_BIT
      (VK_MEMORY_PROPERTY_HOST_VISIBLE_BIT ||| VK_MEMORY_PROPERTY_HOST_COHERENT_BIT)
    self := { self with
      mvpUniformBuffers := self.mvpUniformBuffers.set i buffer
      mvpUniformBuffersMemory := self.mvpUniformBuffersMemory.set i memory }
    let (mapped, d2) := vkMapMemory d1 memory 0 mvpBufferSize
    self := { self with mvpUniformBuffersMapped := self.mvpUniformBuffersMapped.set i mapped }
    let (buffer, memory, d3) ← ctx.CreateBuffer d2 postProcessBufferSize VK_BUFFER_USAGE_UNIFORM_BUFFER_BIT
      (VK_MEMORY_PROPERTY_HOST_VISIBLE_BIT ||| VK_MEMORY_PROPERTY_HOST_COHERENT_BIT)
    self := { self with
      postProcessUniformBuffers := self.postProcessUniformBuffers.set i buffer
      postProcessUniformBuffersMemory := self.postProcessUniformBuffersMemory.set i memory }
    let (mapped, d4) := vkMapMemory d3 memory 0 postProcessBufferSize
    self := { self with postProcessUniformBuffersMapped := self.postProcessUniformBuffersMapped.set i mapped }
    d := d4
  return (d, self)

/-- The `VkDescriptorPoolCreateInfo` that `CreateDescriptorPool` fills in. -/
def descriptorPoolInfo : VkDescriptorPoolCreateInfo :=
  { pPoolSizes :=
      [ { type := .VK_DESCRIPTOR_TYPE_UNIFORM_BUFFER
          descriptorCount := VulkanContext.MAX_FRAMES_IN_FLIGHT * 5 },
        { type := .VK_DESCRIPTOR_TYPE_COMBINED_IMAGE_SAMPLER
          descriptorCount := VulkanContext.MAX_FRAMES_IN_FLIGHT * 15 } ]
    maxSets := VulkanContext.MAX_FRAMES_IN_FLIGHT * 5
    flags := VK_DESCRIPTOR_POOL_CREATE_FREE_DESCRIPTOR_SET_BIT }

def CreateDescriptorPool (self : MotionBlurExample) (device : Device) :
    Except String (Device × MotionBlurExample) := do
  let (descriptorPool, device) ← check (vkCreateDescriptorPool device descriptorPoolInfo)
    "Failed to create descriptor pool!"
  return (device, { self with descriptorPool := descriptorPool })

/-- In each block, `resize(MAX_FRAMES_IN_FLIGHT)` followed by `vkAllocateDescriptorSets` into
`data()` leaves the vector holding exactly the `MAX_FRAMES_IN_FLIGHT` handles allocated. -/
def CreateDescriptorSets (self : MotionBlurExample) (device : Device) :
    Except String (Device × MotionBlurExample) := do
  let mut self := self
  let mut device := device
  -- G-Buffer descriptor sets
  let layouts := List.replicate VulkanContext.MAX_FRAMES_IN_FLIGHT self.descriptorSetLayoutGBuffer
  let (sets, device1) ← check (vkAllocateDescriptorSets device self.descriptorPool layouts)
    "Failed to allocate G-Buffer descriptor sets!"
  device := device1
  self := { self with descriptorSetsGBuffer := sets }
  for i in List.range VulkanContext.MAX_FRAMES_IN_FLIGHT do
    let bufferInfo : VkDescriptorBufferInfo :=
      { buffer := ← elemAt self.mvpUniformBuffers i
        offset := 0
        range := MotionBlurMVPUBO.sizeof }
    let descriptorWrite : VkWriteDescriptorSet :=
      { dstSet := ← elemAt self.descriptorSetsGBuffer i
        dstBinding := 0
        dstArrayElement := 0
        descriptorType := .VK_DESCRIPTOR_TYPE_UNIFORM_BUFFER
        descriptorCount := 1
        pImageInfo := none
        pBufferInfo := some bufferInfo }
    device := vkUpdateDescriptorSets device [descriptorWrite]
  -- Motion Apply descriptor sets
  let layouts := List.replicate VulkanContext.MAX_FRAMES_IN_FLIGHT self.descriptorSetLayoutPostProcess
  let (sets, device1) ← check (vkAllocateDescriptorSets device self.descriptorPool layouts)
    "Failed to allocate motion apply descriptor sets!"
  device := device1
  self := { self with descriptorSetsMotionApply := sets }
  for i in List.range VulkanContext.MAX_FRAMES_IN_FLIGHT do
    let imageInfos : List VkDescriptorImageInfo :=
      [ { imageLayout := .VK_IMAGE_LAYOUT_SHADER_READ_ONLY_OPTIMAL
          imageView := self.rtSceneColor.view
          sampler := self.samplerLinear },
        { imageLayout := .VK_IMAGE_LAYOUT_SHADER_READ_ONLY_OPTIMAL
          imageView := self.rtVelocity.view
          sampler := self.samplerLinear },
        { imageLayout := .VK_IMAGE_LAYOUT_SHADER_READ_ONLY_OPTIMAL
          imageView := self.rtDepth.view
          sampler := self.samplerNearest } ]
    let bufferInfo : VkDescriptorBufferInfo :=
      { buffer := ← elemAt self.postProcessUniformBuffers i
        offset := 0
        range := MotionBlurPostProcessParams.sizeof }
    let dstSet ← elemAt self.descriptorSetsMotionApply i
    let descriptorWrites : List VkWriteDescriptorSet :=
      ((List.range 3).map fun j =>
        { dstSet := dstSet
          dstBinding := j
          dstArrayElement := 0
          descriptorType := .VK_DESCRIPTOR_TYPE_COMBINED_IMAGE_SAMPLER
          descriptorCount := 1
          pImageInfo := imageInfos[j]?
          pBufferInfo := none }) ++
      [ { dstSet := dstSet
          dstBinding := 3
          dstArrayElement := 0
          descriptorType := .VK_DESCRIPTOR_TYPE_UNIFORM_BUFFER
          descriptorCount := 1
          pImageInfo := none
          pBufferInfo := some bufferInfo } ]
    device := vkUpdateDescriptorSets device descriptorWrites
  -- Blur Vertical descriptor sets
  let layouts := List.replicate VulkanContext.MAX_FRAMES_IN_FLIGHT self.descriptorSetLayoutPostProcess
  let (sets, device1) ← check (vkAllocateDescriptorSets device self.descriptorPool layouts)
    "Failed to allocate blur vertical descriptor sets!"
  device := device1
  self := { self with descriptorSetsBlurVertical := sets }
  for i in List.range VulkanContext.MAX_FRAMES_IN_FLIGHT do
    let imageInfos : List VkDescriptorImageInfo :=
      [ { imageLayout := .VK_IMAGE_LAYOUT_SHADER_READ_ONLY_OPTIMAL
          imageView := self.rtMotion.view
          sampler := self.samplerLinear },
        { imageLayout := .VK_IMAGE_LAYOUT_SHADER_READ_ONLY_OPTIMAL
          imageView := self.rtVelocity.view
          sampler := self.samplerLinear },
        { imageLayout := .VK_IMAGE_LAYOUT_SHADER_READ_ONLY_OPTIMAL
          imageView := self.rtDepth.view
          sampler := self.samplerNearest } ]
    let bufferInfo : VkDescriptorBufferInfo :=
      { buffer := ← elemAt self.postProcessUniformBuffers i
        offset := 0
        range := MotionBlurPostProcessParams.sizeof }
    let dstSet ← elemAt self.descriptorSetsBlurVertical i
    let descriptorWrites : List VkWriteDescriptorSet :=
      ((List.range 3).map fun j =>
        { dstSet := dstSet
          dstBinding := j
          dstArrayElement := 0
          descriptorType := .VK_DESCRIPTOR_TYPE_COMBINED_IMAGE_SAMPLER
          descriptorCount := 1
          pImageInfo := imageInfos[j]?
          pBufferInfo := none }) ++
      [ { dstSet := dstSet
          dstBinding := 3
          dstArrayElement := 0
          descriptorType := .VK_DESCRIPTOR_TYPE_UNIFORM_BUFFER
          descriptorCount := 1
          pImageInfo := none
          pBufferInfo := some bufferInfo } ]
    device := vkUpdateDescriptorSets device descriptorWrites
  -- Blur Horizontal descriptor sets
  let layouts := List.replicate VulkanContext.MAX_FRAMES_IN_FLIGHT self.descriptorSetLayoutPostProcess
  let (sets, device1) ← check (vkAllocateDescriptorSets device self.descriptorPool layouts)
    "Failed to allocate blur horizontal descriptor sets!"
  device := device1
  self := { self with descriptorSetsBlurHorizontal := sets }
  for i in List.range VulkanContext.MAX_FRAMES_IN_FLIGHT do
    let imageInfos : List VkDescriptorImageInfo :=
      [ { imageLayout := .VK_IMAGE_LAYOUT_SHADER_READ_ONLY_OPTIMAL
          imageView := self.rtBlurIntermediate.view
          sampler := self.samplerLinear },
        { imageLayout := .VK_IMAGE_LAYOUT_SHADER_READ_ONLY_OPTIMAL
          imageView := self.rtVelocity.view
          sampler := self.samplerLinear },
        { imageLayout := .VK_IMAGE_LAYOUT_SHADER_READ_ONLY_OPTIMAL
          imageView := self.rtDepth.view
          sampler := self.samplerNearest } ]
    let bufferInfo : VkDescriptorBufferInfo :=
      { buffer := ← elemAt self.postProcessUniformBuffers i
        offset := 0
        range := MotionBlurPostProcessParams.sizeof }
    let dstSet ← elemAt self.descriptorSetsBlurHorizontal i
    let descriptorWrites : List VkWriteDescriptorSet :=
      ((List.range 3).map fun j =>
        { dstSet := dstSet
          dstBinding := j
          dstArrayElement := 0
          descriptorType := .VK_DESCRIPTOR_TYPE_COMBINED_IMAGE_SAMPLER
          descriptorCount := 1
          pImageInfo := imageInfos[j]?
          pBufferInfo := none }) ++
      [ { dstSet := dstSet
          dstBinding := 3
          dstArrayElement := 0
          descriptorType := .VK_DESCRIPTOR_TYPE_UNIFORM_BUFFER
          descriptorCount := 1
          pImageInfo := none
          pBufferInfo := some bufferInfo } ]
    device := vkUpdateDescriptorSets device descriptorWrites
  -- Final pass descriptor sets
  let layouts := List.replicate VulkanContext.MAX_FRAMES_IN_FLIGHT self.descriptorSetLayoutFinal
  let (sets, device1) ← check (vkAllocateDescriptorSets device self.descriptorPool layouts)
    "Failed to allocate final descriptor sets!"
  device := device1
  self := { self with descriptorSetsFinal := sets }
  for i in List.range VulkanContext.MAX_FRAMES_IN_FLIGHT do
    let imageInfos : List VkDescriptorImageInfo :=
      [ { imageLayout := .VK_IMAGE_LAYOUT_SHADER_READ_ONLY_OPTIMAL
          imageView := self.rtMotion.view
          sampler := self.samplerLinear },
        { imageLayout := .VK_IMAGE_LAYOUT_SHADER_READ_ONLY_OPTIMAL
          imageView := self.rtBlurFinal.view
          sampler := self.samplerLinear } ]
    let dstSet ← elemAt self.descriptorSetsFinal i
    let descriptorWrites : List VkWriteDescriptorSet :=
      (List.range 2).map fun j =>
        { dstSet := dstSet
          dstBinding := j
          dstArrayElement := 0
          descriptorType := .VK_DESCRIPTOR_TYPE_COMBINED_IMAGE_SAMPLER
          descriptorCount := 1
          pImageInfo := imageInfos[j]?
          pBufferInfo := none }
    device := vkUpdateDescriptorSets device descriptorWrites
  return (device, self)

def Initialize (self : MotionBlurExample) (fs : FileSystem) (ctx : VulkanContext) (d : Device) :
    Except String (Device × MotionBlurExample) := do
  let (d, self) ← self.CreateSamplers d
  let (d, self) ← self.CreateRenderTargets ctx d
  let (d, self) ← self.CreateRenderPasses ctx d
  let (d, self) ← self.CreateDescriptorSetLayouts d
  let (d, self) ← self.CreatePipelineLayouts d
  let (d, self) ← messageOnly (self.CreatePipelines fs ctx d)
  let (d, self) ← self.CreateFramebuffers ctx d
  let (d, self) ← self.CreateTriangleVertexBuffer ctx d
  let (d, fullscreenQuad) ← self.fullscreenQuad.Initialize ctx d
  let self := { self with fullscreenQuad := fullscreenQuad }
  let (d, self) ← self.CreateUniformBuffers ctx d
  let (d, self) ← self.CreateDescriptorPool d
  let (d, self) ← self.CreateDescriptorSets d
  return (d, self)

def Cleanup (self : MotionBlurExample) (device : Device) : Except String (Device × MotionBlurExample) := do
  let mut self := self
  let mut device := device
  -- Cleanup samplers
  device := vkDestroySampler device self.samplerLinear
  device := vkDestroySampler device self.samplerNearest
  -- Cleanup render targets
  let (device1, rtSceneColor) := self.rtSceneColor.Cleanup device
  let (device2, rtVelocity) := self.rtVelocity.Cleanup device1
  let (device3, rtDepth) := self.rtDepth.Cleanup device2
  let (device4, rtMotion) := self.rtMotion.Cleanup device3
  let (device5, rtBlurIntermediate) := self.rtBlurIntermediate.Cleanup device4
  let (device6, rtBlurFinal) := self.rtBlurFinal.Cleanup device5
  self := { self with
    rtSceneColor := rtSceneColor
    rtVelocity := rtVelocity
    rtDepth := rtDepth
    rtMotion := rtMotion
    rtBlurIntermediate := rtBlurIntermediate
    rtBlurFinal := rtBlurFinal }
  -- Cleanup framebuffers
  let (device7, self1) := self.CleanupFramebuffers device6
  device := device7
  self := self1
  -- Cleanup pipelines
  device := vkDestroyPipeline device self.pipelineGBuffer
  device := vkDestroyPipeline device self.pipelineMotionApply
  device := vkDestroyPipeline device self.pipelineBlurVertical
  device := vkDestroyPipeline device self.pipelineBlurHorizontal
  device := vkDestroyPipeline device self.pipelineFinal
  -- Cleanup pipeline layouts
  device := vkDestroyPipelineLayout device self.pipelineLayoutGBuffer
  device := vkDestroyPipelineLayout device self.pipelineLayoutMotionApply
  device := vkDestroyPipelineLayout device self.pipelineLayoutBlur
  device := vkDestroyPipelineLayout device self.pipelineLayoutFinal
  -- Cleanup render passes
  device := vkDestroyRenderPass device self.renderPassGBuffer
  device := vkDestroyRenderPass device self.renderPassMotionApply
  device := vkDestroyRenderPass device self.renderPassBlurVertical
  device := vkDestroyRenderPass device self.renderPassBlurHorizontal
  device := vkDestroyRenderPass device self.renderPassFinal
  -- Cleanup descriptor set layouts
  device := vkDestroyDescriptorSetLayout device self.descriptorSetLayoutGBuffer
  device := vkDestroyDescriptorSetLayout device self.descriptorSetLayoutPostProcess
  device := vkDestroyDescriptorSetLayout device self.descriptorSetLayoutFinal
  device := vkDestroyDescriptorPool device self.descriptorPool
  -- Cleanup uniform buffers
  for i in List.range VulkanContext.MAX_FRAMES_IN_FLIGHT do
    device := vkDestroyBuffer device (← elemAt self.mvpUniformBuffers i)
    device := vkFreeMemory device (← elemAt self.mvpUniformBuffersMemory i)
    device := vkDestroyBuffer device (← elemAt self.postProcessUniformBuffers i)
    device := vkFreeMemory device (← elemAt self.postProcessUniformBuffersMemory i)
  -- Cleanup vertex buffer
  device := vkDestroyBuffer device self.triangleVertexBuffer
  device := vkFreeMemory device self.triangleVertexBufferMemory
  -- Cleanup fullscreen quad
  let (device8, fullscreenQuad) := self.fullscreenQuad.Cleanup device
  return (device8, { self with fullscreenQuad := fullscreenQuad })

def OnSwapChainRecreated (self : MotionBlurExample) (ctx : VulkanContext) (d : Device) :
    Except String (Device × MotionBlurExample) := do
  let (d, self) := self.CleanupRenderTargets d
  let (d, self) ← self.CreateRenderTargets ctx d
  let (d, self) ← self.CreateFramebuffers ctx d
  let d := vkResetDescriptorPool d self.descriptorPool
  self.CreateDescriptorSets d

def OnSwapChainCleanup (self : MotionBlurExample) (d : Device) : Device × MotionBlurExample :=
  self.CleanupFramebuffers d

def Update (self : MotionBlurExample) (ctx : VulkanContext) (d : Device) (deltaTime : FloatVal) :
    Device × MotionBlurExample :=
  let self := { self with totalTime := .add self.totalTime deltaTime }
  let currentFrame := ctx.GetCurrentFrame
  let extent := ctx.GetSwapChainExtent
  let model := glm.mat4.rotate .identity (.mul self.totalTime (.radians (.lit 90)))
    { x := .lit 0, y := .lit 0, z := .lit 1 }
  let view := glm.mat4.lookAt { x := .lit 0, y := .lit 0, z := .lit 2 }
    { x := .lit 0, y := .lit 0, z := .lit 0 } { x := .lit 0, y := .lit 1, z := .lit 0 }
  let proj := glm.mat4.perspective (.radians (.lit 45))
    (.div (.ofUInt extent.width) (.ofUInt extent.height)) (.lit (1/10)) (.lit 10)
  let proj := proj.mulElem 1 1 (.lit (-1))
  let currentMVP := (proj.mul view).mul model
  let ubo : MotionBlurMVPUBO := { currMVP := currentMVP, prevMVP := self.previousMVP }
  let d := memcpyBlock d self.mvpUniformBuffersMapped[currentFrame]? (.mvp ubo) MotionBlurMVPUBO.sizeof
  let self := { self with previousMVP := currentMVP }
  let params : MotionBlurPostProcessParams :=
    { blurStrength := .lit 1
      motionScale := .lit 1
      texelSize := { x := .div (.lit 1) (.ofUInt extent.width), y := .div (.lit 1) (.ofUInt extent.height) } }
  let d := memcpyBlock d self.postProcessUniformBuffersMapped[currentFrame]? (.params params)
    MotionBlurPostProcessParams.sizeof
  (d, self)

def RecordCommands (self : MotionBlurExample) (ctx : VulkanContext) (cmd : List Cmd) (imageIndex : Nat) :
    List Cmd := Id.run do
  let mut cmd := cmd
  let currentFrame := ctx.GetCurrentFrame
  let extent := ctx.GetSwapChainExtent
  let clearColor : VkClearValue := { float32 := [0, 0, 0, 1] }
  let clearVelocity : VkClearValue := { float32 := [0, 0, 0, 0] }
  let clearDepth : VkClearValue := { float32 := [1, 0] }
  -- Pass 0: G-Buffer (Triangle)
  let clearValues := [clearColor, clearVelocity, clearDepth]
  cmd := vkCmdBeginRenderPass cmd self.renderPassGBuffer (some self.fbGBuffer)
    { offset := { x := 0, y := 0 }, extent := extent } clearValues
  cmd := vkCmdBindPipeline cmd .VK_PIPELINE_BIND_POINT_GRAPHICS self.pipelineGBuffer
  let vertexBuffers := [self.triangleVertexBuffer]
  let offsets := [0]
  cmd := vkCmdBindVertexBuffers cmd 0 vertexBuffers offsets
  cmd := vkCmdBindDescriptorSets cmd .VK_PIPELINE_BIND_POINT_GRAPHICS self.pipelineLayoutGBuffer 0
    [self.descriptorSetsGBuffer[currentFrame]?]
  cmd := vkCmdDraw cmd triangleVertices.length 1 0 0
  cmd := vkCmdEndRenderPass cmd
  -- Pass 1: Motion Apply
  cmd := vkCmdBeginRenderPass cmd self.renderPassMotionApply (some self.fbMotionApply)
    { offset := { x := 0, y := 0 }, extent := extent } [clearColor]
  cmd := vkCmdBindPipeline cmd .VK_PIPELINE_BIND_POINT_GRAPHICS self.pipelineMotionApply
  cmd := self.fullscreenQuad.Bind cmd
  cmd := vkCmdBindDescriptorSets cmd .VK_PIPELINE_BIND_POINT_GRAPHICS self.pipelineLayoutMotionApply 0
    [self.descriptorSetsMotionApply[currentFrame]?]
  cmd := self.fullscreenQuad.Draw cmd
  cmd := vkCmdEndRenderPass cmd
  -- Pass 2: Blur Vertical
  cmd := vkCmdBeginRenderPass cmd self.renderPassBlurVertical (some self.fbBlurVertical)
    { offset := { x := 0, y := 0 }, extent := extent } [clearColor]
  cmd := vkCmdBindPipeline cmd .VK_PIPELINE_BIND_POINT_GRAPHICS self.pipelineBlurVertical
  cmd := self.fullscreenQuad.Bind cmd
  cmd := vkCmdBindDescriptorSets cmd .VK_PIPELINE_BIND_POINT_GRAPHICS self.pipelineLayoutBlur 0
    [self.descriptorSetsBlurVertical[currentFrame]?]
  cmd := self.fullscreenQuad.Draw cmd
  cmd := vkCmdEndRenderPass cmd
  -- Pass 3: Blur Horizontal
  cmd := vkCmdBeginRenderPass cmd self.renderPassBlurHorizontal (some self.fbBlurHorizontal)
    { offset := { x := 0, y := 0 }, extent := extent } [clearColor]
  cmd := vkCmdBindPipeline cmd .VK_PIPELINE_BIND_POINT_GRAPHICS self.pipelineBlurHorizontal
  cmd := self.fullscreenQuad.Bind cmd
  cmd := vkCmdBindDescriptorSets cmd .VK_PIPELINE_BIND_POINT_GRAPHICS self.pipelineLayoutBlur 0
    [self.descriptorSetsBlurHorizontal[currentFrame]?]
  cmd := self.fullscreenQuad.Draw cmd
  cmd := vkCmdEndRenderPass cmd
  -- Pass 4: Final to Swapchain
  cmd := vkCmdBeginRenderPass cmd self.renderPassFinal self.swapChainFramebuffers[imageIndex]?
    { offset := { x := 0, y := 0 }, extent := extent } [clearColor]
  cmd := vkCmdBindPipeline cmd .VK_PIPELINE_BIND_POINT_GRAPHICS self.pipelineFinal
  cmd := self.fullscreenQuad.Bind cmd
  cmd := vkCmdBindDescriptorSets cmd .VK_PIPELINE_BIND_POINT_GRAPHICS self.pipelineLayoutFinal 0
    [self.descriptorSetsFinal[currentFrame]?]
  cmd := self.fullscreenQuad.Draw cmd
  cmd := vkCmdEndRenderPass cmd
  return cmd

end MotionBlurExample

/-! ## Observations on the driver log and on recorded commands -/

/-- One step of replaying the log for the handle `framebuffer`: a `vkCreateFramebuffer` that
returned it replaces what is known about it. -/
def framebufferStep (framebuffer : Handle) (acc : Option VkFramebufferCreateInfo) (c : Call) :
    Option VkFramebufferCreateInfo :=
  match c with
  | .vkCreateFramebuffer info h => if h = framebuffer then some info else acc
  | _ => acc

/-- The create-info of the latest `vkCreateFramebuffer` that returned `framebuffer`. -/
def Device.framebufferInfo (d : Device) (framebuffer : Handle) : Option VkFramebufferCreateInfo :=
  d.log.foldl (framebufferStep framebuffer) none

/-- One step of replaying the log for the handle `renderPass`. -/
def renderPassStep (renderPass : Handle) (acc : Option VkRenderPassCreateInfo) (c : Call) :
    Option VkRenderPassCreateInfo :=
  match c with
  | .vkCreateRenderPass info h => if h = renderPass then some info else acc
  | _ => acc

/-- The create-info of the latest `vkCreateRenderPass` that returned `renderPass`. -/
def Device.renderPassInfo (d : Device) (renderPass : Handle) : Option VkRenderPassCreateInfo :=
  d.log.foldl (renderPassStep renderPass) none

/-- One step of replaying the log for descriptor set `set`: `none` while the set is not
allocated, otherwise its pool and, per binding, the latest write since the allocation. -/
def descriptorStep (set : Handle) (acc : Option (Handle × List VkWriteDescriptorSet)) (c : Call) :
    Option (Handle × List VkWriteDescriptorSet) :=
  match c with
  | .vkAllocateDescriptorSets pool _ sets => if set ∈ sets then some (pool, []) else acc
  | .vkResetDescriptorPool pool =>
    match acc with
    | some (p, ws) => if p = pool then none else some (p, ws)
    | none => none
  | .vkDestroyDescriptorPool pool =>
    match acc with
    | some (p, ws) => if p = pool then none else some (p, ws)
    | none => none
  | .vkUpdateDescriptorSets writes =>
    match acc with
    | some (p, ws) =>
      some (p, writes.foldl (fun ws w =>
        if w.dstSet = set then ws.filter (fun old => old.dstBinding ≠ w.dstBinding) ++ [w] else ws) ws)
    | none => none
  | _ => acc

/-- The current contents of descriptor set `set` (`none`: not allocated). -/
def Device.descriptorSet (d : Device) (set : Handle) : Option (List VkWriteDescriptorSet) :=
  (d.log.foldl (descriptorStep set) none).map Prod.snd

/-- The image views bound as sampled images (combined image samplers) in `set`, in the order
in which their bindings were written. -/
def Device.sampledViews (d : Device) (set : Handle) : List Handle :=
  ((d.descriptorSet set).getD []).filterMap fun w =>
    match w.descriptorType, w.pImageInfo with
    | .VK_DESCRIPTOR_TYPE_COMBINED_IMAGE_SAMPLER, some info => some info.imageView
    | _, _ => none

/-- The image views destroyed by the calls in a stretch of the log. -/
def destroyedViews (calls : List Call) : List Handle :=
  calls.filterMap fun c =>
    match c with
    | .vkDestroyImageView view => some view
    | _ => none

/-- Which entry point a call is, without its arguments. -/
inductive CallKind
  | vkCreateSampler
  | CreateImage
  | CreateImageView
  | vkCreateRenderPass
  | vkCreateDescriptorSetLayout
  | vkCreatePipelineLayout
  | CreateShaderModule
  | vkCreateGraphicsPipelines
  | vkCreateFramebuffer
  | CreateBuffer
  | vkMapMemory
  | memcpy
  | vkUnmapMemory
  | CopyBuffer
  | vkCreateDescriptorPool
  | vkAllocateDescriptorSets
  | vkUpdateDescriptorSets
  | vkResetDescriptorPool
  | vkDestroy
  deriving DecidableEq, Repr

/-- The entry point of a call; the `vkDestroy...` and `vkFreeMemory` calls are one kind. -/
def Call.kind : Call → CallKind
  | .vkCreateSampler .. => .vkCreateSampler
  | .CreateImage .. => .CreateImage
  | .CreateImageView .. => .CreateImageView
  | .vkCreateRenderPass .. => .vkCreateRenderPass
  | .vkCreateDescriptorSetLayout .. => .vkCreateDescriptorSetLayout
  | .vkCreatePipelineLayout .. => .vkCreatePipelineLayout
  | .CreateShaderModule .. => .CreateShaderModule
  | .vkCreateGraphicsPipelines .. => .vkCreateGraphicsPipelines
  | .vkCreateFramebuffer .. => .vkCreateFramebuffer
  | .CreateBuffer .. => .CreateBuffer
  | .vkMapMemory .. => .vkMapMemory
  | .memcpy .. => .memcpy
  | .memcpyBlock .. => .memcpy
  | .vkUnmapMemory .. => .vkUnmapMemory
  | .CopyBuffer .. => .CopyBuffer
  | .vkCreateDescriptorPool .. => .vkCreateDescriptorPool
  | .vkAllocateDescriptorSets .. => .vkAllocateDescriptorSets
  | .vkUpdateDescriptorSets .. => .vkUpdateDescriptorSets
  | .vkResetDescriptorPool .. => .vkResetDescriptorPool
  | _ => .vkDestroy

/-- One step of replaying the log for the image view `view`: a `CreateImageView` that returned
it replaces what is known about it. -/
def imageViewStep (view : Handle) (acc : Option VkFormat) (c : Call) : Option VkFormat :=
  match c with
  | .CreateImageView _ format _ h => if h = view then some format else acc
  | _ => acc

/-- The format given to the latest `CreateImageView` that returned `view`. -/
def Device.imageViewFormat (d : Device) (view : Handle) : Option VkFormat :=
  d.log.foldl (imageViewStep view) none

/-- Modelled from the spec: the views of the swapchain images are created inside
`VulkanContext` (vulkan_context.cpp, not part of the sources); by section 3 the swapchain has one
format and one view per image, so every such view has the swapchain's image format. -/
def VulkanContext.imageViewFormat (ctx : VulkanContext) (view : Handle) : Option VkFormat :=
  if view ∈ ctx.swapChainImageViews then some ctx.swapChainImageFormat else none

/-- The driver state `r` continues the driver state `d` by calls of the kinds `ks` only. -/
def Device.Extends (r d : Device) (ks : List CallKind) : Prop :=
  ∃ calls, r.log = d.log ++ calls ∧ ∀ c ∈ calls, c.kind ∈ ks

/-- The kinds of the calls that `Initialize` makes after `CreateRenderPasses` has returned. -/
def laterKinds : List CallKind :=
  [.vkCreateDescriptorSetLayout, .vkCreatePipelineLayout, .CreateShaderModule,
    .vkCreateGraphicsPipelines, .vkDestroy, .vkCreateFramebuffer, .CreateBuffer, .vkMapMemory,
    .memcpy, .vkUnmapMemory, .CopyBuffer, .vkCreateDescriptorPool, .vkAllocateDescriptorSets,
    .vkUpdateDescriptorSets]

/-- A byte of buffer memory: byte `k` of the scalar `q` of a host array, or `none` when its
value is indeterminate (never written, or read past the end of an array). -/
abbrev Byte := Option (ℚ × Nat)

/-- The bytes of a host array, scalar by scalar. -/
def HostData.bytes (h : HostData) : List (ℚ × Nat) :=
  h.scalars.flatMap fun q => (List.range h.scalarBytes).map fun k => (q, k)

/-- The contents of `dst` after the first `n` bytes of `src` have been copied to its start:
a byte read past the end of `src` is indeterminate, nothing is kept past the end of `dst`. -/
def overwrite (dst src : List Byte) (n : Nat) : List Byte :=
  ((src.take n ++ List.replicate (n - src.length) none) ++ dst.drop n).take dst.length

/-- The buffers that exist: per buffer handle, the memory bound to it and its contents. -/
abbrev Memory := Handle → Option (Handle × List Byte)

/-- One step of replaying the log for the contents of the buffers. `CreateBuffer` makes a
buffer of `size` indeterminate bytes; `memcpy` through a mapped pointer writes the first `size`
bytes of the host array to the memory mapped; `CopyBuffer` copies the first `size` bytes of its
source buffer to its destination buffer; `vkDestroyBuffer` ends the buffer. -/
def memoryStep (m : Memory) (c : Call) : Memory :=
  match c with
  | .CreateBuffer size _ _ buffer memory => fun b =>
    if b = buffer then some (memory, List.replicate size none) else m b
  | .memcpy dstMemory src size => fun b =>
    match m b with
    | some (memory, bytes) =>
      if memory = dstMemory then some (memory, overwrite bytes (src.bytes.map some) size)
      else some (memory, bytes)
    | none => none
  | .CopyBuffer srcBuffer dstBuffer size => fun b =>
    if b = dstBuffer then
      match m dstBuffer with
      | some (memory, bytes) =>
        some (memory, overwrite bytes (((m srcBuffer).map Prod.snd).getD []) size)
      | none => none
    else m b
  | .vkDestroyBuffer buffer => fun b => if b = buffer then none else m b
  | _ => m

/-- The buffers of the driver and their contents, by replaying the log. -/
def Device.memory (d : Device) : Memory :=
  d.log.foldl memoryStep fun _ => none

/-- The contents of `buffer` (`none`: no such buffer). -/
def Device.bufferBytes (d : Device) (buffer : Handle) : Option (List Byte) :=
  (d.memory buffer).map Prod.snd

/-- The byte counts of the `memcpy` calls from host arrays in a stretch of the log. -/
def memcpyLengths (calls : List Call) : List Nat :=
  calls.filterMap fun c =>
    match c with
    | .memcpy _ _ size => some size
    | _ => none

/-- The byte counts of the `CopyBuffer` calls in a stretch of the log. -/
def copyLengths (calls : List Call) : List Nat :=
  calls.filterMap fun c =>
    match c with
    | .CopyBuffer _ _ size => some size
    | _ => none

/-- The buffers bound by the descriptor writes in a stretch of the log, in the order written. -/
def bufferBindings (calls : List Call) : List VkDescriptorBufferInfo :=
  calls.flatMap fun c =>
    match c with
    | .vkUpdateDescriptorSets writes => writes.filterMap fun w => w.pBufferInfo
    | _ => []

/-- The MVP blocks uploaded by the `memcpy` calls in a stretch of the log, oldest first. -/
def uploadedMVPs (calls : List Call) : List MotionBlurMVPUBO :=
  calls.filterMap fun c =>
    match c with
    | .memcpyBlock _ (.mvp ubo) _ => some ubo
    | _ => none

/-- The post-process blocks uploaded by the `memcpy` calls in a stretch of the log, each with
the destination it is written to. -/
def uploadedParams (calls : List Call) : List (Option Handle × MotionBlurPostProcessParams) :=
  calls.filterMap fun c =>
    match c with
    | .memcpyBlock dst (.params params) _ => some (dst, params)
    | _ => none

/-- The model-view-projection matrix for the elapsed time `totalTime` and the swapchain extent
`extent`: projection (45 degrees, aspect width / height, near 0.1, far 10, y flipped) times view
(eye (0,0,2) looking at the origin, up (0,1,0)) times model (rotation about z by
`totalTime * radians(90)`). -/
def MVP (totalTime : FloatVal) (extent : VkExtent2D) : glm.mat4 :=
  let model := glm.mat4.rotate .identity (.mul totalTime (.radians (.lit 90)))
    { x := .lit 0, y := .lit 0, z := .lit 1 }
  let view := glm.mat4.lookAt { x := .lit 0, y := .lit 0, z := .lit 2 }
    { x := .lit 0, y := .lit 0, z := .lit 0 } { x := .lit 0, y := .lit 1, z := .lit 0 }
  let proj := (glm.mat4.perspective (.radians (.lit 45))
    (.div (.ofUInt extent.width) (.ofUInt extent.height)) (.lit (1/10)) (.lit 10)).mulElem 1 1
    (.lit (-1))
  (proj.mul view).mul model

/-- A sequence of `Update` calls, one per frame, each with the context in force and the delta
time of that frame. -/
def updates : List (VulkanContext × FloatVal) → Device → MotionBlurExample → Device × MotionBlurExample
  | [], d, self => (d, self)
  | (ctx, deltaTime) :: rest, d, self =>
    updates rest (self.Update ctx d deltaTime).1 (self.Update ctx d deltaTime).2

/-- The elapsed time after the delta times `deltas`, starting from `t`: their float sum, added
up in order. -/
def elapsed (t : FloatVal) (deltas : List FloatVal) : FloatVal :=
  deltas.foldl .add t

/-- The MVP blocks that a sequence of frames should upload when the previous MVP is carried
forward: each block holds the MVP for the time elapsed so far and the MVP of the block before it,
`prev` for the first. -/
def carriedMVPs : glm.mat4 → FloatVal → List (VulkanContext × FloatVal) → List MotionBlurMVPUBO
  | _, _, [] => []
  | prev, t, (ctx, deltaTime) :: rest =>
    { currMVP := MVP (.add t deltaTime) ctx.GetSwapChainExtent, prevMVP := prev } ::
      carriedMVPs (MVP (.add t deltaTime) ctx.GetSwapChainExtent) (.add t deltaTime) rest

/-- The descriptor-set allocations in a stretch of the log: for each `vkAllocateDescriptorSets`
call, the pool allocated from and the sets returned. -/
def allocatedSets (calls : List Call) : List (Handle × List Handle) :=
  calls.filterMap fun c =>
    match c with
    | .vkAllocateDescriptorSets pool _ sets => some (pool, sets)
    | _ => none

/-- The descriptor pools reset in a stretch of the log. -/
def resetPools (calls : List Call) : List Handle :=
  calls.filterMap fun c =>
    match c with
    | .vkResetDescriptorPool pool => some pool
    | _ => none

/-- The kinds of the calls that `Initialize` makes before it calls `CreateDescriptorSets`. -/
def setupKinds : List CallKind :=
  [.vkCreateSampler, .CreateImage, .CreateImageView, .vkCreateRenderPass,
    .vkCreateDescriptorSetLayout, .vkCreatePipelineLayout, .CreateShaderModule,
    .vkCreateGraphicsPipelines, .vkDestroy, .vkCreateFramebuffer, .CreateBuffer, .vkMapMemory,
    .memcpy, .vkUnmapMemory, .CopyBuffer, .vkCreateDescriptorPool]

/-- The kinds of the calls that `OnSwapChainRecreated` makes before it resets the descriptor
pool. -/
def rebuildKinds : List CallKind :=
  [.vkDestroy, .CreateImage, .CreateImageView, .vkCreateFramebuffer]

/-- The shader binaries that `CreatePipelines` loads, a vertex and a fragment shader per pass,
in the order in which they are read. -/
def shaderPaths : List String :=
  [ "shaders/gbuffer.vert.spv", "shaders/gbuffer.frag.spv",
    "shaders/motion_apply.vert.spv", "shaders/motion_apply.frag.spv",
    "shaders/blur_vertical.vert.spv", "shaders/blur_vertical.frag.spv",
    "shaders/blur_horizontal.vert.spv", "shaders/blur_horizontal.frag.spv",
    "shaders/final_apply.vert.spv", "shaders/final_apply.frag.spv" ]

/-- One step of replaying the log for the handle `pipeline`: a `vkCreateGraphicsPipelines` that
returned it replaces what is known about it. -/
def pipelineStep (pipeline : Handle) (acc : Option VkGraphicsPipelineCreateInfo) (c : Call) :
    Option VkGraphicsPipelineCreateInfo :=
  match c with
  | .vkCreateGraphicsPipelines info h => if h = pipeline then some info else acc
  | _ => acc

/-- The create-info of the latest `vkCreateGraphicsPipelines` that returned `pipeline`. -/
def Device.pipelineInfo (d : Device) (pipeline : Handle) : Option VkGraphicsPipelineCreateInfo :=
  d.log.foldl (pipelineStep pipeline) none

/-- One step of replaying the log for the pipeline layout `layout`. -/
def pipelineLayoutStep (layout : Handle) (acc : Option (List Handle)) (c : Call) :
    Option (List Handle) :=
  match c with
  | .vkCreatePipelineLayout pSetLayouts h => if h = layout then some pSetLayouts else acc
  | _ => acc

/-- The descriptor set layouts given to the latest `vkCreatePipelineLayout` that returned
`layout`. -/
def Device.pipelineLayoutInfo (d : Device) (layout : Handle) : Option (List Handle) :=
  d.log.foldl (pipelineLayoutStep layout) none

/-- One step of replaying the log for the descriptor set layout `layout`. -/
def setLayoutStep (layout : Handle) (acc : Option (List VkDescriptorSetLayoutBinding)) (c : Call) :
    Option (List VkDescriptorSetLayoutBinding) :=
  match c with
  | .vkCreateDescriptorSetLayout pBindings h => if h = layout then some pBindings else acc
  | _ => acc

/-- The bindings given to the latest `vkCreateDescriptorSetLayout` that returned `layout`. -/
def Device.setLayoutBindings (d : Device) (layout : Handle) :
    Option (List VkDescriptorSetLayoutBinding) :=
  d.log.foldl (setLayoutStep layout) none

/-- The layout at the position at which `set` stands among the sets returned by a
`vkAllocateDescriptorSets` call. -/
def layoutOf (set : Handle) : List Handle → List Handle → Option Handle
  | s :: sets, layout :: pSetLayouts => if s = set then some layout else layoutOf set sets pSetLayouts
  | _, _ => none

/-- One step of replaying the log for the descriptor set `set`: a `vkAllocateDescriptorSets`
that returned it as its `i`-th set allocated it with the `i`-th layout of the call. -/
def allocationStep (set : Handle) (acc : Option Handle) (c : Call) : Option Handle :=
  match c with
  | .vkAllocateDescriptorSets _ pSetLayouts sets =>
    match layoutOf set sets pSetLayouts with
    | some layout => some layout
    | none => acc
  | _ => acc

/-- The descriptor set layout with which `set` was allocated last. -/
def Device.setLayout (d : Device) (set : Handle) : Option Handle :=
  d.log.foldl (allocationStep set) none

/-- The buffers bound as uniform buffers in `set`, in the order in which their bindings were
written. -/
def Device.uniformBuffers (d : Device) (set : Handle) : List Handle :=
  ((d.descriptorSet set).getD []).filterMap fun w =>
    match w.descriptorType, w.pBufferInfo with
    | .VK_DESCRIPTOR_TYPE_UNIFORM_BUFFER, some info => some info.buffer
    | _, _ => none

/-- One step of replaying the log for the mapped uniform block `mapped`: a block copy to it
replaces its contents. -/
def blockStep (mapped : Handle) (acc : Option UniformData) (c : Call) : Option UniformData :=
  match c with
  | .memcpyBlock dst src _ => if dst = some mapped then some src else acc
  | _ => acc

/-- The contents of the mapped uniform block `mapped`: what the latest block copy to it wrote
(`none`: never written). -/
def Device.blockContents (d : Device) (mapped : Handle) : Option UniformData :=
  d.log.foldl (blockStep mapped) none

/-- The calls that `RenderTarget::Cleanup` makes for a target: one destroy call for each handle
that is not null, view first, then image, then memory. -/
def RenderTarget.cleanupCalls (rt : RenderTarget) : List Call :=
  (if rt.view ≠ VK_NULL_HANDLE then [Call.vkDestroyImageView rt.view] else []) ++
    (if rt.image ≠ VK_NULL_HANDLE then [Call.vkDestroyImage rt.image] else []) ++
    (if rt.memory ≠ VK_NULL_HANDLE then [Call.vkFreeMemory rt.memory] else [])

/-- The render target after `RenderTarget::Cleanup`: its three handles are null. -/
def RenderTarget.cleared (rt : RenderTarget) : RenderTarget :=
  { rt with view := VK_NULL_HANDLE, image := VK_NULL_HANDLE, memory := VK_NULL_HANDLE }

/-- The framebuffers destroyed by the calls in a stretch of the log. -/
def destroyedFramebuffers (calls : List Call) : List Handle :=
  calls.filterMap fun c =>
    match c with
    | .vkDestroyFramebuffer framebuffer => some framebuffer
    | _ => none

/-- The kinds of the calls that `OnSwapChainRecreated` makes after `CleanupRenderTargets`. -/
def recreateKinds : List CallKind :=
  [.CreateImage, .CreateImageView, .vkCreateFramebuffer, .vkResetDescriptorPool,
    .vkAllocateDescriptorSets, .vkUpdateDescriptorSets]

/-- The kinds of the calls of a swapchain recreation (`OnSwapChainCleanup`, then
`OnSwapChainRecreated`). -/
def recreationKinds : List CallKind :=
  [.vkDestroy, .CreateImage, .CreateImageView, .vkCreateFramebuffer, .vkResetDescriptorPool,
    .vkAllocateDescriptorSets, .vkUpdateDescriptorSets]

/-- The calls that `CleanupFramebuffers` makes in the state `s`: one destroy call for each
swapchain framebuffer, then one for each offscreen framebuffer that is not null. -/
def cleanupFramebufferCalls (swapChainFramebuffers offscreenFramebuffers : List Handle) : List Call :=
  swapChainFramebuffers.map Call.vkDestroyFramebuffer ++
    (offscreenFramebuffers.filter (fun fb => fb ≠ VK_NULL_HANDLE)).map Call.vkDestroyFramebuffer

/-- One step of replaying the log for the descriptor pool `pool`: the sets that are live in it,
each with the layout it was allocated with. Creating, resetting or destroying the pool leaves
no live set; an allocation from it adds the sets returned. -/
def poolStep (pool : Handle) (acc : List (Handle × Handle)) (c : Call) : List (Handle × Handle) :=
  match c with
  | .vkCreateDescriptorPool _ p => if p = pool then [] else acc
  | .vkAllocateDescriptorSets p pSetLayouts sets =>
    if p = pool then acc ++ sets.zip pSetLayouts else acc
  | .vkResetDescriptorPool p => if p = pool then [] else acc
  | .vkDestroyDescriptorPool p => if p = pool then [] else acc
  | _ => acc

/-- The descriptor sets live in `pool`, each with its layout, oldest first. -/
def Device.liveSets (d : Device) (pool : Handle) : List (Handle × Handle) :=
  d.log.foldl (poolStep pool) []

/-- One step of replaying the log for the descriptor pool `pool`: its create-info. -/
def poolInfoStep (pool : Handle) (acc : Option VkDescriptorPoolCreateInfo) (c : Call) :
    Option VkDescriptorPoolCreateInfo :=
  match c with
  | .vkCreateDescriptorPool info p => if p = pool then some info else acc
  | _ => acc

/-- The create-info of the latest `vkCreateDescriptorPool` that returned `pool`. -/
def Device.poolInfo (d : Device) (pool : Handle) : Option VkDescriptorPoolCreateInfo :=
  d.log.foldl (poolInfoStep pool) none

/-- The number of descriptors of type `type` in a set with the layout bindings `bindings`. -/
def descriptorsOfType (type : VkDescriptorType) (bindings : List VkDescriptorSetLayoutBinding) : Nat :=
  ((bindings.filter fun b => b.descriptorType = type).map fun b => b.descriptorCount).sum

/-- The number of descriptors of type `type` that the live sets of `pool` take up. -/
def Device.liveDescriptors (d : Device) (pool : Handle) (type : VkDescriptorType) : Nat :=
  ((d.liveSets pool).map fun sl =>
    descriptorsOfType type ((d.setLayoutBindings sl.2).getD [])).sum

/-- The number of descriptors of type `type` that a pool created with `info` provides. -/
def VkDescriptorPoolCreateInfo.capacity (info : VkDescriptorPoolCreateInfo) (type : VkDescriptorType) :
    Nat :=
  ((info.pPoolSizes.filter fun s => s.type = type).map fun s => s.descriptorCount).sum

/-- The number of descriptors of type `type` written by the `vkUpdateDescriptorSets` calls in a
stretch of the log. -/
def writtenDescriptors (calls : List Call) (type : VkDescriptorType) : Nat :=
  (calls.map fun c =>
    match c with
    | .vkUpdateDescriptorSets writes =>
      ((writes.filter fun w => w.descriptorType = type).map fun w => w.descriptorCount).sum
    | _ => 0).sum

/-- The pipelines bound from the head of `cmd` up to the next `vkCmdEndRenderPass`. -/
def boundPipelines : List Cmd → List Handle
  | [] => []
  | .vkCmdEndRenderPass :: _ => []
  | .vkCmdBindPipeline _ pipeline :: rest => pipeline :: boundPipelines rest
  | _ :: rest => boundPipelines rest

/-- The descriptor-set bindings from the head of `cmd` up to the next `vkCmdEndRenderPass`: for
each `vkCmdBindDescriptorSets`, the pipeline layout it names and the sets it binds. -/
def boundLayouts : List Cmd → List (Handle × List (Option Handle))
  | [] => []
  | .vkCmdEndRenderPass :: _ => []
  | .vkCmdBindDescriptorSets _ layout _ sets :: rest => (layout, sets) :: boundLayouts rest
  | _ :: rest => boundLayouts rest

/-- The objects that a recorded pass uses: the render pass it begins and the framebuffer it
begins it on, the pipelines it binds, and the pipeline layouts and descriptor sets of its
descriptor-set bindings. -/
structure PassObjects where
  renderPass : Handle
  framebuffer : Option Handle
  pipelines : List Handle
  descriptorSets : List (Handle × List (Option Handle))
  deriving DecidableEq, Repr

/-- The objects used by the passes of a command list, in recording order. -/
def recordedObjects : List Cmd → List PassObjects
  | [] => []
  | .vkCmdBeginRenderPass renderPass framebuffer _ _ :: rest =>
    { renderPass := renderPass, framebuffer := framebuffer, pipelines := boundPipelines rest,
      descriptorSets := boundLayouts rest } :: recordedObjects rest
  | _ :: rest => recordedObjects rest

/-- No operand of the command was read past the end of a vector. -/
def Cmd.inBounds : Cmd → Bool
  | .vkCmdBeginRenderPass _ framebuffer _ _ => framebuffer.isSome
  | .vkCmdBindDescriptorSets _ _ _ sets => sets.all Option.isSome
  | _ => true

/-- No argument of the call was read past the end of a vector. -/
def Call.inBounds : Call → Bool
  | .memcpyBlock dst _ _ => dst.isSome
  | _ => true

/-- The creation or the destruction of an object of the kinds that belong to a swapchain
generation: the image, the memory and the view of a render target, and a framebuffer. -/
inductive ObjEvent
  | create (h : Handle)
  | destroy (h : Handle)
  deriving DecidableEq, Repr

/-- The creations and destructions in a stretch of the log, in order: `CreateImage` creates an
image and its memory, `CreateImageView` a view, `vkCreateFramebuffer` a framebuffer;
`vkDestroyImageView`, `vkDestroyImage`, `vkFreeMemory` and `vkDestroyFramebuffer` destroy the
handle they are given. -/
def objEvents (calls : List Call) : List ObjEvent :=
  calls.flatMap fun c =>
    match c with
    | .CreateImage _ _ _ _ _ _ image memory => [.create image, .create memory]
    | .CreateImageView _ _ _ view => [.create view]
    | .vkCreateFramebuffer _ framebuffer => [.create framebuffer]
    | .vkDestroyImageView view => [.destroy view]
    | .vkDestroyImage image => [.destroy image]
    | .vkFreeMemory memory => [.destroy memory]
    | .vkDestroyFramebuffer framebuffer => [.destroy framebuffer]
    | _ => []

/-- In the events `ev`, the handle `h` is created exactly once, destroyed exactly once, and
created before it is destroyed. -/
def DestroyedOnce (ev : List ObjEvent) (h : Handle) : Prop :=
  ev.count (.create h) = 1 ∧ ev.count (.destroy h) = 1 ∧
    ev.indexOf (.create h) < ev.indexOf (.destroy h)

instance DestroyedOnce.decidable (ev : List ObjEvent) (h : Handle) : Decidable (DestroyedOnce ev h) := by
  unfold DestroyedOnce
  infer_instance

/-- The events `ev` are balanced up to the handles `held`: no handle above `n` occurs; a held
handle is created exactly once and not destroyed; every other handle that is created is
destroyed exactly once, after its creation. -/
structure Tracked (ev : List ObjEvent) (n : Nat) (held : Nat → Prop) : Prop where
  bound : ∀ h : Nat, (.create h ∈ ev ∨ .destroy h ∈ ev) → h ≤ n
  live : ∀ h : Nat, held h → ev.count (.create h) = 1 ∧ .destroy h ∉ ev
  done : ∀ h : Nat, .create h ∈ ev → ¬ held h → DestroyedOnce ev h

/-- The driver state `r` continues the driver state `d` by calls whose creations and
destructions of tracked objects are `ev`. -/
def Device.Emits (r d : Device) (ev : List ObjEvent) : Prop :=
  ∃ calls, r.log = d.log ++ calls ∧ objEvents calls = ev

/-- The kinds of calls that neither create nor destroy an image, an image view, a framebuffer
or memory. -/
def untrackedKinds : List CallKind :=
  [.vkCreateSampler, .vkCreateRenderPass, .vkCreateDescriptorSetLayout, .vkCreatePipelineLayout,
    .CreateShaderModule, .vkCreateGraphicsPipelines, .CreateBuffer, .vkMapMemory, .memcpy,
    .vkUnmapMemory, .CopyBuffer, .vkCreateDescriptorPool, .vkAllocateDescriptorSets,
    .vkUpdateDescriptorSets, .vkResetDescriptorPool]

/-- The pipelines created by the calls in a stretch of the log, in order: the handle returned
and the create-info of each `vkCreateGraphicsPipelines`. -/
def createdPipelines (calls : List Call) : List (Handle × VkGraphicsPipelineCreateInfo) :=
  calls.filterMap fun c =>
    match c with
    | .vkCreateGraphicsPipelines info pipeline => some (pipeline, info)
    | _ => none

/-- The scalar of `width` bytes stored at byte offset `offset` of the contents `bytes` of a
buffer: the bytes there are the bytes `0 .. width - 1`, in order, of one scalar of a host array
(`none` otherwise). -/
def readScalar (bytes : List Byte) (offset width : Nat) : Option ℚ :=
  match bytes[offset]? with
  | some (some (q, _)) =>
    if (List.range width).all fun k => decide (bytes[offset + k]? = some (some (q, k))) then some q
    else none
  | _ => none

/-- The position that the vertex fetch reads for vertex `k` from a vertex buffer with contents
`bytes`, under the binding and attribute descriptions of `FullscreenVertex`: the two 32-bit
floats at the offset of the attribute at location 0 within the `k`-th stride. -/
def fetchPosition (bytes : List Byte) (k : Nat) : Option (ℚ × ℚ) :=
  match FullscreenVertex.GetAttributeDescriptions.find? fun a => a.location = 0 with
  | some a =>
    let base := FullscreenVertex.GetBindingDescription.stride * k + a.offset
    match readScalar bytes base 4, readScalar bytes (base + 4) 4 with
    | some x, some y => some (x, y)
    | _, _ => none
  | none => none

/-- The indices that an indexed draw of `indexCount` indices from `firstIndex` on reads from an
index buffer with contents `bytes`, bound at byte offset `offset` with index type
`VK_INDEX_TYPE_UINT16`: one 16-bit unsigned value each (`none` where the bytes are not those of
one). -/
def fetchIndices (bytes : List Byte) (offset firstIndex indexCount : Nat) : List (Option Nat) :=
  (List.range indexCount).map fun i =>
    match readScalar bytes (offset + 2 * (firstIndex + i)) 2 with
    | some q => if q.den = 1 ∧ 0 ≤ q.num then some q.num.toNat else none
    | none => none

/-- The beginning or the end of a render pass in a command buffer. -/
inductive PassEvent
  | beginPass (renderPass : Handle)
  | endPass
  deriving DecidableEq, Repr

/-- The begin/end skeleton of a command list: every `vkCmdBeginRenderPass` (with the render
pass it begins) and every `vkCmdEndRenderPass`, in recording order. -/
def passEvents (cmd : List Cmd) : List PassEvent :=
  cmd.filterMap fun c =>
    match c with
    | .vkCmdBeginRenderPass renderPass _ _ _ => some (.beginPass renderPass)
    | .vkCmdEndRenderPass => some .endPass
    | _ => none

/-- The descriptor sets bound from the head of `cmd` up to the next `vkCmdEndRenderPass`. -/
def boundSets : List Cmd → List (Option Handle)
  | [] => []
  | .vkCmdEndRenderPass :: _ => []
  | .vkCmdBindDescriptorSets _ _ _ sets :: rest => sets ++ boundSets rest
  | _ :: rest => boundSets rest

/-- What a recorded pass renders into and which descriptor sets it binds. -/
structure RecordedPass where
  renderPass : Handle
  framebuffer : Option Handle
  descriptorSets : List (Option Handle)
  deriving DecidableEq, Repr

/-- The passes of a command list, in recording order. -/
def recordedPasses : List Cmd → List RecordedPass
  | [] => []
  | .vkCmdBeginRenderPass renderPass framebuffer _ _ :: rest =>
    { renderPass := renderPass, framebuffer := framebuffer, descriptorSets := boundSets rest } ::
      recordedPasses rest
  | _ :: rest => recordedPasses rest

/-- The create-info of the swapchain framebuffer for the image view `view`. -/
def swapChainFramebufferInfo (renderPassFinal : Handle) (extent : VkExtent2D) (view : Handle) :
    VkFramebufferCreateInfo :=
  { renderPass := renderPassFinal, pAttachments := [view], width := extent.width,
    height := extent.height, layers := 1 }

/-- The calls made by a successful run of the loop `createSwapChainFramebuffers` over `views`
when `first` is the first handle handed out. -/
def swapChainFramebufferCalls (renderPassFinal : Handle) (extent : VkExtent2D) :
    List Handle → Handle → List Call
  | [], _ => []
  | view :: views, first =>
    Call.vkCreateFramebuffer (swapChainFramebufferInfo renderPassFinal extent view) first ::
      swapChainFramebufferCalls renderPassFinal extent views (first + 1)

/-- The vector left by a successful run of the loop `createSwapChainFramebuffers` of `n`
iterations from index `i` on, when `first` is the first handle handed out. -/
def writeHandles : List Handle → Nat → Handle → Nat → List Handle
  | fbs, _, _, 0 => fbs
  | fbs, i, first, n + 1 => writeHandles (fbs.set i first) (i + 1) (first + 1) n

/-! ## The fixed render graph of the specification -/

/-- The five passes of the effect, in their fixed order. -/
inductive Pass
  | GBuffer
  | MotionApply
  | BlurVertical
  | BlurHorizontal
  | Final
  deriving DecidableEq, Repr

def Pass.all : List Pass := [.GBuffer, .MotionApply, .BlurVertical, .BlurHorizontal, .Final]

/-- The images of the graph: the six render targets and the acquired swapchain image. -/
inductive Target
  | sceneColor
  | velocity
  | depth
  | motion
  | blurIntermediate
  | blurFinal
  | swapChainImage
  deriving DecidableEq, Repr

/-- The images a pass samples, as the specification lists them (section 4.4). -/
def Pass.samples : Pass → List Target
  | .GBuffer => []
  | .MotionApply => [.sceneColor, .velocity, .depth]
  | .BlurVertical => [.motion, .velocity, .depth]
  | .BlurHorizontal => [.blurIntermediate, .velocity, .depth]
  | .Final => [.motion, .blurFinal]

/-- The images a pass writes, as the specification lists them (section 4.4). -/
def Pass.writes : Pass → List Target
  | .GBuffer => [.sceneColor, .velocity, .depth]
  | .MotionApply => [.motion]
  | .BlurVertical => [.blurIntermediate]
  | .BlurHorizontal => [.blurFinal]
  | .Final => [.swapChainImage]

/-- The attachment formats of a pass, as the end-to-end scenario of the specification lists
them (section 8). -/
def Pass.formats (ctx : VulkanContext) : Pass → List VkFormat
  | .GBuffer => [VK_FORMAT_R16G16B16A16_SFLOAT, VK_FORMAT_R16G16_SFLOAT, ctx.FindDepthFormat]
  | .MotionApply => [VK_FORMAT_R16G16B16A16_SFLOAT]
  | .BlurVertical => [VK_FORMAT_R16G16B16A16_SFLOAT]
  | .BlurHorizontal => [VK_FORMAT_R16G16B16A16_SFLOAT]
  | .Final => [ctx.GetSwapChainFormat]

namespace MotionBlurExample

/-- The render pass object of a pass. -/
def renderPass (self : MotionBlurExample) : Pass → Handle
  | .GBuffer => self.renderPassGBuffer
  | .MotionApply => self.renderPassMotionApply
  | .BlurVertical => self.renderPassBlurVertical
  | .BlurHorizontal => self.renderPassBlurHorizontal
  | .Final => self.renderPassFinal

/-- The framebuffer a pass renders into when the acquired image is `imageIndex`. -/
def framebuffer (self : MotionBlurExample) (imageIndex : Nat) : Pass → Option Handle
  | .GBuffer => some self.fbGBuffer
  | .MotionApply => some self.fbMotionApply
  | .BlurVertical => some self.fbBlurVertical
  | .BlurHorizontal => some self.fbBlurHorizontal
  | .Final => self.swapChainFramebuffers[imageIndex]?

/-- The per-slot descriptor sets of a pass. -/
def descriptorSets (self : MotionBlurExample) : Pass → List Handle
  | .GBuffer => self.descriptorSetsGBuffer
  | .MotionApply => self.descriptorSetsMotionApply
  | .BlurVertical => self.descriptorSetsBlurVertical
  | .BlurHorizontal => self.descriptorSetsBlurHorizontal
  | .Final => self.descriptorSetsFinal

/-- The six render targets, in declaration order. -/
def renderTargets (self : MotionBlurExample) : List RenderTarget :=
  [self.rtSceneColor, self.rtVelocity, self.rtDepth, self.rtMotion, self.rtBlurIntermediate,
    self.rtBlurFinal]

/-- The four offscreen framebuffers, in declaration order. -/
def offscreenFramebuffers (self : MotionBlurExample) : List Handle :=
  [self.fbGBuffer, self.fbMotionApply, self.fbBlurVertical, self.fbBlurHorizontal]

/-- The image view through which an image of the graph is attached or sampled. -/
def view (self : MotionBlurExample) (ctx : VulkanContext) (imageIndex : Nat) : Target → Option Handle
  | .sceneColor => some self.rtSceneColor.view
  | .velocity => some self.rtVelocity.view
  | .depth => some self.rtDepth.view
  | .motion => some self.rtMotion.view
  | .blurIntermediate => some self.rtBlurIntermediate.view
  | .blurFinal => some self.rtBlurFinal.view
  | .swapChainImage => ctx.swapChainImageViews[imageIndex]?

end MotionBlurExample


/-- The pipeline stage at which a pass writes an image it renders into: early fragment tests
for the depth attachment, colour-attachment output for a colour attachment. -/
def Target.writeStage : Target → VkFlags
  | .depth => VK_PIPELINE_STAGE_EARLY_FRAGMENT_TESTS_BIT
  | _ => VK_PIPELINE_STAGE_COLOR_ATTACHMENT_OUTPUT_BIT

/-- The access with which a pass writes an image it renders into. -/
def Target.writeAccess : Target → VkFlags
  | .depth => VK_ACCESS_DEPTH_STENCIL_ATTACHMENT_WRITE_BIT
  | _ => VK_ACCESS_COLOR_ATTACHMENT_WRITE_BIT

/-- The pipeline stage at which passes sample images: the fragment shader (every sampler binding
of the descriptor set layouts has stage flags `VK_SHADER_STAGE_FRAGMENT_BIT`). -/
def sampleStage : VkFlags := VK_PIPELINE_STAGE_FRAGMENT_SHADER_BIT

/-- The pipeline stages at which some pass of the fixed sequence reads (samples) or writes
(renders into) the image `t`. -/
def Target.accessStages (t : Target) : List VkFlags :=
  (Pass.all.filter fun q => t ∈ q.samples).map (fun _ => sampleStage) ++
    (Pass.all.filter fun q => t ∈ q.writes).map (fun _ => t.writeStage)

/-- The pipeline stages at which some pass of the fixed sequence reads or writes one of the
attachment images of pass `p`. -/
def Pass.attachmentAccessStages (p : Pass) : List VkFlags :=
  p.writes.flatMap Target.accessStages

/-! ## What it means for a state to be laid out for a swapchain -/

/-- On driver `d`, the state `s` is laid out for the swapchain of `ctx`: the six render targets
have the swapchain extent; every pass has a framebuffer, created for the render pass of that pass
with exactly the views of the images the pass writes as attachments, at the swapchain extent;
there is one swapchain framebuffer per swapchain image; and every pass has one descriptor set per
frame slot, in which the sampled images are exactly the views of the images the pass samples;
and the views of the render targets are handles that the driver has handed out. -/
structure Wired (ctx : VulkanContext) (d : Device) (s : MotionBlurExample) : Prop where
  targets : ∀ t ∈ s.renderTargets,
    t.width = ctx.swapChainExtent.width ∧ t.height = ctx.swapChainExtent.height
  framebuffers : ∀ (p : Pass) (imageIndex : Nat),
    (p = .Final → imageIndex < ctx.swapChainImageViews.length) →
    ∃ fb info, s.framebuffer imageIndex p = some fb ∧ d.framebufferInfo fb = some info ∧
      info.renderPass = s.renderPass p ∧
      info.pAttachments.map some = p.writes.map (s.view ctx imageIndex) ∧
      info.width = ctx.swapChainExtent.width ∧ info.height = ctx.swapChainExtent.height
  swapChainCount : s.swapChainFramebuffers.length = ctx.swapChainImageViews.length
  sets : ∀ (p : Pass), (s.descriptorSets p).length = VulkanContext.MAX_FRAMES_IN_FLIGHT ∧
    ∀ set ∈ s.descriptorSets p, ∀ imageIndex,
      (d.sampledViews set).map some = p.samples.map (s.view ctx imageIndex)
  issued : ∀ t ∈ s.renderTargets, (t.view : Nat) ≤ d.next

/-- The states `s` and `s'` hold the same render targets, framebuffers and render passes. -/
def SameGraph (s s' : MotionBlurExample) : Prop :=
  s'.renderTargets = s.renderTargets ∧ s'.offscreenFramebuffers = s.offscreenFramebuffers ∧
    s'.swapChainFramebuffers = s.swapChainFramebuffers ∧ ∀ p, s'.renderPass p = s.renderPass p

/-! ## Swapchain recreation -/

/-- Modelled from the spec: `VulkanContext::RecreateSwapChain` (vulkan_context.cpp) is not part
of the sources. By section 4.1 it tears down the swapchain-dependent resources through the
effect's teardown callback, rebuilds the swapchain and its views - after which the context is
`ctx'` - and then invokes the effect's rebuild callback. -/
def RecreateSwapChain (ctx' : VulkanContext) (d : Device) (effect : MotionBlurExample) :
    Except String (Device × MotionBlurExample) :=
  let (d, effect) := effect.OnSwapChainCleanup d
  effect.OnSwapChainRecreated ctx' d

/-- A sequence of swapchain recreations, one for each context of the list; the result carries
the context of the most recent one (`ctx` when there was none). -/
def recreations :
    List VulkanContext → VulkanContext → Device → MotionBlurExample →
      Except String (VulkanContext × Device × MotionBlurExample)
  | [], ctx, d, effect => .ok (ctx, d, effect)
  | ctx' :: rest, _, d, effect => do
    let (d, effect) ← RecreateSwapChain ctx' d effect
    recreations rest ctx' d effect

/-- `Initialize` under the context `ctx`, followed by one swapchain recreation for each context
of `resizes`. -/
def startThenResize (self : MotionBlurExample) (fs : FileSystem) (ctx : VulkanContext)
    (resizes : List VulkanContext) (d : Device) :
    Except String (VulkanContext × Device × MotionBlurExample) := do
  let (d, self) ← self.Initialize fs ctx d
  recreations resizes ctx d self

/-! ## The frame loop -/

/-- Modelled from the spec: `VulkanContext::DrawFrame` (vulkan_context.cpp) is not part of the
sources. By section 4.2 a frame iteration works in the frame slot `currentFrame`, has the pass
sequencer record all passes into the slot's command buffer for the acquired image, submits and
presents; by section 3 the slots are cycled round-robin, so the next iteration works in the next
of the `MAX_FRAMES_IN_FLIGHT` slots. -/
def VulkanContext.DrawFrame (ctx : VulkanContext) (effect : MotionBlurExample) (imageIndex : Nat) :
    VulkanContext × List Cmd :=
  let cmd := effect.RecordCommands ctx [] imageIndex
  ({ ctx with currentFrame := (ctx.currentFrame + 1) % VulkanContext.MAX_FRAMES_IN_FLIGHT }, cmd)

/-- Modelled from the spec: the frame loop of `VulkanContext::Run` (vulkan_context.cpp, not part
of the sources), for the frames given by their delta time and acquired image index: each
iteration updates the effect and draws the frame. The result lists, frame by frame, the slot that
`GetCurrentFrame` reports while the frame is updated and recorded, and the commands recorded. -/
def VulkanContext.Run :
    List (FloatVal × Nat) → VulkanContext → Device → MotionBlurExample → List (Nat × List Cmd)
  | [], _, _, _ => []
  | (deltaTime, imageIndex) :: rest, ctx, d, effect =>
    (ctx.GetCurrentFrame, (ctx.DrawFrame (effect.Update ctx d deltaTime).2 imageIndex).2) ::
      VulkanContext.Run rest (ctx.DrawFrame (effect.Update ctx d deltaTime).2 imageIndex).1
        (effect.Update ctx d deltaTime).1 (effect.Update ctx d deltaTime).2

/-! ## The shape of a recorded pass -/

namespace MotionBlurExample

/-- The pipeline of a pass. -/
def pipeline (self : MotionBlurExample) : Pass → Handle
  | .GBuffer => self.pipelineGBuffer
  | .MotionApply => self.pipelineMotionApply
  | .BlurVertical => self.pipelineBlurVertical
  | .BlurHorizontal => self.pipelineBlurHorizontal
  | .Final => self.pipelineFinal

/-- The pipeline layout with which a pass binds its descriptor set (the two blur passes share
one). -/
def pipelineLayout (self : MotionBlurExample) : Pass → Handle
  | .GBuffer => self.pipelineLayoutGBuffer
  | .MotionApply => self.pipelineLayoutMotionApply
  | .BlurVertical => self.pipelineLayoutBlur
  | .BlurHorizontal => self.pipelineLayoutBlur
  | .Final => self.pipelineLayoutFinal

end MotionBlurExample

/-- The clear values a pass begins with: colour (0, 0, 0, 1), and for the G-Buffer pass also
velocity (0, 0, 0, 0) and depth 1 with stencil 0. -/
def Pass.clearValues : Pass → List VkClearValue
  | .GBuffer => [{ float32 := [0, 0, 0, 1] }, { float32 := [0, 0, 0, 0] }, { float32 := [1, 0] }]
  | _ => [{ float32 := [0, 0, 0, 1] }]

/-- The commands of one pass as section 4.4 of the specification describes a pass: begin the
render pass with clear values over the whole swapchain extent, bind the pipeline, bind the vertex
buffer (the triangle for the G-Buffer pass; vertex and index buffer of the full-screen quad for
the others), bind the descriptor set of the current frame slot, draw, end the render pass. -/
def passCommands (self : MotionBlurExample) (ctx : VulkanContext) (imageIndex : Nat) (p : Pass) :
    List Cmd :=
  [ Cmd.vkCmdBeginRenderPass (self.renderPass p) (self.framebuffer imageIndex p)
      { offset := { x := 0, y := 0 }, extent := ctx.GetSwapChainExtent } p.clearValues,
    Cmd.vkCmdBindPipeline .VK_PIPELINE_BIND_POINT_GRAPHICS (self.pipeline p) ] ++
  (match p with
    | .GBuffer => [Cmd.vkCmdBindVertexBuffers 0 [self.triangleVertexBuffer] [0]]
    | _ =>
      [ Cmd.vkCmdBindVertexBuffers 0 [self.fullscreenQuad.vertexBuffer] [0],
        Cmd.vkCmdBindIndexBuffer self.fullscreenQuad.indexBuffer 0 .VK_INDEX_TYPE_UINT16 ]) ++
  [ Cmd.vkCmdBindDescriptorSets .VK_PIPELINE_BIND_POINT_GRAPHICS (self.pipelineLayout p) 0
      [(self.descriptorSets p)[ctx.GetCurrentFrame]?],
    (match p with
      | .GBuffer => Cmd.vkCmdDraw 3 1 0 0
      | _ => Cmd.vkCmdDrawIndexed 6 1 0 0 0),
    Cmd.vkCmdEndRenderPass ]

/-- The static viewport that the pipelines are created with: the floats `0.0f`, `0.0f`,
`static_cast<float>(extent.width)`, `static_cast<float>(extent.height)` and the depth range
`0.0f` to `1.0f`. -/
def fullViewport (extent : VkExtent2D) : VkViewport :=
  { x := .lit 0
    y := .lit 0
    width := .ofUInt extent.width
    height := .ofUInt extent.height
    minDepth := .lit 0
    maxDepth := .lit 1 }

/-- The rectangle at offset (0, 0) that covers `extent`. -/
def fullRect (extent : VkExtent2D) : VkRect2D :=
  { offset := { x := 0, y := 0 }, extent := extent }

/-- The descriptor set layout with which the sets of a pass are allocated (the three
post-process passes share one). -/
def MotionBlurExample.descriptorSetLayout (self : MotionBlurExample) : Pass → Handle
  | .GBuffer => self.descriptorSetLayoutGBuffer
  | .MotionApply => self.descriptorSetLayoutPostProcess
  | .BlurVertical => self.descriptorSetLayoutPostProcess
  | .BlurHorizontal => self.descriptorSetLayoutPostProcess
  | .Final => self.descriptorSetLayoutFinal

/-- The bindings of the descriptor set layout of a pass. -/
def Pass.layoutBindings : Pass → List VkDescriptorSetLayoutBinding
  | .GBuffer => MotionBlurExample.gBufferLayoutBindings
  | .Final => MotionBlurExample.finalLayoutBindings
  | _ => MotionBlurExample.postProcessLayoutBindings

/-- The kinds of the calls that `Initialize` makes after `CreateDescriptorSetLayouts` has
returned. -/
def kindsAfterSetLayouts : List CallKind :=
  [.vkCreatePipelineLayout, .CreateShaderModule, .vkCreateGraphicsPipelines, .vkDestroy,
    .vkCreateFramebuffer, .CreateBuffer, .vkMapMemory, .memcpy, .vkUnmapMemory, .CopyBuffer,
    .vkCreateDescriptorPool, .vkAllocateDescriptorSets, .vkUpdateDescriptorSets]

/-- The kinds of the calls that `Initialize` makes after `CreatePipelineLayouts` has returned. -/
def kindsAfterPipelineLayouts : List CallKind :=
  [.CreateShaderModule, .vkCreateGraphicsPipelines, .vkDestroy,
    .vkCreateFramebuffer, .CreateBuffer, .vkMapMemory, .memcpy, .vkUnmapMemory, .CopyBuffer,
    .vkCreateDescriptorPool, .vkAllocateDescriptorSets, .vkUpdateDescriptorSets]

/-- The kinds of the calls that `Initialize` makes after `CreatePipelines` has returned. -/
def kindsAfterPipelines : List CallKind :=
  [.vkDestroy, .vkCreateFramebuffer, .CreateBuffer, .vkMapMemory, .memcpy, .vkUnmapMemory,
    .CopyBuffer, .vkCreateDescriptorPool, .vkAllocateDescriptorSets, .vkUpdateDescriptorSets]

/-- The index triples that an indexed draw with the topology `TRIANGLE_LIST` assembles from
`indexCount` indices starting at `firstIndex`: consecutive groups of three. -/
def assembleTriangles (indices : List Nat) (firstIndex indexCount : Nat) : List (Nat × Nat × Nat) :=
  (List.range (indexCount / 3)).filterMap fun t =>
    match indices[firstIndex + 3 * t]?, indices[firstIndex + 3 * t + 1]?,
        indices[firstIndex + 3 * t + 2]? with
    | some a, some b, some c => some (a, b, c)
    | _, _, _ => none

/-- The edge function of the directed edge from `a` to `b` at the point `p`: positive on the
left of the edge, negative on the right, zero on its line. -/
def edgeFunction {K : Type} [LinearOrderedField K] (a b p : K × K) : K :=
  (b.1 - a.1) * (p.2 - a.2) - (b.2 - a.2) * (p.1 - a.1)

/-- The point `p` lies in the closed triangle `(a, b, c)`: it is on the same side of the three
edges, or on them. -/
def inTriangle {K : Type} [LinearOrderedField K] (a b c p : K × K) : Prop :=
  (0 ≤ edgeFunction a b p ∧ 0 ≤ edgeFunction b c p ∧ 0 ≤ edgeFunction c a p) ∨
    (edgeFunction a b p ≤ 0 ∧ edgeFunction b c p ≤ 0 ∧ edgeFunction c a p ≤ 0)

instance inTriangle.decidable {K : Type} [LinearOrderedField K] (a b c p : K × K) :
    Decidable (inTriangle a b c p) := by
  unfold inTriangle
  infer_instance

/-- A point with rational coordinates, seen in the ordered field `K`. -/
def castPoint (K : Type) [LinearOrderedField K] (v : ℚ × ℚ) : K × K := ((v.1 : K), (v.2 : K))

/-- The six per-slot uniform-buffer vectors: buffers, memory and mapped pointers of the MVP
block and of the post-process block. -/
def MotionBlurExample.uniformHandles (self : MotionBlurExample) : List (List Handle) :=
  [self.mvpUniformBuffers, self.mvpUniformBuffersMemory, self.mvpUniformBuffersMapped,
    self.postProcessUniformBuffers, self.postProcessUniformBuffersMemory,
    self.postProcessUniformBuffersMapped]

/-- The part of the state that does not belong to a swapchain generation: everything but the
render targets, the framebuffers and the descriptor sets. -/
def MotionBlurExample.persistent (self : MotionBlurExample) : MotionBlurExample :=
  { self with
    rtSceneColor := {}
    rtVelocity := {}
    rtDepth := {}
    rtMotion := {}
    rtBlurIntermediate := {}
    rtBlurFinal := {}
    fbGBuffer := VK_NULL_HANDLE
    fbMotionApply := VK_NULL_HANDLE
    fbBlurVertical := VK_NULL_HANDLE
    fbBlurHorizontal := VK_NULL_HANDLE
    swapChainFramebuffers := []
    descriptorSetsGBuffer := []
    descriptorSetsMotionApply := []
    descriptorSetsBlurVertical := []
    descriptorSetsBlurHorizontal := []
    descriptorSetsFinal := [] }

/-- The handles of a swapchain generation: the state `s` holds the render targets whose images,
memory and views are the eighteen handles after `a`, the `m` swapchain framebuffers after `b`
and the four offscreen framebuffers after those. -/
structure Generation (s : MotionBlurExample) (a b m : Nat) : Prop where
  targets : s.renderTargets.map (fun t => (t.image, t.memory, t.view)) =
    [ (a + 1, a + 2, a + 3), (a + 4, a + 5, a + 6), (a + 7, a + 8, a + 9),
      (a + 10, a + 11, a + 12), (a + 13, a + 14, a + 15), (a + 16, a + 17, a + 18) ]
  swapChain : s.swapChainFramebuffers = List.range' (b + 1) m
  offscreen : s.offscreenFramebuffers = [b + m + 1, b + m + 2, b + m + 3, b + m + 4]

/-- The layouts of the ten descriptor sets of a state, in allocation order: two sets (one per
frame slot) for each pass. -/
def MotionBlurExample.setLayouts (self : MotionBlurExample) : List Handle :=
  Pass.all.flatMap fun p => [self.descriptorSetLayout p, self.descriptorSetLayout p]

/-- On driver `d`, the descriptor pool of state `s` is as `CreateDescriptorPool` and
`CreateDescriptorSets` leave it: created with `descriptorPoolInfo`, the three set layouts have
their bindings, and the live sets are ten, allocated with the layouts of the five passes. -/
structure PoolFilled (d : Device) (s : MotionBlurExample) : Prop where
  info : d.poolInfo s.descriptorPool = some MotionBlurExample.descriptorPoolInfo
  bindings : ∀ p, d.setLayoutBindings (s.descriptorSetLayout p) = some p.layoutBindings
  live : (d.liveSets s.descriptorPool).map Prod.snd = s.setLayouts

/-- The memory of the buffers that `Cleanup` frees: the uniform buffers of both blocks, the
triangle vertex buffer, and the index and vertex buffers of the full-screen quad. -/
def MotionBlurExample.bufferMemories (self : MotionBlurExample) : List Handle :=
  self.mvpUniformBuffersMemory ++ self.postProcessUniformBuffersMemory ++
    [self.triangleVertexBufferMemory, self.fullscreenQuad.indexBufferMemory,
      self.fullscreenQuad.vertexBufferMemory]

/-- The handles of the swapchain generation that a state holds: image, memory and view of the
six render targets, the four offscreen framebuffers and the swapchain framebuffers. -/
def MotionBlurExample.generationHandles (self : MotionBlurExample) : List Handle :=
  (self.renderTargets.flatMap fun t => [t.image, t.memory, t.view]) ++
    self.offscreenFramebuffers ++ self.swapChainFramebuffers

/-- After the calls that led from driver state `d` to driver state `r`, the state `s` holds the
generation `a`, `b`, `m`, all handles of which have been handed out; the six uniform-buffer
vectors have `MAX_FRAMES_IN_FLIGHT` elements and the quad is initialised; and the creations and
destructions since `d` are balanced up to the handles of that generation, with no creation of a
handle that is the memory of a buffer. -/
structure Settled (d r : Device) (s : MotionBlurExample) (a b m : Nat) : Prop where
  generation : Generation s a b m
  order : a + 18 ≤ b ∧ b + m + 4 ≤ r.next
  uniforms : ∀ l ∈ s.uniformHandles, l.length = VulkanContext.MAX_FRAMES_IN_FLIGHT
  quad : s.fullscreenQuad.initialized = true
  events : ∃ ev, r.Emits d ev ∧
    Tracked ev r.next (fun x => (a < x ∧ x ≤ a + 18) ∨ (b < x ∧ x ≤ b + m + 4)) ∧
    ∀ x ∈ s.bufferMemories, (x : Nat) ≤ r.next ∧ ObjEvent.create x ∉ ev

/-! ## Sample inputs -/

/-- A context with a 1280 x 720 swapchain of three images. -/
def demoContext : VulkanContext :=
  { swapChainImageFormat := 50
    swapChainExtent := { width := 1280, height := 720 }
    swapChainImageViews := [1001, 1002, 1003]
    currentFrame := 0
    depthFormat := 126 }

/-- The context `demoContext` after a resize to 640 x 360. -/
def resizedContext : VulkanContext :=
  { demoContext with
    swapChainExtent := { width := 640, height := 360 }
    swapChainImageViews := [2001, 2002, 2003]
    currentFrame := 1 }

/-- A driver that has handed out nothing yet and refuses no request. -/
def demoDevice : Device := { next := 0, failing := [], log := [] }

/-- A file system holding the ten shader binaries, four bytes each, with an allocator that
grants buffers of up to 2^20 bytes. -/
def demoFiles : FileSystem :=
  { files :=
      [ "shaders/gbuffer.vert.spv", "shaders/gbuffer.frag.spv",
        "shaders/motion_apply.vert.spv", "shaders/motion_apply.frag.spv",
        "shaders/blur_vertical.vert.spv", "shaders/blur_vertical.frag.spv",
        "shaders/blur_horizontal.vert.spv", "shaders/blur_horizontal.frag.spv",
        "shaders/final_apply.vert.spv", "shaders/final_apply.frag.spv" ].map fun name =>
        (name, { fileSize := 4, delivered := [3, 2, 35, 7] })
    maxBuffer := 1048576 }

/-- The sample file system without the fragment shader of the final pass. -/
def filesWithoutFinalFragment : FileSystem :=
  { demoFiles with files := demoFiles.files.take 9 }

/-! ## Auxiliary lemmas -/

theorem check_request_bind {β : Type} (d : Device) (n : Nat) (call : Handle → Call) (msg : String)
    (f : Handle × Device → Except String β) (b : β) :
    (check (d.request n call) msg >>= f) = .ok b ↔
      d.next ∉ d.failing ∧
      f (d.next + 1, { next := d.next + n, failing := d.failing, log := d.log ++ [call (d.next + 1)] })
        = .ok b := by
  unfold check Device.request
  split_ifs with h <;> simp [h, bind, Except.bind]

theorem check_request_ok (d : Device) (n : Nat) (call : Handle → Call) (msg : String)
    (r : Handle × Device) :
    check (d.request n call) msg = .ok r ↔
      d.next ∉ d.failing ∧
      (d.next + 1,
        ({ next := d.next + n, failing := d.failing, log := d.log ++ [call (d.next + 1)] } : Device))
        = r := by
  unfold check Device.request
  split_ifs with h <;> simp [h]

theorem pure_ok {ε α : Type} (a b : α) : (pure a : Except ε α) = .ok b ↔ a = b := by
  simp [pure, Except.pure]

theorem renderTarget_cleanup_eq (rt : RenderTarget) (d : Device) :
    rt.Cleanup d =
      ({ d with log := d.log ++
            (if rt.view ≠ VK_NULL_HANDLE then [Call.vkDestroyImageView rt.view] else []) ++
            (if rt.image ≠ VK_NULL_HANDLE then [Call.vkDestroyImage rt.image] else []) ++
            (if rt.memory ≠ VK_NULL_HANDLE then [Call.vkFreeMemory rt.memory] else []) },
       { rt with view := VK_NULL_HANDLE, image := VK_NULL_HANDLE, memory := VK_NULL_HANDLE }) := by
  obtain ⟨image, memory, view, format, currentLayout, width, height⟩ := rt
  unfold RenderTarget.Cleanup
  by_cases h1 : view = VK_NULL_HANDLE <;> by_cases h2 : image = VK_NULL_HANDLE <;>
    by_cases h3 : memory = VK_NULL_HANDLE <;>
    simp [Id.run, h1, h2, h3, vkDestroyImageView, vkDestroyImage, vkFreeMemory, Device.emit]

/-! ## Claims -/

/-- C1: for every example state and every image index, `RecordCommands` appends to the command
buffer a recording whose begin/end skeleton is exactly: begin G-Buffer, end, begin Motion-Apply,
end, begin Blur-Vertical, end, begin Blur-Horizontal, end, begin Final, end. So exactly five
render passes are recorded, in this order (identified by the render pass object begun), and each
is closed before the next one begins. -/
theorem recordCommands_five_passes_in_order (self : MotionBlurExample) (ctx : VulkanContext)
    (cmd : List Cmd) (imageIndex : Nat) :
    self.RecordCommands ctx cmd imageIndex = cmd ++ self.RecordCommands ctx [] imageIndex ∧
    passEvents (self.RecordCommands ctx [] imageIndex) =
      [ .beginPass self.renderPassGBuffer, .endPass,
        .beginPass self.renderPassMotionApply, .endPass,
        .beginPass self.renderPassBlurVertical, .endPass,
        .beginPass self.renderPassBlurHorizontal, .endPass,
        .beginPass self.renderPassFinal, .endPass ] := by
  constructor
  · simp [MotionBlurExample.RecordCommands, Id.run, vkCmdBeginRenderPass, vkCmdBindPipeline,
      vkCmdBindVertexBuffers, vkCmdBindIndexBuffer, vkCmdBindDescriptorSets, vkCmdDraw,
      vkCmdDrawIndexed, vkCmdEndRenderPass, FullscreenQuad.Bind, FullscreenQuad.Draw]
  · simp [MotionBlurExample.RecordCommands, Id.run, vkCmdBeginRenderPass, vkCmdBindPipeline,
      vkCmdBindVertexBuffers, vkCmdBindIndexBuffer, vkCmdBindDescriptorSets, vkCmdDraw,
      vkCmdDrawIndexed, vkCmdEndRenderPass, FullscreenQuad.Bind, FullscreenQuad.Draw, passEvents]

theorem foldl_vkDestroyFramebuffer (fbs : List Handle) (d : Device) :
    fbs.foldl vkDestroyFramebuffer d =
      { d with log := d.log ++ fbs.map Call.vkDestroyFramebuffer } := by
  induction fbs generalizing d with
  | nil => simp
  | cons fb fbs ih => simp [ih, vkDestroyFramebuffer, Device.emit]

theorem cleanupFramebuffers_eq (self : MotionBlurExample) (d : Device) :
    self.CleanupFramebuffers d =
      ({ d with log := (d.log ++ self.swapChainFramebuffers.map Call.vkDestroyFramebuffer ++
            (self.offscreenFramebuffers.filter (fun fb => fb ≠ VK_NULL_HANDLE)).map
              Call.vkDestroyFramebuffer) },
       { self with
          swapChainFramebuffers := []
          fbGBuffer := VK_NULL_HANDLE
          fbMotionApply := VK_NULL_HANDLE
          fbBlurVertical := VK_NULL_HANDLE
          fbBlurHorizontal := VK_NULL_HANDLE }) := by
  unfold MotionBlurExample.CleanupFramebuffers MotionBlurExample.offscreenFramebuffers
  by_cases h1 : self.fbGBuffer = VK_NULL_HANDLE <;> by_cases h2 : self.fbMotionApply = VK_NULL_HANDLE <;>
    by_cases h3 : self.fbBlurVertical = VK_NULL_HANDLE <;>
    by_cases h4 : self.fbBlurHorizontal = VK_NULL_HANDLE <;>
    simp [Id.run, h1, h2, h3, h4, foldl_vkDestroyFramebuffer, vkDestroyFramebuffer, Device.emit,
      List.filter_cons]

/-- C7: `RenderTarget::Cleanup` on a target whose three handles are non-null issues exactly
destroy-view, destroy-image, free-memory, in that order, and leaves the three handles null; on a
target whose three handles are null it issues no call and changes nothing; a second consecutive
`Cleanup`, and a second consecutive `CleanupRenderTargets`, leave the driver (its log included)
and the targets as the first call left them. -/
theorem renderTarget_cleanup_idempotent (rt : RenderTarget) (self : MotionBlurExample) (d : Device) :
    (rt.view ≠ VK_NULL_HANDLE → rt.image ≠ VK_NULL_HANDLE → rt.memory ≠ VK_NULL_HANDLE →
      rt.Cleanup d =
        ({ d with log := d.log ++
            [Call.vkDestroyImageView rt.view, Call.vkDestroyImage rt.image, Call.vkFreeMemory rt.memory] },
         { rt with view := VK_NULL_HANDLE, image := VK_NULL_HANDLE, memory := VK_NULL_HANDLE })) ∧
    (rt.view = VK_NULL_HANDLE → rt.image = VK_NULL_HANDLE → rt.memory = VK_NULL_HANDLE →
      rt.Cleanup d = (d, rt)) ∧
    (rt.Cleanup d).2.Cleanup (rt.Cleanup d).1 = rt.Cleanup d ∧
    (self.CleanupRenderTargets d).2.CleanupRenderTargets (self.CleanupRenderTargets d).1 =
      self.CleanupRenderTargets d := by
  refine ⟨?_, ?_, ?_, ?_⟩
  · intro h1 h2 h3
    simp [renderTarget_cleanup_eq, h1, h2, h3]
  · intro h1 h2 h3
    obtain ⟨image, memory, view, format, currentLayout, width, height⟩ := rt
    simp only at h1 h2 h3
    subst h1 h2 h3
    simp [renderTarget_cleanup_eq]
  · simp [renderTarget_cleanup_eq]
  · simp [MotionBlurExample.CleanupRenderTargets, renderTarget_cleanup_eq]

/-- C7, at a target with image 1, memory 2 and view 3. -/
theorem renderTarget_cleanup_idempotent_witness :
    RenderTarget.Cleanup { image := 1, memory := 2, view := 3 } { next := 3, failing := [], log := [] } =
      ({ next := 3, failing := [],
         log := [Call.vkDestroyImageView 3, Call.vkDestroyImage 1, Call.vkFreeMemory 2] },
       { image := 0, memory := 0, view := 0 }) :=
  (renderTarget_cleanup_idempotent { image := 1, memory := 2, view := 3 } {}
    { next := 3, failing := [], log := [] }).1 (by decide) (by decide) (by decide)

/-- C8: for every state, `CleanupFramebuffers` passes every element of `swapChainFramebuffers`
and then each non-null offscreen framebuffer to `vkDestroyFramebuffer` exactly once, makes no
other call, leaves the four handles null and the list empty; a second consecutive call makes no
call and leaves driver and state unchanged. -/
theorem cleanupFramebuffers_idempotent (self : MotionBlurExample) (d : Device) :
    (self.CleanupFramebuffers d).1 =
      { d with log := (d.log ++ self.swapChainFramebuffers.map Call.vkDestroyFramebuffer ++
          (self.offscreenFramebuffers.filter (fun fb => fb ≠ VK_NULL_HANDLE)).map
            Call.vkDestroyFramebuffer) } ∧
    (self.CleanupFramebuffers d).2 =
      { self with
        swapChainFramebuffers := []
        fbGBuffer := VK_NULL_HANDLE
        fbMotionApply := VK_NULL_HANDLE
        fbBlurVertical := VK_NULL_HANDLE
        fbBlurHorizontal := VK_NULL_HANDLE } ∧
    (self.CleanupFramebuffers d).2.CleanupFramebuffers (self.CleanupFramebuffers d).1 =
      self.CleanupFramebuffers d := by
  refine ⟨?_, ?_, ?_⟩
  · rw [cleanupFramebuffers_eq]
  · rw [cleanupFramebuffers_eq]
  · rw [cleanupFramebuffers_eq self d, cleanupFramebuffers_eq]
    simp [MotionBlurExample.offscreenFramebuffers]

theorem CreateImage_bind {β : Type} (ctx : VulkanContext) (d : Device) (w h : Nat) (fmt : VkFormat)
    (t : VkImageTiling) (u p : VkFlags) (f : Handle × Handle × Device → Except String β) (b : β) :
    (ctx.CreateImage d w h fmt t u p >>= f) = .ok b ↔
      d.next ∉ d.failing ∧
      f (d.next + 1, d.next + 2,
          { next := d.next + 2, failing := d.failing,
            log := d.log ++ [Call.CreateImage w h fmt t u p (d.next + 1) (d.next + 2)] }) = .ok b := by
  unfold VulkanContext.CreateImage
  simp only [bind_assoc, check_request_bind, pure_bind, Nat.add_assoc, Nat.reduceAdd]

theorem CreateImageView_bind {β : Type} (ctx : VulkanContext) (d : Device) (image : Handle)
    (fmt : VkFormat) (a : VkFlags) (f : Handle × Device → Except String β) (b : β) :
    (ctx.CreateImageView d image fmt a >>= f) = .ok b ↔
      d.next ∉ d.failing ∧
      f (d.next + 1,
          { next := d.next + 1, failing := d.failing,
            log := d.log ++ [Call.CreateImageView image fmt a (d.next + 1)] }) = .ok b := by
  unfold VulkanContext.CreateImageView
  simp only [check_request_bind]

open MotionBlurExample in
theorem CreateRenderTargets_ok (self : MotionBlurExample) (ctx : VulkanContext) (d : Device)
    (r : Device × MotionBlurExample) (h : self.CreateRenderTargets ctx d = .ok r) :
    r = ({ next := d.next + 18, failing := d.failing,
           log := d.log ++
            [ Call.CreateImage ctx.swapChainExtent.width ctx.swapChainExtent.height
                VK_FORMAT_R16G16B16A16_SFLOAT .VK_IMAGE_TILING_OPTIMAL
                (VK_IMAGE_USAGE_COLOR_ATTACHMENT_BIT ||| VK_IMAGE_USAGE_SAMPLED_BIT)
                VK_MEMORY_PROPERTY_DEVICE_LOCAL_BIT (d.next + 1) (d.next + 2),
              Call.CreateImageView (d.next + 1) VK_FORMAT_R16G16B16A16_SFLOAT VK_IMAGE_ASPECT_COLOR_BIT
                (d.next + 3),
              Call.CreateImage ctx.swapChainExtent.width ctx.swapChainExtent.height
                VK_FORMAT_R16G16_SFLOAT .VK_IMAGE_TILING_OPTIMAL
                (VK_IMAGE_USAGE_COLOR_ATTACHMENT_BIT ||| VK_IMAGE_USAGE_SAMPLED_BIT)
                VK_MEMORY_PROPERTY_DEVICE_LOCAL_BIT (d.next + 4) (d.next + 5),
              Call.CreateImageView (d.next + 4) VK_FORMAT_R16G16_SFLOAT VK_IMAGE_ASPECT_COLOR_BIT
                (d.next + 6),
              Call.CreateImage ctx.swapChainExtent.width ctx.swapChainExtent.height
                ctx.depthFormat .VK_IMAGE_TILING_OPTIMAL
                (VK_IMAGE_USAGE_DEPTH_STENCIL_ATTACHMENT_BIT ||| VK_IMAGE_USAGE_SAMPLED_BIT)
                VK_MEMORY_PROPERTY_DEVICE_LOCAL_BIT (d.next + 7) (d.next + 8),
              Call.CreateImageView (d.next + 7) ctx.depthFormat VK_IMAGE_ASPECT_DEPTH_BIT
                (d.next + 9),
              Call.CreateImage ctx.swapChainExtent.width ctx.swapChainExtent.height
                VK_FORMAT_R16G16B16A16_SFLOAT .VK_IMAGE_TILING_OPTIMAL
                (VK_IMAGE_USAGE_COLOR_ATTACHMENT_BIT ||| VK_IMAGE_USAGE_SAMPLED_BIT)
                VK_MEMORY_PROPERTY_DEVICE_LOCAL_BIT (d.next + 10) (d.next + 11),
              Call.CreateImageView (d.next + 10) VK_FORMAT_R16G16B16A16_SFLOAT VK_IMAGE_ASPECT_COLOR_BIT
                (d.next + 12),
              Call.CreateImage ctx.swapChainExtent.width ctx.swapChainExtent.height
                VK_FORMAT_R16G16B16A16_SFLOAT .VK_IMAGE_TILING_OPTIMAL
                (VK_IMAGE_USAGE_COLOR_ATTACHMENT_BIT ||| VK_IMAGE_USAGE_SAMPLED_BIT)
                VK_MEMORY_PROPERTY_DEVICE_LOCAL_BIT (d.next + 13) (d.next + 14),
              Call.CreateImageView (d.next + 13) VK_FORMAT_R16G16B16A16_SFLOAT VK_IMAGE_ASPECT_COLOR_BIT
                (d.next + 15),
              Call.CreateImage ctx.swapChainExtent.width ctx.swapChainExtent.height
                VK_FORMAT_R16G16B16A16_SFLOAT .VK_IMAGE_TILING_OPTIMAL
                (VK_IMAGE_USAGE_COLOR_ATTACHMENT_BIT ||| VK_IMAGE_USAGE_SAMPLED_BIT)
                VK_MEMORY_PROPERTY_DEVICE_LOCAL_BIT (d.next + 16) (d.next + 17),
              Call.CreateImageView (d.next + 16) VK_FORMAT_R16G16B16A16_SFLOAT VK_IMAGE_ASPECT_COLOR_BIT
                (d.next + 18) ] },
         { self with
            rtSceneColor :=
              { image := d.next + 1, memory := d.next + 2, view := d.next + 3,
                format := VK_FORMAT_R16G16B16A16_SFLOAT, currentLayout := self.rtSceneColor.currentLayout,
                width := ctx.swapChainExtent.width, height := ctx.swapChainExtent.height }
            rtVelocity :=
              { image := d.next + 4, memory := d.next + 5, view := d.next + 6,
                format := VK_FORMAT_R16G16_SFLOAT, currentLayout := self.rtVelocity.currentLayout,
                width := ctx.swapChainExtent.width, height := ctx.swapChainExtent.height }
            rtDepth :=
              { image := d.next + 7, memory := d.next + 8, view := d.next + 9,
                format := ctx.depthFormat, currentLayout := self.rtDepth.currentLayout,
                width := ctx.swapChainExtent.width, height := ctx.swapChainExtent.height }
            rtMotion :=
              { image := d.next + 10, memory := d.next + 11, view := d.next + 12,
                format := VK_FORMAT_R16G16B16A16_SFLOAT, currentLayout := self.rtMotion.currentLayout,
                width := ctx.swapChainExtent.width, height := ctx.swapChainExtent.height }
            rtBlurIntermediate :=
              { image := d.next + 13, memory := d.next + 14, view := d.next + 15,
                format := VK_FORMAT_R16G16B16A16_SFLOAT,
                currentLayout := self.rtBlurIntermediate.currentLayout,
                width := ctx.swapChainExtent.width, height := ctx.swapChainExtent.height }
            rtBlurFinal :=
              { image := d.next + 16, memory := d.next + 17, view := d.next + 18,
                format := VK_FORMAT_R16G16B16A16_SFLOAT, currentLayout := self.rtBlurFinal.currentLayout,
                width := ctx.swapChainExtent.width, height := ctx.swapChainExtent.height } }) := by
  simp only [CreateRenderTargets, bind_assoc, CreateImage_bind, CreateImageView_bind, pure_bind,
    pure_ok] at h
  obtain ⟨-, -, -, -, -, -, -, -, -, -, -, -, rfl⟩ := h
  simp [Nat.add_assoc, VulkanContext.GetSwapChainExtent, VulkanContext.FindDepthFormat]

/-- C4: for every swapchain extent (w, h), a successful `CreateRenderTargets` leaves the six
targets with width w and height h and with formats R16G16B16A16_SFLOAT, R16G16_SFLOAT, the
result of `FindDepthFormat`, and three times R16G16B16A16_SFLOAT; the calls it makes are, per
target and in declaration order, one `CreateImage` of size w x h in the target's format with usage
colour-attachment+sampled (depth-stencil-attachment+sampled for the depth target) and one
`CreateImageView` of that image, whose results are the handles stored in the target. It succeeds
whenever the driver refuses no request. -/
theorem createRenderTargets_extent_format_usage (self : MotionBlurExample) (ctx : VulkanContext)
    (d : Device) (w h : Nat) (hext : ctx.GetSwapChainExtent = { width := w, height := h }) :
    (∀ r, self.CreateRenderTargets ctx d = .ok r →
      r.2.renderTargets.map (fun t => (t.width, t.height, t.format)) =
        [ (w, h, VK_FORMAT_R16G16B16A16_SFLOAT), (w, h, VK_FORMAT_R16G16_SFLOAT),
          (w, h, ctx.FindDepthFormat), (w, h, VK_FORMAT_R16G16B16A16_SFLOAT),
          (w, h, VK_FORMAT_R16G16B16A16_SFLOAT), (w, h, VK_FORMAT_R16G16B16A16_SFLOAT) ] ∧
      r.1.log = d.log ++
        (r.2.renderTargets.zip
          [ (VK_IMAGE_USAGE_COLOR_ATTACHMENT_BIT, VK_IMAGE_ASPECT_COLOR_BIT),
            (VK_IMAGE_USAGE_COLOR_ATTACHMENT_BIT, VK_IMAGE_ASPECT_COLOR_BIT),
            (VK_IMAGE_USAGE_DEPTH_STENCIL_ATTACHMENT_BIT, VK_IMAGE_ASPECT_DEPTH_BIT),
            (VK_IMAGE_USAGE_COLOR_ATTACHMENT_BIT, VK_IMAGE_ASPECT_COLOR_BIT),
            (VK_IMAGE_USAGE_COLOR_ATTACHMENT_BIT, VK_IMAGE_ASPECT_COLOR_BIT),
            (VK_IMAGE_USAGE_COLOR_ATTACHMENT_BIT, VK_IMAGE_ASPECT_COLOR_BIT) ]).flatMap
          (fun x =>
            [ Call.CreateImage w h x.1.format .VK_IMAGE_TILING_OPTIMAL
                (x.2.1 ||| VK_IMAGE_USAGE_SAMPLED_BIT) VK_MEMORY_PROPERTY_DEVICE_LOCAL_BIT
                x.1.image x.1.memory,
              Call.CreateImageView x.1.image x.1.format x.2.2 x.1.view ])) ∧
    (d.failing = [] → ∃ r, self.CreateRenderTargets ctx d = .ok r) := by
  have hw : ctx.swapChainExtent.width = w := by
    simpa [VulkanContext.GetSwapChainExtent] using congrArg VkExtent2D.width hext
  have hh : ctx.swapChainExtent.height = h := by
    simpa [VulkanContext.GetSwapChainExtent] using congrArg VkExtent2D.height hext
  constructor
  · intro r hr
    rw [CreateRenderTargets_ok self ctx d r hr]
    simp [MotionBlurExample.renderTargets, VulkanContext.FindDepthFormat, hw, hh]
  · intro hf
    simp only [MotionBlurExample.CreateRenderTargets, bind_assoc, CreateImage_bind,
      CreateImageView_bind, pure_bind, pure_ok, hf]
    simp

/-- C4, at the extent 1280 x 720 on a driver that refuses nothing. -/
theorem createRenderTargets_extent_format_usage_witness :
    ∃ r, MotionBlurExample.CreateRenderTargets {} demoContext demoDevice = .ok r ∧
      r.2.renderTargets.map (fun t => (t.width, t.height, t.format)) =
        [ (1280, 720, VK_FORMAT_R16G16B16A16_SFLOAT), (1280, 720, VK_FORMAT_R16G16_SFLOAT),
          (1280, 720, 126), (1280, 720, VK_FORMAT_R16G16B16A16_SFLOAT),
          (1280, 720, VK_FORMAT_R16G16B16A16_SFLOAT), (1280, 720, VK_FORMAT_R16G16B16A16_SFLOAT) ] := by
  obtain ⟨r, hr⟩ :=
    (createRenderTargets_extent_format_usage {} demoContext demoDevice 1280 720 rfl).2 rfl
  exact ⟨r, hr,
    ((createRenderTargets_extent_format_usage {} demoContext demoDevice 1280 720 rfl).1 r hr).1⟩

open MotionBlurExample in
theorem CreateRenderPasses_ok (self : MotionBlurExample) (ctx : VulkanContext) (d : Device)
    (r : Device × MotionBlurExample) (h : self.CreateRenderPasses ctx d = .ok r) :
    r = ({ next := d.next + 5, failing := d.failing,
           log := d.log ++
            [ Call.vkCreateRenderPass (gBufferRenderPassInfo self) (d.next + 1),
              Call.vkCreateRenderPass (postProcessRenderPassInfo self.rtMotion.format) (d.next + 2),
              Call.vkCreateRenderPass (postProcessRenderPassInfo self.rtBlurIntermediate.format) (d.next + 3),
              Call.vkCreateRenderPass (postProcessRenderPassInfo self.rtBlurFinal.format) (d.next + 4),
              Call.vkCreateRenderPass (finalRenderPassInfo ctx) (d.next + 5) ] },
         { self with
            renderPassGBuffer := d.next + 1
            renderPassMotionApply := d.next + 2
            renderPassBlurVertical := d.next + 3
            renderPassBlurHorizontal := d.next + 4
            renderPassFinal := d.next + 5 }) := by
  simp only [CreateRenderPasses, createPostProcessRenderPass, vkCreateRenderPass, bind_assoc,
    check_request_bind, check_request_ok, pure_bind, pure_ok] at h
  obtain ⟨-, -, -, -, -, rfl⟩ := h
  simp [Nat.add_assoc, gBufferRenderPassInfo]

/-- C9: in the five render passes that a successful `CreateRenderPasses` creates (3 attachments
for G-Buffer, 1 for each other pass), every attachment description has initial layout UNDEFINED;
every attachment of the G-Buffer, Motion-Apply, Blur-Vertical and Blur-Horizontal render passes has
final layout SHADER_READ_ONLY_OPTIMAL, and the attachment of the Final render pass has final layout
PRESENT_SRC_KHR. -/
theorem renderPass_attachment_layouts (self : MotionBlurExample) (ctx : VulkanContext) (d : Device)
    (r : Device × MotionBlurExample) (h : self.CreateRenderPasses ctx d = .ok r) (p : Pass) :
    ∃ info, r.1.renderPassInfo (r.2.renderPass p) = some info ∧
      info.pAttachments.length = p.writes.length ∧
      (∀ a ∈ info.pAttachments, a.initialLayout = .VK_IMAGE_LAYOUT_UNDEFINED) ∧
      (p ≠ .Final →
        ∀ a ∈ info.pAttachments, a.finalLayout = .VK_IMAGE_LAYOUT_SHADER_READ_ONLY_OPTIMAL) ∧
      (p = .Final →
        ∀ a ∈ info.pAttachments, a.finalLayout = .VK_IMAGE_LAYOUT_PRESENT_SRC_KHR) := by
  rw [CreateRenderPasses_ok self ctx d r h]
  cases p <;>
    simp [Device.renderPassInfo, renderPassStep, MotionBlurExample.renderPass, MotionBlurExample.gBufferRenderPassInfo,
      MotionBlurExample.postProcessRenderPassInfo, MotionBlurExample.finalRenderPassInfo, Pass.writes]

/-- C9, at the Final pass of a run on a driver that refuses nothing. -/
theorem renderPass_attachment_layouts_witness :
    ∃ r, MotionBlurExample.CreateRenderPasses {} demoContext demoDevice = .ok r ∧
      ∃ info, r.1.renderPassInfo (r.2.renderPass .Final) = some info ∧
        ∀ a ∈ info.pAttachments, a.finalLayout = .VK_IMAGE_LAYOUT_PRESENT_SRC_KHR := by
  have hok : (MotionBlurExample.CreateRenderPasses {} demoContext demoDevice).isOk = true := rfl
  cases h : MotionBlurExample.CreateRenderPasses {} demoContext demoDevice with
  | error e => rw [h] at hok; cases hok
  | ok r =>
    obtain ⟨info, h1, -, -, -, h2⟩ := renderPass_attachment_layouts _ _ _ _ h .Final
    exact ⟨r, rfl, info, h1, h2 rfl⟩

/-- C10 as stated fails: in the G-Buffer render pass created on the sample inputs, the only
subpass dependency has a source stage mask without the fragment-shader stage, although the
fragment-shader stage is one at which a pass of the sequence (Motion-Apply, sampling scene-color)
reads a G-Buffer attachment. -/
theorem gBuffer_dependency_src_misses_sampling :
    ∃ r, MotionBlurExample.CreateRenderPasses {} demoContext demoDevice = .ok r ∧
      ∃ info dep, r.1.renderPassInfo (r.2.renderPass .GBuffer) = some info ∧
        info.pDependencies = [dep] ∧
        VK_PIPELINE_STAGE_FRAGMENT_SHADER_BIT ∈ Pass.GBuffer.attachmentAccessStages ∧
        hasBits dep.srcStageMask VK_PIPELINE_STAGE_FRAGMENT_SHADER_BIT = false := by
  have hok : (MotionBlurExample.CreateRenderPasses {} demoContext demoDevice).isOk = true := rfl
  cases h : MotionBlurExample.CreateRenderPasses {} demoContext demoDevice with
  | error e => rw [h] at hok; cases hok
  | ok r =>
    refine ⟨r, rfl, ?_⟩
    rw [CreateRenderPasses_ok _ _ _ _ h]
    simp [Device.renderPassInfo, renderPassStep, MotionBlurExample.renderPass,
      MotionBlurExample.gBufferRenderPassInfo]
    decide

/-- C10, amended: each of the five render passes that a successful `CreateRenderPasses` creates
declares exactly one subpass dependency, from `VK_SUBPASS_EXTERNAL` to subpass 0; its destination
stage and access masks contain every stage and access with which the pass writes its own
attachments; its source stage mask is colour-attachment-output + early-fragment-tests for the
G-Buffer pass, which contains every stage at which a pass writes one of the G-Buffer attachments,
and is fragment-shader for the other four passes, which contains the stage at which passes
sample images. -/
theorem renderPass_dependency (self : MotionBlurExample) (ctx : VulkanContext) (d : Device)
    (r : Device × MotionBlurExample) (h : self.CreateRenderPasses ctx d = .ok r) (p : Pass) :
    ∃ info dep, r.1.renderPassInfo (r.2.renderPass p) = some info ∧
      info.pDependencies = [dep] ∧
      dep.srcSubpass = VK_SUBPASS_EXTERNAL ∧ dep.dstSubpass = 0 ∧
      (∀ t ∈ p.writes, hasBits dep.dstStageMask t.writeStage = true ∧
        hasBits dep.dstAccessMask t.writeAccess = true) ∧
      (p = .GBuffer →
        dep.srcStageMask =
          VK_PIPELINE_STAGE_COLOR_ATTACHMENT_OUTPUT_BIT ||| VK_PIPELINE_STAGE_EARLY_FRAGMENT_TESTS_BIT ∧
        ∀ t ∈ p.writes, hasBits dep.srcStageMask t.writeStage = true) ∧
      (p ≠ .GBuffer →
        dep.srcStageMask = VK_PIPELINE_STAGE_FRAGMENT_SHADER_BIT ∧
        hasBits dep.srcStageMask sampleStage = true) := by
  rw [CreateRenderPasses_ok self ctx d r h]
  cases p <;>
    simp [Device.renderPassInfo, renderPassStep, MotionBlurExample.renderPass, MotionBlurExample.gBufferRenderPassInfo,
      MotionBlurExample.postProcessRenderPassInfo, MotionBlurExample.finalRenderPassInfo, Pass.writes,
      sampleStage, Target.writeStage, Target.writeAccess] <;> decide

/-- C10 amended, at the G-Buffer pass of a run on a driver that refuses nothing. -/
theorem renderPass_dependency_witness :
    ∃ r, MotionBlurExample.CreateRenderPasses {} demoContext demoDevice = .ok r ∧
      ∃ info dep, r.1.renderPassInfo (r.2.renderPass .GBuffer) = some info ∧
        info.pDependencies = [dep] ∧
        dep.srcStageMask =
          VK_PIPELINE_STAGE_COLOR_ATTACHMENT_OUTPUT_BIT ||| VK_PIPELINE_STAGE_EARLY_FRAGMENT_TESTS_BIT := by
  have hok : (MotionBlurExample.CreateRenderPasses {} demoContext demoDevice).isOk = true := rfl
  cases h : MotionBlurExample.CreateRenderPasses {} demoContext demoDevice with
  | error e => rw [h] at hok; cases hok
  | ok r =>
    obtain ⟨info, dep, h1, h2, -, -, -, h3, -⟩ := renderPass_dependency _ _ _ _ h .GBuffer
    exact ⟨r, rfl, info, dep, h1, h2, (h3 rfl).1⟩

theorem elemAt_bind {α β : Type} (xs : List α) (i : Nat) (f : α → Except String β) (b : β) :
    (elemAt xs i >>= f) = .ok b ↔ ∃ x, xs[i]? = some x ∧ f x = .ok b := by
  unfold elemAt
  cases xs[i]? <;> simp [bind, Except.bind]

theorem range_frames : List.range VulkanContext.MAX_FRAMES_IN_FLIGHT = [0, 1] := rfl

theorem max_frames : VulkanContext.MAX_FRAMES_IN_FLIGHT = 2 := rfl

theorem allocate_bind {β : Type} (d : Device) (pool : Handle) (layouts : List Handle) (msg : String)
    (f : List Handle × Device → Except String β) (b : β) :
    (check (vkAllocateDescriptorSets d pool layouts) msg >>= f) = .ok b ↔
      d.next ∉ d.failing ∧
      f ((List.range layouts.length).map (fun i => d.next + 1 + i),
          { next := d.next + layouts.length, failing := d.failing,
            log := d.log ++ [Call.vkAllocateDescriptorSets pool layouts
              ((List.range layouts.length).map fun i => d.next + 1 + i)] }) = .ok b := by
  unfold vkAllocateDescriptorSets check Device.request
  split_ifs with h <;> simp [h, bind, Except.bind]

set_option maxHeartbeats 1000000 in
open MotionBlurExample in
theorem CreateDescriptorSets_ok (self : MotionBlurExample) (d : Device)
    (r : Device × MotionBlurExample) (h : self.CreateDescriptorSets d = .ok r) :
    r.2 = { self with
        descriptorSetsGBuffer := [d.next + 1, d.next + 2]
        descriptorSetsMotionApply := [d.next + 3, d.next + 4]
        descriptorSetsBlurVertical := [d.next + 5, d.next + 6]
        descriptorSetsBlurHorizontal := [d.next + 7, d.next + 8]
        descriptorSetsFinal := [d.next + 9, d.next + 10] } ∧
    r.1.next = d.next + 10 ∧ r.1.failing = d.failing ∧
    (∀ fb, r.1.framebufferInfo fb = d.framebufferInfo fb) ∧
    (∀ rp, r.1.renderPassInfo rp = d.renderPassInfo rp) ∧
    (∀ set ∈ [d.next + 1, d.next + 2], r.1.sampledViews set = []) ∧
    (∀ set ∈ [d.next + 3, d.next + 4], r.1.sampledViews set =
      [self.rtSceneColor.view, self.rtVelocity.view, self.rtDepth.view]) ∧
    (∀ set ∈ [d.next + 5, d.next + 6], r.1.sampledViews set =
      [self.rtMotion.view, self.rtVelocity.view, self.rtDepth.view]) ∧
    (∀ set ∈ [d.next + 7, d.next + 8], r.1.sampledViews set =
      [self.rtBlurIntermediate.view, self.rtVelocity.view, self.rtDepth.view]) ∧
    (∀ set ∈ [d.next + 9, d.next + 10], r.1.sampledViews set =
      [self.rtMotion.view, self.rtBlurFinal.view]) ∧
    ∃ calls, r.1.log = d.log ++ calls ∧ destroyedViews calls = [] := by
  simp only [CreateDescriptorSets, range_frames, max_frames, List.forIn_cons, List.forIn_nil, bind_assoc,
    allocate_bind, elemAt_bind, pure_bind, pure_ok, List.length_replicate, vkUpdateDescriptorSets,
    Device.emit, List.map_cons, List.map_nil, List.getElem?_cons_zero, List.getElem?_cons_succ,
    Option.some.injEq, exists_eq_left', Nat.add_assoc, Nat.reduceAdd, Nat.add_zero,
    List.range_succ, List.range_zero, List.nil_append, List.cons_append, List.append_assoc] at h
  obtain ⟨-, _, -, _, -, -, _, -, _, -, -, _, -, _, -, -, _, -, _, -, -, rfl⟩ := h
  refine ⟨rfl, rfl, rfl, ?_, ?_, ?_, ?_, ?_, ?_, ?_, ⟨_, rfl, by simp [destroyedViews]⟩⟩
  · intro fb
    simp [Device.framebufferInfo, framebufferStep, List.foldl_append]
  · intro rp
    simp [Device.renderPassInfo, renderPassStep, List.foldl_append]
  all_goals
    intro set hset
    simp only [List.mem_cons, List.mem_singleton, List.not_mem_nil, or_false] at hset
    rcases hset with rfl | rfl <;>
      simp [Device.sampledViews, Device.descriptorSet, descriptorStep, List.foldl_append]

theorem length_resize (xs : List Nat) (n : Nat) : (resize xs n).length = n := by
  simp only [resize, List.length_append, List.length_take, List.length_replicate]
  omega

theorem length_writeHandles (fbs : List Nat) (i : Nat) (first : Nat) (n : Nat) :
    (writeHandles fbs i first n).length = fbs.length := by
  induction n generalizing fbs i first with
  | zero => simp [writeHandles]
  | succ n ih => simp [writeHandles, ih]

theorem getElem?_writeHandles (fbs : List Nat) (i : Nat) (first : Nat) (n j : Nat) :
    (writeHandles fbs i first n)[j]? =
      if i ≤ j ∧ j < i + n ∧ j < fbs.length then some (first + (j - i)) else fbs[j]? := by
  induction n generalizing fbs i first with
  | zero =>
    have h : ¬(i ≤ j ∧ j < i + 0 ∧ j < fbs.length) := by omega
    simp only [writeHandles, h, if_false]
  | succ n ih =>
    simp only [writeHandles, ih, List.length_set]
    rcases Nat.lt_trichotomy j i with h | h | h
    · have h1 : ¬(i + 1 ≤ j ∧ j < i + 1 + n ∧ j < fbs.length) := by omega
      have h2 : ¬(i ≤ j ∧ j < i + (n + 1) ∧ j < fbs.length) := by omega
      have h3 : i ≠ j := by omega
      simp only [h1, h2, if_false, List.getElem?_set_ne h3]
    · subst h
      have h1 : ¬(j + 1 ≤ j ∧ j < j + 1 + n ∧ j < fbs.length) := by omega
      simp only [h1, if_false]
      by_cases h2 : j < fbs.length
      · have h3 : j ≤ j ∧ j < j + (n + 1) ∧ j < fbs.length := by omega
        simp only [h3, and_self, if_true, Nat.sub_self, Nat.add_zero]
        simp [List.getElem?_set, h2]
      · have h3 : ¬(j ≤ j ∧ j < j + (n + 1) ∧ j < fbs.length) := by omega
        simp only [h3, if_false]
        simp [List.getElem?_set, h2]
        omega
    · have h3 : i ≠ j := by omega
      by_cases h1 : i + 1 ≤ j ∧ j < i + 1 + n ∧ j < fbs.length
      · have h2 : i ≤ j ∧ j < i + (n + 1) ∧ j < fbs.length := by omega
        rw [if_pos h1, if_pos h2]
        congr 1
        omega
      · have h2 : ¬(i ≤ j ∧ j < i + (n + 1) ∧ j < fbs.length) := by omega
        rw [if_neg h1, if_neg h2, List.getElem?_set_ne h3]

theorem writeHandles_resize (xs : List Nat) (first : Nat) (n : Nat) :
    writeHandles (resize xs n) 0 first n = List.range' first n := by
  apply List.ext_getElem?
  intro j
  rw [getElem?_writeHandles, length_resize]
  by_cases h : j < n
  · simp [h, List.getElem?_range' _ _ h]
  · simp [h]
    have h1 : (resize xs n).length ≤ j := by rw [length_resize]; omega
    have h2 : (List.range' first n).length ≤ j := by simp; omega
    rw [List.getElem?_eq_none h1, List.getElem?_eq_none h2]

open MotionBlurExample in
theorem createSwapChainFramebuffers_ok_iff (rp : Handle) (ext : VkExtent2D) (views : List Handle)
    (i : Nat) (d : Device) (fbs : List Handle) (r : Device × List Handle) :
    createSwapChainFramebuffers rp ext views i d fbs = .ok r ↔
      (∀ k < views.length, d.next + k ∉ d.failing) ∧
      ({ next := d.next + views.length, failing := d.failing,
         log := d.log ++ swapChainFramebufferCalls rp ext views (d.next + 1) },
       writeHandles fbs i (d.next + 1) views.length) = r := by
  induction views generalizing i d fbs with
  | nil => simp [createSwapChainFramebuffers, swapChainFramebufferCalls, writeHandles]
  | cons v vs ih =>
    simp only [createSwapChainFramebuffers, vkCreateFramebuffer, check_request_bind, ih,
      List.length_cons, swapChainFramebufferCalls, writeHandles, swapChainFramebufferInfo]
    constructor
    · rintro ⟨h0, h1, rfl⟩
      refine ⟨?_, ?_⟩
      · intro k hk
        rcases k with _ | k
        · simpa using h0
        · have := h1 k (by omega)
          simpa [Nat.add_assoc, Nat.add_comm 1 k] using this
      · simp [Nat.add_assoc, Nat.add_comm 1]
    · rintro ⟨h1, rfl⟩
      refine ⟨by simpa using h1 0 (by omega), ?_, ?_⟩
      · intro k hk
        have := h1 (k + 1) (by omega)
        simpa [Nat.add_assoc, Nat.add_comm 1 k] using this
      · simp [Nat.add_assoc, Nat.add_comm 1]

open MotionBlurExample in
theorem createSwapChainFramebuffers_bind {β : Type} (rp : Handle) (ext : VkExtent2D)
    (views : List Handle) (i : Nat) (d : Device) (fbs : List Handle)
    (f : Device × List Handle → Except String β) (b : β) :
    (createSwapChainFramebuffers rp ext views i d fbs >>= f) = .ok b ↔
      (∀ k < views.length, d.next + k ∉ d.failing) ∧
      f ({ next := d.next + views.length, failing := d.failing,
           log := d.log ++ swapChainFramebufferCalls rp ext views (d.next + 1) },
         writeHandles fbs i (d.next + 1) views.length) = .ok b := by
  cases hx : createSwapChainFramebuffers rp ext views i d fbs with
  | error e =>
    simp only [bind, Except.bind]
    constructor
    · intro h; cases h
    · rintro ⟨h1, -⟩
      have h2 := (createSwapChainFramebuffers_ok_iff rp ext views i d fbs _).2 ⟨h1, rfl⟩
      rw [hx] at h2
      cases h2
  | ok a =>
    obtain ⟨h1, rfl⟩ := (createSwapChainFramebuffers_ok_iff rp ext views i d fbs a).1 hx
    simp [bind, Except.bind, h1]
    intro h k hk
    exact h1 k hk

theorem foldl_framebufferStep_swapChainCalls (rp : Handle) (ext : VkExtent2D) (views : List Nat)
    (first fb : Nat) (acc : Option VkFramebufferCreateInfo) :
    (swapChainFramebufferCalls rp ext views first).foldl (framebufferStep fb) acc =
      if first ≤ fb ∧ fb < first + views.length then
        (views[fb - first]?).map (swapChainFramebufferInfo rp ext)
      else acc := by
  induction views generalizing first acc with
  | nil =>
    have h : ¬(first ≤ fb ∧ fb < first) := by omega
    simp [swapChainFramebufferCalls, h]
  | cons v vs ih =>
    simp only [swapChainFramebufferCalls, List.foldl_cons, ih, framebufferStep, List.length_cons]
    rcases Nat.lt_trichotomy fb first with h | h | h
    · have h1 : ¬(first + 1 ≤ fb ∧ fb < first + 1 + vs.length) := by omega
      have h2 : ¬(first ≤ fb ∧ fb < first + (vs.length + 1)) := by omega
      have h3 : first ≠ fb := by omega
      simp only [h1, h2, h3, if_false]
    · subst h
      have h1 : ¬(fb + 1 ≤ fb ∧ fb < fb + 1 + vs.length) := by omega
      have h2 : fb ≤ fb ∧ fb < fb + (vs.length + 1) := by omega
      simp [h1, h2]
    · have h3 : first ≠ fb := by omega
      by_cases h1 : first + 1 ≤ fb ∧ fb < first + 1 + vs.length
      · have h2 : first ≤ fb ∧ fb < first + (vs.length + 1) := by omega
        have h4 : fb - first = (fb - (first + 1)) + 1 := by omega
        rw [if_pos h1, if_pos h2, h4, List.getElem?_cons_succ]
      · have h2 : ¬(first ≤ fb ∧ fb < first + (vs.length + 1)) := by omega
        rw [if_neg h1, if_neg h2, if_neg h3]

theorem foldl_renderPassStep_swapChainCalls (rp : Handle) (ext : VkExtent2D) (views : List Nat)
    (first x : Nat) (acc : Option VkRenderPassCreateInfo) :
    (swapChainFramebufferCalls rp ext views first).foldl (renderPassStep x) acc = acc := by
  induction views generalizing first acc with
  | nil => simp [swapChainFramebufferCalls]
  | cons v vs ih => simp [swapChainFramebufferCalls, ih, renderPassStep]

theorem foldl_descriptorStep_swapChainCalls (rp : Handle) (ext : VkExtent2D) (views : List Nat)
    (first x : Nat) (acc : Option (Handle × List VkWriteDescriptorSet)) :
    (swapChainFramebufferCalls rp ext views first).foldl (descriptorStep x) acc = acc := by
  induction views generalizing first acc with
  | nil => simp [swapChainFramebufferCalls]
  | cons v vs ih => simp [swapChainFramebufferCalls, ih, descriptorStep]

open MotionBlurExample in
theorem CreateFramebuffers_ok (self : MotionBlurExample) (ctx : VulkanContext) (d : Device)
    (r : Device × MotionBlurExample) (h : self.CreateFramebuffers ctx d = .ok r) :
    r = ({ next := d.next + ctx.swapChainImageViews.length + 4, failing := d.failing,
           log := d.log ++
            swapChainFramebufferCalls self.renderPassFinal ctx.swapChainExtent ctx.swapChainImageViews
              (d.next + 1) ++
            [ Call.vkCreateFramebuffer
                { renderPass := self.renderPassGBuffer
                  pAttachments := [self.rtSceneColor.view, self.rtVelocity.view, self.rtDepth.view]
                  width := ctx.swapChainExtent.width, height := ctx.swapChainExtent.height, layers := 1 }
                (d.next + ctx.swapChainImageViews.length + 1),
              Call.vkCreateFramebuffer
                { renderPass := self.renderPassMotionApply
                  pAttachments := [self.rtMotion.view]
                  width := ctx.swapChainExtent.width, height := ctx.swapChainExtent.height, layers := 1 }
                (d.next + ctx.swapChainImageViews.length + 2),
              Call.vkCreateFramebuffer
                { renderPass := self.renderPassBlurVertical
                  pAttachments := [self.rtBlurIntermediate.view]
                  width := ctx.swapChainExtent.width, height := ctx.swapChainExtent.height, layers := 1 }
                (d.next + ctx.swapChainImageViews.length + 3),
              Call.vkCreateFramebuffer
                { renderPass := self.renderPassBlurHorizontal
                  pAttachments := [self.rtBlurFinal.view]
                  width := ctx.swapChainExtent.width, height := ctx.swapChainExtent.height, layers := 1 }
                (d.next + ctx.swapChainImageViews.length + 4) ] },
         { self with
            swapChainFramebuffers := List.range' (d.next + 1) ctx.swapChainImageViews.length
            fbGBuffer := d.next + ctx.swapChainImageViews.length + 1
            fbMotionApply := d.next + ctx.swapChainImageViews.length + 2
            fbBlurVertical := d.next + ctx.swapChainImageViews.length + 3
            fbBlurHorizontal := d.next + ctx.swapChainImageViews.length + 4 }) := by
  simp only [CreateFramebuffers, bind_assoc, createSwapChainFramebuffers_bind, vkCreateFramebuffer,
    check_request_bind, pure_bind, pure_ok, VulkanContext.GetSwapChainImageViews,
    VulkanContext.GetSwapChainExtent, writeHandles_resize] at h
  obtain ⟨-, -, -, -, -, rfl⟩ := h
  simp [Nat.add_assoc]

theorem bind_ok_iff {ε α β : Type} (x : Except ε α) (f : α → Except ε β) (b : β) :
    (x >>= f) = .ok b ↔ ∃ a, x = .ok a ∧ f a = .ok b := by
  cases x with
  | error e => simp [bind, Except.bind]
  | ok a => simp [bind, Except.bind]

theorem ReadFile_bind {β : Type} (fs : FileSystem) (name : String)
    (f : List Nat → Except String β) (b : β) :
    (utils.ReadFile fs name >>= f) = .ok b ↔ ∃ code, utils.ReadFile fs name = .ok code ∧ f code = .ok b :=
  bind_ok_iff _ _ _

theorem CreateShaderModule_bind {β : Type} (ctx : VulkanContext) (d : Device) (code : List Nat)
    (f : Handle × Device → Except String β) (b : β) :
    (ctx.CreateShaderModule d code >>= f) = .ok b ↔
      d.next ∉ d.failing ∧
      f (d.next + 1,
          { next := d.next + 1, failing := d.failing,
            log := d.log ++ [Call.CreateShaderModule code (d.next + 1)] }) = .ok b := by
  unfold VulkanContext.CreateShaderModule
  simp only [check_request_bind]

theorem throwsAt_ok {α : Type} (d : Device) (x : Except String α) (a : α) :
    throwsAt d x = .ok a ↔ x = .ok a := by
  cases x <;> simp [throwsAt]

theorem messageOnly_ok {α : Type} (x : Except (String × Device) α) (a : α) :
    messageOnly x = .ok a ↔ x = .ok a := by
  cases x <;> simp [messageOnly]

theorem throwsAt_ReadFile_bind {β : Type} (d : Device) (fs : FileSystem) (name : String)
    (f : List Nat → Except (String × Device) β) (b : β) :
    (throwsAt d (utils.ReadFile fs name) >>= f) = .ok b ↔
      ∃ code, utils.ReadFile fs name = .ok code ∧ f code = .ok b := by
  simp only [bind_ok_iff, throwsAt_ok]

theorem throwsAt_check_request_bind {β : Type} (d0 d : Device) (n : Nat) (call : Handle → Call)
    (msg : String) (f : Handle × Device → Except (String × Device) β) (b : β) :
    (throwsAt d0 (check (d.request n call) msg) >>= f) = .ok b ↔
      d.next ∉ d.failing ∧
      f (d.next + 1, { next := d.next + n, failing := d.failing, log := d.log ++ [call (d.next + 1)] })
        = .ok b := by
  unfold check Device.request
  split_ifs with h <;> simp [h, throwsAt, bind, Except.bind]

theorem throwsAt_CreateShaderModule_bind {β : Type} (ctx : VulkanContext) (d0 d : Device)
    (code : List Nat) (f : Handle × Device → Except (String × Device) β) (b : β) :
    (throwsAt d0 (ctx.CreateShaderModule d code) >>= f) = .ok b ↔
      d.next ∉ d.failing ∧
      f (d.next + 1,
          { next := d.next + 1, failing := d.failing,
            log := d.log ++ [Call.CreateShaderModule code (d.next + 1)] }) = .ok b := by
  unfold VulkanContext.CreateShaderModule
  simp only [throwsAt_check_request_bind]

theorem CreateBuffer_bind {β : Type} (ctx : VulkanContext) (d : Device) (size : Nat) (u p : VkFlags)
    (f : Handle × Handle × Device → Except String β) (b : β) :
    (ctx.CreateBuffer d size u p >>= f) = .ok b ↔
      d.next ∉ d.failing ∧
      f (d.next + 1, d.next + 2,
          { next := d.next + 2, failing := d.failing,
            log := d.log ++ [Call.CreateBuffer size u p (d.next + 1) (d.next + 2)] }) = .ok b := by
  unfold VulkanContext.CreateBuffer
  simp only [bind_assoc, check_request_bind, pure_bind, Nat.add_assoc, Nat.reduceAdd]

open MotionBlurExample in
theorem CreateSamplers_ok (self : MotionBlurExample) (d : Device)
    (r : Device × MotionBlurExample) (h : self.CreateSamplers d = .ok r) :
    r.2 = { self with samplerLinear := d.next + 1, samplerNearest := d.next + 2 } := by
  simp only [CreateSamplers, utils.CreateLinearSampler, utils.CreateNearestSampler, vkCreateSampler,
    bind_assoc, check_request_bind, pure_bind, pure_ok] at h
  obtain ⟨-, -, rfl⟩ := h
  simp [Nat.add_assoc]

open MotionBlurExample in
theorem CreateDescriptorSetLayouts_ok (self : MotionBlurExample) (d : Device)
    (r : Device × MotionBlurExample) (h : self.CreateDescriptorSetLayouts d = .ok r) :
    r.2 = { self with
      descriptorSetLayoutGBuffer := d.next + 1
      descriptorSetLayoutPostProcess := d.next + 2
      descriptorSetLayoutFinal := d.next + 3 } ∧ d.next ≤ r.1.next := by
  simp only [CreateDescriptorSetLayouts, vkCreateDescriptorSetLayout, bind_assoc, check_request_bind,
    pure_bind, pure_ok] at h
  obtain ⟨-, -, -, rfl⟩ := h
  exact ⟨by simp [Nat.add_assoc], by simp [Nat.add_assoc]⟩

open MotionBlurExample in
theorem CreatePipelineLayouts_ok (self : MotionBlurExample) (d : Device)
    (r : Device × MotionBlurExample) (h : self.CreatePipelineLayouts d = .ok r) :
    r.2 = { self with
      pipelineLayoutGBuffer := d.next + 1
      pipelineLayoutMotionApply := d.next + 2
      pipelineLayoutBlur := d.next + 3
      pipelineLayoutFinal := d.next + 4 } ∧ d.next ≤ r.1.next := by
  simp only [CreatePipelineLayouts, vkCreatePipelineLayout, bind_assoc, check_request_bind,
    pure_bind, pure_ok] at h
  obtain ⟨-, -, -, -, rfl⟩ := h
  exact ⟨by simp [Nat.add_assoc], by simp [Nat.add_assoc]⟩

open MotionBlurExample in
theorem CreatePipelines_ok (self : MotionBlurExample) (fs : FileSystem) (ctx : VulkanContext)
    (d : Device) (r : Device × MotionBlurExample) (h : self.CreatePipelines fs ctx d = .ok r) :
    r.2 = { self with
      pipelineGBuffer := d.next + 3
      pipelineMotionApply := d.next + 6
      pipelineBlurVertical := d.next + 9
      pipelineBlurHorizontal := d.next + 12
      pipelineFinal := d.next + 15 } ∧ d.next ≤ r.1.next := by
  simp only [CreatePipelines, utils.CreatePipeline, vkCreateGraphicsPipelines, vkDestroyShaderModule,
    Device.emit, bind_assoc, throwsAt_ReadFile_bind, throwsAt_CreateShaderModule_bind,
    throwsAt_check_request_bind, pure_bind,
    pure_ok] at h
  obtain ⟨_, -, _, -, -, -, -, _, -, _, -, -, -, -, _, -, _, -, -, -, -, _, -, _, -, -, -, -,
    _, -, _, -, -, -, -, rfl⟩ := h
  exact ⟨by simp [Nat.add_assoc], by simp [Nat.add_assoc]⟩

open MotionBlurExample in
theorem CreateTriangleVertexBuffer_ok (self : MotionBlurExample) (ctx : VulkanContext)
    (d : Device) (r : Device × MotionBlurExample) (h : self.CreateTriangleVertexBuffer ctx d = .ok r) :
    r.2 = { self with triangleVertexBuffer := d.next + 3, triangleVertexBufferMemory := d.next + 4 } ∧
    d.next ≤ r.1.next ∧ (∀ fb, r.1.framebufferInfo fb = d.framebufferInfo fb) := by
  simp only [CreateTriangleVertexBuffer, vkMapMemory, memcpy, vkUnmapMemory, vkDestroyBuffer,
    vkFreeMemory, VulkanContext.CopyBuffer, Device.emit, bind_assoc, CreateBuffer_bind, pure_bind,
    pure_ok] at h
  obtain ⟨-, -, rfl⟩ := h
  refine ⟨by simp [Nat.add_assoc], by simp [Nat.add_assoc], ?_⟩
  intro fb
  simp [Device.framebufferInfo, framebufferStep, List.foldl_append]

theorem FullscreenQuad_Initialize_ok (self : FullscreenQuad) (ctx : VulkanContext)
    (d : Device) (r : Device × FullscreenQuad) (h : self.Initialize ctx d = .ok r) :
    d.next ≤ r.1.next ∧ ∀ fb, r.1.framebufferInfo fb = d.framebufferInfo fb := by
  unfold FullscreenQuad.Initialize at h
  by_cases hi : self.initialized = true
  · simp only [hi, if_true, pure_ok] at h
    subst h
    exact ⟨Nat.le_refl _, fun fb => rfl⟩
  · simp only [hi, Bool.false_eq_true, if_false, vkMapMemory, memcpy, vkUnmapMemory, vkDestroyBuffer,
      vkFreeMemory, VulkanContext.CopyBuffer, Device.emit, bind_assoc, CreateBuffer_bind, pure_bind,
      pure_ok] at h
    obtain ⟨-, -, -, -, rfl⟩ := h
    refine ⟨by simp [Nat.add_assoc], ?_⟩
    intro fb
    simp [Device.framebufferInfo, framebufferStep, List.foldl_append]

theorem set_set_resize (xs : List Nat) (a b : Nat) :
    ((resize xs 2).set 0 a).set 1 b = [a, b] := by
  have h := length_resize xs 2
  match hx : resize xs 2, h with
  | [x, y], _ => rfl

open MotionBlurExample in
theorem CreateUniformBuffers_ok (self : MotionBlurExample) (ctx : VulkanContext)
    (d : Device) (r : Device × MotionBlurExample) (h : self.CreateUniformBuffers ctx d = .ok r) :
    r.2 = { self with
      mvpUniformBuffers := [d.next + 1, d.next + 5]
      mvpUniformBuffersMemory := [d.next + 2, d.next + 6]
      mvpUniformBuffersMapped := [d.next + 2, d.next + 6]
      postProcessUniformBuffers := [d.next + 3, d.next + 7]
      postProcessUniformBuffersMemory := [d.next + 4, d.next + 8]
      postProcessUniformBuffersMapped := [d.next + 4, d.next + 8] } ∧
    d.next ≤ r.1.next ∧ (∀ fb, r.1.framebufferInfo fb = d.framebufferInfo fb) := by
  simp only [CreateUniformBuffers, range_frames, max_frames, List.forIn_cons, List.forIn_nil,
    vkMapMemory, Device.emit, bind_assoc, CreateBuffer_bind, pure_bind, pure_ok, set_set_resize,
    Nat.add_assoc, Nat.reduceAdd] at h
  obtain ⟨-, -, -, -, rfl⟩ := h
  refine ⟨rfl, by simp, ?_⟩
  intro fb
  simp [Device.framebufferInfo, framebufferStep, List.foldl_append]

open MotionBlurExample in
theorem CreateDescriptorPool_ok (self : MotionBlurExample) (d : Device)
    (r : Device × MotionBlurExample) (h : self.CreateDescriptorPool d = .ok r) :
    r.2 = { self with descriptorPool := d.next + 1 } ∧
    d.next ≤ r.1.next ∧ (∀ fb, r.1.framebufferInfo fb = d.framebufferInfo fb) := by
  simp only [CreateDescriptorPool, vkCreateDescriptorPool, bind_assoc, check_request_bind, pure_bind,
    pure_ok] at h
  obtain ⟨-, rfl⟩ := h
  refine ⟨rfl, by simp, ?_⟩
  intro fb
  simp [Device.framebufferInfo, framebufferStep, List.foldl_append]

set_option maxHeartbeats 1000000 in
theorem wired_core (ctx : VulkanContext) (s : MotionBlurExample) (d : Device)
    (r7 : Device × MotionBlurExample) (h7 : s.CreateFramebuffers ctx d = .ok r7)
    (d11 : Device) (s11 : MotionBlurExample)
    (hfb : ∀ fb, d11.framebufferInfo fb = r7.1.framebufferInfo fb) (hs : SameGraph r7.2 s11)
    (r : Device × MotionBlurExample) (h12 : s11.CreateDescriptorSets d11 = .ok r)
    (hsize : ∀ t ∈ s.renderTargets,
      t.width = ctx.swapChainExtent.width ∧ t.height = ctx.swapChainExtent.height)
    (hissued : ∀ t ∈ s.renderTargets, (t.view : Nat) ≤ d.next) (hnext : r7.1.next ≤ d11.next) :
    Wired ctx r.1 r.2 := by
  have h7' := CreateFramebuffers_ok s ctx d r7 h7
  obtain ⟨hr2, hn12, -, hfb', -, hG, hM, hV, hH, hF, -⟩ := CreateDescriptorSets_ok s11 d11 r h12
  subst h7'
  obtain ⟨hrt, hoff, hsw, hrp⟩ := hs
  simp only [MotionBlurExample.renderTargets, MotionBlurExample.offscreenFramebuffers,
    List.cons.injEq, and_true] at hrt hoff hsw
  obtain ⟨t1, t2, t3, t4, t5, t6⟩ := hrt
  obtain ⟨f1, f2, f3, f4⟩ := hoff
  have hlook : ∀ fb, r.1.framebufferInfo fb = _ := fun fb => (hfb' fb).trans (hfb fb)
  constructor
  · rw [hr2]
    simpa [MotionBlurExample.renderTargets, t1, t2, t3, t4, t5, t6] using hsize
  · intro p i hp
    rw [hr2]
    cases p
    case Final =>
      have hi : i < ctx.swapChainImageViews.length := hp rfl
      refine ⟨d.next + 1 + i, swapChainFramebufferInfo s.renderPassFinal ctx.swapChainExtent
        (ctx.swapChainImageViews[i]), ?_, ?_, ?_, ?_, ?_, ?_⟩
      · simp [MotionBlurExample.framebuffer, hsw, List.getElem?_range' _ _ hi]
      · rw [hlook]
        have h1 : d.next + 1 ≤ d.next + 1 + i ∧ d.next + 1 + i < d.next + 1 + ctx.swapChainImageViews.length := by
          omega
        have h2 : d.next + 1 + i - (d.next + 1) = i := by omega
        have e1 : ¬ (d.next + ctx.swapChainImageViews.length + 1 = d.next + 1 + i) := by omega
        have e2 : ¬ (d.next + ctx.swapChainImageViews.length + 2 = d.next + 1 + i) := by omega
        have e3 : ¬ (d.next + ctx.swapChainImageViews.length + 3 = d.next + 1 + i) := by omega
        have e4 : ¬ (d.next + ctx.swapChainImageViews.length + 4 = d.next + 1 + i) := by omega
        simp only [Device.framebufferInfo, List.foldl_append, List.foldl_cons, List.foldl_nil,
          framebufferStep, foldl_framebufferStep_swapChainCalls, e1, e2, e3, e4, if_false, h1, h2,
          and_self, if_true, List.getElem?_eq_getElem hi, Option.map_some']
      · have := hrp .Final
        simpa [MotionBlurExample.renderPass, swapChainFramebufferInfo] using this.symm
      · simp [swapChainFramebufferInfo, Pass.writes, MotionBlurExample.view,
          List.getElem?_eq_getElem hi]
      · rfl
      · rfl
    all_goals
      simp only [MotionBlurExample.framebuffer, Option.some.injEq, exists_and_left, exists_eq_left',
        hlook, f1, f2, f3, f4]
      simp [Device.framebufferInfo, framebufferStep, List.foldl_append, Pass.writes,
        MotionBlurExample.view, MotionBlurExample.renderPass, t1, t2, t3, t4, t5, t6]
      first
        | exact (hrp .GBuffer).symm
        | exact (hrp .MotionApply).symm
        | exact (hrp .BlurVertical).symm
        | exact (hrp .BlurHorizontal).symm
  · rw [hr2]
    simp [hsw]
  · intro p
    rw [hr2]
    cases p <;> refine ⟨rfl, ?_⟩ <;> intro set hset imageIndex <;>
      simp only [MotionBlurExample.descriptorSets] at hset
    · rw [hG set hset]; rfl
    · rw [hM set hset]; simp [Pass.samples, MotionBlurExample.view]
    · rw [hV set hset]; simp [Pass.samples, MotionBlurExample.view]
    · rw [hH set hset]; simp [Pass.samples, MotionBlurExample.view]
    · rw [hF set hset]; simp [Pass.samples, MotionBlurExample.view]
  · rw [hr2, hn12]
    simp only [MotionBlurExample.renderTargets, t1, t2, t3, t4, t5, t6]
    intro t ht
    have h1 := hissued t (by simpa [MotionBlurExample.renderTargets] using ht)
    simp only at hnext
    exact Nat.le_trans h1 (by omega)

theorem Initialize_wired (self : MotionBlurExample) (fs : FileSystem) (ctx : VulkanContext)
    (d : Device) (r : Device × MotionBlurExample) (h : self.Initialize fs ctx d = .ok r) :
    Wired ctx r.1 r.2 := by
  simp only [MotionBlurExample.Initialize, bind_ok_iff, messageOnly_ok, Prod.exists, pure_ok] at h
  obtain ⟨d1, s1, h1, d2, s2, h2, d3, s3, h3, d4, s4, h4, d5, s5, h5, d6, s6, h6, d7, s7, h7,
    d8, s8, h8, d9, q9, h9, d10, s10, h10, d11, s11, h11, d12, s12, h12, rfl⟩ := h
  have e2 := CreateRenderTargets_ok _ _ _ _ h2
  have e3 := (CreateRenderPasses_ok _ _ _ _ h3)
  obtain ⟨e4, n4⟩ := CreateDescriptorSetLayouts_ok _ _ _ h4
  obtain ⟨e5, n5⟩ := CreatePipelineLayouts_ok _ _ _ h5
  obtain ⟨e6, n6⟩ := CreatePipelines_ok _ _ _ _ _ h6
  obtain ⟨e8, n8, f8⟩ := CreateTriangleVertexBuffer_ok _ _ _ _ h8
  obtain ⟨n9, f9⟩ := FullscreenQuad_Initialize_ok _ _ _ _ h9
  obtain ⟨e10, n10, f10⟩ := CreateUniformBuffers_ok _ _ _ _ h10
  obtain ⟨e11, n11, f11⟩ := CreateDescriptorPool_ok _ _ _ h11
  simp only [Prod.mk.injEq] at e2 e3 e4 e5 e6 e8 e10 e11
  simp only at n4 n5 n6 n8 n9 n10 n11
  refine wired_core ctx s6 d6 (d7, s7) h7 d11 s11 ?_ ?_ (d12, s12) h12 ?_ ?_ ?_
  · intro fb
    rw [f11, f10, f9, f8]
  · rw [e11, e10, e8]
    simp [SameGraph, MotionBlurExample.renderTargets, MotionBlurExample.offscreenFramebuffers,
      MotionBlurExample.renderPass]
  · rw [e6, e5, e4, e3.2, e2.2]
    simp [MotionBlurExample.renderTargets]
  · have hd3 : d3.next = d2.next + 5 := by rw [e3.1]
    have hd2 : d2.next = d1.next + 18 := by rw [e2.1]
    rw [e6, e5, e4, e3.2, e2.2]
    simp only [MotionBlurExample.renderTargets, List.mem_cons, List.mem_singleton,
      List.not_mem_nil, or_false]
    rintro t (rfl | rfl | rfl | rfl | rfl | rfl) <;> show (_ : Nat) ≤ (_ : Nat) <;> simp only <;> omega
  · simp only
    omega

theorem OnSwapChainRecreated_wired (self : MotionBlurExample) (ctx : VulkanContext)
    (d : Device) (r : Device × MotionBlurExample) (h : self.OnSwapChainRecreated ctx d = .ok r) :
    Wired ctx r.1 r.2 := by
  simp only [MotionBlurExample.OnSwapChainRecreated, bind_ok_iff, Prod.exists] at h
  obtain ⟨d2, s2, h2, d7, s7, h7, h12⟩ := h
  have e2 := CreateRenderTargets_ok _ _ _ _ h2
  simp only [Prod.mk.injEq] at e2
  refine wired_core ctx s2 d2 (d7, s7) h7 (vkResetDescriptorPool d7 s7.descriptorPool) s7 ?_ ?_ r h12
    ?_ ?_ ?_
  · intro fb
    simp [vkResetDescriptorPool, Device.emit, Device.framebufferInfo, framebufferStep,
      List.foldl_append]
  · simp [SameGraph]
  · rw [e2.2]
    simp [MotionBlurExample.renderTargets]
  · rw [e2.2, e2.1]
    simp only [MotionBlurExample.renderTargets, List.mem_cons, List.mem_singleton,
      List.not_mem_nil, or_false]
    rintro t (rfl | rfl | rfl | rfl | rfl | rfl) <;> show (_ : Nat) ≤ (_ : Nat) <;> simp only <;> omega
  · simp [vkResetDescriptorPool, Device.emit]

theorem recordedPasses_RecordCommands (s : MotionBlurExample) (ctx : VulkanContext) (imageIndex : Nat) :
    recordedPasses (s.RecordCommands ctx [] imageIndex) =
      Pass.all.map fun p =>
        { renderPass := s.renderPass p
          framebuffer := s.framebuffer imageIndex p
          descriptorSets := [(s.descriptorSets p)[ctx.currentFrame]?] } := by
  simp only [MotionBlurExample.RecordCommands, Id.run, vkCmdBeginRenderPass, vkCmdBindPipeline,
    vkCmdBindVertexBuffers, vkCmdBindIndexBuffer, vkCmdBindDescriptorSets, vkCmdDraw,
    vkCmdDrawIndexed, vkCmdEndRenderPass, FullscreenQuad.Bind, FullscreenQuad.Draw,
    List.nil_append, List.cons_append, List.append_assoc]
  rfl

theorem sampled_written_earlier (k : Nat) (p : Pass) (t : Target) (hp : Pass.all[k]? = some p)
    (ht : t ∈ p.samples) :
    ∃ j q, j < k ∧ Pass.all[j]? = some q ∧ q ≠ .Final ∧ t ∈ q.writes := by
  rcases k with _ | _ | _ | _ | _ | k <;> simp [Pass.all] at hp <;> subst hp <;>
    simp [Pass.samples] at ht
  all_goals
    rcases ht with rfl | rfl | rfl
  all_goals
    first
      | exact ⟨0, .GBuffer, by omega, rfl, by decide, by decide⟩
      | exact ⟨1, .MotionApply, by omega, rfl, by decide, by decide⟩
      | exact ⟨2, .BlurVertical, by omega, rfl, by decide, by decide⟩
      | exact ⟨3, .BlurHorizontal, by omega, rfl, by decide, by decide⟩

theorem no_read_before_write_of_wired (ctx : VulkanContext) (d : Device) (s : MotionBlurExample)
    (hw : Wired ctx d s) (imageIndex : Nat) (k : Nat) (pk : RecordedPass)
    (hk : (recordedPasses (s.RecordCommands ctx [] imageIndex))[k]? = some pk)
    (set : Handle) (hset : some set ∈ pk.descriptorSets) (v : Handle) (hv : v ∈ d.sampledViews set) :
    ∃ j pj fb info, j < k ∧
      (recordedPasses (s.RecordCommands ctx [] imageIndex))[j]? = some pj ∧
      pj.framebuffer = some fb ∧ d.framebufferInfo fb = some info ∧ v ∈ info.pAttachments := by
  rw [recordedPasses_RecordCommands, List.getElem?_map] at hk
  obtain ⟨p, hp, rfl⟩ := Option.map_eq_some'.1 hk
  simp only [List.mem_singleton] at hset
  have hmem : set ∈ s.descriptorSets p := List.getElem?_mem hset.symm
  have hs := (hw.sets p).2 set hmem imageIndex
  have hv' : some v ∈ (d.sampledViews set).map some := List.mem_map_of_mem _ hv
  rw [hs] at hv'
  obtain ⟨t, ht, htv⟩ := List.mem_map.1 hv'
  obtain ⟨j, q, hjk, hq, hqF, htq⟩ := sampled_written_earlier k p t hp ht
  obtain ⟨fb, info, hfb, hinfo, -, hatt, -, -⟩ :=
    hw.framebuffers q imageIndex (fun h => absurd h hqF)
  have hj : (recordedPasses (s.RecordCommands ctx [] imageIndex))[j]? =
      some { renderPass := s.renderPass q
             framebuffer := s.framebuffer imageIndex q
             descriptorSets := [(s.descriptorSets q)[ctx.currentFrame]?] } := by
    rw [recordedPasses_RecordCommands, List.getElem?_map, hq]
    rfl
  refine ⟨j, _, fb, info, hjk, hj, hfb, hinfo, ?_⟩
  · have h1 : some v ∈ q.writes.map (s.view ctx imageIndex) := by
      rw [← htv]
      exact List.mem_map_of_mem _ htq
    rw [← hatt] at h1
    obtain ⟨v', hv1, hv2⟩ := List.mem_map.1 h1
    cases hv2
    exact hv1

/-- C2: in the command sequence that `RecordCommands` records in the state left by a successful
`Initialize`, every view bound as a sampled image in a descriptor set bound by a pass is an
attachment of the framebuffer of a strictly earlier pass of the same sequence. -/
theorem no_read_before_write (self : MotionBlurExample) (fs : FileSystem) (ctx : VulkanContext)
    (d : Device) (r : Device × MotionBlurExample) (h : self.Initialize fs ctx d = .ok r)
    (imageIndex : Nat) (k : Nat) (pk : RecordedPass)
    (hk : (recordedPasses (r.2.RecordCommands ctx [] imageIndex))[k]? = some pk)
    (set : Handle) (hset : some set ∈ pk.descriptorSets)
    (v : Handle) (hv : v ∈ r.1.sampledViews set) :
    ∃ j pj fb info, j < k ∧
      (recordedPasses (r.2.RecordCommands ctx [] imageIndex))[j]? = some pj ∧
      pj.framebuffer = some fb ∧ r.1.framebufferInfo fb = some info ∧ v ∈ info.pAttachments :=
  no_read_before_write_of_wired ctx r.1 r.2 (Initialize_wired self fs ctx d r h) imageIndex k pk hk
    set hset v hv

set_option maxRecDepth 100000 in
/-- C2, at the third recorded pass (Blur-Vertical, k = 2) of the sample run: the view 14 of the
motion target, sampled through descriptor set 80, is an attachment of the framebuffer of an
earlier pass. -/
theorem no_read_before_write_witness :
    ∃ r, MotionBlurExample.Initialize {} demoFiles demoContext demoDevice = .ok r ∧
      (14 : Handle) ∈ r.1.sampledViews 80 ∧
      ∃ j pj fb info, j < 2 ∧
        (recordedPasses (r.2.RecordCommands demoContext [] 0))[j]? = some pj ∧
        pj.framebuffer = some fb ∧ r.1.framebufferInfo fb = some info ∧
        (14 : Handle) ∈ info.pAttachments := by
  have hok : (MotionBlurExample.Initialize {} demoFiles demoContext demoDevice).isOk = true := rfl
  have e1 : (match MotionBlurExample.Initialize {} demoFiles demoContext demoDevice with
      | .ok r => r.1.sampledViews 80
      | .error _ => []) = [14, 8, 11] := rfl
  have e2 : (match MotionBlurExample.Initialize {} demoFiles demoContext demoDevice with
      | .ok r => ((recordedPasses (r.2.RecordCommands demoContext [] 0))[2]?).map
          RecordedPass.descriptorSets
      | .error _ => none) = some [some 80] := rfl
  cases h : MotionBlurExample.Initialize {} demoFiles demoContext demoDevice with
  | error e => rw [h] at hok; cases hok
  | ok r =>
    simp only [h] at e1 e2
    have hv : (14 : Handle) ∈ r.1.sampledViews 80 := by rw [e1]; simp
    obtain ⟨pk, hk, hsets⟩ := Option.map_eq_some'.1 e2
    exact ⟨r, rfl, hv, no_read_before_write {} demoFiles demoContext demoDevice r h 0 2 pk hk 80
      (by rw [hsets]; simp) 14 hv⟩

/-- C3: after a successful `Initialize`, and again after a successful `OnSwapChainRecreated`,
every pass has in every frame slot a descriptor set whose sampled images are exactly the views of
the images the fixed graph lets it sample (G-Buffer none; Motion-Apply scene-color, velocity,
depth; Blur-Vertical motion, velocity, depth; Blur-Horizontal blur-intermediate, velocity, depth;
Final motion, blur-final), and the framebuffer it renders into has exactly the views of the images
the graph lets it write as attachments (G-Buffer scene-color, velocity, depth; Motion-Apply motion;
Blur-Vertical blur-intermediate; Blur-Horizontal blur-final; Final the swapchain image view with
index `imageIndex`). -/
theorem passes_sample_and_write_fixed_graph (self : MotionBlurExample) (fs : FileSystem)
    (ctx : VulkanContext) (d : Device) (r : Device × MotionBlurExample)
    (h : self.Initialize fs ctx d = .ok r ∨ self.OnSwapChainRecreated ctx d = .ok r) (p : Pass) :
    (∀ slot < VulkanContext.MAX_FRAMES_IN_FLIGHT, ∃ set,
      (r.2.descriptorSets p)[slot]? = some set ∧
      ∀ imageIndex, (r.1.sampledViews set).map some = p.samples.map (r.2.view ctx imageIndex)) ∧
    (∀ imageIndex, (p = .Final → imageIndex < ctx.swapChainImageViews.length) →
      ∃ fb info, r.2.framebuffer imageIndex p = some fb ∧ r.1.framebufferInfo fb = some info ∧
        info.pAttachments.map some = p.writes.map (r.2.view ctx imageIndex)) := by
  have hw : Wired ctx r.1 r.2 := by
    rcases h with h | h
    · exact Initialize_wired self fs ctx d r h
    · exact OnSwapChainRecreated_wired self ctx d r h
  constructor
  · intro slot hslot
    have hlen := (hw.sets p).1
    have hlt : slot < (r.2.descriptorSets p).length := by rw [hlen]; exact hslot
    refine ⟨(r.2.descriptorSets p)[slot], List.getElem?_eq_getElem hlt, ?_⟩
    exact (hw.sets p).2 _ (List.getElem_mem _)
  · intro imageIndex hi
    obtain ⟨fb, info, h1, h2, -, h3, -, -⟩ := hw.framebuffers p imageIndex hi
    exact ⟨fb, info, h1, h2, h3⟩

/-- C3, at the Final pass of the sample run. -/
theorem passes_sample_and_write_fixed_graph_witness :
    ∃ r, MotionBlurExample.Initialize {} demoFiles demoContext demoDevice = .ok r ∧
      (∀ slot < VulkanContext.MAX_FRAMES_IN_FLIGHT, ∃ set,
        (r.2.descriptorSets .Final)[slot]? = some set ∧
        ∀ imageIndex,
          (r.1.sampledViews set).map some = Pass.Final.samples.map (r.2.view demoContext imageIndex)) ∧
      (∀ imageIndex, (Pass.Final = .Final → imageIndex < demoContext.swapChainImageViews.length) →
        ∃ fb info, r.2.framebuffer imageIndex .Final = some fb ∧
          r.1.framebufferInfo fb = some info ∧
          info.pAttachments.map some = Pass.Final.writes.map (r.2.view demoContext imageIndex)) := by
  have hok : (MotionBlurExample.Initialize {} demoFiles demoContext demoDevice).isOk = true := rfl
  cases h : MotionBlurExample.Initialize {} demoFiles demoContext demoDevice with
  | error e => rw [h] at hok; cases hok
  | ok r =>
    exact ⟨r, rfl,
      passes_sample_and_write_fixed_graph {} demoFiles demoContext demoDevice r (Or.inl h) .Final⟩

theorem recreations_wired (resizes : List VulkanContext) (ctx : VulkanContext) (d : Device)
    (s : MotionBlurExample) (r : VulkanContext × Device × MotionBlurExample)
    (h : recreations resizes ctx d s = .ok r) (hw : Wired ctx d s) :
    r.1 = (resizes.getLast?).getD ctx ∧ Wired r.1 r.2.1 r.2.2 := by
  induction resizes generalizing ctx d s with
  | nil =>
    simp only [recreations, Except.ok.injEq] at h
    subst h
    exact ⟨rfl, hw⟩
  | cons ctx' rest ih =>
    simp only [recreations, bind_ok_iff, Prod.exists] at h
    obtain ⟨d1, s1, h1, h2⟩ := h
    have hw1 : Wired ctx' d1 s1 := OnSwapChainRecreated_wired _ ctx' _ (d1, s1) h1
    obtain ⟨e, hw2⟩ := ih ctx' d1 s1 h2 hw1
    refine ⟨?_, hw2⟩
    rw [e]
    cases rest <;> simp [List.getLast?]

theorem startThenResize_wired (self : MotionBlurExample) (fs : FileSystem) (ctx : VulkanContext)
    (resizes : List VulkanContext) (d : Device) (r : VulkanContext × Device × MotionBlurExample)
    (h : startThenResize self fs ctx resizes d = .ok r) :
    r.1 = (resizes.getLast?).getD ctx ∧ Wired r.1 r.2.1 r.2.2 := by
  simp only [startThenResize, bind_ok_iff, Prod.exists] at h
  obtain ⟨d1, s1, h1, h2⟩ := h
  exact recreations_wired resizes ctx d1 s1 r h2 (Initialize_wired self fs ctx d (d1, s1) h1)

/-- C5: in every state reached by `Initialize` followed by any number of successful swapchain
recreations (`OnSwapChainCleanup`; `OnSwapChainRecreated`), the context in force is that of the
most recent recreation (of `Initialize` when there was none), the six render targets have its
swapchain extent, and so has each of the four offscreen framebuffers and every swapchain
framebuffer, of which there is one per swapchain image. -/
theorem extents_follow_swapchain (self : MotionBlurExample) (fs : FileSystem) (ctx : VulkanContext)
    (resizes : List VulkanContext) (d : Device) (r : VulkanContext × Device × MotionBlurExample)
    (h : startThenResize self fs ctx resizes d = .ok r) :
    r.1 = (resizes.getLast?).getD ctx ∧
    (∀ t ∈ r.2.2.renderTargets,
      t.width = r.1.swapChainExtent.width ∧ t.height = r.1.swapChainExtent.height) ∧
    (∀ fb ∈ r.2.2.offscreenFramebuffers ++ r.2.2.swapChainFramebuffers,
      ∃ info, r.2.1.framebufferInfo fb = some info ∧
        info.width = r.1.swapChainExtent.width ∧ info.height = r.1.swapChainExtent.height) ∧
    r.2.2.swapChainFramebuffers.length = r.1.swapChainImageViews.length := by
  obtain ⟨e, hw⟩ := startThenResize_wired self fs ctx resizes d r h
  refine ⟨e, hw.targets, ?_, hw.swapChainCount⟩
  intro fb hfb
  rw [List.mem_append] at hfb
  rcases hfb with hfb | hfb
  · simp only [MotionBlurExample.offscreenFramebuffers, List.mem_cons, List.mem_singleton,
      List.not_mem_nil, or_false] at hfb
    rcases hfb with rfl | rfl | rfl | rfl
    · obtain ⟨fb, info, h1, h2, -, -, h3, h4⟩ := hw.framebuffers .GBuffer 0 (by simp)
      cases h1
      exact ⟨info, h2, h3, h4⟩
    · obtain ⟨fb, info, h1, h2, -, -, h3, h4⟩ := hw.framebuffers .MotionApply 0 (by simp)
      cases h1
      exact ⟨info, h2, h3, h4⟩
    · obtain ⟨fb, info, h1, h2, -, -, h3, h4⟩ := hw.framebuffers .BlurVertical 0 (by simp)
      cases h1
      exact ⟨info, h2, h3, h4⟩
    · obtain ⟨fb, info, h1, h2, -, -, h3, h4⟩ := hw.framebuffers .BlurHorizontal 0 (by simp)
      cases h1
      exact ⟨info, h2, h3, h4⟩
  · obtain ⟨i, hi⟩ := List.mem_iff_getElem?.1 hfb
    have hlt : i < r.1.swapChainImageViews.length := by
      rw [← hw.swapChainCount]
      by_contra hge
      rw [List.getElem?_eq_none (Nat.le_of_not_lt hge)] at hi
      cases hi
    obtain ⟨fb', info, h1, h2, -, -, h3, h4⟩ := hw.framebuffers .Final i (fun _ => hlt)
    simp only [MotionBlurExample.framebuffer] at h1
    rw [hi] at h1
    cases h1
    exact ⟨info, h2, h3, h4⟩

/-- C5, for a start at 1280 x 720 followed by one resize to 640 x 360: targets and framebuffers
are all 640 x 360 afterwards. -/
theorem extents_follow_swapchain_witness :
    ∃ r, startThenResize {} demoFiles demoContext [resizedContext] demoDevice = .ok r ∧
      (∀ t ∈ r.2.2.renderTargets, t.width = 640 ∧ t.height = 360) ∧
      (∀ fb ∈ r.2.2.offscreenFramebuffers ++ r.2.2.swapChainFramebuffers,
        ∃ info, r.2.1.framebufferInfo fb = some info ∧ info.width = 640 ∧ info.height = 360) := by
  have hok : (startThenResize {} demoFiles demoContext [resizedContext] demoDevice).isOk = true := rfl
  cases h : startThenResize {} demoFiles demoContext [resizedContext] demoDevice with
  | error e => rw [h] at hok; cases hok
  | ok r =>
    obtain ⟨e, h1, h2, -⟩ :=
      extents_follow_swapchain {} demoFiles demoContext [resizedContext] demoDevice r h
    have e' : r.1 = resizedContext := e
    rw [e'] at h1 h2
    exact ⟨r, rfl, h1, h2⟩

theorem destroyedViews_append (a b : List Call) :
    destroyedViews (a ++ b) = destroyedViews a ++ destroyedViews b := by
  simp [destroyedViews, List.filterMap_append]

theorem destroyedViews_swapChainCalls (rp : Handle) (ext : VkExtent2D) (views : List Nat)
    (first : Nat) : destroyedViews (swapChainFramebufferCalls rp ext views first) = [] := by
  induction views generalizing first with
  | nil => simp [swapChainFramebufferCalls, destroyedViews]
  | cons v vs ih =>
    have := ih (first + 1)
    simp only [destroyedViews] at this
    simp [swapChainFramebufferCalls, destroyedViews, this]

theorem destroyedViews_cleanup (rt : RenderTarget) (d : Device) :
    ∃ calls, (rt.Cleanup d).1 = { d with log := d.log ++ calls } ∧
      ∀ v ∈ destroyedViews calls, v = rt.view := by
  rw [renderTarget_cleanup_eq]
  refine ⟨_, by simp only [List.append_assoc]; rfl, ?_⟩
  intro v hv
  by_cases h1 : rt.view = VK_NULL_HANDLE <;> by_cases h2 : rt.image = VK_NULL_HANDLE <;>
    by_cases h3 : rt.memory = VK_NULL_HANDLE <;>
    simp [destroyedViews, h1, h2, h3] at hv <;> exact hv

theorem CleanupRenderTargets_log (self : MotionBlurExample) (d : Device) :
    (self.CleanupRenderTargets d).1.next = d.next ∧
    ∃ calls, (self.CleanupRenderTargets d).1.log = d.log ++ calls ∧
      ∀ v ∈ destroyedViews calls, ∃ t ∈ self.renderTargets, v = t.view := by
  obtain ⟨c1, e1, p1⟩ := destroyedViews_cleanup self.rtSceneColor d
  obtain ⟨c2, e2, p2⟩ := destroyedViews_cleanup self.rtVelocity (self.rtSceneColor.Cleanup d).1
  obtain ⟨c3, e3, p3⟩ := destroyedViews_cleanup self.rtDepth (self.rtVelocity.Cleanup
    (self.rtSceneColor.Cleanup d).1).1
  obtain ⟨c4, e4, p4⟩ := destroyedViews_cleanup self.rtMotion (self.rtDepth.Cleanup
    (self.rtVelocity.Cleanup (self.rtSceneColor.Cleanup d).1).1).1
  obtain ⟨c5, e5, p5⟩ := destroyedViews_cleanup self.rtBlurIntermediate (self.rtMotion.Cleanup
    (self.rtDepth.Cleanup (self.rtVelocity.Cleanup (self.rtSceneColor.Cleanup d).1).1).1).1
  obtain ⟨c6, e6, p6⟩ := destroyedViews_cleanup self.rtBlurFinal (self.rtBlurIntermediate.Cleanup
    (self.rtMotion.Cleanup (self.rtDepth.Cleanup (self.rtVelocity.Cleanup
      (self.rtSceneColor.Cleanup d).1).1).1).1).1
  have hdev : (self.CleanupRenderTargets d).1 =
      { d with log := d.log ++ (c1 ++ c2 ++ c3 ++ c4 ++ c5 ++ c6) } := by
    simp only [MotionBlurExample.CleanupRenderTargets]
    rw [e6, e5, e4, e3, e2, e1]
    simp [List.append_assoc]
  rw [hdev]
  refine ⟨rfl, _, rfl, ?_⟩
  intro v hv
  simp only [destroyedViews_append, List.mem_append] at hv
  simp only [MotionBlurExample.renderTargets, List.mem_cons, List.mem_singleton, List.not_mem_nil,
    or_false, exists_eq_or_imp, exists_eq_left]
  rcases hv with ((((hv | hv) | hv) | hv) | hv) | hv
  · exact Or.inl (p1 v hv)
  · exact Or.inr (Or.inl (p2 v hv))
  · exact Or.inr (Or.inr (Or.inl (p3 v hv)))
  · exact Or.inr (Or.inr (Or.inr (Or.inl (p4 v hv))))
  · exact Or.inr (Or.inr (Or.inr (Or.inr (Or.inl (p5 v hv)))))
  · exact Or.inr (Or.inr (Or.inr (Or.inr (Or.inr (p6 v hv)))))

/-- C6: after a successful `OnSwapChainRecreated` in a state whose render-target views were
handed out by the driver, every sampled-image binding of every descriptor set of every pass is
the view now stored in the corresponding render target, the attachments of the four offscreen
framebuffers are the views now stored in the corresponding render targets, and none of these
views is among the views destroyed by the calls of that recreation. -/
theorem recreated_bindings_are_current (self : MotionBlurExample) (ctx : VulkanContext) (d : Device)
    (r : Device × MotionBlurExample) (h : self.OnSwapChainRecreated ctx d = .ok r)
    (hissued : ∀ t ∈ self.renderTargets, (t.view : Nat) ≤ d.next) :
    (∀ p, (r.2.descriptorSets p).length = VulkanContext.MAX_FRAMES_IN_FLIGHT ∧
      ∀ set ∈ r.2.descriptorSets p, ∀ imageIndex,
        (r.1.sampledViews set).map some = p.samples.map (r.2.view ctx imageIndex)) ∧
    (∀ p, p ≠ .Final → ∃ fb info, r.2.framebuffer 0 p = some fb ∧
      r.1.framebufferInfo fb = some info ∧
      info.pAttachments.map some = p.writes.map (r.2.view ctx 0)) ∧
    ∃ calls, r.1.log = d.log ++ calls ∧
      ∀ t ∈ r.2.renderTargets, t.view ∉ destroyedViews calls := by
  have hw := OnSwapChainRecreated_wired self ctx d r h
  refine ⟨hw.sets, ?_, ?_⟩
  · intro p hp
    obtain ⟨fb, info, h1, h2, -, h3, -, -⟩ := hw.framebuffers p 0 (fun e => absurd e hp)
    exact ⟨fb, info, h1, h2, h3⟩
  · simp only [MotionBlurExample.OnSwapChainRecreated, bind_ok_iff, Prod.exists] at h
    obtain ⟨d2, s2, h2, d7, s7, h7, h12⟩ := h
    obtain ⟨hn1, c1, hl1, hc1⟩ := CleanupRenderTargets_log self d
    have e2 := CreateRenderTargets_ok _ _ _ _ h2
    have e7 := CreateFramebuffers_ok _ _ _ _ h7
    obtain ⟨e12, -, -, -, -, -, -, -, -, -, c12, hl12, hc12⟩ := CreateDescriptorSets_ok _ _ _ h12
    simp only [Prod.mk.injEq] at e2 e7
    obtain ⟨ed2, es2⟩ := e2
    obtain ⟨ed7, es7⟩ := e7
    have hlog : r.1.log = d.log ++ (c1 ++
        (d2.log.drop (self.CleanupRenderTargets d).1.log.length) ++
        (d7.log.drop d2.log.length) ++ [Call.vkResetDescriptorPool s7.descriptorPool] ++ c12) := by
      rw [hl12]
      simp only [vkResetDescriptorPool, Device.emit]
      rw [ed7]
      simp only [List.append_assoc, List.drop_left']
      rw [ed2]
      simp only [List.append_assoc, List.drop_left']
      rw [hl1]
      simp only [List.append_assoc]
    refine ⟨_, hlog, ?_⟩
    intro t ht hmem
    have hnew : d.next < (t.view : Nat) := by
      rw [e12, es7, es2] at ht
      simp only [MotionBlurExample.renderTargets, List.mem_cons, List.mem_singleton,
        List.not_mem_nil, or_false] at ht
      rcases ht with rfl | rfl | rfl | rfl | rfl | rfl <;> show (_ : Nat) < (_ : Nat) <;>
        simp only <;> omega
    have hd2 : destroyedViews (d2.log.drop (self.CleanupRenderTargets d).1.log.length) = [] := by
      rw [ed2]
      simp only [List.drop_left']
      rfl
    have hd7 : destroyedViews (d7.log.drop d2.log.length) = [] := by
      rw [ed7]
      simp only [List.append_assoc, List.drop_left', destroyedViews_append,
        destroyedViews_swapChainCalls, List.nil_append]
      rfl
    simp only [destroyedViews_append, List.mem_append, hd2, hd7, hc12, List.not_mem_nil,
      or_false] at hmem
    rcases hmem with hmem | hmem
    · obtain ⟨t0, ht0, e⟩ := hc1 _ hmem
      have := hissued t0 ht0
      rw [← e] at this
      exact absurd this (Nat.not_le.mpr hnew)
    · simp [destroyedViews] at hmem

/-- C6, for a recreation at 640 x 360 in the state left by the sample `Initialize`. -/
theorem recreated_bindings_are_current_witness :
    ∃ r0 r, MotionBlurExample.Initialize {} demoFiles demoContext demoDevice = .ok r0 ∧
      r0.2.OnSwapChainRecreated resizedContext r0.1 = .ok r ∧
      (∀ p, p ≠ .Final → ∃ fb info, r.2.framebuffer 0 p = some fb ∧
        r.1.framebufferInfo fb = some info ∧
        info.pAttachments.map some = p.writes.map (r.2.view resizedContext 0)) ∧
      ∃ calls, r.1.log = r0.1.log ++ calls ∧
        ∀ t ∈ r.2.renderTargets, t.view ∉ destroyedViews calls := by
  have hok : (MotionBlurExample.Initialize {} demoFiles demoContext demoDevice).isOk = true := rfl
  cases h0 : MotionBlurExample.Initialize {} demoFiles demoContext demoDevice with
  | error e => rw [h0] at hok; cases hok
  | ok r0 =>
    have hok' : (match MotionBlurExample.Initialize {} demoFiles demoContext demoDevice with
        | .ok r0 => (r0.2.OnSwapChainRecreated resizedContext r0.1).isOk
        | .error _ => false) = true := rfl
    simp only [h0] at hok'
    cases h : r0.2.OnSwapChainRecreated resizedContext r0.1 with
    | error e => rw [h] at hok'; cases hok'
    | ok r =>
      obtain ⟨-, h1, h2⟩ := recreated_bindings_are_current r0.2 resizedContext r0.1 r h
        (Initialize_wired {} demoFiles demoContext demoDevice r0 h0).issued
      exact ⟨r0, r, rfl, h, h1, h2⟩

/-! ## What the calls of each initialisation step leave unchanged -/


theorem foldl_renderPassStep_of_kind (rp : Handle) (calls : List Call)
    (h : ∀ c ∈ calls, c.kind ≠ .vkCreateRenderPass) (acc : Option VkRenderPassCreateInfo) :
    calls.foldl (renderPassStep rp) acc = acc := by
  induction calls generalizing acc with
  | nil => rfl
  | cons c cs ih =>
    have hc := h c (List.mem_cons_self _ _)
    have e : renderPassStep rp acc c = acc := by
      cases c <;> first | rfl | exact absurd rfl hc
    rw [List.foldl_cons, e]
    exact ih (fun c hc => h c (List.mem_cons_of_mem _ hc)) acc

theorem foldl_imageViewStep_of_kind (view : Handle) (calls : List Call)
    (h : ∀ c ∈ calls, c.kind ≠ .CreateImageView) (acc : Option VkFormat) :
    calls.foldl (imageViewStep view) acc = acc := by
  induction calls generalizing acc with
  | nil => rfl
  | cons c cs ih =>
    have hc := h c (List.mem_cons_self _ _)
    have e : imageViewStep view acc c = acc := by
      cases c <;> first | rfl | exact absurd rfl hc
    rw [List.foldl_cons, e]
    exact ih (fun c hc => h c (List.mem_cons_of_mem _ hc)) acc

theorem foldl_framebufferStep_of_kind (fb : Handle) (calls : List Call)
    (h : ∀ c ∈ calls, c.kind ≠ .vkCreateFramebuffer) (acc : Option VkFramebufferCreateInfo) :
    calls.foldl (framebufferStep fb) acc = acc := by
  induction calls generalizing acc with
  | nil => rfl
  | cons c cs ih =>
    have hc := h c (List.mem_cons_self _ _)
    have e : framebufferStep fb acc c = acc := by
      cases c <;> first | rfl | exact absurd rfl hc
    rw [List.foldl_cons, e]
    exact ih (fun c hc => h c (List.mem_cons_of_mem _ hc)) acc

/-- Every call of the swapchain framebuffer loop is a `vkCreateFramebuffer`. -/
theorem kinds_swapChainCalls (rp : Handle) (ext : VkExtent2D) (views : List Nat) (first : Nat) :
    ∀ c ∈ swapChainFramebufferCalls rp ext views first, c.kind = .vkCreateFramebuffer := by
  induction views generalizing first with
  | nil => simp [swapChainFramebufferCalls]
  | cons v vs ih =>
    intro c hc
    simp only [swapChainFramebufferCalls, List.mem_cons] at hc
    rcases hc with rfl | hc
    · rfl
    · exact ih _ c hc



theorem Device.Extends.refl (d : Device) (ks : List CallKind) : d.Extends d ks :=
  ⟨[], by simp, by simp⟩

theorem Device.Extends.trans {r m d : Device} {ks1 ks2 ks : List CallKind}
    (h2 : r.Extends m ks2) (h1 : m.Extends d ks1) (s1 : ks1 ⊆ ks) (s2 : ks2 ⊆ ks) :
    r.Extends d ks := by
  obtain ⟨c2, e2, k2⟩ := h2
  obtain ⟨c1, e1, k1⟩ := h1
  refine ⟨c1 ++ c2, by rw [e2, e1, List.append_assoc], ?_⟩
  intro c hc
  rcases List.mem_append.1 hc with hc | hc
  · exact s1 (k1 c hc)
  · exact s2 (k2 c hc)

theorem Device.Extends.renderPassInfo {r d : Device} {ks : List CallKind} (h : r.Extends d ks)
    (hk : CallKind.vkCreateRenderPass ∉ ks) (rp : Handle) :
    r.renderPassInfo rp = d.renderPassInfo rp := by
  obtain ⟨calls, e, k⟩ := h
  unfold Device.renderPassInfo
  rw [e, List.foldl_append]
  exact foldl_renderPassStep_of_kind rp calls (fun c hc heq => hk (heq ▸ k c hc)) _

theorem Device.Extends.imageViewFormat {r d : Device} {ks : List CallKind} (h : r.Extends d ks)
    (hk : CallKind.CreateImageView ∉ ks) (view : Handle) :
    r.imageViewFormat view = d.imageViewFormat view := by
  obtain ⟨calls, e, k⟩ := h
  unfold Device.imageViewFormat
  rw [e, List.foldl_append]
  exact foldl_imageViewStep_of_kind view calls (fun c hc heq => hk (heq ▸ k c hc)) _

theorem Device.Extends.framebufferInfo {r d : Device} {ks : List CallKind} (h : r.Extends d ks)
    (hk : CallKind.vkCreateFramebuffer ∉ ks) (fb : Handle) :
    r.framebufferInfo fb = d.framebufferInfo fb := by
  obtain ⟨calls, e, k⟩ := h
  unfold Device.framebufferInfo
  rw [e, List.foldl_append]
  exact foldl_framebufferStep_of_kind fb calls (fun c hc heq => hk (heq ▸ k c hc)) _

open MotionBlurExample in
theorem CreateSamplers_extends (self : MotionBlurExample) (d : Device)
    (r : Device × MotionBlurExample) (h : self.CreateSamplers d = .ok r) :
    r.1.Extends d [.vkCreateSampler] := by
  simp only [CreateSamplers, utils.CreateLinearSampler, utils.CreateNearestSampler, vkCreateSampler,
    bind_assoc, check_request_bind, pure_bind, pure_ok] at h
  obtain ⟨-, -, rfl⟩ := h
  exact ⟨_, by simp only [List.append_assoc]; rfl, by simp [Call.kind]⟩

theorem CreateRenderTargets_extends (self : MotionBlurExample) (ctx : VulkanContext) (d : Device)
    (r : Device × MotionBlurExample) (h : self.CreateRenderTargets ctx d = .ok r) :
    r.1.Extends d [.CreateImage, .CreateImageView] := by
  rw [CreateRenderTargets_ok self ctx d r h]
  exact ⟨_, rfl, by simp [Call.kind]⟩

theorem CreateRenderPasses_extends (self : MotionBlurExample) (ctx : VulkanContext) (d : Device)
    (r : Device × MotionBlurExample) (h : self.CreateRenderPasses ctx d = .ok r) :
    r.1.Extends d [.vkCreateRenderPass] := by
  rw [CreateRenderPasses_ok self ctx d r h]
  exact ⟨_, rfl, by simp [Call.kind]⟩

open MotionBlurExample in
theorem CreateDescriptorSetLayouts_extends (self : MotionBlurExample) (d : Device)
    (r : Device × MotionBlurExample) (h : self.CreateDescriptorSetLayouts d = .ok r) :
    r.1.Extends d [.vkCreateDescriptorSetLayout] := by
  simp only [CreateDescriptorSetLayouts, vkCreateDescriptorSetLayout, bind_assoc, check_request_bind,
    pure_bind, pure_ok] at h
  obtain ⟨-, -, -, rfl⟩ := h
  exact ⟨_, by simp only [List.append_assoc]; rfl, by simp [Call.kind]⟩

open MotionBlurExample in
theorem CreatePipelineLayouts_extends (self : MotionBlurExample) (d : Device)
    (r : Device × MotionBlurExample) (h : self.CreatePipelineLayouts d = .ok r) :
    r.1.Extends d [.vkCreatePipelineLayout] := by
  simp only [CreatePipelineLayouts, vkCreatePipelineLayout, bind_assoc, check_request_bind,
    pure_bind, pure_ok] at h
  obtain ⟨-, -, -, -, rfl⟩ := h
  exact ⟨_, by simp only [List.append_assoc]; rfl, by simp [Call.kind]⟩

open MotionBlurExample in
theorem CreatePipelines_extends (self : MotionBlurExample) (fs : FileSystem) (ctx : VulkanContext)
    (d : Device) (r : Device × MotionBlurExample) (h : self.CreatePipelines fs ctx d = .ok r) :
    r.1.Extends d [.CreateShaderModule, .vkCreateGraphicsPipelines, .vkDestroy] := by
  simp only [CreatePipelines, utils.CreatePipeline, vkCreateGraphicsPipelines, vkDestroyShaderModule,
    Device.emit, bind_assoc, throwsAt_ReadFile_bind, throwsAt_CreateShaderModule_bind,
    throwsAt_check_request_bind, pure_bind,
    pure_ok] at h
  obtain ⟨_, -, _, -, -, -, -, _, -, _, -, -, -, -, _, -, _, -, -, -, -, _, -, _, -, -, -, -,
    _, -, _, -, -, -, -, rfl⟩ := h
  exact ⟨_, by simp only [List.append_assoc]; rfl, by simp [Call.kind]⟩

theorem CreateFramebuffers_extends (self : MotionBlurExample) (ctx : VulkanContext) (d : Device)
    (r : Device × MotionBlurExample) (h : self.CreateFramebuffers ctx d = .ok r) :
    r.1.Extends d [.vkCreateFramebuffer] := by
  rw [CreateFramebuffers_ok self ctx d r h]
  refine ⟨_, by simp only [List.append_assoc]; rfl, ?_⟩
  intro c hc
  rcases List.mem_append.1 hc with hc | hc
  · simp [kinds_swapChainCalls _ _ _ _ c hc]
  · simp only [List.mem_cons, List.mem_singleton, List.not_mem_nil, or_false] at hc
    rcases hc with rfl | rfl | rfl | rfl <;> simp [Call.kind]

open MotionBlurExample in
theorem CreateTriangleVertexBuffer_extends (self : MotionBlurExample) (ctx : VulkanContext)
    (d : Device) (r : Device × MotionBlurExample) (h : self.CreateTriangleVertexBuffer ctx d = .ok r) :
    r.1.Extends d [.CreateBuffer, .vkMapMemory, .memcpy, .vkUnmapMemory, .CopyBuffer, .vkDestroy] := by
  simp only [CreateTriangleVertexBuffer, vkMapMemory, memcpy, vkUnmapMemory, vkDestroyBuffer,
    vkFreeMemory, VulkanContext.CopyBuffer, Device.emit, bind_assoc, CreateBuffer_bind, pure_bind,
    pure_ok] at h
  obtain ⟨-, -, rfl⟩ := h
  exact ⟨_, by simp only [List.append_assoc]; rfl, by simp [Call.kind]⟩

theorem FullscreenQuad_Initialize_extends (self : FullscreenQuad) (ctx : VulkanContext)
    (d : Device) (r : Device × FullscreenQuad) (h : self.Initialize ctx d = .ok r) :
    r.1.Extends d [.CreateBuffer, .vkMapMemory, .memcpy, .vkUnmapMemory, .CopyBuffer, .vkDestroy] := by
  unfold FullscreenQuad.Initialize at h
  by_cases hi : self.initialized = true
  · simp only [hi, if_true, pure_ok] at h
    subst h
    exact Device.Extends.refl _ _
  · simp only [hi, Bool.false_eq_true, if_false, vkMapMemory, memcpy, vkUnmapMemory, vkDestroyBuffer,
      vkFreeMemory, VulkanContext.CopyBuffer, Device.emit, bind_assoc, CreateBuffer_bind, pure_bind,
      pure_ok] at h
    obtain ⟨-, -, -, -, rfl⟩ := h
    exact ⟨_, by simp only [List.append_assoc]; rfl, by simp [Call.kind]⟩

open MotionBlurExample in
theorem CreateUniformBuffers_extends (self : MotionBlurExample) (ctx : VulkanContext)
    (d : Device) (r : Device × MotionBlurExample) (h : self.CreateUniformBuffers ctx d = .ok r) :
    r.1.Extends d [.CreateBuffer, .vkMapMemory] := by
  simp only [CreateUniformBuffers, range_frames, max_frames, List.forIn_cons, List.forIn_nil,
    vkMapMemory, Device.emit, bind_assoc, CreateBuffer_bind, pure_bind, pure_ok, set_set_resize,
    Nat.add_assoc, Nat.reduceAdd] at h
  obtain ⟨-, -, -, -, rfl⟩ := h
  exact ⟨_, by simp only [List.append_assoc]; rfl, by simp [Call.kind]⟩

open MotionBlurExample in
theorem CreateDescriptorPool_extends (self : MotionBlurExample) (d : Device)
    (r : Device × MotionBlurExample) (h : self.CreateDescriptorPool d = .ok r) :
    r.1.Extends d [.vkCreateDescriptorPool] := by
  simp only [CreateDescriptorPool, vkCreateDescriptorPool, bind_assoc, check_request_bind, pure_bind,
    pure_ok] at h
  obtain ⟨-, rfl⟩ := h
  exact ⟨_, rfl, by simp [Call.kind]⟩

set_option maxHeartbeats 1000000 in
open MotionBlurExample in
theorem CreateDescriptorSets_extends (self : MotionBlurExample) (d : Device)
    (r : Device × MotionBlurExample) (h : self.CreateDescriptorSets d = .ok r) :
    r.1.Extends d [.vkAllocateDescriptorSets, .vkUpdateDescriptorSets] := by
  simp only [CreateDescriptorSets, range_frames, max_frames, List.forIn_cons, List.forIn_nil, bind_assoc,
    allocate_bind, elemAt_bind, pure_bind, pure_ok, List.length_replicate, vkUpdateDescriptorSets,
    Device.emit, List.map_cons, List.map_nil, List.getElem?_cons_zero, List.getElem?_cons_succ,
    Option.some.injEq, exists_eq_left', Nat.add_assoc, Nat.reduceAdd, Nat.add_zero,
    List.range_succ, List.range_zero, List.nil_append, List.cons_append, List.append_assoc] at h
  obtain ⟨-, _, -, _, -, -, _, -, _, -, -, _, -, _, -, -, _, -, _, -, -, rfl⟩ := h
  exact ⟨_, rfl, by simp [Call.kind]⟩



theorem Device.Extends.mono {r d : Device} {ks ks' : List CallKind} (h : r.Extends d ks)
    (s : ks ⊆ ks') : r.Extends d ks' := by
  obtain ⟨c, e, k⟩ := h
  exact ⟨c, e, fun x hx => s (k x hx)⟩

theorem Device.Extends.append {r m d : Device} {ks : List CallKind}
    (h1 : m.Extends d ks) (h2 : r.Extends m ks) : r.Extends d ks :=
  Device.Extends.trans h2 h1 (fun _ hx => hx) (fun _ hx => hx)

theorem Initialize_stages (self : MotionBlurExample) (fs : FileSystem) (ctx : VulkanContext)
    (d : Device) (r : Device × MotionBlurExample) (h : self.Initialize fs ctx d = .ok r) :
    ∃ d1 s1 d2 s2 d3 s3, self.CreateSamplers d = .ok (d1, s1) ∧
      s1.CreateRenderTargets ctx d1 = .ok (d2, s2) ∧ s2.CreateRenderPasses ctx d2 = .ok (d3, s3) ∧
      r.1.Extends d3 laterKinds ∧
      r.2.renderTargets = s2.renderTargets ∧ (∀ p, r.2.renderPass p = s3.renderPass p) ∧
      r.2.totalTime = self.totalTime ∧ r.2.previousMVP = self.previousMVP := by
  simp only [MotionBlurExample.Initialize, bind_ok_iff, messageOnly_ok, Prod.exists, pure_ok] at h
  obtain ⟨d1, s1, h1, d2, s2, h2, d3, s3, h3, d4, s4, h4, d5, s5, h5, d6, s6, h6, d7, s7, h7,
    d8, s8, h8, d9, q9, h9, d10, s10, h10, d11, s11, h11, d12, s12, h12, rfl⟩ := h
  refine ⟨d1, s1, d2, s2, d3, s3, h1, h2, h3, ?_, ?_⟩
  · have x4 : d4.Extends d3 laterKinds :=
      (CreateDescriptorSetLayouts_extends _ _ _ h4).mono (by decide)
    have x5 : d5.Extends d4 laterKinds := (CreatePipelineLayouts_extends _ _ _ h5).mono (by decide)
    have x6 : d6.Extends d5 laterKinds := (CreatePipelines_extends _ _ _ _ _ h6).mono (by decide)
    have x7 : d7.Extends d6 laterKinds := (CreateFramebuffers_extends _ _ _ _ h7).mono (by decide)
    have x8 : d8.Extends d7 laterKinds :=
      (CreateTriangleVertexBuffer_extends _ _ _ _ h8).mono (by decide)
    have x9 : d9.Extends d8 laterKinds :=
      (FullscreenQuad_Initialize_extends _ _ _ _ h9).mono (by decide)
    have x10 : d10.Extends d9 laterKinds := (CreateUniformBuffers_extends _ _ _ _ h10).mono (by decide)
    have x11 : d11.Extends d10 laterKinds := (CreateDescriptorPool_extends _ _ _ h11).mono (by decide)
    have x12 : d12.Extends d11 laterKinds := (CreateDescriptorSets_extends _ _ _ h12).mono (by decide)
    exact ((((((((x4.append x5).append x6).append x7).append x8).append x9).append x10).append
      x11).append x12)
  · have e1 := CreateSamplers_ok _ _ _ h1
    have e2 := CreateRenderTargets_ok _ _ _ _ h2
    have e3 := CreateRenderPasses_ok _ _ _ _ h3
    obtain ⟨e4, -⟩ := CreateDescriptorSetLayouts_ok _ _ _ h4
    obtain ⟨e5, -⟩ := CreatePipelineLayouts_ok _ _ _ h5
    obtain ⟨e6, -⟩ := CreatePipelines_ok _ _ _ _ _ h6
    have e7 := CreateFramebuffers_ok _ _ _ _ h7
    obtain ⟨e8, -⟩ := CreateTriangleVertexBuffer_ok _ _ _ _ h8
    obtain ⟨e10, -⟩ := CreateUniformBuffers_ok _ _ _ _ h10
    obtain ⟨e11, -⟩ := CreateDescriptorPool_ok _ _ _ h11
    obtain ⟨e12, -⟩ := CreateDescriptorSets_ok _ _ _ h12
    simp only [Prod.mk.injEq] at e1 e2 e3 e4 e5 e6 e7 e8 e10 e11 e12
    refine ⟨?_, ?_, ?_, ?_⟩
    · show s12.renderTargets = _
      rw [e12, e11, e10, e8, e7.2, e6, e5, e4, e3.2]
      rfl
    · intro p
      show s12.renderPass p = _
      rw [e12, e11, e10, e8, e7.2, e6, e5, e4]
      cases p <;> rfl
    · show s12.totalTime = _
      rw [e12, e11, e10, e8, e7.2, e6, e5, e4, e3.2, e2.2, e1]
    · show s12.previousMVP = _
      rw [e12, e11, e10, e8, e7.2, e6, e5, e4, e3.2, e2.2, e1]



theorem imageViewFormat_targets (s1 : MotionBlurExample) (ctx : VulkanContext) (d1 d2 : Device)
    (s2 : MotionBlurExample) (h2 : s1.CreateRenderTargets ctx d1 = .ok (d2, s2)) :
    d2.imageViewFormat s2.rtSceneColor.view = some s2.rtSceneColor.format ∧
    d2.imageViewFormat s2.rtVelocity.view = some s2.rtVelocity.format ∧
    d2.imageViewFormat s2.rtDepth.view = some s2.rtDepth.format ∧
    d2.imageViewFormat s2.rtMotion.view = some s2.rtMotion.format ∧
    d2.imageViewFormat s2.rtBlurIntermediate.view = some s2.rtBlurIntermediate.format ∧
    d2.imageViewFormat s2.rtBlurFinal.view = some s2.rtBlurFinal.format ∧
    s2.renderTargets.map (fun t => t.format) =
      [VK_FORMAT_R16G16B16A16_SFLOAT, VK_FORMAT_R16G16_SFLOAT, ctx.FindDepthFormat,
        VK_FORMAT_R16G16B16A16_SFLOAT, VK_FORMAT_R16G16B16A16_SFLOAT,
        VK_FORMAT_R16G16B16A16_SFLOAT] := by
  have e2 := CreateRenderTargets_ok _ _ _ _ h2
  simp only [Prod.mk.injEq] at e2
  obtain ⟨rfl, rfl⟩ := e2
  simp [Device.imageViewFormat, imageViewStep, List.foldl_append, MotionBlurExample.renderTargets,
    VulkanContext.FindDepthFormat]



theorem map_some_eq {α : Type} {xs ys : List α} (h : xs.map some = ys.map some) : xs = ys :=
  List.map_injective_iff.2 (Option.some_injective α) h

theorem renderPassInfo_created (s2 : MotionBlurExample) (ctx : VulkanContext) (d2 d3 : Device)
    (s3 : MotionBlurExample) (h3 : s2.CreateRenderPasses ctx d2 = .ok (d3, s3)) (p : Pass) :
    ∃ info, d3.renderPassInfo (s3.renderPass p) = some info ∧
      info.pAttachments.map (fun a => a.format) =
        match p with
        | .GBuffer => [s2.rtSceneColor.format, s2.rtVelocity.format, s2.rtDepth.format]
        | .MotionApply => [s2.rtMotion.format]
        | .BlurVertical => [s2.rtBlurIntermediate.format]
        | .BlurHorizontal => [s2.rtBlurFinal.format]
        | .Final => [ctx.GetSwapChainFormat] := by
  have e3 := CreateRenderPasses_ok _ _ _ _ h3
  simp only [Prod.mk.injEq] at e3
  obtain ⟨rfl, rfl⟩ := e3
  cases p <;>
    simp [Device.renderPassInfo, renderPassStep, MotionBlurExample.renderPass,
      MotionBlurExample.gBufferRenderPassInfo, MotionBlurExample.postProcessRenderPassInfo,
      MotionBlurExample.finalRenderPassInfo]

/-- C11: after a successful `Initialize`, the render pass of each pass declares the attachment
formats G-Buffer [R16G16B16A16_SFLOAT, R16G16_SFLOAT, depth format], Motion-Apply, Blur-Vertical
and Blur-Horizontal [R16G16B16A16_SFLOAT], Final [swapchain image format]; the framebuffer the
pass renders into was created for that render pass, and the image view attached at each index
has the format declared at that index (for the offscreen passes the format given to
`CreateImageView`, for the Final pass the format of the swapchain image views). No declared
format is `VK_FORMAT_UNDEFINED` when the depth format and the swapchain format are not; a
G-Buffer render pass created before `CreateRenderTargets` has run declares three undefined
formats. -/
theorem renderPass_formats_match_attachments (self : MotionBlurExample) (fs : FileSystem)
    (ctx : VulkanContext) (d : Device) (r : Device × MotionBlurExample)
    (h : self.Initialize fs ctx d = .ok r) (p : Pass) (imageIndex : Nat)
    (hi : p = .Final → imageIndex < ctx.swapChainImageViews.length) :
    (∃ info fb fbInfo,
      r.1.renderPassInfo (r.2.renderPass p) = some info ∧
      info.pAttachments.map (fun a => a.format) = p.formats ctx ∧
      r.2.framebuffer imageIndex p = some fb ∧ r.1.framebufferInfo fb = some fbInfo ∧
      fbInfo.renderPass = r.2.renderPass p ∧
      (p ≠ .Final → fbInfo.pAttachments.map r.1.imageViewFormat =
        info.pAttachments.map (fun a => some a.format)) ∧
      (p = .Final → fbInfo.pAttachments.map ctx.imageViewFormat =
        info.pAttachments.map (fun a => some a.format)) ∧
      (ctx.FindDepthFormat ≠ VK_FORMAT_UNDEFINED → ctx.GetSwapChainFormat ≠ VK_FORMAT_UNDEFINED →
        ∀ a ∈ info.pAttachments, a.format ≠ VK_FORMAT_UNDEFINED)) ∧
    ∀ d0 r0, MotionBlurExample.CreateRenderPasses {} ctx d0 = .ok r0 →
      (r0.1.renderPassInfo (r0.2.renderPass .GBuffer)).map
          (fun info => info.pAttachments.map (fun a => a.format)) =
        some [VK_FORMAT_UNDEFINED, VK_FORMAT_UNDEFINED, VK_FORMAT_UNDEFINED] := by
  constructor
  · have hw := Initialize_wired self fs ctx d r h
    obtain ⟨d1, s1, d2, s2, d3, s3, h1, h2, h3, hx, hrt, hrp, -, -⟩ :=
      Initialize_stages self fs ctx d r h
    obtain ⟨v1, v2, v3, v4, v5, v6, hf⟩ := imageViewFormat_targets s1 ctx d1 d2 s2 h2
    have hv : ∀ v, r.1.imageViewFormat v = d2.imageViewFormat v := fun v =>
      (hx.imageViewFormat (by decide) v).trans
        ((CreateRenderPasses_extends _ _ _ _ h3).imageViewFormat (by decide) v)
    have hinfo : ∀ rp, r.1.renderPassInfo rp = d3.renderPassInfo rp := fun rp =>
      hx.renderPassInfo (by decide) rp
    obtain ⟨info, hri, hfmt⟩ := renderPassInfo_created s2 ctx d2 d3 s3 h3 p
    simp only [MotionBlurExample.renderTargets, List.cons.injEq, and_true] at hrt
    obtain ⟨t1, t2, t3, t4, t5, t6⟩ := hrt
    simp only [MotionBlurExample.renderTargets, List.map_cons, List.map_nil, List.cons.injEq,
      and_true] at hf
    obtain ⟨g1, g2, g3, g4, g5, g6⟩ := hf
    obtain ⟨fb, fbInfo, hfb, hfi, hfrp, hatt, -, -⟩ := hw.framebuffers p imageIndex hi
    have hfmt' : info.pAttachments.map (fun a => some a.format) =
        (info.pAttachments.map (fun a => a.format)).map some := by simp
    refine ⟨info, fb, fbInfo, by rw [hinfo, hrp, hri], ?_, hfb, hfi, hfrp, ?_, ?_, ?_⟩
    · rw [hfmt]
      cases p <;> simp [Pass.formats, g1, g2, g3, g4, g5, g6]
    · intro hp
      rw [hfmt', hfmt]
      cases p
      case Final => exact absurd rfl hp
      case GBuffer =>
        have ha : fbInfo.pAttachments =
            [r.2.rtSceneColor.view, r.2.rtVelocity.view, r.2.rtDepth.view] :=
          map_some_eq (by simpa [Pass.writes, MotionBlurExample.view] using hatt)
        simp [ha, hv, t1, t2, t3, v1, v2, v3]
      case MotionApply =>
        have ha : fbInfo.pAttachments = [r.2.rtMotion.view] :=
          map_some_eq (by simpa [Pass.writes, MotionBlurExample.view] using hatt)
        simp [ha, hv, t4, v4]
      case BlurVertical =>
        have ha : fbInfo.pAttachments = [r.2.rtBlurIntermediate.view] :=
          map_some_eq (by simpa [Pass.writes, MotionBlurExample.view] using hatt)
        simp [ha, hv, t5, v5]
      case BlurHorizontal =>
        have ha : fbInfo.pAttachments = [r.2.rtBlurFinal.view] :=
          map_some_eq (by simpa [Pass.writes, MotionBlurExample.view] using hatt)
        simp [ha, hv, t6, v6]
    · rintro rfl
      have hlt := hi rfl
      have ha : fbInfo.pAttachments = [ctx.swapChainImageViews[imageIndex]] :=
        map_some_eq (by simpa [Pass.writes, MotionBlurExample.view, List.getElem?_eq_getElem hlt]
          using hatt)
      rw [hfmt', hfmt, ha]
      simp [VulkanContext.imageViewFormat, VulkanContext.GetSwapChainFormat, List.getElem_mem]
    · intro hd hs a ha
      have : a.format ∈ info.pAttachments.map (fun a => a.format) := List.mem_map_of_mem _ ha
      rw [hfmt] at this
      cases p <;> simp [g1, g2, g3, g4, g5, g6] at this
      · rcases this with e | e | e <;> rw [e]
        · decide
        · decide
        · exact hd
      · rw [this]; decide
      · rw [this]; decide
      · rw [this]; decide
      · rw [this]; exact hs
  · intro d0 r0 h0
    rw [CreateRenderPasses_ok _ _ _ _ h0]
    simp [Device.renderPassInfo, renderPassStep, MotionBlurExample.renderPass,
      MotionBlurExample.gBufferRenderPassInfo]



/-- C11, at the G-Buffer pass of the sample run: the declared formats are 97
(R16G16B16A16_SFLOAT), 83 (R16G16_SFLOAT) and the depth format 126 of the sample context. -/
theorem renderPass_formats_match_attachments_witness :
    ∃ r, MotionBlurExample.Initialize {} demoFiles demoContext demoDevice = .ok r ∧
      ∃ info, r.1.renderPassInfo (r.2.renderPass .GBuffer) = some info ∧
        info.pAttachments.map (fun a => a.format) = [97, 83, 126] := by
  have hok : (MotionBlurExample.Initialize {} demoFiles demoContext demoDevice).isOk = true := rfl
  cases h : MotionBlurExample.Initialize {} demoFiles demoContext demoDevice with
  | error e => rw [h] at hok; cases hok
  | ok r =>
    obtain ⟨⟨info, fb, fbInfo, h1, h2, -⟩, -⟩ :=
      renderPass_formats_match_attachments {} demoFiles demoContext demoDevice r h .GBuffer 0
        (fun e => by cases e)
    exact ⟨r, rfl, info, h1, h2⟩

theorem overwrite_full (dst src : List Byte) (n : Nat) (hs : src.length = n) (hd : dst.length = n) :
    overwrite dst src n = src := by
  subst hs
  simp [overwrite, hd]

theorem FullscreenQuad_Initialize_log (self : FullscreenQuad) (ctx : VulkanContext)
    (d : Device) (r : Device × FullscreenQuad) (hi : self.initialized = false)
    (h : self.Initialize ctx d = .ok r) :
    r.2 = { self with vertexBuffer := d.next + 3, vertexBufferMemory := d.next + 4,
                      indexBuffer := d.next + 7, indexBufferMemory := d.next + 8,
                      initialized := true } ∧
    r.1.log = d.log ++
      [ Call.CreateBuffer 64 VK_BUFFER_USAGE_TRANSFER_SRC_BIT
          (VK_MEMORY_PROPERTY_HOST_VISIBLE_BIT ||| VK_MEMORY_PROPERTY_HOST_COHERENT_BIT)
          (d.next + 1) (d.next + 2),
        Call.vkMapMemory (d.next + 2) 0 64,
        Call.memcpy (d.next + 2) FullscreenQuad.vertexData 64,
        Call.vkUnmapMemory (d.next + 2),
        Call.CreateBuffer 64 (VK_BUFFER_USAGE_TRANSFER_DST_BIT ||| VK_BUFFER_USAGE_VERTEX_BUFFER_BIT)
          VK_MEMORY_PROPERTY_DEVICE_LOCAL_BIT (d.next + 3) (d.next + 4),
        Call.CopyBuffer (d.next + 1) (d.next + 3) 64,
        Call.vkDestroyBuffer (d.next + 1),
        Call.vkFreeMemory (d.next + 2),
        Call.CreateBuffer 12 VK_BUFFER_USAGE_TRANSFER_SRC_BIT
          (VK_MEMORY_PROPERTY_HOST_VISIBLE_BIT ||| VK_MEMORY_PROPERTY_HOST_COHERENT_BIT)
          (d.next + 5) (d.next + 6),
        Call.vkMapMemory (d.next + 6) 0 12,
        Call.memcpy (d.next + 6) FullscreenQuad.indexData 12,
        Call.vkUnmapMemory (d.next + 6),
        Call.CreateBuffer 12 (VK_BUFFER_USAGE_TRANSFER_DST_BIT ||| VK_BUFFER_USAGE_INDEX_BUFFER_BIT)
          VK_MEMORY_PROPERTY_DEVICE_LOCAL_BIT (d.next + 7) (d.next + 8),
        Call.CopyBuffer (d.next + 5) (d.next + 7) 12,
        Call.vkDestroyBuffer (d.next + 5),
        Call.vkFreeMemory (d.next + 6) ] := by
  unfold FullscreenQuad.Initialize at h
  simp only [hi, Bool.false_eq_true, if_false, vkMapMemory, memcpy, vkUnmapMemory, vkDestroyBuffer,
    vkFreeMemory, VulkanContext.CopyBuffer, Device.emit, bind_assoc, CreateBuffer_bind, pure_bind,
    pure_ok] at h
  obtain ⟨-, -, -, -, rfl⟩ := h
  constructor
  · simp [Nat.add_assoc]
  · simp [Nat.add_assoc, FullscreenQuad.vertices, FullscreenQuad.indices]
    exact ⟨rfl, rfl⟩

theorem CreateTriangleVertexBuffer_log (self : MotionBlurExample) (ctx : VulkanContext)
    (d : Device) (r : Device × MotionBlurExample) (h : self.CreateTriangleVertexBuffer ctx d = .ok r) :
    r.1.log = d.log ++
      [ Call.CreateBuffer 72 VK_BUFFER_USAGE_TRANSFER_SRC_BIT
          (VK_MEMORY_PROPERTY_HOST_VISIBLE_BIT ||| VK_MEMORY_PROPERTY_HOST_COHERENT_BIT)
          (d.next + 1) (d.next + 2),
        Call.vkMapMemory (d.next + 2) 0 72,
        Call.memcpy (d.next + 2) triangleVertexData 72,
        Call.vkUnmapMemory (d.next + 2),
        Call.CreateBuffer 72 (VK_BUFFER_USAGE_TRANSFER_DST_BIT ||| VK_BUFFER_USAGE_VERTEX_BUFFER_BIT)
          VK_MEMORY_PROPERTY_DEVICE_LOCAL_BIT (d.next + 3) (d.next + 4),
        Call.CopyBuffer (d.next + 1) (d.next + 3) 72,
        Call.vkDestroyBuffer (d.next + 1),
        Call.vkFreeMemory (d.next + 2) ] := by
  simp only [MotionBlurExample.CreateTriangleVertexBuffer, vkMapMemory, memcpy, vkUnmapMemory,
    vkDestroyBuffer, vkFreeMemory, VulkanContext.CopyBuffer, Device.emit, bind_assoc,
    CreateBuffer_bind, pure_bind, pure_ok] at h
  obtain ⟨-, -, rfl⟩ := h
  simp [Nat.add_assoc, triangleVertices]
  rfl

theorem length_bytes_map (h : HostData) :
    (h.bytes.map some).length = h.scalarBytes * h.scalars.length := by
  simp only [HostData.bytes, List.length_map]
  induction h.scalars with
  | nil => simp
  | cons q qs ih => simp [List.flatMap_cons, ih, Nat.mul_succ, Nat.add_comm]

/-- The contents of the device-local buffer after one staged upload: `staging` is created,
filled from the host array `src` through its mapped memory, `buffer` is created, and the
staging buffer is copied into it, all with the byte count `n` of the host array. -/
theorem bufferBytes_upload (m : Memory) (src : HostData) (n : Nat) (u1 p1 u2 p2 : VkFlags)
    (o : Nat) (staging sm buffer bm : Handle) (hn : n = src.scalarBytes * src.scalars.length)
    (h1 : buffer ≠ staging) :
    ([ Call.CreateBuffer n u1 p1 staging sm, Call.vkMapMemory sm o n, Call.memcpy sm src n,
       Call.vkUnmapMemory sm, Call.CreateBuffer n u2 p2 buffer bm,
       Call.CopyBuffer staging buffer n, Call.vkDestroyBuffer staging,
       Call.vkFreeMemory sm ].foldl memoryStep m) buffer = some (bm, src.bytes.map some) := by
  have hl := length_bytes_map src
  simp only [List.foldl_cons, List.foldl_nil, memoryStep, h1, if_false, if_true, Option.map_some',
    Option.getD_some, ne_eq, not_false_eq_true, h1.symm]
  have inner : overwrite (List.replicate n none) (src.bytes.map some) n = src.bytes.map some :=
    overwrite_full _ _ n (by rw [hl, hn]) (by simp)
  simp only [inner]

/-- A staged upload leaves every other buffer, bound to other memory, as it was. -/
theorem bufferBytes_upload_other (m : Memory) (src : HostData) (n : Nat) (u1 p1 u2 p2 : VkFlags)
    (o : Nat) (staging sm buffer bm : Handle) (b mem : Handle) (bytes : List Byte)
    (hb : m b = some (mem, bytes)) (h1 : b ≠ staging) (h2 : b ≠ buffer) (h3 : mem ≠ sm) :
    ([ Call.CreateBuffer n u1 p1 staging sm, Call.vkMapMemory sm o n, Call.memcpy sm src n,
       Call.vkUnmapMemory sm, Call.CreateBuffer n u2 p2 buffer bm,
       Call.CopyBuffer staging buffer n, Call.vkDestroyBuffer staging,
       Call.vkFreeMemory sm ].foldl memoryStep m) b = some (mem, bytes) := by
  simp only [List.foldl_cons, List.foldl_nil, memoryStep, h1, h2, h3, hb, if_false]

/-- C12: the three static geometry uploads are byte-exact. In a successful
`FullscreenQuad::Initialize` of a quad not yet initialised, the `memcpy` calls into the staging
buffers and the `CopyBuffer` calls carry the byte counts 64 = 4 * 16 (vertices) and 12 = 6 * 2
(indices), and afterwards the vertex buffer holds exactly the 64 bytes of the vertex array and the
index buffer exactly the 12 bytes of the index array; in a successful
`CreateTriangleVertexBuffer` both byte counts are 72 = 3 * 24 and the triangle vertex buffer holds
exactly the 72 bytes of the triangle array. -/
theorem static_geometry_upload_round_trip (quad : FullscreenQuad) (self : MotionBlurExample)
    (ctx : VulkanContext) (d : Device) :
    (∀ r, quad.initialized = false → quad.Initialize ctx d = .ok r →
      (∃ calls, r.1.log = d.log ++ calls ∧
        memcpyLengths calls =
          [FullscreenVertex.sizeof * FullscreenQuad.vertices.length,
            FullscreenQuad.indexSizeof * FullscreenQuad.indices.length] ∧
        memcpyLengths calls = [64, 12] ∧ copyLengths calls = [64, 12]) ∧
      r.1.bufferBytes r.2.vertexBuffer = some (FullscreenQuad.vertexData.bytes.map some) ∧
      FullscreenQuad.vertexData.bytes.length = 64 ∧
      r.1.bufferBytes r.2.indexBuffer = some (FullscreenQuad.indexData.bytes.map some) ∧
      FullscreenQuad.indexData.bytes.length = 12) ∧
    (∀ r, self.CreateTriangleVertexBuffer ctx d = .ok r →
      (∃ calls, r.1.log = d.log ++ calls ∧
        memcpyLengths calls = [TriangleVertex.sizeof * triangleVertices.length] ∧
        memcpyLengths calls = [72] ∧ copyLengths calls = [72]) ∧
      r.1.bufferBytes r.2.triangleVertexBuffer = some (triangleVertexData.bytes.map some) ∧
      triangleVertexData.bytes.length = 72) := by
  constructor
  · intro r hi h
    obtain ⟨e2, elog⟩ := FullscreenQuad_Initialize_log quad ctx d r hi h
    refine ⟨⟨_, elog, rfl, rfl, rfl⟩, ?_, rfl, ?_, rfl⟩
    · have hv := bufferBytes_upload d.memory FullscreenQuad.vertexData 64
        VK_BUFFER_USAGE_TRANSFER_SRC_BIT
        (VK_MEMORY_PROPERTY_HOST_VISIBLE_BIT ||| VK_MEMORY_PROPERTY_HOST_COHERENT_BIT)
        (VK_BUFFER_USAGE_TRANSFER_DST_BIT ||| VK_BUFFER_USAGE_VERTEX_BUFFER_BIT)
        VK_MEMORY_PROPERTY_DEVICE_LOCAL_BIT 0 (d.next + 1) (d.next + 2) (d.next + 3) (d.next + 4)
        rfl (by simp)
      have ho := bufferBytes_upload_other _ FullscreenQuad.indexData 12
        VK_BUFFER_USAGE_TRANSFER_SRC_BIT
        (VK_MEMORY_PROPERTY_HOST_VISIBLE_BIT ||| VK_MEMORY_PROPERTY_HOST_COHERENT_BIT)
        (VK_BUFFER_USAGE_TRANSFER_DST_BIT ||| VK_BUFFER_USAGE_INDEX_BUFFER_BIT)
        VK_MEMORY_PROPERTY_DEVICE_LOCAL_BIT 0 (d.next + 5) (d.next + 6) (d.next + 7) (d.next + 8)
        (d.next + 3) (d.next + 4) _ hv (by simp) (by simp) (by simp)
      rw [e2]
      simp only [Device.bufferBytes, Device.memory, elog, List.foldl_append]
      rw [show ∀ (a b c d e f g h i j k l m n o p : Call),
        [a, b, c, d, e, f, g, h, i, j, k, l, m, n, o, p] =
          [a, b, c, d, e, f, g, h] ++ [i, j, k, l, m, n, o, p] from fun _ _ _ _ _ _ _ _ _ _ _ _ _ _ _ _ => rfl,
        List.foldl_append]
      exact congrArg (Option.map Prod.snd) ho
    · have hx := bufferBytes_upload
        ([ Call.CreateBuffer 64 VK_BUFFER_USAGE_TRANSFER_SRC_BIT
            (VK_MEMORY_PROPERTY_HOST_VISIBLE_BIT ||| VK_MEMORY_PROPERTY_HOST_COHERENT_BIT)
            (d.next + 1) (d.next + 2),
          Call.vkMapMemory (d.next + 2) 0 64,
          Call.memcpy (d.next + 2) FullscreenQuad.vertexData 64,
          Call.vkUnmapMemory (d.next + 2),
          Call.CreateBuffer 64 (VK_BUFFER_USAGE_TRANSFER_DST_BIT ||| VK_BUFFER_USAGE_VERTEX_BUFFER_BIT)
            VK_MEMORY_PROPERTY_DEVICE_LOCAL_BIT (d.next + 3) (d.next + 4),
          Call.CopyBuffer (d.next + 1) (d.next + 3) 64,
          Call.vkDestroyBuffer (d.next + 1),
          Call.vkFreeMemory (d.next + 2) ].foldl memoryStep d.memory)
        FullscreenQuad.indexData 12
        VK_BUFFER_USAGE_TRANSFER_SRC_BIT
        (VK_MEMORY_PROPERTY_HOST_VISIBLE_BIT ||| VK_MEMORY_PROPERTY_HOST_COHERENT_BIT)
        (VK_BUFFER_USAGE_TRANSFER_DST_BIT ||| VK_BUFFER_USAGE_INDEX_BUFFER_BIT)
        VK_MEMORY_PROPERTY_DEVICE_LOCAL_BIT 0 (d.next + 5) (d.next + 6) (d.next + 7) (d.next + 8)
        rfl (by simp)
      rw [e2]
      simp only [Device.bufferBytes, Device.memory, elog, List.foldl_append]
      rw [show ∀ (a b c d e f g h i j k l m n o p : Call),
        [a, b, c, d, e, f, g, h, i, j, k, l, m, n, o, p] =
          [a, b, c, d, e, f, g, h] ++ [i, j, k, l, m, n, o, p] from fun _ _ _ _ _ _ _ _ _ _ _ _ _ _ _ _ => rfl,
        List.foldl_append]
      exact congrArg (Option.map Prod.snd) hx
  · intro r h
    have elog := CreateTriangleVertexBuffer_log self ctx d r h
    obtain ⟨e2, -⟩ := CreateTriangleVertexBuffer_ok self ctx d r h
    refine ⟨⟨_, elog, rfl, rfl, rfl⟩, ?_, rfl⟩
    have hv := bufferBytes_upload d.memory triangleVertexData 72
      VK_BUFFER_USAGE_TRANSFER_SRC_BIT
      (VK_MEMORY_PROPERTY_HOST_VISIBLE_BIT ||| VK_MEMORY_PROPERTY_HOST_COHERENT_BIT)
      (VK_BUFFER_USAGE_TRANSFER_DST_BIT ||| VK_BUFFER_USAGE_VERTEX_BUFFER_BIT)
      VK_MEMORY_PROPERTY_DEVICE_LOCAL_BIT 0 (d.next + 1) (d.next + 2) (d.next + 3) (d.next + 4)
      rfl (by simp)
    rw [e2]
    simp only [Device.bufferBytes, Device.memory, elog, List.foldl_append]
    exact congrArg (Option.map Prod.snd) hv



/-- C12, on a driver that refuses nothing: after the quad is initialised its vertex buffer holds
the 64 bytes of the vertex array. -/
theorem static_geometry_upload_round_trip_witness :
    ∃ r, FullscreenQuad.Initialize {} demoContext demoDevice = .ok r ∧
      r.1.bufferBytes r.2.vertexBuffer = some (FullscreenQuad.vertexData.bytes.map some) ∧
      (FullscreenQuad.vertexData.bytes.map some).length = 64 := by
  have hok : (FullscreenQuad.Initialize {} demoContext demoDevice).isOk = true := rfl
  cases h : FullscreenQuad.Initialize {} demoContext demoDevice with
  | error e => rw [h] at hok; cases hok
  | ok r =>
    exact ⟨r, rfl,
      ((static_geometry_upload_round_trip {} {} demoContext demoDevice).1 r rfl h).2.1, rfl⟩

open MotionBlurExample in
theorem CreateUniformBuffers_log (self : MotionBlurExample) (ctx : VulkanContext)
    (d : Device) (r : Device × MotionBlurExample) (h : self.CreateUniformBuffers ctx d = .ok r) :
    r.1.log = d.log ++
      [ Call.CreateBuffer MotionBlurMVPUBO.sizeof VK_BUFFER_USAGE_UNIFORM_BUFFER_BIT
          (VK_MEMORY_PROPERTY_HOST_VISIBLE_BIT ||| VK_MEMORY_PROPERTY_HOST_COHERENT_BIT)
          (d.next + 1) (d.next + 2),
        Call.vkMapMemory (d.next + 2) 0 MotionBlurMVPUBO.sizeof,
        Call.CreateBuffer MotionBlurPostProcessParams.sizeof VK_BUFFER_USAGE_UNIFORM_BUFFER_BIT
          (VK_MEMORY_PROPERTY_HOST_VISIBLE_BIT ||| VK_MEMORY_PROPERTY_HOST_COHERENT_BIT)
          (d.next + 3) (d.next + 4),
        Call.vkMapMemory (d.next + 4) 0 MotionBlurPostProcessParams.sizeof,
        Call.CreateBuffer MotionBlurMVPUBO.sizeof VK_BUFFER_USAGE_UNIFORM_BUFFER_BIT
          (VK_MEMORY_PROPERTY_HOST_VISIBLE_BIT ||| VK_MEMORY_PROPERTY_HOST_COHERENT_BIT)
          (d.next + 5) (d.next + 6),
        Call.vkMapMemory (d.next + 6) 0 MotionBlurMVPUBO.sizeof,
        Call.CreateBuffer MotionBlurPostProcessParams.sizeof VK_BUFFER_USAGE_UNIFORM_BUFFER_BIT
          (VK_MEMORY_PROPERTY_HOST_VISIBLE_BIT ||| VK_MEMORY_PROPERTY_HOST_COHERENT_BIT)
          (d.next + 7) (d.next + 8),
        Call.vkMapMemory (d.next + 8) 0 MotionBlurPostProcessParams.sizeof ] := by
  simp only [CreateUniformBuffers, range_frames, max_frames, List.forIn_cons, List.forIn_nil,
    vkMapMemory, Device.emit, bind_assoc, CreateBuffer_bind, pure_bind, pure_ok, set_set_resize,
    Nat.add_assoc, Nat.reduceAdd] at h
  obtain ⟨-, -, -, -, rfl⟩ := h
  simp

set_option maxHeartbeats 1000000 in
open MotionBlurExample in
theorem CreateDescriptorSets_bindings (self : MotionBlurExample) (d : Device)
    (r : Device × MotionBlurExample) (h : self.CreateDescriptorSets d = .ok r) :
    ∃ calls, r.1.log = d.log ++ calls ∧
      (bufferBindings calls).map (fun b => (some b.buffer, b.offset, b.range)) =
        [ (self.mvpUniformBuffers[0]?, 0, MotionBlurMVPUBO.sizeof),
          (self.mvpUniformBuffers[1]?, 0, MotionBlurMVPUBO.sizeof),
          (self.postProcessUniformBuffers[0]?, 0, MotionBlurPostProcessParams.sizeof),
          (self.postProcessUniformBuffers[1]?, 0, MotionBlurPostProcessParams.sizeof),
          (self.postProcessUniformBuffers[0]?, 0, MotionBlurPostProcessParams.sizeof),
          (self.postProcessUniformBuffers[1]?, 0, MotionBlurPostProcessParams.sizeof),
          (self.postProcessUniformBuffers[0]?, 0, MotionBlurPostProcessParams.sizeof),
          (self.postProcessUniformBuffers[1]?, 0, MotionBlurPostProcessParams.sizeof) ] := by
  simp only [CreateDescriptorSets, range_frames, max_frames, List.forIn_cons, List.forIn_nil, bind_assoc,
    allocate_bind, elemAt_bind, pure_bind, pure_ok, List.length_replicate, vkUpdateDescriptorSets,
    Device.emit, List.map_cons, List.map_nil, List.getElem?_cons_zero, List.getElem?_cons_succ,
    Option.some.injEq, exists_eq_left', Nat.add_assoc, Nat.reduceAdd, Nat.add_zero,
    List.range_succ, List.range_zero, List.nil_append, List.cons_append, List.append_assoc] at h
  obtain ⟨-, b0, hb0, b1, hb1, -, p0, hp0, p1, hp1, -, p0', hp0', p1', hp1', -, p0'', hp0'', p1'',
    hp1'', -, rfl⟩ := h
  refine ⟨_, rfl, ?_⟩
  rw [hp0] at hp0' hp0''
  rw [hp1] at hp1' hp1''
  cases hp0'
  cases hp0''
  cases hp1'
  cases hp1''
  simp [bufferBindings, hb0, hb1, hp0, hp1]



/-- The result of `Update`, written out. -/
theorem Update_eq (self : MotionBlurExample) (ctx : VulkanContext) (d : Device)
    (deltaTime : FloatVal) :
    ∃ currentMVP,
      currentMVP = MVP (.add self.totalTime deltaTime) ctx.swapChainExtent ∧
      self.Update ctx d deltaTime =
        ({ d with log := d.log ++
            [ Call.memcpyBlock self.mvpUniformBuffersMapped[ctx.currentFrame]?
                (.mvp { currMVP := currentMVP, prevMVP := self.previousMVP }) 128,
              Call.memcpyBlock self.postProcessUniformBuffersMapped[ctx.currentFrame]?
                (.params
                  { blurStrength := .lit 1
                    motionScale := .lit 1
                    texelSize :=
                      { x := .div (.lit 1) (.ofUInt ctx.swapChainExtent.width)
                        y := .div (.lit 1) (.ofUInt ctx.swapChainExtent.height) } }) 16 ] },
         { self with totalTime := .add self.totalTime deltaTime, previousMVP := currentMVP }) := by
  refine ⟨_, rfl, ?_⟩
  simp only [MotionBlurExample.Update, memcpyBlock, Device.emit, List.append_assoc,
    VulkanContext.GetCurrentFrame, VulkanContext.GetSwapChainExtent, MVP]
  rfl

/-- C13: laid out by the rule of the C++ ABI, `MotionBlurMVPUBO` has `currMVP` at offset 0 and
`prevMVP` at offset 64, both multiples of 16, and size 128; `MotionBlurPostProcessParams` has
`blurStrength` at offset 0, `motionScale` at 4, `texelSize` at 8 and size 16. For each block, the
size of the uniform buffers created for it and the range mapped (`CreateUniformBuffers`), the
range of the descriptor bound to it (`CreateDescriptorSets`) and the length of the per-frame
`memcpy` (`Update`) are all `sizeof` the block. -/
theorem uniform_block_layouts (self : MotionBlurExample) (ctx : VulkanContext) (d : Device)
    (deltaTime : FloatVal) :
    (offsets MotionBlurMVPUBO.members = [("currMVP", 0), ("prevMVP", 64)] ∧
      (∀ o ∈ offsets MotionBlurMVPUBO.members, 16 ∣ o.2) ∧
      structSize MotionBlurMVPUBO.members = 128 ∧ MotionBlurMVPUBO.sizeof = 128) ∧
    (offsets MotionBlurPostProcessParams.members =
        [("blurStrength", 0), ("motionScale", 4), ("texelSize", 8)] ∧
      structSize MotionBlurPostProcessParams.members = 16 ∧
      MotionBlurPostProcessParams.sizeof = 16) ∧
    (∀ r, self.CreateUniformBuffers ctx d = .ok r →
      ∃ b0 m0 p0 q0 b1 m1 p1 q1,
        r.2.mvpUniformBuffers = [b0, b1] ∧ r.2.mvpUniformBuffersMapped = [m0, m1] ∧
        r.2.postProcessUniformBuffers = [p0, p1] ∧ r.2.postProcessUniformBuffersMapped = [q0, q1] ∧
        r.1.log = d.log ++
          [ Call.CreateBuffer 128 VK_BUFFER_USAGE_UNIFORM_BUFFER_BIT
              (VK_MEMORY_PROPERTY_HOST_VISIBLE_BIT ||| VK_MEMORY_PROPERTY_HOST_COHERENT_BIT) b0 m0,
            Call.vkMapMemory m0 0 128,
            Call.CreateBuffer 16 VK_BUFFER_USAGE_UNIFORM_BUFFER_BIT
              (VK_MEMORY_PROPERTY_HOST_VISIBLE_BIT ||| VK_MEMORY_PROPERTY_HOST_COHERENT_BIT) p0 q0,
            Call.vkMapMemory q0 0 16,
            Call.CreateBuffer 128 VK_BUFFER_USAGE_UNIFORM_BUFFER_BIT
              (VK_MEMORY_PROPERTY_HOST_VISIBLE_BIT ||| VK_MEMORY_PROPERTY_HOST_COHERENT_BIT) b1 m1,
            Call.vkMapMemory m1 0 128,
            Call.CreateBuffer 16 VK_BUFFER_USAGE_UNIFORM_BUFFER_BIT
              (VK_MEMORY_PROPERTY_HOST_VISIBLE_BIT ||| VK_MEMORY_PROPERTY_HOST_COHERENT_BIT) p1 q1,
            Call.vkMapMemory q1 0 16 ]) ∧
    (∀ r, self.CreateDescriptorSets d = .ok r →
      ∃ calls, r.1.log = d.log ++ calls ∧
        (bufferBindings calls).map (fun b => (some b.buffer, b.offset, b.range)) =
          [ (self.mvpUniformBuffers[0]?, 0, 128), (self.mvpUniformBuffers[1]?, 0, 128),
            (self.postProcessUniformBuffers[0]?, 0, 16), (self.postProcessUniformBuffers[1]?, 0, 16),
            (self.postProcessUniformBuffers[0]?, 0, 16), (self.postProcessUniformBuffers[1]?, 0, 16),
            (self.postProcessUniformBuffers[0]?, 0, 16),
            (self.postProcessUniformBuffers[1]?, 0, 16) ]) ∧
    ∃ ubo params, (self.Update ctx d deltaTime).1.log = d.log ++
      [ Call.memcpyBlock self.mvpUniformBuffersMapped[ctx.GetCurrentFrame]? (.mvp ubo) 128,
        Call.memcpyBlock self.postProcessUniformBuffersMapped[ctx.GetCurrentFrame]? (.params params)
          16 ] := by
  refine ⟨⟨rfl, by decide, rfl, rfl⟩, ⟨rfl, rfl, rfl⟩, ?_, ?_, ?_⟩
  · intro r h
    obtain ⟨e, -⟩ := CreateUniformBuffers_ok self ctx d r h
    rw [e]
    exact ⟨_, _, _, _, _, _, _, _, rfl, rfl, rfl, rfl, CreateUniformBuffers_log self ctx d r h⟩
  · intro r h
    exact CreateDescriptorSets_bindings self d r h
  · obtain ⟨m, -, e⟩ := Update_eq self ctx d deltaTime
    rw [e]
    exact ⟨_, _, rfl⟩

/-- C13, on the sample driver: the two uniform buffers of the first frame slot are created with
128 and 16 bytes and mapped over 128 and 16 bytes. -/
theorem uniform_block_layouts_witness :
    ∃ r, MotionBlurExample.CreateUniformBuffers {} demoContext demoDevice = .ok r ∧
      ∃ b0 m0 p0 q0, r.1.log.take 4 =
        [ Call.CreateBuffer 128 VK_BUFFER_USAGE_UNIFORM_BUFFER_BIT
            (VK_MEMORY_PROPERTY_HOST_VISIBLE_BIT ||| VK_MEMORY_PROPERTY_HOST_COHERENT_BIT) b0 m0,
          Call.vkMapMemory m0 0 128,
          Call.CreateBuffer 16 VK_BUFFER_USAGE_UNIFORM_BUFFER_BIT
            (VK_MEMORY_PROPERTY_HOST_VISIBLE_BIT ||| VK_MEMORY_PROPERTY_HOST_COHERENT_BIT) p0 q0,
          Call.vkMapMemory q0 0 16 ] := by
  have hok : (MotionBlurExample.CreateUniformBuffers {} demoContext demoDevice).isOk = true := rfl
  cases h : MotionBlurExample.CreateUniformBuffers {} demoContext demoDevice with
  | error e => rw [h] at hok; cases hok
  | ok r =>
    obtain ⟨b0, m0, p0, q0, b1, m1, p1, q1, -, -, -, -, elog⟩ :=
      (uniform_block_layouts {} demoContext demoDevice (.lit 0)).2.2.1 r h
    exact ⟨r, rfl, b0, m0, p0, q0, by rw [elog]; rfl⟩



theorem Update_uploads (self : MotionBlurExample) (ctx : VulkanContext) (d : Device)
    (deltaTime : FloatVal) :
    ∃ calls, (self.Update ctx d deltaTime).1.log = d.log ++ calls ∧
      uploadedMVPs calls =
        [{ currMVP := MVP (.add self.totalTime deltaTime) ctx.swapChainExtent,
           prevMVP := self.previousMVP }] ∧
      (self.Update ctx d deltaTime).2.totalTime = .add self.totalTime deltaTime ∧
      (self.Update ctx d deltaTime).2.previousMVP =
        MVP (.add self.totalTime deltaTime) ctx.swapChainExtent := by
  obtain ⟨m, hm, e⟩ := Update_eq self ctx d deltaTime
  rw [e, ← hm]
  exact ⟨_, rfl, rfl, rfl, rfl⟩

theorem updates_uploads (frames : List (VulkanContext × FloatVal)) (d : Device)
    (self : MotionBlurExample) :
    ∃ calls, (updates frames d self).1.log = d.log ++ calls ∧
      uploadedMVPs calls = carriedMVPs self.previousMVP self.totalTime frames ∧
      (updates frames d self).2.totalTime = elapsed self.totalTime (frames.map Prod.snd) := by
  induction frames generalizing d self with
  | nil => exact ⟨[], by simp [updates], rfl, rfl⟩
  | cons f rest ih =>
    obtain ⟨ctx, deltaTime⟩ := f
    obtain ⟨c1, hlog1, hup1, ht1, hp1⟩ := Update_uploads self ctx d deltaTime
    obtain ⟨calls, hlog, hup, ht⟩ := ih (self.Update ctx d deltaTime).1 (self.Update ctx d deltaTime).2
    refine ⟨c1 ++ calls, ?_, ?_, ?_⟩
    · simp only [updates]
      rw [hlog, hlog1, List.append_assoc]
    · have : uploadedMVPs (c1 ++ calls) = uploadedMVPs c1 ++ uploadedMVPs calls := by
        simp [uploadedMVPs, List.filterMap_append]
      rw [this, hup1, hup, ht1, hp1]
      rfl
    · simp only [updates]
      rw [ht, ht1]
      rfl

theorem length_carriedMVPs (prev : glm.mat4) (t : FloatVal) (frames : List (VulkanContext × FloatVal)) :
    (carriedMVPs prev t frames).length = frames.length := by
  induction frames generalizing prev t with
  | nil => rfl
  | cons f rest ih => simp [carriedMVPs, ih]

theorem getElem?_carriedMVPs (prev : glm.mat4) (t : FloatVal) (frames : List (VulkanContext × FloatVal))
    (n : Nat) (ubo : MotionBlurMVPUBO) (h : (carriedMVPs prev t frames)[n]? = some ubo) :
    ∃ ctx deltaTime, frames[n]? = some (ctx, deltaTime) ∧
      ubo.currMVP = MVP (elapsed t ((frames.take (n + 1)).map Prod.snd)) ctx.GetSwapChainExtent := by
  induction frames generalizing prev t n with
  | nil => simp [carriedMVPs] at h
  | cons f rest ih =>
    obtain ⟨ctx, deltaTime⟩ := f
    cases n with
    | zero =>
      simp only [carriedMVPs, List.getElem?_cons_zero, Option.some.injEq] at h
      subst h
      exact ⟨ctx, deltaTime, by simp, by simp [elapsed]⟩
    | succ n =>
      simp only [carriedMVPs, List.getElem?_cons_succ] at h
      obtain ⟨c, dt, h1, h2⟩ := ih _ _ n h
      exact ⟨c, dt, by simpa using h1, by simpa [elapsed] using h2⟩

theorem carriedMVPs_chain (prev : glm.mat4) (t : FloatVal) (frames : List (VulkanContext × FloatVal))
    (n : Nat) (a b : MotionBlurMVPUBO) (ha : (carriedMVPs prev t frames)[n]? = some a)
    (hb : (carriedMVPs prev t frames)[n + 1]? = some b) : b.prevMVP = a.currMVP := by
  induction frames generalizing prev t n with
  | nil => simp [carriedMVPs] at ha
  | cons f rest ih =>
    obtain ⟨ctx, deltaTime⟩ := f
    cases n with
    | zero =>
      simp only [carriedMVPs, List.getElem?_cons_zero, Option.some.injEq] at ha
      subst ha
      simp only [carriedMVPs, List.getElem?_cons_succ] at hb
      cases rest with
      | nil => simp [carriedMVPs] at hb
      | cons g rest =>
        obtain ⟨c, dt⟩ := g
        simp only [carriedMVPs, List.getElem?_cons_zero, Option.some.injEq] at hb
        subst hb
        rfl
    | succ n =>
      simp only [carriedMVPs, List.getElem?_cons_succ] at ha hb
      exact ih _ _ n ha hb

theorem exact_elapsed (q : ℚ) (qs : List ℚ) :
    (elapsed (.lit q) (qs.map FloatVal.lit)).exact = some (q + qs.sum) := by
  suffices h : ∀ (t : FloatVal) (x : ℚ), t.exact = some x →
      (elapsed t (qs.map FloatVal.lit)).exact = some (x + qs.sum) from h _ _ rfl
  induction qs with
  | nil => intro t x ht; simpa [elapsed] using ht
  | cons y ys ih =>
    intro t x ht
    have := ih (.add t (.lit y)) (x + y) (by simp [FloatVal.exact, ht])
    simpa [elapsed, add_assoc] using this

/-- C14: for every sequence of `Update` calls on an example whose animation state is the
initial one (`totalTime` 0, `previousMVP` the identity), with any delta times, frame slots and
extents: one MVP block is uploaded per call; the `currMVP` of the n-th block is the MVP computed
for the extent of that call from the elapsed time, the float sum in order of the delta times so
far (in exact arithmetic: their sum); the `prevMVP` of the first block is the identity matrix;
and the `prevMVP` of each later block is the `currMVP` of the block before it. -/
theorem previous_mvp_carried_forward (self : MotionBlurExample) (d : Device)
    (frames : List (VulkanContext × FloatVal))
    (h0 : self.totalTime = .lit 0) (h1 : self.previousMVP = .identity) :
    ∃ calls, (updates frames d self).1.log = d.log ++ calls ∧
      (uploadedMVPs calls).length = frames.length ∧
      (∀ n ubo, (uploadedMVPs calls)[n]? = some ubo →
        ∃ ctx deltaTime, frames[n]? = some (ctx, deltaTime) ∧
          ubo.currMVP =
            MVP (elapsed (.lit 0) ((frames.take (n + 1)).map Prod.snd)) ctx.GetSwapChainExtent) ∧
      (∀ ubo, (uploadedMVPs calls)[0]? = some ubo → ubo.prevMVP = .identity) ∧
      (∀ n a b, (uploadedMVPs calls)[n]? = some a → (uploadedMVPs calls)[n + 1]? = some b →
        b.prevMVP = a.currMVP) ∧
      ∀ qs : List ℚ, (elapsed (.lit 0) (qs.map FloatVal.lit)).exact = some qs.sum := by
  obtain ⟨calls, hlog, hup, -⟩ := updates_uploads frames d self
  rw [h0, h1] at hup
  refine ⟨calls, hlog, ?_, ?_, ?_, ?_, ?_⟩
  · rw [hup, length_carriedMVPs]
  · intro n ubo h
    rw [hup] at h
    exact getElem?_carriedMVPs _ _ _ n ubo h
  · intro ubo h
    rw [hup] at h
    cases frames with
    | nil => simp [carriedMVPs] at h
    | cons f rest =>
      obtain ⟨c, dt⟩ := f
      simp only [carriedMVPs, List.getElem?_cons_zero, Option.some.injEq] at h
      subst h
      rfl
  · intro n a b ha hb
    rw [hup] at ha hb
    exact carriedMVPs_chain _ _ _ n a b ha hb
  · intro qs
    simpa using exact_elapsed 0 qs

/-- C14, for two updates of a freshly constructed example with delta times 1/60 and 1/30 at the
sample extents: the second block carries the first block's current MVP as its previous MVP. -/
theorem previous_mvp_carried_forward_witness :
    ∃ calls a b,
      (updates [(demoContext, .lit (1/60)), (resizedContext, .lit (1/30))] demoDevice {}).1.log =
        demoDevice.log ++ calls ∧
      (uploadedMVPs calls)[0]? = some a ∧ (uploadedMVPs calls)[1]? = some b ∧
      a.prevMVP = .identity ∧ b.prevMVP = a.currMVP := by
  obtain ⟨calls, hlog, hlen, -, h0, hch, -⟩ :=
    previous_mvp_carried_forward {} demoDevice
      [(demoContext, .lit (1/60)), (resizedContext, .lit (1/30))] rfl rfl
  have l0 : 0 < (uploadedMVPs calls).length := by rw [hlen]; decide
  have l1 : 1 < (uploadedMVPs calls).length := by rw [hlen]; decide
  refine ⟨calls, (uploadedMVPs calls)[0], (uploadedMVPs calls)[1], hlog,
    List.getElem?_eq_getElem l0, List.getElem?_eq_getElem l1, ?_, ?_⟩
  · exact h0 _ (List.getElem?_eq_getElem l0)
  · exact hch 0 _ _ (List.getElem?_eq_getElem l0) (List.getElem?_eq_getElem l1)



/-- C15: for every swapchain extent (w, h) with w > 0 and h > 0, every example state and every
delta time, `Update` uploads exactly one post-process block, into the mapped memory of the frame
slot `GetCurrentFrame()`, with `blurStrength` = 1.0f, `motionScale` = 1.0f and `texelSize` =
(1.0f / w, 1.0f / h), whose values in exact arithmetic are 1, 1 and (1/w, 1/h). -/
theorem postprocess_params_uploaded (self : MotionBlurExample) (ctx : VulkanContext) (d : Device)
    (deltaTime : FloatVal) (w h : Nat) (hext : ctx.GetSwapChainExtent = { width := w, height := h })
    (hw : 0 < w) (hh : 0 < h) :
    ∃ calls params, (self.Update ctx d deltaTime).1.log = d.log ++ calls ∧
      uploadedParams calls =
        [(self.postProcessUniformBuffersMapped[ctx.GetCurrentFrame]?, params)] ∧
      params.blurStrength = .lit 1 ∧ params.motionScale = .lit 1 ∧
      params.texelSize = { x := .div (.lit 1) (.ofUInt w), y := .div (.lit 1) (.ofUInt h) } ∧
      params.blurStrength.exact = some 1 ∧ params.motionScale.exact = some 1 ∧
      params.texelSize.x.exact = some (1 / (w : ℚ)) ∧
      params.texelSize.y.exact = some (1 / (h : ℚ)) := by
  obtain ⟨m, -, e⟩ := Update_eq self ctx d deltaTime
  have ew : ctx.swapChainExtent.width = w := by
    simpa [VulkanContext.GetSwapChainExtent] using congrArg VkExtent2D.width hext
  have eh : ctx.swapChainExtent.height = h := by
    simpa [VulkanContext.GetSwapChainExtent] using congrArg VkExtent2D.height hext
  have hw' : (w : ℚ) ≠ 0 := Nat.cast_ne_zero.2 (Nat.pos_iff_ne_zero.1 hw)
  have hh' : (h : ℚ) ≠ 0 := Nat.cast_ne_zero.2 (Nat.pos_iff_ne_zero.1 hh)
  rw [e, ew, eh]
  refine ⟨_, _, rfl, rfl, rfl, rfl, rfl, rfl, rfl, ?_, ?_⟩
  · simp [FloatVal.exact, hw']
  · simp [FloatVal.exact, hh']

/-- C15, at the extent 1280 x 720 in frame slot 0, for an example whose post-process blocks are
mapped at 4 and 8: the block goes to 4 and the texel size uploaded is (1/1280, 1/720). -/
theorem postprocess_params_uploaded_witness :
    ∃ calls params,
      (MotionBlurExample.Update { postProcessUniformBuffersMapped := [4, 8] } demoContext demoDevice
        (.lit (1/60))).1.log = demoDevice.log ++ calls ∧
      uploadedParams calls = [(some 4, params)] ∧
      params.texelSize.x.exact = some (1 / 1280) ∧ params.texelSize.y.exact = some (1 / 720) := by
  obtain ⟨calls, params, h1, h2, -, -, -, -, -, h3, h4⟩ :=
    postprocess_params_uploaded { postProcessUniformBuffersMapped := [4, 8] } demoContext demoDevice
      (.lit (1/60)) 1280 720 rfl (by decide) (by decide)
  exact ⟨calls, params, h1, h2, by simpa using h3, by simpa using h4⟩

theorem allocatedSets_of_kind (calls : List Call)
    (h : ∀ c ∈ calls, c.kind ≠ .vkAllocateDescriptorSets) : allocatedSets calls = [] := by
  induction calls with
  | nil => rfl
  | cons c cs ih =>
    have hc := h c (List.mem_cons_self _ _)
    have e : allocatedSets (c :: cs) = allocatedSets cs := by
      cases c <;> first | rfl | exact absurd rfl hc
    rw [e]
    exact ih (fun c hc => h c (List.mem_cons_of_mem _ hc))

theorem resetPools_of_kind (calls : List Call)
    (h : ∀ c ∈ calls, c.kind ≠ .vkResetDescriptorPool) : resetPools calls = [] := by
  induction calls with
  | nil => rfl
  | cons c cs ih =>
    have hc := h c (List.mem_cons_self _ _)
    have e : resetPools (c :: cs) = resetPools cs := by
      cases c <;> first | rfl | exact absurd rfl hc
    rw [e]
    exact ih (fun c hc => h c (List.mem_cons_of_mem _ hc))

theorem allocatedSets_append (a b : List Call) :
    allocatedSets (a ++ b) = allocatedSets a ++ allocatedSets b := by
  simp [allocatedSets, List.filterMap_append]

theorem resetPools_append (a b : List Call) :
    resetPools (a ++ b) = resetPools a ++ resetPools b := by
  simp [resetPools, List.filterMap_append]

set_option maxHeartbeats 1000000 in
open MotionBlurExample in
theorem CreateDescriptorSets_allocations (self : MotionBlurExample) (d : Device)
    (r : Device × MotionBlurExample) (h : self.CreateDescriptorSets d = .ok r) :
    ∃ calls, r.1.log = d.log ++ calls ∧
      allocatedSets calls = Pass.all.map (fun p => (self.descriptorPool, r.2.descriptorSets p)) ∧
      resetPools calls = [] ∧
      (∀ p, (r.2.descriptorSets p).length = VulkanContext.MAX_FRAMES_IN_FLIGHT) ∧
      ∀ p, ∀ set ∈ r.2.descriptorSets p, d.next < set := by
  simp only [CreateDescriptorSets, range_frames, max_frames, List.forIn_cons, List.forIn_nil, bind_assoc,
    allocate_bind, elemAt_bind, pure_bind, pure_ok, List.length_replicate, vkUpdateDescriptorSets,
    Device.emit, List.map_cons, List.map_nil, List.getElem?_cons_zero, List.getElem?_cons_succ,
    Option.some.injEq, exists_eq_left', Nat.add_assoc, Nat.reduceAdd, Nat.add_zero,
    List.range_succ, List.range_zero, List.nil_append, List.cons_append, List.append_assoc] at h
  obtain ⟨-, _, -, _, -, -, _, -, _, -, -, _, -, _, -, -, _, -, _, -, -, rfl⟩ := h
  refine ⟨_, rfl, ?_, ?_, ?_, ?_⟩
  · simp [allocatedSets, Pass.all, MotionBlurExample.descriptorSets]
  · simp [resetPools]
  · intro p
    cases p <;> rfl
  · intro p set hset
    cases p <;> simp only [MotionBlurExample.descriptorSets, List.mem_cons, List.mem_singleton,
      List.not_mem_nil, or_false] at hset <;> rcases hset with rfl | rfl <;> omega

theorem RenderTarget_Cleanup_extends (rt : RenderTarget) (d : Device) :
    (rt.Cleanup d).1.Extends d [.vkDestroy] := by
  rw [renderTarget_cleanup_eq]
  refine ⟨_, by simp only [List.append_assoc]; rfl, ?_⟩
  intro c hc
  by_cases h1 : rt.view = VK_NULL_HANDLE <;> by_cases h2 : rt.image = VK_NULL_HANDLE <;>
    by_cases h3 : rt.memory = VK_NULL_HANDLE <;>
    simp [h1, h2, h3] at hc <;> (try rcases hc with rfl | rfl | rfl) <;> simp [Call.kind]

theorem CleanupRenderTargets_extends (self : MotionBlurExample) (d : Device) :
    (self.CleanupRenderTargets d).1.Extends d [.vkDestroy] := by
  simp only [MotionBlurExample.CleanupRenderTargets]
  exact (((((RenderTarget_Cleanup_extends _ _).append (RenderTarget_Cleanup_extends _ _)).append
    (RenderTarget_Cleanup_extends _ _)).append (RenderTarget_Cleanup_extends _ _)).append
    (RenderTarget_Cleanup_extends _ _)).append (RenderTarget_Cleanup_extends _ _)

theorem Initialize_before_sets (self : MotionBlurExample) (fs : FileSystem) (ctx : VulkanContext)
    (d : Device) (r : Device × MotionBlurExample) (h : self.Initialize fs ctx d = .ok r) :
    ∃ (d11 : Device) (s11 : MotionBlurExample), s11.CreateDescriptorSets d11 = .ok r ∧
      d11.Extends d setupKinds := by
  simp only [MotionBlurExample.Initialize, bind_ok_iff, messageOnly_ok, Prod.exists, pure_ok] at h
  obtain ⟨d1, s1, h1, d2, s2, h2, d3, s3, h3, d4, s4, h4, d5, s5, h5, d6, s6, h6, d7, s7, h7,
    d8, s8, h8, d9, q9, h9, d10, s10, h10, d11, s11, h11, d12, s12, h12, rfl⟩ := h
  refine ⟨d11, s11, h12, ?_⟩
  have x1 : d1.Extends d setupKinds := (CreateSamplers_extends _ _ _ h1).mono (by decide)
  have x2 : d2.Extends d1 setupKinds := (CreateRenderTargets_extends _ _ _ _ h2).mono (by decide)
  have x3 : d3.Extends d2 setupKinds := (CreateRenderPasses_extends _ _ _ _ h3).mono (by decide)
  have x4 : d4.Extends d3 setupKinds := (CreateDescriptorSetLayouts_extends _ _ _ h4).mono (by decide)
  have x5 : d5.Extends d4 setupKinds := (CreatePipelineLayouts_extends _ _ _ h5).mono (by decide)
  have x6 : d6.Extends d5 setupKinds := (CreatePipelines_extends _ _ _ _ _ h6).mono (by decide)
  have x7 : d7.Extends d6 setupKinds := (CreateFramebuffers_extends _ _ _ _ h7).mono (by decide)
  have x8 : d8.Extends d7 setupKinds :=
    (CreateTriangleVertexBuffer_extends _ _ _ _ h8).mono (by decide)
  have x9 : d9.Extends d8 setupKinds :=
    (FullscreenQuad_Initialize_extends _ _ _ _ h9).mono (by decide)
  have x10 : d10.Extends d9 setupKinds := (CreateUniformBuffers_extends _ _ _ _ h10).mono (by decide)
  have x11 : d11.Extends d10 setupKinds := (CreateDescriptorPool_extends _ _ _ h11).mono (by decide)
  exact (((((((((x1.append x2).append x3).append x4).append x5).append x6).append x7).append
    x8).append x9).append x10).append x11

theorem OnSwapChainRecreated_before_sets (self : MotionBlurExample) (ctx : VulkanContext)
    (d : Device) (r : Device × MotionBlurExample) (h : self.OnSwapChainRecreated ctx d = .ok r) :
    ∃ (d7 : Device) (s7 : MotionBlurExample),
      s7.CreateDescriptorSets (vkResetDescriptorPool d7 self.descriptorPool) = .ok r ∧
      s7.descriptorPool = self.descriptorPool ∧ d7.Extends d rebuildKinds := by
  simp only [MotionBlurExample.OnSwapChainRecreated, bind_ok_iff, Prod.exists] at h
  obtain ⟨d2, s2, h2, d7, s7, h7, h12⟩ := h
  have e2 := CreateRenderTargets_ok _ _ _ _ h2
  have e7 := CreateFramebuffers_ok _ _ _ _ h7
  simp only [Prod.mk.injEq] at e2 e7
  have hp : s7.descriptorPool = self.descriptorPool := by
    rw [e7.2, e2.2]
    rfl
  rw [hp] at h12
  refine ⟨d7, s7, h12, hp, ?_⟩
  have x1 : (self.CleanupRenderTargets d).1.Extends d rebuildKinds :=
    (CleanupRenderTargets_extends self d).mono (by decide)
  have x2 : d2.Extends _ rebuildKinds := (CreateRenderTargets_extends _ _ _ _ h2).mono (by decide)
  have x7 : d7.Extends d2 rebuildKinds := (CreateFramebuffers_extends _ _ _ _ h7).mono (by decide)
  exact (x1.append x2).append x7



set_option maxRecDepth 100000 in
/-- C16 as stated fails: in the sample run, `OnSwapChainRecreated` after `Initialize` makes five
`vkAllocateDescriptorSets` calls, and the G-Buffer descriptor sets it leaves are the newly
allocated 111 and 112, not the sets 76 and 77 allocated at `Initialize`. -/
theorem recreation_allocates_descriptor_sets :
    ∃ r0 r, MotionBlurExample.Initialize {} demoFiles demoContext demoDevice = .ok r0 ∧
      r0.2.OnSwapChainRecreated resizedContext r0.1 = .ok r ∧
      (allocatedSets (r.1.log.drop r0.1.log.length)).length = 5 ∧
      r0.2.descriptorSetsGBuffer = [76, 77] ∧ r.2.descriptorSetsGBuffer = [111, 112] := by
  have hok : (MotionBlurExample.Initialize {} demoFiles demoContext demoDevice).isOk = true := rfl
  cases h0 : MotionBlurExample.Initialize {} demoFiles demoContext demoDevice with
  | error e => rw [h0] at hok; cases hok
  | ok r0 =>
    have hok' : (match MotionBlurExample.Initialize {} demoFiles demoContext demoDevice with
        | .ok r0 => (r0.2.OnSwapChainRecreated resizedContext r0.1).isOk
        | .error _ => false) = true := rfl
    simp only [h0] at hok'
    cases h : r0.2.OnSwapChainRecreated resizedContext r0.1 with
    | error e => rw [h] at hok'; cases hok'
    | ok r =>
      have e0 : (match MotionBlurExample.Initialize {} demoFiles demoContext demoDevice with
          | .ok r0 => r0.2.descriptorSetsGBuffer
          | .error _ => []) = [76, 77] := rfl
      have e1 : (match MotionBlurExample.Initialize {} demoFiles demoContext demoDevice with
          | .ok r0 =>
            (match r0.2.OnSwapChainRecreated resizedContext r0.1 with
              | .ok r => ((allocatedSets (r.1.log.drop r0.1.log.length)).length,
                  r.2.descriptorSetsGBuffer)
              | .error _ => (0, []))
          | .error _ => (0, [])) = (5, [111, 112]) := rfl
      simp only [h0] at e0 e1
      simp only [h] at e1
      simp only [Prod.mk.injEq] at e1
      exact ⟨r0, r, rfl, h, e1.1, e0, e1.2⟩

/-- C16, amended: `Initialize` allocates the descriptor sets, one `vkAllocateDescriptorSets` of
`MAX_FRAMES_IN_FLIGHT` = 2 sets per pass (five allocations, ten sets), and resets no pool;
`OnSwapChainRecreated` resets the descriptor pool once and then allocates ten sets from it again
in the same way; in both cases the descriptor-set handles held afterwards are those returned by
these allocations. -/
theorem descriptor_sets_allocated_again_on_recreation (self : MotionBlurExample)
    (ctx : VulkanContext) (d : Device) (r : Device × MotionBlurExample) :
    (∀ fs, self.Initialize fs ctx d = .ok r →
      ∃ calls, r.1.log = d.log ++ calls ∧ resetPools calls = [] ∧
        (allocatedSets calls).map Prod.snd = Pass.all.map r.2.descriptorSets ∧
        ∀ p, (r.2.descriptorSets p).length = VulkanContext.MAX_FRAMES_IN_FLIGHT) ∧
    (self.OnSwapChainRecreated ctx d = .ok r →
      ∃ calls, r.1.log = d.log ++ calls ∧ resetPools calls = [self.descriptorPool] ∧
        allocatedSets calls = Pass.all.map (fun p => (self.descriptorPool, r.2.descriptorSets p)) ∧
        ∀ p, (r.2.descriptorSets p).length = VulkanContext.MAX_FRAMES_IN_FLIGHT) := by
  constructor
  · intro fs h
    obtain ⟨d11, s11, h12, c0, e0, k0⟩ := Initialize_before_sets self fs ctx d r h
    obtain ⟨c1, e1, a1, p1, l1, -⟩ := CreateDescriptorSets_allocations s11 d11 r h12
    refine ⟨c0 ++ c1, by rw [e1, e0, List.append_assoc], ?_, ?_, l1⟩
    · rw [resetPools_append, p1, resetPools_of_kind c0 (fun c hc heq => by
        have := k0 c hc
        rw [heq] at this
        revert this
        decide)]
      rfl
    · rw [allocatedSets_append, a1, allocatedSets_of_kind c0 (fun c hc heq => by
        have := k0 c hc
        rw [heq] at this
        revert this
        decide)]
      simp [Pass.all]
  · intro h
    obtain ⟨d7, s7, h12, hp, c0, e0, k0⟩ := OnSwapChainRecreated_before_sets self ctx d r h
    obtain ⟨c1, e1, a1, p1, l1, -⟩ := CreateDescriptorSets_allocations s7 _ r h12
    refine ⟨c0 ++ [Call.vkResetDescriptorPool self.descriptorPool] ++ c1, ?_, ?_, ?_, l1⟩
    · rw [e1]
      simp only [vkResetDescriptorPool, Device.emit, e0, List.append_assoc]
    · rw [resetPools_append, resetPools_append, p1, resetPools_of_kind c0 (fun c hc heq => by
        have := k0 c hc
        rw [heq] at this
        revert this
        decide)]
      rfl
    · rw [allocatedSets_append, allocatedSets_append, a1, hp,
        allocatedSets_of_kind c0 (fun c hc heq => by
          have := k0 c hc
          rw [heq] at this
          revert this
          decide)]
      rfl

/-- C16 amended, for a recreation at 640 x 360 in the state left by the sample `Initialize`. -/
theorem descriptor_sets_allocated_again_on_recreation_witness :
    ∃ r0 r, MotionBlurExample.Initialize {} demoFiles demoContext demoDevice = .ok r0 ∧
      r0.2.OnSwapChainRecreated resizedContext r0.1 = .ok r ∧
      ∃ calls, r.1.log = r0.1.log ++ calls ∧ resetPools calls = [r0.2.descriptorPool] ∧
        allocatedSets calls =
          Pass.all.map (fun p => (r0.2.descriptorPool, r.2.descriptorSets p)) := by
  have hok : (MotionBlurExample.Initialize {} demoFiles demoContext demoDevice).isOk = true := rfl
  cases h0 : MotionBlurExample.Initialize {} demoFiles demoContext demoDevice with
  | error e => rw [h0] at hok; cases hok
  | ok r0 =>
    have hok' : (match MotionBlurExample.Initialize {} demoFiles demoContext demoDevice with
        | .ok r0 => (r0.2.OnSwapChainRecreated resizedContext r0.1).isOk
        | .error _ => false) = true := rfl
    simp only [h0] at hok'
    cases h : r0.2.OnSwapChainRecreated resizedContext r0.1 with
    | error e => rw [h] at hok'; cases hok'
    | ok r =>
      obtain ⟨calls, h1, h2, h3, -⟩ :=
        (descriptor_sets_allocated_again_on_recreation r0.2 resizedContext r0.1 r).2 h
      exact ⟨r0, r, rfl, h, calls, h1, h2, h3⟩

theorem ReadFile_missing (fs : FileSystem) (filename : String)
    (h : fs.files.lookup filename = none) :
    utils.ReadFile fs filename = .error ("Failed to open file: " ++ filename) := by
  simp [utils.ReadFile, h]

theorem ReadFile_opened (fs : FileSystem) (filename : String) (file : File)
    (h : fs.files.lookup filename = some file) (hs : file.fileSize ≤ fs.maxBuffer) :
    utils.ReadFile fs filename =
      .ok (file.delivered.take file.fileSize ++
        List.replicate (file.fileSize - file.delivered.length) 0) := by
  simp only [utils.ReadFile, h, Nat.not_lt.mpr hs, if_false, List.drop_replicate, List.length_take]
  congr 3
  omega

theorem ReadFile_refused (fs : FileSystem) (filename : String) (file : File)
    (h : fs.files.lookup filename = some file) (hs : fs.maxBuffer < file.fileSize) :
    utils.ReadFile fs filename = .error "std::bad_alloc" := by
  simp only [utils.ReadFile, h, hs, if_true]

theorem CreatePipelines_reads (self : MotionBlurExample) (fs : FileSystem) (ctx : VulkanContext)
    (d : Device) (r : Device × MotionBlurExample) (h : self.CreatePipelines fs ctx d = .ok r) :
    ∀ name ∈ shaderPaths, ∃ code, utils.ReadFile fs name = .ok code := by
  simp only [MotionBlurExample.CreatePipelines, utils.CreatePipeline, vkCreateGraphicsPipelines,
    vkDestroyShaderModule, Device.emit, bind_assoc, throwsAt_ReadFile_bind,
    throwsAt_CreateShaderModule_bind,
    throwsAt_check_request_bind, pure_bind, pure_ok] at h
  obtain ⟨c1, r1, c2, r2, -, -, -, c3, r3, c4, r4, -, -, -, c5, r5, c6, r6, -, -, -, c7, r7, c8, r8,
    -, -, -, c9, r9, c10, r10, -, -, -, -⟩ := h
  intro name hn
  simp only [shaderPaths, List.mem_cons, List.mem_singleton, List.not_mem_nil, or_false] at hn
  rcases hn with rfl | rfl | rfl | rfl | rfl | rfl | rfl | rfl | rfl | rfl
  · exact ⟨_, r1⟩
  · exact ⟨_, r2⟩
  · exact ⟨_, r3⟩
  · exact ⟨_, r4⟩
  · exact ⟨_, r5⟩
  · exact ⟨_, r6⟩
  · exact ⟨_, r7⟩
  · exact ⟨_, r8⟩
  · exact ⟨_, r9⟩
  · exact ⟨_, r10⟩

/-- C18 as stated fails: a file that opens with size 4 and whose read delivers only the bytes
3 and 2 makes `ReadFile` return the buffer 3, 2, 0, 0 instead of failing. -/
theorem short_read_not_detected :
    utils.ReadFile
        { files := [("shader.spv", { fileSize := 4, delivered := [3, 2] })], maxBuffer := 4 }
        "shader.spv" =
      .ok [3, 2, 0, 0] := rfl

/-- C18, amended: for every file that opens successfully, whether `ReadFile` fails depends on
the size determined when the file was opened only, never on what the read delivers. When a
buffer of that size can be allocated, `ReadFile` returns a buffer of exactly that size, without
checking how many bytes the read delivered: the buffer holds the bytes delivered, followed by
zero bytes for those not delivered. When it cannot, the construction of the buffer throws,
before anything is read. -/
theorem readFile_returns_buffer_of_file_size (fs : FileSystem) (filename : String) (file : File)
    (hopen : fs.files.lookup filename = some file) :
    (file.fileSize ≤ fs.maxBuffer →
      ∃ buffer, utils.ReadFile fs filename = .ok buffer ∧ buffer.length = file.fileSize ∧
        buffer = file.delivered.take file.fileSize ++
          List.replicate (file.fileSize - file.delivered.length) 0) ∧
    (fs.maxBuffer < file.fileSize → utils.ReadFile fs filename = .error "std::bad_alloc") := by
  refine ⟨fun hs => ⟨_, ReadFile_opened fs filename file hopen hs, ?_, rfl⟩,
    fun hs => ReadFile_refused fs filename file hopen hs⟩
  simp only [List.length_append, List.length_take, List.length_replicate]
  omega

/-- C18 amended, for a file of size 6 whose read delivers three bytes, and for a directory, for
which `tellg` reports 2^63 - 1. -/
theorem readFile_returns_buffer_of_file_size_witness :
    (∃ buffer,
      utils.ReadFile
          { files := [("shaders/blur.frag.spv", { fileSize := 6, delivered := [3, 2, 35] })],
            maxBuffer := 1048576 }
          "shaders/blur.frag.spv" = .ok buffer ∧
      buffer.length = 6 ∧ buffer = [3, 2, 35, 0, 0, 0]) ∧
    utils.ReadFile
        { files := [("shaders", { fileSize := 9223372036854775807, delivered := [] })],
          maxBuffer := 1048576 }
        "shaders" = .error "std::bad_alloc" :=
  ⟨(readFile_returns_buffer_of_file_size
      { files := [("shaders/blur.frag.spv", { fileSize := 6, delivered := [3, 2, 35] })],
        maxBuffer := 1048576 }
      "shaders/blur.frag.spv" { fileSize := 6, delivered := [3, 2, 35] } rfl).1 (by decide),
    (readFile_returns_buffer_of_file_size
      { files := [("shaders", { fileSize := 9223372036854775807, delivered := [] })],
        maxBuffer := 1048576 }
      "shaders" { fileSize := 9223372036854775807, delivered := [] } rfl).2 (by decide)⟩

theorem Run_slots (frames : List (FloatVal × Nat)) (ctx : VulkanContext) (d : Device)
    (effect : MotionBlurExample) (k : Nat) (rec : Nat × List Cmd)
    (h : (VulkanContext.Run frames ctx d effect)[k]? = some rec) :
    rec.1 = if k = 0 then ctx.currentFrame
      else (ctx.currentFrame + k) % VulkanContext.MAX_FRAMES_IN_FLIGHT := by
  induction frames generalizing ctx d effect k with
  | nil => simp [VulkanContext.Run] at h
  | cons f rest ih =>
    obtain ⟨deltaTime, imageIndex⟩ := f
    cases k with
    | zero =>
      simp only [VulkanContext.Run, List.getElem?_cons_zero, Option.some.injEq] at h
      subst h
      rfl
    | succ k =>
      simp only [VulkanContext.Run, List.getElem?_cons_succ] at h
      have := ih _ _ _ k h
      rw [this]
      simp only [VulkanContext.DrawFrame, Nat.succ_ne_zero, if_false]
      split_ifs with hk
      · subst hk
        rfl
      · rw [Nat.add_mod, Nat.mod_mod, ← Nat.add_mod, Nat.add_assoc, Nat.add_comm 1 k]

/-- C19: in the frame loop started with `currentFrame` = 0, the slot that `GetCurrentFrame`
reports while frame k (counted from 0) is updated and recorded is k mod
`MAX_FRAMES_IN_FLIGHT`, where `MAX_FRAMES_IN_FLIGHT` = 2; it is 0 for the first frame and always
less than 2; and there is one such report per frame. -/
theorem frame_slot_is_frame_index_mod (frames : List (FloatVal × Nat)) (ctx : VulkanContext)
    (d : Device) (effect : MotionBlurExample) (h0 : ctx.currentFrame = 0) :
    VulkanContext.MAX_FRAMES_IN_FLIGHT = 2 ∧
    (VulkanContext.Run frames ctx d effect).length = frames.length ∧
    ∀ k rec, (VulkanContext.Run frames ctx d effect)[k]? = some rec →
      rec.1 = k % VulkanContext.MAX_FRAMES_IN_FLIGHT ∧ rec.1 < 2 ∧ (k = 0 → rec.1 = 0) := by
  refine ⟨rfl, ?_, ?_⟩
  · clear h0
    induction frames generalizing ctx d effect with
    | nil => rfl
    | cons f rest ih =>
      obtain ⟨deltaTime, imageIndex⟩ := f
      simp [VulkanContext.Run, ih]
  · intro k rec h
    have e := Run_slots frames ctx d effect k rec h
    rw [h0] at e
    have e' : rec.1 = k % VulkanContext.MAX_FRAMES_IN_FLIGHT := by
      rw [e]
      split_ifs with hk
      · subst hk; rfl
      · rw [Nat.zero_add]
    refine ⟨e', ?_, ?_⟩
    · rw [e']
      exact Nat.mod_lt _ (by decide)
    · rintro rfl
      exact e'

/-- C19, for three frames of the sample context: the slots reported are 0, 1, 0. -/
theorem frame_slot_is_frame_index_mod_witness :
    (VulkanContext.Run [(.lit (1/60), 0), (.lit (1/60), 1), (.lit (1/60), 2)] demoContext demoDevice
      {}).map Prod.fst = [0, 1, 0] ∧
    ∀ k rec, (VulkanContext.Run [(.lit (1/60), 0), (.lit (1/60), 1), (.lit (1/60), 2)] demoContext
        demoDevice {})[k]? = some rec → rec.1 = k % VulkanContext.MAX_FRAMES_IN_FLIGHT :=
  ⟨rfl, fun k rec h =>
    ((frame_slot_is_frame_index_mod [(.lit (1/60), 0), (.lit (1/60), 1), (.lit (1/60), 2)]
      demoContext demoDevice {} rfl).2.2 k rec h).1⟩

/-- C20: for every example state, command buffer and image index, what `RecordCommands` appends
is, pass by pass in the fixed order, exactly: begin render pass (that pass's render pass and
framebuffer, render area at offset (0,0) with the current swapchain extent, one explicit clear
value per attachment), bind pipeline, bind vertex buffer (for the four full-screen passes the vertex
and then the index buffer of the quad), bind one descriptor set, that pass's set for the slot
`GetCurrentFrame()`, draw, end render pass, with no other command in between. -/
theorem recordCommands_pass_shape (self : MotionBlurExample) (ctx : VulkanContext)
    (cmd : List Cmd) (imageIndex : Nat) :
    self.RecordCommands ctx cmd imageIndex =
      cmd ++ Pass.all.flatMap (passCommands self ctx imageIndex) ∧
    (∀ p : Pass, p.clearValues.length = p.writes.length) ∧
    (∀ p : Pass, (passCommands self ctx imageIndex p).length = if p = .GBuffer then 6 else 7) := by
  refine ⟨?_, ?_, ?_⟩
  · simp only [MotionBlurExample.RecordCommands, Id.run, vkCmdBeginRenderPass, vkCmdBindPipeline,
      vkCmdBindVertexBuffers, vkCmdBindIndexBuffer, vkCmdBindDescriptorSets, vkCmdDraw,
      vkCmdDrawIndexed, vkCmdEndRenderPass, FullscreenQuad.Bind, FullscreenQuad.Draw,
      List.nil_append, List.cons_append, List.append_assoc]
    rfl
  · intro p
    cases p <;> rfl
  · intro p
    cases p <;> rfl

theorem foldl_pipelineStep_of_kind (pipeline : Handle) (calls : List Call)
    (h : ∀ c ∈ calls, c.kind ≠ .vkCreateGraphicsPipelines)
    (acc : Option VkGraphicsPipelineCreateInfo) :
    calls.foldl (pipelineStep pipeline) acc = acc := by
  induction calls generalizing acc with
  | nil => rfl
  | cons c cs ih =>
    have hc := h c (List.mem_cons_self _ _)
    have hcs : ∀ c ∈ cs, c.kind ≠ .vkCreateGraphicsPipelines :=
      fun c hc => h c (List.mem_cons_of_mem _ hc)
    rw [List.foldl_cons, ih hcs]
    cases c <;> first | rfl | exact absurd rfl hc

theorem Device.Extends.pipelineInfo {r d : Device} {ks : List CallKind} (h : r.Extends d ks)
    (hk : CallKind.vkCreateGraphicsPipelines ∉ ks) (pipeline : Handle) :
    r.pipelineInfo pipeline = d.pipelineInfo pipeline := by
  obtain ⟨calls, hlog, hkind⟩ := h
  unfold Device.pipelineInfo
  rw [hlog, List.foldl_append]
  exact foldl_pipelineStep_of_kind _ _ (fun c hc e => hk (e ▸ hkind c hc)) _

open MotionBlurExample in
theorem CreatePipelines_infos (self : MotionBlurExample) (fs : FileSystem) (ctx : VulkanContext)
    (d : Device) (r : Device × MotionBlurExample) (h : self.CreatePipelines fs ctx d = .ok r)
    (p : Pass) :
    ∃ info, r.1.pipelineInfo (r.2.pipeline p) = some info ∧
      info.renderPass = self.renderPass p ∧ info.layout = self.pipelineLayout p ∧
      info.subpass = 0 ∧
      info.viewport = fullViewport ctx.swapChainExtent ∧
      info.scissor = fullRect ctx.swapChainExtent ∧
      info.depthTestEnable = decide (p = .GBuffer) ∧
      info.depthWriteEnable = decide (p = .GBuffer) ∧
      info.depthCompareOp = .VK_COMPARE_OP_LESS ∧
      info.colorBlendAttachments.length = if p = .GBuffer then 2 else 1 := by
  simp only [CreatePipelines, utils.CreatePipeline, vkCreateGraphicsPipelines, vkDestroyShaderModule,
    Device.emit, bind_assoc, throwsAt_ReadFile_bind, throwsAt_CreateShaderModule_bind,
    throwsAt_check_request_bind, pure_bind,
    pure_ok] at h
  obtain ⟨_, -, _, -, -, -, -, _, -, _, -, -, -, -, _, -, _, -, -, -, -, _, -, _, -, -, -, -,
    _, -, _, -, -, -, -, rfl⟩ := h
  cases p <;>
    simp [Device.pipelineInfo, pipelineStep, List.foldl_append, MotionBlurExample.pipeline,
      MotionBlurExample.renderPass, MotionBlurExample.pipelineLayout, fullViewport, fullRect,
      VulkanContext.GetSwapChainExtent, Nat.add_assoc]

theorem Initialize_tail (self : MotionBlurExample) (fs : FileSystem) (ctx : VulkanContext)
    (d : Device) (r : Device × MotionBlurExample) (h : self.Initialize fs ctx d = .ok r) :
    ∃ (d3 : Device) (s3 : MotionBlurExample) (d4 : Device) (s4 : MotionBlurExample)
      (d5 : Device) (s5 : MotionBlurExample) (d6 : Device) (s6 : MotionBlurExample),
      s3.CreateDescriptorSetLayouts d3 = .ok (d4, s4) ∧
      s4.CreatePipelineLayouts d4 = .ok (d5, s5) ∧ s5.CreatePipelines fs ctx d5 = .ok (d6, s6) ∧
      r.1.Extends d4 kindsAfterSetLayouts ∧ r.1.Extends d5 kindsAfterPipelineLayouts ∧
      r.1.Extends d6 kindsAfterPipelines ∧
      (∀ p, r.2.descriptorSetLayout p = s4.descriptorSetLayout p) ∧
      (∀ p, r.2.pipelineLayout p = s5.pipelineLayout p) ∧
      (∀ p, r.2.renderPass p = s5.renderPass p) ∧
      (∀ p, r.2.pipeline p = s6.pipeline p) := by
  simp only [MotionBlurExample.Initialize, bind_ok_iff, messageOnly_ok, Prod.exists, pure_ok] at h
  obtain ⟨d1, s1, h1, d2, s2, h2, d3, s3, h3, d4, s4, h4, d5, s5, h5, d6, s6, h6, d7, s7, h7,
    d8, s8, h8, d9, q9, h9, d10, s10, h10, d11, s11, h11, d12, s12, h12, rfl⟩ := h
  have x7 : d7.Extends d6 kindsAfterPipelines := (CreateFramebuffers_extends _ _ _ _ h7).mono (by decide)
  have x8 : d8.Extends d7 kindsAfterPipelines :=
    (CreateTriangleVertexBuffer_extends _ _ _ _ h8).mono (by decide)
  have x9 : d9.Extends d8 kindsAfterPipelines :=
    (FullscreenQuad_Initialize_extends _ _ _ _ h9).mono (by decide)
  have x10 : d10.Extends d9 kindsAfterPipelines :=
    (CreateUniformBuffers_extends _ _ _ _ h10).mono (by decide)
  have x11 : d11.Extends d10 kindsAfterPipelines :=
    (CreateDescriptorPool_extends _ _ _ h11).mono (by decide)
  have x12 : d12.Extends d11 kindsAfterPipelines :=
    (CreateDescriptorSets_extends _ _ _ h12).mono (by decide)
  have y6 : d12.Extends d6 kindsAfterPipelines :=
    ((((x7.append x8).append x9).append x10).append x11).append x12
  have x6 : d6.Extends d5 kindsAfterPipelineLayouts :=
    (CreatePipelines_extends _ _ _ _ _ h6).mono (by decide)
  have y5 : d12.Extends d5 kindsAfterPipelineLayouts := x6.append (y6.mono (by decide))
  have x5 : d5.Extends d4 kindsAfterSetLayouts := (CreatePipelineLayouts_extends _ _ _ h5).mono (by decide)
  have y4 : d12.Extends d4 kindsAfterSetLayouts := x5.append (y5.mono (by decide))
  obtain ⟨e5, -⟩ := CreatePipelineLayouts_ok _ _ _ h5
  obtain ⟨e6, -⟩ := CreatePipelines_ok _ _ _ _ _ h6
  have e7 := CreateFramebuffers_ok _ _ _ _ h7
  obtain ⟨e8, -⟩ := CreateTriangleVertexBuffer_ok _ _ _ _ h8
  obtain ⟨e10, -⟩ := CreateUniformBuffers_ok _ _ _ _ h10
  obtain ⟨e11, -⟩ := CreateDescriptorPool_ok _ _ _ h11
  obtain ⟨e12, -⟩ := CreateDescriptorSets_ok _ _ _ h12
  simp only [Prod.mk.injEq] at e5 e6 e7 e8 e10 e11 e12
  refine ⟨d3, s3, d4, s4, d5, s5, d6, s6, h4, h5, h6, y4, y5, y6, ?_, ?_, ?_, ?_⟩
  · intro p
    show s12.descriptorSetLayout p = _
    rw [e12, e11, e10, e8, e7.2, e6, e5]
    cases p <;> rfl
  · intro p
    show s12.pipelineLayout p = _
    rw [e12, e11, e10, e8, e7.2, e6]
    cases p <;> rfl
  · intro p
    show s12.renderPass p = _
    rw [e12, e11, e10, e8, e7.2, e6]
    cases p <;> rfl
  · intro p
    show s12.pipeline p = _
    rw [e12, e11, e10, e8, e7.2]
    cases p <;> rfl

theorem Initialize_pipelines (self : MotionBlurExample) (fs : FileSystem) (ctx : VulkanContext)
    (d : Device) (r : Device × MotionBlurExample) (h : self.Initialize fs ctx d = .ok r)
    (p : Pass) :
    ∃ info, r.1.pipelineInfo (r.2.pipeline p) = some info ∧
      info.renderPass = r.2.renderPass p ∧ info.layout = r.2.pipelineLayout p ∧
      info.subpass = 0 ∧
      info.viewport = fullViewport ctx.swapChainExtent ∧
      info.scissor = fullRect ctx.swapChainExtent ∧
      info.depthTestEnable = decide (p = .GBuffer) ∧
      info.depthWriteEnable = decide (p = .GBuffer) ∧
      info.depthCompareOp = .VK_COMPARE_OP_LESS ∧
      info.colorBlendAttachments.length = if p = .GBuffer then 2 else 1 := by
  obtain ⟨d3, s3, d4, s4, d5, s5, d6, s6, -, -, h6, -, -, y6, -, hl, hr, hp⟩ :=
    Initialize_tail self fs ctx d r h
  obtain ⟨info, hi, rest⟩ := CreatePipelines_infos s5 fs ctx d5 (d6, s6) h6 p
  refine ⟨info, ?_, ?_⟩
  · rw [y6.pipelineInfo (by decide), hp p]
    exact hi
  · rw [hr p, hl p]
    exact rest

theorem Initialize_gBufferRenderPass (self : MotionBlurExample) (fs : FileSystem)
    (ctx : VulkanContext) (d : Device) (r : Device × MotionBlurExample)
    (h : self.Initialize fs ctx d = .ok r) :
    r.1.renderPassInfo r.2.renderPassGBuffer = some r.2.gBufferRenderPassInfo := by
  obtain ⟨d1, s1, d2, s2, d3, s3, -, -, h3, x, hrt, hrp, -, -⟩ := Initialize_stages self fs ctx d r h
  have e3 := CreateRenderPasses_ok _ _ _ _ h3
  simp only [Prod.mk.injEq] at e3
  obtain ⟨rfl, rfl⟩ := e3
  have hp := hrp .GBuffer
  simp only [MotionBlurExample.renderPass] at hp
  simp only [MotionBlurExample.renderTargets, List.cons.injEq, and_true] at hrt
  obtain ⟨t1, t2, t3, -, -, -⟩ := hrt
  rw [x.renderPassInfo (by decide), hp]
  simp [Device.renderPassInfo, renderPassStep, List.foldl_append,
    MotionBlurExample.gBufferRenderPassInfo, t1, t2, t3]

theorem RecordCommands_passes (self : MotionBlurExample) (ctx : VulkanContext) (imageIndex : Nat) :
    self.RecordCommands ctx [] imageIndex = Pass.all.flatMap (passCommands self ctx imageIndex) := by
  simp only [MotionBlurExample.RecordCommands, Id.run, vkCmdBeginRenderPass, vkCmdBindPipeline,
    vkCmdBindVertexBuffers, vkCmdBindIndexBuffer, vkCmdBindDescriptorSets, vkCmdDraw,
    vkCmdDrawIndexed, vkCmdEndRenderPass, FullscreenQuad.Bind, FullscreenQuad.Draw,
    List.nil_append, List.cons_append, List.append_assoc]
  rfl

/-- C21: after a successful `Initialize`, the render pass of the G-Buffer pass declares three
attachments (scene colour, velocity, depth, in that order), each with load-op CLEAR, and one
subpass with the colour attachments 0 and 1 and the depth attachment 2; the first command that
`RecordCommands` records begins that render pass on the G-Buffer framebuffer with exactly three
clear values, in attachment order (0,0,0,1), (0,0,0,0) and depth 1 with stencil 0; and the
G-Buffer pipeline was created for that render pass with depth test and depth write enabled,
compare-op LESS and two colour blend attachments, as many as the subpass has colour
attachments. -/
theorem gBuffer_pass_clears_and_depth_tests (self : MotionBlurExample) (fs : FileSystem)
    (ctx : VulkanContext) (d : Device) (r : Device × MotionBlurExample)
    (h : self.Initialize fs ctx d = .ok r) (imageIndex : Nat) :
    ∃ info subpass depthRef pInfo,
      r.1.renderPassInfo r.2.renderPassGBuffer = some info ∧
      info.pAttachments.map (fun a => a.format) =
        [r.2.rtSceneColor.format, r.2.rtVelocity.format, r.2.rtDepth.format] ∧
      info.pAttachments.map (fun a => a.loadOp) =
        [.VK_ATTACHMENT_LOAD_OP_CLEAR, .VK_ATTACHMENT_LOAD_OP_CLEAR, .VK_ATTACHMENT_LOAD_OP_CLEAR] ∧
      info.pSubpasses = [subpass] ∧
      subpass.pColorAttachments.map (fun a => a.attachment) = [0, 1] ∧
      subpass.pDepthStencilAttachment = some depthRef ∧ depthRef.attachment = 2 ∧
      (r.2.RecordCommands ctx [] imageIndex)[0]? =
        some (Cmd.vkCmdBeginRenderPass r.2.renderPassGBuffer (some r.2.fbGBuffer)
          (fullRect ctx.GetSwapChainExtent)
          [{ float32 := [0, 0, 0, 1] }, { float32 := [0, 0, 0, 0] }, { float32 := [1, 0] }]) ∧
      (r.2.RecordCommands ctx [] imageIndex)[1]? =
        some (Cmd.vkCmdBindPipeline .VK_PIPELINE_BIND_POINT_GRAPHICS r.2.pipelineGBuffer) ∧
      r.1.pipelineInfo r.2.pipelineGBuffer = some pInfo ∧
      pInfo.renderPass = r.2.renderPassGBuffer ∧ pInfo.subpass = 0 ∧
      pInfo.depthTestEnable = true ∧ pInfo.depthWriteEnable = true ∧
      pInfo.depthCompareOp = .VK_COMPARE_OP_LESS ∧
      pInfo.colorBlendAttachments.length = 2 ∧
      pInfo.colorBlendAttachments.length = subpass.pColorAttachments.length := by
  obtain ⟨pInfo, hp, hrp, -, hsub, -, -, ht, hw, hc, hn⟩ := Initialize_pipelines self fs ctx d r h .GBuffer
  have hi := Initialize_gBufferRenderPass self fs ctx d r h
  have hcmd := RecordCommands_passes r.2 ctx imageIndex
  refine ⟨_, _, _, pInfo, hi, rfl, rfl, rfl, rfl, rfl, rfl, by rw [hcmd]; rfl, by rw [hcmd]; rfl,
    hp, hrp, hsub, ?_, ?_, hc, ?_, ?_⟩
  · simpa using ht
  · simpa using hw
  · simpa using hn
  · simpa [MotionBlurExample.gBufferRenderPassInfo] using hn

set_option maxRecDepth 100000 in
theorem gBuffer_pass_clears_and_depth_tests_witness :
    ∃ r, MotionBlurExample.Initialize {} demoFiles demoContext demoDevice = .ok r ∧
      ∃ info subpass depthRef pInfo,
      r.1.renderPassInfo r.2.renderPassGBuffer = some info ∧
      info.pAttachments.map (fun a => a.format) =
        [r.2.rtSceneColor.format, r.2.rtVelocity.format, r.2.rtDepth.format] ∧
      info.pAttachments.map (fun a => a.loadOp) =
        [.VK_ATTACHMENT_LOAD_OP_CLEAR, .VK_ATTACHMENT_LOAD_OP_CLEAR, .VK_ATTACHMENT_LOAD_OP_CLEAR] ∧
      info.pSubpasses = [subpass] ∧
      subpass.pColorAttachments.map (fun a => a.attachment) = [0, 1] ∧
      subpass.pDepthStencilAttachment = some depthRef ∧ depthRef.attachment = 2 ∧
      (r.2.RecordCommands demoContext [] 0)[0]? =
        some (Cmd.vkCmdBeginRenderPass r.2.renderPassGBuffer (some r.2.fbGBuffer)
          (fullRect demoContext.GetSwapChainExtent)
          [{ float32 := [0, 0, 0, 1] }, { float32 := [0, 0, 0, 0] }, { float32 := [1, 0] }]) ∧
      (r.2.RecordCommands demoContext [] 0)[1]? =
        some (Cmd.vkCmdBindPipeline .VK_PIPELINE_BIND_POINT_GRAPHICS r.2.pipelineGBuffer) ∧
      r.1.pipelineInfo r.2.pipelineGBuffer = some pInfo ∧
      pInfo.renderPass = r.2.renderPassGBuffer ∧ pInfo.subpass = 0 ∧
      pInfo.depthTestEnable = true ∧ pInfo.depthWriteEnable = true ∧
      pInfo.depthCompareOp = .VK_COMPARE_OP_LESS ∧
      pInfo.colorBlendAttachments.length = 2 ∧
      pInfo.colorBlendAttachments.length = subpass.pColorAttachments.length := by
  have hok : (MotionBlurExample.Initialize {} demoFiles demoContext demoDevice).isOk = true := rfl
  cases h : MotionBlurExample.Initialize {} demoFiles demoContext demoDevice with
  | error e => rw [h] at hok; cases hok
  | ok r => exact ⟨r, rfl, gBuffer_pass_clears_and_depth_tests {} demoFiles demoContext demoDevice r h 0⟩

set_option maxHeartbeats 4000000 in
open MotionBlurExample in
theorem CreateDescriptorSets_sets (self : MotionBlurExample) (d : Device)
    (r : Device × MotionBlurExample) (h : self.CreateDescriptorSets d = .ok r)
    (p : Pass) (slot : Nat) (set : Handle) (hset : (r.2.descriptorSets p)[slot]? = some set) :
    r.1.setLayout set = some (self.descriptorSetLayout p) ∧
    (r.1.uniformBuffers set).map some =
      (match p with
        | .GBuffer => [self.mvpUniformBuffers[slot]?]
        | .Final => []
        | _ => [self.postProcessUniformBuffers[slot]?]) ∧
    ∃ writes, r.1.descriptorSet set = some writes ∧
      writes.map (fun w => (w.dstBinding, w.descriptorType)) =
        p.layoutBindings.map (fun b => (b.binding, b.descriptorType)) := by
  simp only [CreateDescriptorSets, range_frames, max_frames, List.forIn_cons, List.forIn_nil, bind_assoc,
    allocate_bind, elemAt_bind, pure_bind, pure_ok, List.length_replicate, vkUpdateDescriptorSets,
    Device.emit, List.map_cons, List.map_nil, List.getElem?_cons_zero, List.getElem?_cons_succ,
    Option.some.injEq, exists_eq_left', Nat.add_assoc, Nat.reduceAdd, Nat.add_zero,
    List.range_succ, List.range_zero, List.nil_append, List.cons_append, List.append_assoc] at h
  obtain ⟨-, b0, hb0, b1, hb1, -, p0, hp0, p1, hp1, -, p0', hp0', p1', hp1', -, p0'', hp0'', p1'',
    hp1'', -, rfl⟩ := h
  rw [hp0] at hp0' hp0''
  rw [hp1] at hp1' hp1''
  cases hp0'; cases hp0''; cases hp1'; cases hp1''
  cases p <;> simp only [MotionBlurExample.descriptorSets] at hset <;>
    rcases slot with _ | _ | slot <;>
    simp only [List.getElem?_cons_zero, List.getElem?_cons_succ, List.getElem?_nil,
      Option.some.injEq, reduceCtorEq] at hset <;>
    subst hset <;>
    simp [Device.setLayout, allocationStep, Device.uniformBuffers, Device.descriptorSet,
      descriptorStep, List.foldl_append, MotionBlurExample.descriptorSetLayout, layoutOf,
      Pass.layoutBindings, gBufferLayoutBindings, postProcessLayoutBindings, finalLayoutBindings,
      hb0, hb1, hp0, hp1]

open MotionBlurExample in
theorem CreateUniformBuffers_next (self : MotionBlurExample) (ctx : VulkanContext)
    (d : Device) (r : Device × MotionBlurExample) (h : self.CreateUniformBuffers ctx d = .ok r) :
    r.1.next = d.next + 8 ∧ r.1.failing = d.failing := by
  simp only [CreateUniformBuffers, range_frames, max_frames, List.forIn_cons, List.forIn_nil,
    vkMapMemory, Device.emit, bind_assoc, CreateBuffer_bind, pure_bind, pure_ok, set_set_resize,
    Nat.add_assoc, Nat.reduceAdd] at h
  obtain ⟨-, -, -, -, rfl⟩ := h
  exact ⟨rfl, rfl⟩

theorem Initialize_uniforms (self : MotionBlurExample) (fs : FileSystem) (ctx : VulkanContext)
    (d : Device) (r : Device × MotionBlurExample) (h : self.Initialize fs ctx d = .ok r) :
    ∃ (n : Nat) (d11 : Device) (s11 : MotionBlurExample),
      s11.CreateDescriptorSets d11 = .ok r ∧
      s11.mvpUniformBuffers = r.2.mvpUniformBuffers ∧
      s11.postProcessUniformBuffers = r.2.postProcessUniformBuffers ∧
      r.2.mvpUniformBuffers = [n + 1, n + 5] ∧
      r.2.mvpUniformBuffersMemory = [n + 2, n + 6] ∧
      r.2.mvpUniformBuffersMapped = [n + 2, n + 6] ∧
      r.2.postProcessUniformBuffers = [n + 3, n + 7] ∧
      r.2.postProcessUniformBuffersMemory = [n + 4, n + 8] ∧
      r.2.postProcessUniformBuffersMapped = [n + 4, n + 8] ∧ n + 8 ≤ r.1.next := by
  simp only [MotionBlurExample.Initialize, bind_ok_iff, messageOnly_ok, Prod.exists, pure_ok] at h
  obtain ⟨d1, s1, h1, d2, s2, h2, d3, s3, h3, d4, s4, h4, d5, s5, h5, d6, s6, h6, d7, s7, h7,
    d8, s8, h8, d9, q9, h9, d10, s10, h10, d11, s11, h11, d12, s12, h12, rfl⟩ := h
  obtain ⟨e10, -, -⟩ := CreateUniformBuffers_ok _ _ _ _ h10
  obtain ⟨n10, -⟩ := CreateUniformBuffers_next _ _ _ _ h10
  obtain ⟨e11, n11, -⟩ := CreateDescriptorPool_ok _ _ _ h11
  obtain ⟨e12, n12, -⟩ := CreateDescriptorSets_ok _ _ _ h12
  simp only [Prod.mk.injEq] at e10 e11 e12
  simp only at n10 n11 n12
  refine ⟨d9.next, d11, s11, h12, ?_, ?_, ?_, ?_, ?_, ?_, ?_, ?_, ?_⟩
  · rw [e12]
  · rw [e12]
  · rw [e12, e11, e10]
  · rw [e12, e11, e10]
  · rw [e12, e11, e10]
  · rw [e12, e11, e10]
  · rw [e12, e11, e10]
  · rw [e12, e11, e10]
  · show d9.next + 8 ≤ d12.next
    omega

set_option maxRecDepth 100000 in
/-- C22, counterexample: in the run of `Initialize` on the sample inputs, the Motion-Apply
descriptor set of frame slot 0 is set 78 and `mvpUniformBuffers[0]` is buffer 67, but the only
uniform buffer bound in set 78 is buffer 69, which is `postProcessUniformBuffers[0]`. -/
theorem motionApply_set_lacks_mvp_buffer :
    ∃ r, MotionBlurExample.Initialize {} demoFiles demoContext demoDevice = .ok r ∧
      r.2.descriptorSetsMotionApply[0]? = some 78 ∧ r.2.mvpUniformBuffers[0]? = some 67 ∧
      r.2.postProcessUniformBuffers[0]? = some 69 ∧
      r.1.uniformBuffers 78 = [69] ∧ (67 : Handle) ∉ r.1.uniformBuffers 78 := by
  have hok : (MotionBlurExample.Initialize {} demoFiles demoContext demoDevice).isOk = true := rfl
  cases h : MotionBlurExample.Initialize {} demoFiles demoContext demoDevice with
  | error e => rw [h] at hok; cases hok
  | ok r =>
    have e : (match MotionBlurExample.Initialize {} demoFiles demoContext demoDevice with
        | .ok r => (r.2.descriptorSetsMotionApply[0]?, r.2.mvpUniformBuffers[0]?,
            r.2.postProcessUniformBuffers[0]?, r.1.uniformBuffers 78)
        | .error _ => (none, none, none, [])) = (some 78, some 67, some 69, [69]) := rfl
    simp only [h, Prod.mk.injEq] at e
    obtain ⟨e1, e2, e3, e4⟩ := e
    exact ⟨r, rfl, e1, e2, e3, e4, by rw [e4]; decide⟩

/-- C22, amended: after a successful `Initialize`, for every frame slot `i < 2` the G-Buffer
descriptor set of slot `i` binds exactly one uniform buffer, `mvpUniformBuffers[i]`, and the
Motion-Apply descriptor set of slot `i` binds exactly one uniform buffer,
`postProcessUniformBuffers[i]`, which is a different buffer: the MVP block is bound for the
G-Buffer pass only. -/
theorem mvp_block_bound_for_gBuffer_only (self : MotionBlurExample) (fs : FileSystem)
    (ctx : VulkanContext) (d : Device) (r : Device × MotionBlurExample)
    (h : self.Initialize fs ctx d = .ok r) (i : Nat) (hi : i < VulkanContext.MAX_FRAMES_IN_FLIGHT) :
    ∃ gSet mSet mvp params,
      r.2.descriptorSetsGBuffer[i]? = some gSet ∧ r.2.descriptorSetsMotionApply[i]? = some mSet ∧
      r.2.mvpUniformBuffers[i]? = some mvp ∧ r.2.postProcessUniformBuffers[i]? = some params ∧
      r.1.uniformBuffers gSet = [mvp] ∧ r.1.uniformBuffers mSet = [params] ∧
      mvp ∉ r.1.uniformBuffers mSet := by
  obtain ⟨n, d11, s11, h12, em, ep, hm, -, -, hp, -, -, -⟩ := Initialize_uniforms self fs ctx d r h
  obtain ⟨e12, -⟩ := CreateDescriptorSets_ok _ _ _ h12
  have hG := fun set hs => (CreateDescriptorSets_sets s11 d11 r h12 .GBuffer i set hs).2.1
  have hM := fun set hs => (CreateDescriptorSets_sets s11 d11 r h12 .MotionApply i set hs).2.1
  simp only [MotionBlurExample.descriptorSets, em, ep, hm, hp] at hG hM
  have hi' : i = 0 ∨ i = 1 := by
    have : i < 2 := hi
    omega
  rcases hi' with rfl | rfl
  · have g := hG (d11.next + 1) (by rw [e12]; rfl)
    have m := hM (d11.next + 3) (by rw [e12]; rfl)
    have g' : r.1.uniformBuffers (d11.next + 1) = [n + 1] := map_some_eq (by simpa using g)
    have m' : r.1.uniformBuffers (d11.next + 3) = [n + 3] := map_some_eq (by simpa using m)
    refine ⟨d11.next + 1, d11.next + 3, n + 1, n + 3, by rw [e12]; rfl, by rw [e12]; rfl,
      by rw [hm]; rfl, by rw [hp]; rfl, g', m', ?_⟩
    rw [m']
    simp
  · have g := hG (d11.next + 2) (by rw [e12]; rfl)
    have m := hM (d11.next + 4) (by rw [e12]; rfl)
    have g' : r.1.uniformBuffers (d11.next + 2) = [n + 5] := map_some_eq (by simpa using g)
    have m' : r.1.uniformBuffers (d11.next + 4) = [n + 7] := map_some_eq (by simpa using m)
    refine ⟨d11.next + 2, d11.next + 4, n + 5, n + 7, by rw [e12]; rfl, by rw [e12]; rfl,
      by rw [hm]; rfl, by rw [hp]; rfl, g', m', ?_⟩
    rw [m']
    simp

theorem mvp_block_bound_for_gBuffer_only_witness :
    ∃ r, MotionBlurExample.Initialize {} demoFiles demoContext demoDevice = .ok r ∧
      ∃ gSet mSet mvp params,
        r.2.descriptorSetsGBuffer[1]? = some gSet ∧ r.2.descriptorSetsMotionApply[1]? = some mSet ∧
        r.2.mvpUniformBuffers[1]? = some mvp ∧ r.2.postProcessUniformBuffers[1]? = some params ∧
        r.1.uniformBuffers gSet = [mvp] ∧ r.1.uniformBuffers mSet = [params] ∧
        mvp ∉ r.1.uniformBuffers mSet := by
  have hok : (MotionBlurExample.Initialize {} demoFiles demoContext demoDevice).isOk = true := rfl
  cases h : MotionBlurExample.Initialize {} demoFiles demoContext demoDevice with
  | error e => rw [h] at hok; cases hok
  | ok r =>
    exact ⟨r, rfl, mvp_block_bound_for_gBuffer_only {} demoFiles demoContext demoDevice r h 1
      (by decide)⟩

/-- C24: for every state, context and driver state, with `c = GetCurrentFrame()`, `Update` makes
exactly two calls, a block copy to `mvpUniformBuffersMapped[c]` and a block copy to
`postProcessUniformBuffersMapped[c]`; it creates no handle, leaves the six uniform-buffer vectors
as they were, and leaves the contents of every mapped block other than these two destinations
unchanged. When the mapped blocks of the two vectors are pairwise distinct, as they are after a
successful `Initialize` (which also leaves both vectors with two elements), the blocks of every
other slot are therefore unchanged. -/
theorem update_writes_only_current_slot (self : MotionBlurExample) (ctx : VulkanContext)
    (d : Device) (deltaTime : FloatVal) :
    (∃ ubo params, (self.Update ctx d deltaTime).1.log = d.log ++
      [ Call.memcpyBlock self.mvpUniformBuffersMapped[ctx.GetCurrentFrame]? (.mvp ubo)
          MotionBlurMVPUBO.sizeof,
        Call.memcpyBlock self.postProcessUniformBuffersMapped[ctx.GetCurrentFrame]? (.params params)
          MotionBlurPostProcessParams.sizeof ]) ∧
    (self.Update ctx d deltaTime).1.next = d.next ∧
    (self.Update ctx d deltaTime).2.uniformHandles = self.uniformHandles ∧
    (∀ mapped, self.mvpUniformBuffersMapped[ctx.GetCurrentFrame]? ≠ some mapped →
      self.postProcessUniformBuffersMapped[ctx.GetCurrentFrame]? ≠ some mapped →
      (self.Update ctx d deltaTime).1.blockContents mapped = d.blockContents mapped) ∧
    (∀ other mapped, other ≠ ctx.GetCurrentFrame →
      (self.mvpUniformBuffersMapped ++ self.postProcessUniformBuffersMapped).Nodup →
      (self.mvpUniformBuffersMapped[other]? = some mapped ∨
        self.postProcessUniformBuffersMapped[other]? = some mapped) →
      (self.Update ctx d deltaTime).1.blockContents mapped = d.blockContents mapped) ∧
    (∀ fs ctx0 d0 r, self.Initialize fs ctx0 d0 = .ok r →
      r.2.mvpUniformBuffersMapped.length = VulkanContext.MAX_FRAMES_IN_FLIGHT ∧
      r.2.postProcessUniformBuffersMapped.length = VulkanContext.MAX_FRAMES_IN_FLIGHT ∧
      (r.2.mvpUniformBuffersMapped ++ r.2.postProcessUniformBuffersMapped).Nodup) := by
  obtain ⟨mvp, -, hu⟩ := Update_eq self ctx d deltaTime
  have hkeep : ∀ mapped, self.mvpUniformBuffersMapped[ctx.GetCurrentFrame]? ≠ some mapped →
      self.postProcessUniformBuffersMapped[ctx.GetCurrentFrame]? ≠ some mapped →
      (self.Update ctx d deltaTime).1.blockContents mapped = d.blockContents mapped := by
    intro mapped h1 h2
    rw [hu]
    simp only [VulkanContext.GetCurrentFrame] at h1 h2
    simp [Device.blockContents, blockStep, List.foldl_append, h1, h2]
  refine ⟨⟨_, _, by rw [hu]; rfl⟩, by rw [hu], by rw [hu]; rfl, hkeep, ?_, ?_⟩
  · intro other mapped hne hnd hmem
    have hnd' := List.nodup_append.mp hnd
    apply hkeep
    · intro hc
      rcases hmem with hm | hm
      · have h1 := List.getElem?_eq_some_iff.mp hc
        have h2 := List.getElem?_eq_some_iff.mp hm
        obtain ⟨l1, e1⟩ := h1
        obtain ⟨l2, e2⟩ := h2
        exact hne ((List.Nodup.getElem_inj_iff hnd'.1).mp (e2.trans e1.symm))
      · exact hnd'.2.2 (List.getElem?_mem hc) (List.getElem?_mem hm)
    · intro hc
      rcases hmem with hm | hm
      · exact hnd'.2.2 (List.getElem?_mem hm) (List.getElem?_mem hc)
      · have h1 := List.getElem?_eq_some_iff.mp hc
        have h2 := List.getElem?_eq_some_iff.mp hm
        obtain ⟨l1, e1⟩ := h1
        obtain ⟨l2, e2⟩ := h2
        exact hne ((List.Nodup.getElem_inj_iff hnd'.2.1).mp (e2.trans e1.symm))
  · intro fs ctx0 d0 r h
    obtain ⟨n, -, -, -, -, -, -, -, hm, -, -, hp, -⟩ := Initialize_uniforms self fs ctx0 d0 r h
    rw [hm, hp]
    refine ⟨rfl, rfl, ?_⟩
    simp

set_option maxRecDepth 100000 in
theorem update_writes_only_current_slot_witness :
    ∃ r, MotionBlurExample.Initialize {} demoFiles demoContext demoDevice = .ok r ∧
      (r.2.Update resizedContext r.1 (.lit (1/60))).2.mvpUniformBuffersMapped = [68, 72] ∧
      (r.2.Update resizedContext r.1 (.lit (1/60))).2.postProcessUniformBuffersMapped = [70, 74] ∧
      (1 : Nat) ≠ demoContext.GetCurrentFrame ∧
      ((r.2.Update resizedContext r.1 (.lit (1/60))).2.Update demoContext
          (r.2.Update resizedContext r.1 (.lit (1/60))).1 (.lit (1/60))).1.blockContents 72 =
        (r.2.Update resizedContext r.1 (.lit (1/60))).1.blockContents 72 := by
  have hok : (MotionBlurExample.Initialize {} demoFiles demoContext demoDevice).isOk = true := rfl
  cases h : MotionBlurExample.Initialize {} demoFiles demoContext demoDevice with
  | error e => rw [h] at hok; cases hok
  | ok r =>
    have e : (match MotionBlurExample.Initialize {} demoFiles demoContext demoDevice with
        | .ok r => ((r.2.Update resizedContext r.1 (.lit (1/60))).2.mvpUniformBuffersMapped,
            (r.2.Update resizedContext r.1 (.lit (1/60))).2.postProcessUniformBuffersMapped)
        | .error _ => ([], [])) = ([68, 72], [70, 74]) := rfl
    simp only [h, Prod.mk.injEq] at e
    obtain ⟨e1, e2⟩ := e
    refine ⟨r, rfl, e1, e2, by decide, ?_⟩
    exact (update_writes_only_current_slot (r.2.Update resizedContext r.1 (.lit (1/60))).2
      demoContext (r.2.Update resizedContext r.1 (.lit (1/60))).1 (.lit (1/60))).2.2.2.2.1 1 72
      (by decide) (by rw [e1, e2]; decide) (Or.inl (by rw [e1]; rfl))

theorem CleanupRenderTargets_eq (self : MotionBlurExample) (d : Device) :
    self.CleanupRenderTargets d =
      ({ d with log := d.log ++ self.renderTargets.flatMap RenderTarget.cleanupCalls },
       { self with
          rtSceneColor := self.rtSceneColor.cleared
          rtVelocity := self.rtVelocity.cleared
          rtDepth := self.rtDepth.cleared
          rtMotion := self.rtMotion.cleared
          rtBlurIntermediate := self.rtBlurIntermediate.cleared
          rtBlurFinal := self.rtBlurFinal.cleared }) := by
  simp only [MotionBlurExample.CleanupRenderTargets, renderTarget_cleanup_eq,
    MotionBlurExample.renderTargets, List.flatMap_cons, List.flatMap_nil, RenderTarget.cleanupCalls,
    RenderTarget.cleared, List.append_assoc, List.append_nil]

theorem kinds_cleanupCalls (rts : List RenderTarget) :
    ∀ c ∈ rts.flatMap RenderTarget.cleanupCalls, c.kind = .vkDestroy := by
  intro c hc
  simp only [List.mem_flatMap, RenderTarget.cleanupCalls, List.mem_append] at hc
  obtain ⟨rt, -, (h | h) | h⟩ := hc <;> split_ifs at h <;> simp at h <;> subst h <;> rfl

theorem destroyedFramebuffers_append (a b : List Call) :
    destroyedFramebuffers (a ++ b) = destroyedFramebuffers a ++ destroyedFramebuffers b := by
  simp [destroyedFramebuffers, List.filterMap_append]

theorem destroyedFramebuffers_of_kind (calls : List Call)
    (h : ∀ c ∈ calls, c.kind ≠ .vkDestroy) : destroyedFramebuffers calls = [] := by
  induction calls with
  | nil => rfl
  | cons c cs ih =>
    have hc := h c (List.mem_cons_self _ _)
    have hcs : ∀ c ∈ cs, c.kind ≠ .vkDestroy := fun c hc => h c (List.mem_cons_of_mem _ hc)
    have := ih hcs
    simp only [destroyedFramebuffers] at this ⊢
    rw [List.filterMap_cons, this]
    cases c <;> first | rfl | exact absurd rfl hc

theorem destroyedFramebuffers_cleanupCalls (rts : List RenderTarget) :
    destroyedFramebuffers (rts.flatMap RenderTarget.cleanupCalls) = [] := by
  induction rts with
  | nil => rfl
  | cons rt rts ih =>
    rw [List.flatMap_cons, destroyedFramebuffers_append, ih]
    simp only [RenderTarget.cleanupCalls, destroyedFramebuffers]
    split_ifs <;> rfl

set_option maxHeartbeats 1000000 in
theorem OnSwapChainRecreated_shape (self : MotionBlurExample) (ctx : VulkanContext)
    (d : Device) (r : Device × MotionBlurExample) (h : self.OnSwapChainRecreated ctx d = .ok r) :
    Generation r.2 d.next (d.next + 18) ctx.swapChainImageViews.length ∧
    r.1.next = d.next + ctx.swapChainImageViews.length + 32 ∧
    r.2.persistent = self.persistent ∧
    (∀ fb, fb ≤ d.next → r.1.framebufferInfo fb = d.framebufferInfo fb) ∧
    ∃ calls, r.1.log = d.log ++ self.renderTargets.flatMap RenderTarget.cleanupCalls ++ calls ∧
      ∀ c ∈ calls, c.kind ∈ recreateKinds := by
  simp only [MotionBlurExample.OnSwapChainRecreated, bind_ok_iff, Prod.exists] at h
  obtain ⟨d2, s2, h2, d7, s7, h7, h12⟩ := h
  rw [CleanupRenderTargets_eq] at h2
  have e2 := CreateRenderTargets_ok _ _ _ _ h2
  have x2 := CreateRenderTargets_extends _ _ _ _ h2
  have e7 := CreateFramebuffers_ok _ _ _ _ h7
  have x7 := CreateFramebuffers_extends _ _ _ _ h7
  obtain ⟨e12, n12, -, f12, -⟩ := CreateDescriptorSets_ok _ _ _ h12
  have x12 := CreateDescriptorSets_extends _ _ _ h12
  simp only [Prod.mk.injEq] at e2 e7
  obtain ⟨c2, l2, k2⟩ := x2
  obtain ⟨c7, l7, k7⟩ := x7
  obtain ⟨c12, l12, k12⟩ := x12
  have hd2 : d2.next = d.next + 18 := by rw [e2.1]
  have hd7 : d7.next = d.next + 18 + ctx.swapChainImageViews.length + 4 := by rw [e7.1, hd2]
  refine ⟨?_, ?_, ?_, ?_, ?_⟩
  · constructor
    · rw [e12, e7.2, e2.2]
      rfl
    · rw [e12, e7.2, hd2]
    · rw [e12, e7.2, hd2]
      rfl
  · rw [n12]
    simp only [vkResetDescriptorPool, Device.emit, hd7]
    omega
  · rw [e12, e7.2, e2.2]
    rfl
  · intro fb hfb
    rw [f12]
    have : (vkResetDescriptorPool d7 s7.descriptorPool).framebufferInfo fb = d7.framebufferInfo fb := by
      simp [vkResetDescriptorPool, Device.emit, Device.framebufferInfo, framebufferStep,
        List.foldl_append]
    rw [this, e7.1]
    have e1 : ¬ (d2.next + ctx.swapChainImageViews.length + 1 = fb) := by omega
    have e2' : ¬ (d2.next + ctx.swapChainImageViews.length + 2 = fb) := by omega
    have e3 : ¬ (d2.next + ctx.swapChainImageViews.length + 3 = fb) := by omega
    have e4 : ¬ (d2.next + ctx.swapChainImageViews.length + 4 = fb) := by omega
    have e5 : ¬ (d2.next + 1 ≤ fb ∧ fb < d2.next + 1 + ctx.swapChainImageViews.length) := by omega
    simp only [Device.framebufferInfo, List.foldl_append, List.foldl_cons, List.foldl_nil,
      framebufferStep, foldl_framebufferStep_swapChainCalls, e1, e2', e3, e4, e5, if_false]
    have hx : d2.Extends d [.vkDestroy, .CreateImage, .CreateImageView] := by
      refine ⟨self.renderTargets.flatMap RenderTarget.cleanupCalls ++ c2, ?_, ?_⟩
      · rw [l2]
        simp [List.append_assoc]
      · intro c hc
        rcases List.mem_append.mp hc with hc | hc
        · rw [kinds_cleanupCalls _ c hc]
          decide
        · exact List.mem_cons_of_mem _ (k2 c hc)
    exact hx.framebufferInfo (by decide) fb
  · clear h2 h7 h12 e12 f12 e2 e7
    simp only at l2
    refine ⟨c2 ++ c7 ++ [Call.vkResetDescriptorPool s7.descriptorPool] ++ c12, ?_, ?_⟩
    · simp only at l7
      rw [l12]
      simp only [vkResetDescriptorPool, Device.emit, l7, l2, List.append_assoc]
    · have s2 : [CallKind.CreateImage, CallKind.CreateImageView] ⊆ recreateKinds := by decide
      have s7 : [CallKind.vkCreateFramebuffer] ⊆ recreateKinds := by decide
      have s12 : [CallKind.vkAllocateDescriptorSets, CallKind.vkUpdateDescriptorSets] ⊆
          recreateKinds := by decide
      intro c hc
      simp only [List.mem_append, List.mem_singleton] at hc
      rcases hc with ((hc | hc) | hc) | hc
      · exact s2 (k2 c hc)
      · exact s7 (k7 c hc)
      · subst hc
        simp [Call.kind, recreateKinds]
      · exact s12 (k12 c hc)

theorem Initialize_generation (self : MotionBlurExample) (fs : FileSystem) (ctx : VulkanContext)
    (d : Device) (r : Device × MotionBlurExample) (h : self.Initialize fs ctx d = .ok r) :
    ∃ a b, Generation r.2 a b ctx.swapChainImageViews.length ∧ d.next ≤ a ∧ a + 18 ≤ b ∧
      b + ctx.swapChainImageViews.length + 4 ≤ r.1.next := by
  simp only [MotionBlurExample.Initialize, bind_ok_iff, messageOnly_ok, Prod.exists, pure_ok] at h
  obtain ⟨d1, s1, h1, d2, s2, h2, d3, s3, h3, d4, s4, h4, d5, s5, h5, d6, s6, h6, d7, s7, h7,
    d8, s8, h8, d9, q9, h9, d10, s10, h10, d11, s11, h11, d12, s12, h12, rfl⟩ := h
  have n1 : d.next ≤ d1.next := by
    simp only [MotionBlurExample.CreateSamplers, utils.CreateLinearSampler,
      utils.CreateNearestSampler, vkCreateSampler, bind_assoc, check_request_bind, pure_bind,
      pure_ok] at h1
    obtain ⟨-, -, e⟩ := h1
    have := congrArg (fun x => x.1.next) e
    simp only at this
    omega
  have e2 := CreateRenderTargets_ok _ _ _ _ h2
  have e3 := (CreateRenderPasses_ok _ _ _ _ h3)
  obtain ⟨e4, n4⟩ := CreateDescriptorSetLayouts_ok _ _ _ h4
  obtain ⟨e5, n5⟩ := CreatePipelineLayouts_ok _ _ _ h5
  obtain ⟨e6, n6⟩ := CreatePipelines_ok _ _ _ _ _ h6
  have e7 := CreateFramebuffers_ok _ _ _ _ h7
  obtain ⟨e8, n8, -⟩ := CreateTriangleVertexBuffer_ok _ _ _ _ h8
  obtain ⟨n9, -⟩ := FullscreenQuad_Initialize_ok _ _ _ _ h9
  obtain ⟨e10, n10, -⟩ := CreateUniformBuffers_ok _ _ _ _ h10
  obtain ⟨e11, n11, -⟩ := CreateDescriptorPool_ok _ _ _ h11
  obtain ⟨e12, n12, -⟩ := CreateDescriptorSets_ok _ _ _ h12
  simp only [Prod.mk.injEq] at e2 e3 e4 e5 e6 e7 e8 e10 e11 e12
  simp only at n4 n5 n6 n8 n9 n10 n11 n12
  have hd2 : d2.next = d1.next + 18 := by rw [e2.1]
  have hd3 : d3.next = d2.next + 5 := by rw [e3.1]
  have hd7 : d7.next = d6.next + ctx.swapChainImageViews.length + 4 := by rw [e7.1]
  refine ⟨d1.next, d6.next, ?_, n1, by omega, ?_⟩
  · constructor
    · rw [e12, e11, e10, e8, e7.2, e6, e5, e4, e3.2, e2.2]
      rfl
    · rw [e12, e11, e10, e8, e7.2]
    · rw [e12, e11, e10, e8, e7.2]
      rfl
  · show _ ≤ d12.next
    omega

theorem destroyedViews_of_kind (calls : List Call)
    (h : ∀ c ∈ calls, c.kind ≠ .vkDestroy) : destroyedViews calls = [] := by
  induction calls with
  | nil => rfl
  | cons c cs ih =>
    have hc := h c (List.mem_cons_self _ _)
    have hcs : ∀ c ∈ cs, c.kind ≠ .vkDestroy := fun c hc => h c (List.mem_cons_of_mem _ hc)
    have := ih hcs
    simp only [destroyedViews] at this ⊢
    rw [List.filterMap_cons, this]
    cases c <;> first | rfl | exact absurd rfl hc

theorem Generation.cleanupCalls {s : MotionBlurExample} {a b m : Nat} (g : Generation s a b m) :
    s.renderTargets.flatMap RenderTarget.cleanupCalls =
      [ Call.vkDestroyImageView (a + 3), Call.vkDestroyImage (a + 1), Call.vkFreeMemory (a + 2),
        Call.vkDestroyImageView (a + 6), Call.vkDestroyImage (a + 4), Call.vkFreeMemory (a + 5),
        Call.vkDestroyImageView (a + 9), Call.vkDestroyImage (a + 7), Call.vkFreeMemory (a + 8),
        Call.vkDestroyImageView (a + 12), Call.vkDestroyImage (a + 10), Call.vkFreeMemory (a + 11),
        Call.vkDestroyImageView (a + 15), Call.vkDestroyImage (a + 13), Call.vkFreeMemory (a + 14),
        Call.vkDestroyImageView (a + 18), Call.vkDestroyImage (a + 16),
        Call.vkFreeMemory (a + 17) ] := by
  have h := g.targets
  simp only [MotionBlurExample.renderTargets, List.map_cons, List.map_nil, List.cons.injEq,
    Prod.mk.injEq, and_true] at h
  obtain ⟨⟨i1, m1, v1⟩, ⟨i2, m2, v2⟩, ⟨i3, m3, v3⟩, ⟨i4, m4, v4⟩, ⟨i5, m5, v5⟩, ⟨i6, m6, v6⟩⟩ := h
  simp [MotionBlurExample.renderTargets, RenderTarget.cleanupCalls, i1, m1, v1, i2, m2, v2, i3, m3,
    v3, i4, m4, v4, i5, m5, v5, i6, m6, v6]

theorem Generation.views {s : MotionBlurExample} {a b m : Nat} (g : Generation s a b m) :
    s.renderTargets.map (fun t => t.view) = [a + 3, a + 6, a + 9, a + 12, a + 15, a + 18] := by
  have h := congrArg (List.map fun x : Handle × Handle × Handle => x.2.2) g.targets
  simpa [List.map_map, Function.comp_def] using h

theorem Generation.framebuffer_le {s : MotionBlurExample} {a b m : Nat} (g : Generation s a b m)
    (fb : Nat) (h : fb ∈ s.offscreenFramebuffers ++ s.swapChainFramebuffers) :
    b < fb ∧ fb ≤ b + m + 4 := by
  rw [g.offscreen, g.swapChain] at h
  simp only [List.mem_append, List.mem_cons, List.mem_singleton, List.not_mem_nil, or_false,
    List.mem_range'_1] at h
  rcases h with (h | h | h | h) | h <;> omega

set_option maxRecDepth 100000 in
/-- C26, counterexample: in the run of `Initialize` on the sample inputs followed directly by
`OnSwapChainRecreated`, the swapchain framebuffers created by `Initialize` are 48, 49 and 50;
they are still known to the driver with the single attachments 1001, 1002 and 1003, the views of
the swapchain images, while the views that the call destroyed are the render-target views 5, 8,
11, 14, 17 and 20: no swapchain framebuffer references a view that the call destroyed. -/
theorem swapchain_framebuffers_reference_no_destroyed_view :
    ∃ r0 r, MotionBlurExample.Initialize {} demoFiles demoContext demoDevice = .ok r0 ∧
      r0.2.OnSwapChainRecreated resizedContext r0.1 = .ok r ∧
      r0.2.swapChainFramebuffers = [48, 49, 50] ∧
      r0.2.swapChainFramebuffers.map (fun fb => (r.1.framebufferInfo fb).map (fun i => i.pAttachments)) =
        [some [1001], some [1002], some [1003]] ∧
      destroyedViews (r.1.log.drop r0.1.log.length) = [5, 8, 11, 14, 17, 20] := by
  have hok : (MotionBlurExample.Initialize {} demoFiles demoContext demoDevice).isOk = true := rfl
  cases h : MotionBlurExample.Initialize {} demoFiles demoContext demoDevice with
  | error e => rw [h] at hok; cases hok
  | ok r0 =>
    have hok2 : (match MotionBlurExample.Initialize {} demoFiles demoContext demoDevice with
        | .ok r0 => (r0.2.OnSwapChainRecreated resizedContext r0.1).isOk
        | .error _ => false) = true := rfl
    simp only [h] at hok2
    cases h2 : r0.2.OnSwapChainRecreated resizedContext r0.1 with
    | error e => rw [h2] at hok2; cases hok2
    | ok r =>
      have e : (match MotionBlurExample.Initialize {} demoFiles demoContext demoDevice with
          | .ok r0 =>
            match r0.2.OnSwapChainRecreated resizedContext r0.1 with
            | .ok r => (r0.2.swapChainFramebuffers,
                r0.2.swapChainFramebuffers.map
                  (fun fb => (r.1.framebufferInfo fb).map (fun i => i.pAttachments)),
                destroyedViews (r.1.log.drop r0.1.log.length))
            | .error _ => ([], [], [])
          | .error _ => ([], [], [])) =
          ([48, 49, 50], [some [1001], some [1002], some [1003]], [5, 8, 11, 14, 17, 20]) := rfl
      simp only [h, h2, Prod.mk.injEq] at e
      exact ⟨r0, r, rfl, h2, e.1, e.2.1, e.2.2⟩

/-- C26, amended: for every successful `Initialize` followed directly by a successful
`OnSwapChainRecreated` (no `OnSwapChainCleanup` in between), the calls of the recreation contain
no `vkDestroyFramebuffer`; the four offscreen framebuffers and the swapchain framebuffers that
`Initialize` created (one per swapchain image) are no longer held by the state, which holds
handles handed out later instead; the views destroyed by the recreation are exactly the views
of the six render targets of `Initialize`; each of the four old offscreen framebuffers is still
known to the driver and every attachment of it is one of these destroyed views; each old
swapchain framebuffer is still known to the driver and its one attachment is the view of its
swapchain image. -/
theorem recreation_without_cleanup_leaks_framebuffers (self : MotionBlurExample) (fs : FileSystem)
    (ctx ctx' : VulkanContext) (d : Device) (r0 r : Device × MotionBlurExample)
    (h0 : self.Initialize fs ctx d = .ok r0) (h : r0.2.OnSwapChainRecreated ctx' r0.1 = .ok r) :
    ∃ calls, r.1.log = r0.1.log ++ calls ∧ destroyedFramebuffers calls = [] ∧
      r0.2.swapChainFramebuffers.length = ctx.swapChainImageViews.length ∧
      (∀ fb ∈ r0.2.offscreenFramebuffers ++ r0.2.swapChainFramebuffers,
        (fb : Nat) ≤ r0.1.next ∧ fb ∉ r.2.offscreenFramebuffers ++ r.2.swapChainFramebuffers) ∧
      (∀ fb ∈ r.2.offscreenFramebuffers ++ r.2.swapChainFramebuffers, r0.1.next < (fb : Nat)) ∧
      destroyedViews calls = r0.2.renderTargets.map (fun t => t.view) ∧
      (∀ p, p ≠ .Final → ∃ fb info, r0.2.framebuffer 0 p = some fb ∧
        r.1.framebufferInfo fb = some info ∧ info.pAttachments ≠ [] ∧
        ∀ v ∈ info.pAttachments, v ∈ destroyedViews calls) ∧
      (∀ i, i < ctx.swapChainImageViews.length → ∃ fb info view,
        r0.2.swapChainFramebuffers[i]? = some fb ∧ ctx.swapChainImageViews[i]? = some view ∧
        r.1.framebufferInfo fb = some info ∧ info.pAttachments = [view]) := by
  obtain ⟨a, b, g0, -, -, hb⟩ := Initialize_generation self fs ctx d r0 h0
  have w0 := Initialize_wired self fs ctx d r0 h0
  obtain ⟨g, -, -, hinfo, calls, hlog, hk⟩ := OnSwapChainRecreated_shape r0.2 ctx' r0.1 r h
  have hk' : ∀ c ∈ calls, c.kind ≠ .vkDestroy := by
    intro c hc e
    have := hk c hc
    rw [e] at this
    revert this
    decide
  have hold : ∀ fb ∈ r0.2.offscreenFramebuffers ++ r0.2.swapChainFramebuffers,
      (fb : Nat) ≤ r0.1.next := by
    intro fb hfb
    exact Nat.le_trans (g0.framebuffer_le fb hfb).2 hb
  have hnew : ∀ fb ∈ r.2.offscreenFramebuffers ++ r.2.swapChainFramebuffers,
      r0.1.next < (fb : Nat) := by
    intro fb hfb
    exact Nat.lt_of_le_of_lt (Nat.le_add_right _ _) (g.framebuffer_le fb hfb).1
  have hviews : destroyedViews (r0.2.renderTargets.flatMap RenderTarget.cleanupCalls ++ calls) =
      r0.2.renderTargets.map (fun t => t.view) := by
    rw [destroyedViews_append, destroyedViews_of_kind calls hk', g0.cleanupCalls, g0.views]
    simp [destroyedViews]
  refine ⟨r0.2.renderTargets.flatMap RenderTarget.cleanupCalls ++ calls, ?_, ?_, w0.swapChainCount,
    ?_, hnew, hviews, ?_, ?_⟩
  · rw [hlog, List.append_assoc]
  · rw [destroyedFramebuffers_append, destroyedFramebuffers_cleanupCalls,
      destroyedFramebuffers_of_kind calls hk']
    rfl
  · intro fb hfb
    refine ⟨hold fb hfb, fun hmem => ?_⟩
    exact absurd (hold fb hfb) (Nat.not_le.mpr (hnew fb hmem))
  · intro p hp
    obtain ⟨fb, info, hfb, hi, -, hatt, -, -⟩ := w0.framebuffers p 0 (fun e => absurd e hp)
    have hmem : fb ∈ r0.2.offscreenFramebuffers ++ r0.2.swapChainFramebuffers := by
      cases p <;> first
        | exact absurd rfl hp
        | (simp only [MotionBlurExample.framebuffer, Option.some.injEq] at hfb
           subst hfb
           simp [MotionBlurExample.offscreenFramebuffers])
    refine ⟨fb, info, hfb, by rw [hinfo fb (hold fb hmem)]; exact hi, ?_, ?_⟩
    · intro e
      rw [e] at hatt
      cases p <;> simp [Pass.writes] at hatt
    · intro v hv
      rw [hviews]
      have hv' : some v ∈ info.pAttachments.map some := List.mem_map_of_mem _ hv
      rw [hatt] at hv'
      cases p <;> simp [Pass.writes, MotionBlurExample.view, MotionBlurExample.renderTargets] at hv' ⊢
      all_goals first
        | exact absurd rfl hp
        | (rcases hv' with rfl | rfl | rfl <;> simp)
  · intro i hi
    obtain ⟨fb, info, hfb, hinf, -, hatt, -, -⟩ := w0.framebuffers .Final i (fun _ => hi)
    simp only [MotionBlurExample.framebuffer] at hfb
    have hmem : fb ∈ r0.2.offscreenFramebuffers ++ r0.2.swapChainFramebuffers :=
      List.mem_append_right _ (List.getElem?_mem hfb)
    refine ⟨fb, info, ctx.swapChainImageViews[i], hfb, List.getElem?_eq_getElem hi,
      by rw [hinfo fb (hold fb hmem)]; exact hinf, ?_⟩
    apply map_some_eq
    rw [hatt]
    simp [Pass.writes, MotionBlurExample.view, List.getElem?_eq_getElem hi]

set_option maxRecDepth 100000 in
theorem recreation_without_cleanup_leaks_framebuffers_witness :
    ∃ r0 r, MotionBlurExample.Initialize {} demoFiles demoContext demoDevice = .ok r0 ∧
      r0.2.OnSwapChainRecreated resizedContext r0.1 = .ok r ∧
      ∃ calls, r.1.log = r0.1.log ++ calls ∧ destroyedFramebuffers calls = [] ∧
        (∀ fb ∈ r0.2.offscreenFramebuffers ++ r0.2.swapChainFramebuffers,
          (fb : Nat) ≤ r0.1.next ∧ fb ∉ r.2.offscreenFramebuffers ++ r.2.swapChainFramebuffers) ∧
        ∀ p, p ≠ .Final → ∃ fb info, r0.2.framebuffer 0 p = some fb ∧
          r.1.framebufferInfo fb = some info ∧ info.pAttachments ≠ [] ∧
          ∀ v ∈ info.pAttachments, v ∈ destroyedViews calls := by
  have hok : (MotionBlurExample.Initialize {} demoFiles demoContext demoDevice).isOk = true := rfl
  cases h : MotionBlurExample.Initialize {} demoFiles demoContext demoDevice with
  | error e => rw [h] at hok; cases hok
  | ok r0 =>
    have hok2 : (match MotionBlurExample.Initialize {} demoFiles demoContext demoDevice with
        | .ok r0 => (r0.2.OnSwapChainRecreated resizedContext r0.1).isOk
        | .error _ => false) = true := rfl
    simp only [h] at hok2
    cases h2 : r0.2.OnSwapChainRecreated resizedContext r0.1 with
    | error e => rw [h2] at hok2; cases hok2
    | ok r =>
      obtain ⟨calls, hlog, hfb, -, hold, -, -, hoff, -⟩ :=
        recreation_without_cleanup_leaks_framebuffers {} demoFiles demoContext resizedContext
          demoDevice r0 r h h2
      exact ⟨r0, r, rfl, h2, calls, hlog, hfb, hold, hoff⟩

theorem kinds_cleanupFramebufferCalls (sw off : List Handle) :
    ∀ c ∈ cleanupFramebufferCalls sw off, c.kind = .vkDestroy := by
  intro c hc
  simp only [cleanupFramebufferCalls, List.mem_append, List.mem_map] at hc
  rcases hc with ⟨fb, -, rfl⟩ | ⟨fb, -, rfl⟩ <;> rfl

theorem OnSwapChainCleanup_eq (self : MotionBlurExample) (d : Device) :
    self.OnSwapChainCleanup d =
      ({ d with log := d.log ++
          cleanupFramebufferCalls self.swapChainFramebuffers self.offscreenFramebuffers },
       { self with
          swapChainFramebuffers := []
          fbGBuffer := VK_NULL_HANDLE
          fbMotionApply := VK_NULL_HANDLE
          fbBlurVertical := VK_NULL_HANDLE
          fbBlurHorizontal := VK_NULL_HANDLE }) := by
  rw [MotionBlurExample.OnSwapChainCleanup, cleanupFramebuffers_eq]
  simp only [cleanupFramebufferCalls, List.append_assoc]

theorem RecreateSwapChain_shape (ctx' : VulkanContext) (d : Device) (s : MotionBlurExample)
    (r : Device × MotionBlurExample) (h : RecreateSwapChain ctx' d s = .ok r) :
    Wired ctx' r.1 r.2 ∧
    Generation r.2 d.next (d.next + 18) ctx'.swapChainImageViews.length ∧
    r.1.next = d.next + ctx'.swapChainImageViews.length + 32 ∧
    r.2.persistent = s.persistent ∧ r.1.Extends d recreationKinds ∧
    ∃ calls, r.1.log = d.log ++
        cleanupFramebufferCalls s.swapChainFramebuffers s.offscreenFramebuffers ++
        s.renderTargets.flatMap RenderTarget.cleanupCalls ++ calls ∧
      ∀ c ∈ calls, c.kind ∈ recreateKinds := by
  simp only [RecreateSwapChain] at h
  rw [OnSwapChainCleanup_eq] at h
  simp only at h
  have w := OnSwapChainRecreated_wired _ _ _ _ h
  obtain ⟨g, hn, hp, -, calls, hlog, hk⟩ := OnSwapChainRecreated_shape _ _ _ _ h
  simp only at g hn hlog
  have hlog' : r.1.log = d.log ++
      cleanupFramebufferCalls s.swapChainFramebuffers s.offscreenFramebuffers ++
      s.renderTargets.flatMap RenderTarget.cleanupCalls ++ calls := by
    rw [hlog]
    rfl
  refine ⟨w, g, hn, ?_, ?_, calls, hlog', hk⟩
  · rw [hp]
    rfl
  · refine ⟨cleanupFramebufferCalls s.swapChainFramebuffers s.offscreenFramebuffers ++
      s.renderTargets.flatMap RenderTarget.cleanupCalls ++ calls, ?_, ?_⟩
    · rw [hlog']
      simp only [List.append_assoc]
    · have sub : recreateKinds ⊆ recreationKinds := by decide
      intro c hc
      simp only [List.mem_append] at hc
      rcases hc with (hc | hc) | hc
      · rw [kinds_cleanupFramebufferCalls _ _ c hc]
        decide
      · rw [kinds_cleanupCalls _ c hc]
        decide
      · exact sub (hk c hc)

theorem persistent_fields {s' s : MotionBlurExample} (h : s'.persistent = s.persistent) :
    (∀ p, s'.pipeline p = s.pipeline p) ∧ (∀ p, s'.pipelineLayout p = s.pipelineLayout p) ∧
    (∀ p, s'.renderPass p = s.renderPass p) ∧
    (∀ p, s'.descriptorSetLayout p = s.descriptorSetLayout p) ∧
    s'.descriptorPool = s.descriptorPool ∧ s'.uniformHandles = s.uniformHandles ∧
    s'.triangleVertexBuffer = s.triangleVertexBuffer ∧
    s'.triangleVertexBufferMemory = s.triangleVertexBufferMemory ∧
    s'.fullscreenQuad = s.fullscreenQuad ∧
    s'.samplerLinear = s.samplerLinear ∧ s'.samplerNearest = s.samplerNearest := by
  have e1 := congrArg MotionBlurExample.pipelineGBuffer h
  have e2 := congrArg MotionBlurExample.pipelineMotionApply h
  have e3 := congrArg MotionBlurExample.pipelineBlurVertical h
  have e4 := congrArg MotionBlurExample.pipelineBlurHorizontal h
  have e5 := congrArg MotionBlurExample.pipelineFinal h
  have l1 := congrArg MotionBlurExample.pipelineLayoutGBuffer h
  have l2 := congrArg MotionBlurExample.pipelineLayoutMotionApply h
  have l3 := congrArg MotionBlurExample.pipelineLayoutBlur h
  have l4 := congrArg MotionBlurExample.pipelineLayoutFinal h
  have r1 := congrArg MotionBlurExample.renderPassGBuffer h
  have r2 := congrArg MotionBlurExample.renderPassMotionApply h
  have r3 := congrArg MotionBlurExample.renderPassBlurVertical h
  have r4 := congrArg MotionBlurExample.renderPassBlurHorizontal h
  have r5 := congrArg MotionBlurExample.renderPassFinal h
  have s1 := congrArg MotionBlurExample.descriptorSetLayoutGBuffer h
  have s2 := congrArg MotionBlurExample.descriptorSetLayoutPostProcess h
  have s3 := congrArg MotionBlurExample.descriptorSetLayoutFinal h
  have u1 := congrArg MotionBlurExample.mvpUniformBuffers h
  have u2 := congrArg MotionBlurExample.mvpUniformBuffersMemory h
  have u3 := congrArg MotionBlurExample.mvpUniformBuffersMapped h
  have u4 := congrArg MotionBlurExample.postProcessUniformBuffers h
  have u5 := congrArg MotionBlurExample.postProcessUniformBuffersMemory h
  have u6 := congrArg MotionBlurExample.postProcessUniformBuffersMapped h
  simp only [MotionBlurExample.persistent] at e1 e2 e3 e4 e5 l1 l2 l3 l4 r1 r2 r3 r4 r5
  simp only [MotionBlurExample.persistent] at s1 s2 s3 u1 u2 u3 u4 u5 u6
  have p1 := congrArg MotionBlurExample.descriptorPool h
  have t1 := congrArg MotionBlurExample.triangleVertexBuffer h
  have t2 := congrArg MotionBlurExample.triangleVertexBufferMemory h
  have q1 := congrArg MotionBlurExample.fullscreenQuad h
  have a1 := congrArg MotionBlurExample.samplerLinear h
  have a2 := congrArg MotionBlurExample.samplerNearest h
  refine ⟨?_, ?_, ?_, ?_, p1, ?_, t1, t2, q1, a1, a2⟩
  · intro p
    cases p <;> simp only [MotionBlurExample.pipeline, e1, e2, e3, e4, e5]
  · intro p
    cases p <;> simp only [MotionBlurExample.pipelineLayout, l1, l2, l3, l4]
  · intro p
    cases p <;> simp only [MotionBlurExample.renderPass, r1, r2, r3, r4, r5]
  · intro p
    cases p <;> simp only [MotionBlurExample.descriptorSetLayout, s1, s2, s3]
  · simp only [MotionBlurExample.uniformHandles, u1, u2, u3, u4, u5, u6]

/-- C27: let `Initialize` succeed under a context with extent (w, h) and format f, and let a
swapchain recreation (`OnSwapChainCleanup`, then `OnSwapChainRecreated`) succeed under a context
with extent (w', h'). Then neither `OnSwapChainCleanup` nor the whole recreation changes the
pipeline, the pipeline layout or the render pass of any pass; every pipeline is still the one
created with the static viewport of (w, h), whose members are the floats `0.0f`, `0.0f`,
`static_cast<float>(w)`, `static_cast<float>(h)` and the depth range `0.0f` to `1.0f`, and with
the scissor (0, 0, w, h); every pass recorded by `RecordCommands` begins with the render area
(0, 0, w', h') on a framebuffer created with width w' and height h'; and the Final render pass
still declares the format f. -/
theorem recreation_keeps_pipelines_and_render_passes (self : MotionBlurExample) (fs : FileSystem)
    (ctx ctx' : VulkanContext) (d : Device) (r0 r : Device × MotionBlurExample)
    (h0 : self.Initialize fs ctx d = .ok r0) (h : RecreateSwapChain ctx' r0.1 r0.2 = .ok r)
    (imageIndex : Nat) (hi : imageIndex < ctx'.swapChainImageViews.length) :
    (∀ p, (r0.2.OnSwapChainCleanup r0.1).2.pipeline p = r0.2.pipeline p ∧
      (r0.2.OnSwapChainCleanup r0.1).2.pipelineLayout p = r0.2.pipelineLayout p ∧
      (r0.2.OnSwapChainCleanup r0.1).2.renderPass p = r0.2.renderPass p) ∧
    (∀ p, r.2.pipeline p = r0.2.pipeline p ∧ r.2.pipelineLayout p = r0.2.pipelineLayout p ∧
      r.2.renderPass p = r0.2.renderPass p) ∧
    (∀ p, ∃ info, r.1.pipelineInfo (r.2.pipeline p) = some info ∧
      info.viewport = fullViewport ctx.swapChainExtent ∧
      info.scissor = fullRect ctx.swapChainExtent) ∧
    (∀ p, ∃ fb info, r.2.framebuffer imageIndex p = some fb ∧
      Cmd.vkCmdBeginRenderPass (r.2.renderPass p) (some fb) (fullRect ctx'.swapChainExtent)
        p.clearValues ∈ r.2.RecordCommands ctx' [] imageIndex ∧
      r.1.framebufferInfo fb = some info ∧
      info.width = ctx'.swapChainExtent.width ∧ info.height = ctx'.swapChainExtent.height) ∧
    ∃ info, r.1.renderPassInfo r.2.renderPassFinal = some info ∧
      info.pAttachments.map (fun a => a.format) = [ctx.swapChainImageFormat] := by
  obtain ⟨w, -, -, hp, x, -⟩ := RecreateSwapChain_shape ctx' r0.1 r0.2 r h
  obtain ⟨hpipe, hlay, hrp, -⟩ := persistent_fields hp
  refine ⟨?_, fun p => ⟨hpipe p, hlay p, hrp p⟩, ?_, ?_, ?_⟩
  · intro p
    rw [OnSwapChainCleanup_eq]
    cases p <;> exact ⟨rfl, rfl, rfl⟩
  · intro p
    obtain ⟨info, hinfo, -, -, -, hv, hs, -⟩ := Initialize_pipelines self fs ctx d r0 h0 p
    exact ⟨info, by rw [x.pipelineInfo (by decide), hpipe p]; exact hinfo, hv, hs⟩
  · intro p
    obtain ⟨fb, info, hfb, hinfo, -, -, hw, hh⟩ := w.framebuffers p imageIndex (fun _ => hi)
    refine ⟨fb, info, hfb, ?_, hinfo, hw, hh⟩
    rw [RecordCommands_passes]
    simp only [List.mem_flatMap]
    refine ⟨p, by cases p <;> decide, ?_⟩
    simp only [passCommands, hfb, fullRect, VulkanContext.GetSwapChainExtent]
    simp
  · obtain ⟨d1, s1, d2, s2, d3, s3, -, -, h3, x3, -, hrp3, -, -⟩ := Initialize_stages self fs ctx d r0 h0
    obtain ⟨info, hinfo, hfmt⟩ := renderPassInfo_created s2 ctx d2 d3 s3 h3 .Final
    refine ⟨info, ?_, hfmt⟩
    have e1 : r.2.renderPassFinal = s3.renderPassFinal := (hrp .Final).trans (hrp3 .Final)
    rw [x.renderPassInfo (by decide), x3.renderPassInfo (by decide), e1]
    exact hinfo

set_option maxRecDepth 100000 in
theorem recreation_keeps_pipelines_and_render_passes_witness :
    ∃ r0 r, MotionBlurExample.Initialize {} demoFiles demoContext demoDevice = .ok r0 ∧
      RecreateSwapChain resizedContext r0.1 r0.2 = .ok r ∧
      (∀ p, ∃ info, r.1.pipelineInfo (r.2.pipeline p) = some info ∧
        info.viewport = fullViewport { width := 1280, height := 720 } ∧
        info.scissor = fullRect { width := 1280, height := 720 }) ∧
      (∀ p, ∃ fb info, r.2.framebuffer 2 p = some fb ∧
        Cmd.vkCmdBeginRenderPass (r.2.renderPass p) (some fb) (fullRect { width := 640, height := 360 })
          p.clearValues ∈ r.2.RecordCommands resizedContext [] 2 ∧
        r.1.framebufferInfo fb = some info ∧ info.width = 640 ∧ info.height = 360) := by
  have hok : (MotionBlurExample.Initialize {} demoFiles demoContext demoDevice).isOk = true := rfl
  cases h : MotionBlurExample.Initialize {} demoFiles demoContext demoDevice with
  | error e => rw [h] at hok; cases hok
  | ok r0 =>
    have hok2 : (match MotionBlurExample.Initialize {} demoFiles demoContext demoDevice with
        | .ok r0 => (RecreateSwapChain resizedContext r0.1 r0.2).isOk
        | .error _ => false) = true := rfl
    simp only [h] at hok2
    cases h2 : RecreateSwapChain resizedContext r0.1 r0.2 with
    | error e => rw [h2] at hok2; cases hok2
    | ok r =>
      obtain ⟨-, -, hv, hf, -⟩ :=
        recreation_keeps_pipelines_and_render_passes {} demoFiles demoContext resizedContext
          demoDevice r0 r h h2 2 (by decide)
      exact ⟨r0, r, rfl, h2, hv, hf⟩

theorem foldl_setLayoutStep_of_kind (layout : Handle) (calls : List Call)
    (h : ∀ c ∈ calls, c.kind ≠ .vkCreateDescriptorSetLayout)
    (acc : Option (List VkDescriptorSetLayoutBinding)) :
    calls.foldl (setLayoutStep layout) acc = acc := by
  induction calls generalizing acc with
  | nil => rfl
  | cons c cs ih =>
    have hc := h c (List.mem_cons_self _ _)
    have hcs : ∀ c ∈ cs, c.kind ≠ .vkCreateDescriptorSetLayout :=
      fun c hc => h c (List.mem_cons_of_mem _ hc)
    rw [List.foldl_cons, ih hcs]
    cases c <;> first | rfl | exact absurd rfl hc

theorem Device.Extends.setLayoutBindings {r d : Device} {ks : List CallKind} (h : r.Extends d ks)
    (hk : CallKind.vkCreateDescriptorSetLayout ∉ ks) (layout : Handle) :
    r.setLayoutBindings layout = d.setLayoutBindings layout := by
  obtain ⟨calls, hlog, hkind⟩ := h
  unfold Device.setLayoutBindings
  rw [hlog, List.foldl_append]
  exact foldl_setLayoutStep_of_kind _ _ (fun c hc e => hk (e ▸ hkind c hc)) _

theorem foldl_pipelineLayoutStep_of_kind (layout : Handle) (calls : List Call)
    (h : ∀ c ∈ calls, c.kind ≠ .vkCreatePipelineLayout) (acc : Option (List Handle)) :
    calls.foldl (pipelineLayoutStep layout) acc = acc := by
  induction calls generalizing acc with
  | nil => rfl
  | cons c cs ih =>
    have hc := h c (List.mem_cons_self _ _)
    have hcs : ∀ c ∈ cs, c.kind ≠ .vkCreatePipelineLayout :=
      fun c hc => h c (List.mem_cons_of_mem _ hc)
    rw [List.foldl_cons, ih hcs]
    cases c <;> first | rfl | exact absurd rfl hc

theorem Device.Extends.pipelineLayoutInfo {r d : Device} {ks : List CallKind} (h : r.Extends d ks)
    (hk : CallKind.vkCreatePipelineLayout ∉ ks) (layout : Handle) :
    r.pipelineLayoutInfo layout = d.pipelineLayoutInfo layout := by
  obtain ⟨calls, hlog, hkind⟩ := h
  unfold Device.pipelineLayoutInfo
  rw [hlog, List.foldl_append]
  exact foldl_pipelineLayoutStep_of_kind _ _ (fun c hc e => hk (e ▸ hkind c hc)) _

theorem foldl_poolInfoStep_of_kind (pool : Handle) (calls : List Call)
    (h : ∀ c ∈ calls, c.kind ≠ .vkCreateDescriptorPool) (acc : Option VkDescriptorPoolCreateInfo) :
    calls.foldl (poolInfoStep pool) acc = acc := by
  induction calls generalizing acc with
  | nil => rfl
  | cons c cs ih =>
    have hc := h c (List.mem_cons_self _ _)
    have hcs : ∀ c ∈ cs, c.kind ≠ .vkCreateDescriptorPool :=
      fun c hc => h c (List.mem_cons_of_mem _ hc)
    rw [List.foldl_cons, ih hcs]
    cases c <;> first | rfl | exact absurd rfl hc

theorem Device.Extends.poolInfo {r d : Device} {ks : List CallKind} (h : r.Extends d ks)
    (hk : CallKind.vkCreateDescriptorPool ∉ ks) (pool : Handle) :
    r.poolInfo pool = d.poolInfo pool := by
  obtain ⟨calls, hlog, hkind⟩ := h
  unfold Device.poolInfo
  rw [hlog, List.foldl_append]
  exact foldl_poolInfoStep_of_kind _ _ (fun c hc e => hk (e ▸ hkind c hc)) _

set_option maxHeartbeats 4000000 in
open MotionBlurExample in
theorem CreateDescriptorSets_liveSets (self : MotionBlurExample) (d : Device)
    (r : Device × MotionBlurExample) (h : self.CreateDescriptorSets d = .ok r) :
    r.1.liveSets self.descriptorPool =
      d.liveSets self.descriptorPool ++
        (List.range' (d.next + 1) 10).zip self.setLayouts ∧
    ∃ calls, r.1.log = d.log ++ calls ∧
      ((allocatedSets calls).map fun a => a.2.length).sum = 10 ∧
      writtenDescriptors calls .VK_DESCRIPTOR_TYPE_UNIFORM_BUFFER = 8 ∧
      writtenDescriptors calls .VK_DESCRIPTOR_TYPE_COMBINED_IMAGE_SAMPLER = 22 := by
  simp only [CreateDescriptorSets, range_frames, max_frames, List.forIn_cons, List.forIn_nil, bind_assoc,
    allocate_bind, elemAt_bind, pure_bind, pure_ok, List.length_replicate, vkUpdateDescriptorSets,
    Device.emit, List.map_cons, List.map_nil, List.getElem?_cons_zero, List.getElem?_cons_succ,
    Option.some.injEq, exists_eq_left', Nat.add_assoc, Nat.reduceAdd, Nat.add_zero,
    List.range_succ, List.range_zero, List.nil_append, List.cons_append, List.append_assoc] at h
  obtain ⟨-, b0, hb0, b1, hb1, -, p0, hp0, p1, hp1, -, p0', hp0', p1', hp1', -, p0'', hp0'', p1'',
    hp1'', -, rfl⟩ := h
  refine ⟨?_, _, rfl, ?_, ?_, ?_⟩
  · simp [Device.liveSets, poolStep, List.foldl_append, MotionBlurExample.setLayouts, Pass.all,
      MotionBlurExample.descriptorSetLayout, List.range', Nat.add_assoc]
  · simp [allocatedSets]
  · simp [writtenDescriptors]
  · simp [writtenDescriptors]

open MotionBlurExample in
theorem CreateDescriptorSetLayouts_bindings (self : MotionBlurExample) (d : Device)
    (r : Device × MotionBlurExample) (h : self.CreateDescriptorSetLayouts d = .ok r) (p : Pass) :
    r.1.setLayoutBindings (r.2.descriptorSetLayout p) = some p.layoutBindings := by
  simp only [CreateDescriptorSetLayouts, vkCreateDescriptorSetLayout, bind_assoc, check_request_bind,
    pure_bind, pure_ok] at h
  obtain ⟨-, -, -, rfl⟩ := h
  cases p <;>
    simp [Device.setLayoutBindings, setLayoutStep, List.foldl_append,
      MotionBlurExample.descriptorSetLayout, Pass.layoutBindings, Nat.add_assoc]

theorem Initialize_poolFilled (self : MotionBlurExample) (fs : FileSystem) (ctx : VulkanContext)
    (d : Device) (r : Device × MotionBlurExample) (h : self.Initialize fs ctx d = .ok r) :
    PoolFilled r.1 r.2 := by
  obtain ⟨d3, s3, d4, s4, d5, s5, d6, s6, h4, -, -, y4, -, -, hl, -, -, -⟩ :=
    Initialize_tail self fs ctx d r h
  simp only [MotionBlurExample.Initialize, bind_ok_iff, messageOnly_ok, Prod.exists, pure_ok] at h
  obtain ⟨d1, s1, h1, d2, s2, h2, d3', s3', h3, d4', s4', h4', d5', s5', h5, d6', s6', h6, d7, s7, h7,
    d8, s8, h8, d9, q9, h9, d10, s10, h10, d11, s11, h11, d12, s12, h12, rfl⟩ := h
  obtain ⟨e12, -⟩ := CreateDescriptorSets_ok _ _ _ h12
  obtain ⟨hlive, -⟩ := CreateDescriptorSets_liveSets _ _ _ h12
  have x12 := CreateDescriptorSets_extends _ _ _ h12
  simp only at e12 hlive x12 y4 hl
  simp only [MotionBlurExample.CreateDescriptorPool, vkCreateDescriptorPool, bind_assoc,
    check_request_bind, pure_bind, pure_ok, Prod.mk.injEq] at h11
  obtain ⟨-, rfl, rfl⟩ := h11
  have hpool : s12.descriptorPool = d10.next + 1 := by rw [e12]
  have hsl : s12.setLayouts = MotionBlurExample.setLayouts
      { s10 with descriptorPool := d10.next + 1 } := by rw [e12]; rfl
  constructor
  · rw [x12.poolInfo (by decide), hpool]
    simp [Device.poolInfo, poolInfoStep, List.foldl_append]
  · intro p
    rw [y4.setLayoutBindings (by decide), hl p]
    exact CreateDescriptorSetLayouts_bindings s3 d3 (d4, s4) h4 p
  · simp only at hlive
    rw [hpool, hlive, hsl]
    simp [Device.liveSets, poolStep, List.foldl_append, MotionBlurExample.setLayouts, Pass.all,
      List.range']

theorem RecreateSwapChain_poolFilled (ctx' : VulkanContext) (d : Device) (s : MotionBlurExample)
    (r : Device × MotionBlurExample) (h : RecreateSwapChain ctx' d s = .ok r)
    (hp : PoolFilled d s) : PoolFilled r.1 r.2 := by
  obtain ⟨-, -, -, hper, x, -⟩ := RecreateSwapChain_shape ctx' d s r h
  obtain ⟨-, -, -, hl, hpool, -⟩ := persistent_fields hper
  simp only [RecreateSwapChain] at h
  obtain ⟨d7, s7, h12, hp7, -⟩ := OnSwapChainRecreated_before_sets _ _ _ _ h
  obtain ⟨e12, -⟩ := CreateDescriptorSets_ok _ _ _ h12
  obtain ⟨hlive, -⟩ := CreateDescriptorSets_liveSets _ _ _ h12
  have hsl : r.2.setLayouts = s7.setLayouts := by rw [e12]; rfl
  have hp7' : s7.descriptorPool = r.2.descriptorPool := by rw [e12]
  constructor
  · rw [x.poolInfo (by decide), hpool]
    exact hp.info
  · intro p
    rw [x.setLayoutBindings (by decide), hl p]
    exact hp.bindings p
  · rw [← hp7', hlive, hsl, hp7]
    simp [Device.liveSets, poolStep, List.foldl_append, vkResetDescriptorPool, Device.emit,
      MotionBlurExample.setLayouts, Pass.all, List.range']

theorem recreations_poolFilled (resizes : List VulkanContext) (ctx : VulkanContext) (d : Device)
    (s : MotionBlurExample) (r : VulkanContext × Device × MotionBlurExample)
    (h : recreations resizes ctx d s = .ok r) (hp : PoolFilled d s) : PoolFilled r.2.1 r.2.2 := by
  induction resizes generalizing ctx d s with
  | nil =>
    simp only [recreations, Except.ok.injEq] at h
    subst h
    exact hp
  | cons c cs ih =>
    simp only [recreations, bind_ok_iff, Prod.exists] at h
    obtain ⟨d1, s1, h1, h2⟩ := h
    exact ih c d1 s1 h2 (RecreateSwapChain_poolFilled c d s (d1, s1) h1 hp)

theorem PoolFilled.counts {d : Device} {s : MotionBlurExample} (hp : PoolFilled d s) :
    (d.liveSets s.descriptorPool).length = 10 ∧
    d.liveDescriptors s.descriptorPool .VK_DESCRIPTOR_TYPE_UNIFORM_BUFFER = 8 ∧
    d.liveDescriptors s.descriptorPool .VK_DESCRIPTOR_TYPE_COMBINED_IMAGE_SAMPLER = 22 := by
  have hlen : (d.liveSets s.descriptorPool).length = 10 := by
    have := congrArg List.length hp.live
    simpa [MotionBlurExample.setLayouts, Pass.all] using this
  have hsum : ∀ type, d.liveDescriptors s.descriptorPool type =
      (s.setLayouts.map fun l => descriptorsOfType type ((d.setLayoutBindings l).getD [])).sum := by
    intro type
    rw [← hp.live]
    simp [Device.liveDescriptors, List.map_map, Function.comp_def]
  refine ⟨hlen, ?_, ?_⟩
  · rw [hsum]
    simp only [MotionBlurExample.setLayouts, Pass.all, List.flatMap_cons, List.flatMap_nil,
      List.cons_append, List.nil_append, List.map_cons, List.map_nil, hp.bindings,
      Option.getD_some]
    rfl
  · rw [hsum]
    simp only [MotionBlurExample.setLayouts, Pass.all, List.flatMap_cons, List.flatMap_nil,
      List.cons_append, List.nil_append, List.map_cons, List.map_nil, hp.bindings,
      Option.getD_some]
    rfl

/-- C28: one successful run of `CreateDescriptorSets` allocates 10 descriptor sets and writes 8
uniform-buffer descriptors and 22 combined-image-sampler descriptors; the pool is created with
`maxSets` = 10 and room for 10 uniform-buffer and 30 combined-image-sampler descriptors; and after
a successful `Initialize` followed by any number of successful swapchain recreations, the pool of
the state is that pool, its live sets (those allocated since its creation or last reset) are 10,
and by their layouts they take up 8 uniform-buffer and 22 combined-image-sampler descriptors, all
within the limits of the pool. -/
theorem descriptor_pool_never_oversubscribed (self : MotionBlurExample) (fs : FileSystem)
    (ctx : VulkanContext) (resizes : List VulkanContext) (d : Device)
    (r : VulkanContext × Device × MotionBlurExample)
    (h : startThenResize self fs ctx resizes d = .ok r) :
    (∀ (s : MotionBlurExample) (d1 : Device) (r1 : Device × MotionBlurExample),
      s.CreateDescriptorSets d1 = .ok r1 →
      ∃ calls, r1.1.log = d1.log ++ calls ∧
        ((allocatedSets calls).map fun a => a.2.length).sum = 10 ∧
        writtenDescriptors calls .VK_DESCRIPTOR_TYPE_UNIFORM_BUFFER = 8 ∧
        writtenDescriptors calls .VK_DESCRIPTOR_TYPE_COMBINED_IMAGE_SAMPLER = 22) ∧
    MotionBlurExample.descriptorPoolInfo.maxSets = 10 ∧
    MotionBlurExample.descriptorPoolInfo.capacity .VK_DESCRIPTOR_TYPE_UNIFORM_BUFFER = 10 ∧
    MotionBlurExample.descriptorPoolInfo.capacity .VK_DESCRIPTOR_TYPE_COMBINED_IMAGE_SAMPLER = 30 ∧
    r.2.1.poolInfo r.2.2.descriptorPool = some MotionBlurExample.descriptorPoolInfo ∧
    (r.2.1.liveSets r.2.2.descriptorPool).length = 10 ∧
    r.2.1.liveDescriptors r.2.2.descriptorPool .VK_DESCRIPTOR_TYPE_UNIFORM_BUFFER = 8 ∧
    r.2.1.liveDescriptors r.2.2.descriptorPool .VK_DESCRIPTOR_TYPE_COMBINED_IMAGE_SAMPLER = 22 ∧
    (r.2.1.liveSets r.2.2.descriptorPool).length ≤ MotionBlurExample.descriptorPoolInfo.maxSets ∧
    r.2.1.liveDescriptors r.2.2.descriptorPool .VK_DESCRIPTOR_TYPE_UNIFORM_BUFFER ≤
      MotionBlurExample.descriptorPoolInfo.capacity .VK_DESCRIPTOR_TYPE_UNIFORM_BUFFER ∧
    r.2.1.liveDescriptors r.2.2.descriptorPool .VK_DESCRIPTOR_TYPE_COMBINED_IMAGE_SAMPLER ≤
      MotionBlurExample.descriptorPoolInfo.capacity .VK_DESCRIPTOR_TYPE_COMBINED_IMAGE_SAMPLER := by
  simp only [startThenResize, bind_ok_iff, Prod.exists] at h
  obtain ⟨d0, s0, h0, hrec⟩ := h
  have hp := recreations_poolFilled resizes ctx d0 s0 r hrec
    (Initialize_poolFilled self fs ctx d (d0, s0) h0)
  obtain ⟨c1, c2, c3⟩ := hp.counts
  have m1 : MotionBlurExample.descriptorPoolInfo.maxSets = 10 := rfl
  have m2 : MotionBlurExample.descriptorPoolInfo.capacity .VK_DESCRIPTOR_TYPE_UNIFORM_BUFFER = 10 := by
    decide
  have m3 : MotionBlurExample.descriptorPoolInfo.capacity
      .VK_DESCRIPTOR_TYPE_COMBINED_IMAGE_SAMPLER = 30 := by decide
  refine ⟨fun s d1 r1 h1 => (CreateDescriptorSets_liveSets s d1 r1 h1).2, m1, m2, m3, hp.info,
    c1, c2, c3, ?_, ?_, ?_⟩
  · rw [c1, m1]
  · rw [c2, m2]
    decide
  · rw [c3, m3]
    decide

set_option maxRecDepth 100000 in
theorem descriptor_pool_never_oversubscribed_witness :
    ∃ r, startThenResize {} demoFiles demoContext [resizedContext, demoContext] demoDevice = .ok r ∧
      r.2.1.poolInfo r.2.2.descriptorPool = some MotionBlurExample.descriptorPoolInfo ∧
      (r.2.1.liveSets r.2.2.descriptorPool).length = 10 ∧
      r.2.1.liveDescriptors r.2.2.descriptorPool .VK_DESCRIPTOR_TYPE_UNIFORM_BUFFER = 8 ∧
      r.2.1.liveDescriptors r.2.2.descriptorPool .VK_DESCRIPTOR_TYPE_COMBINED_IMAGE_SAMPLER = 22 := by
  have hok : (startThenResize {} demoFiles demoContext [resizedContext, demoContext]
      demoDevice).isOk = true := rfl
  cases h : startThenResize {} demoFiles demoContext [resizedContext, demoContext] demoDevice with
  | error e => rw [h] at hok; cases hok
  | ok r =>
    obtain ⟨-, -, -, -, hi, c1, c2, c3, -⟩ :=
      descriptor_pool_never_oversubscribed {} demoFiles demoContext [resizedContext, demoContext]
        demoDevice r h
    exact ⟨r, rfl, hi, c1, c2, c3⟩

theorem recordedObjects_RecordCommands (s : MotionBlurExample) (ctx : VulkanContext)
    (imageIndex : Nat) :
    recordedObjects (s.RecordCommands ctx [] imageIndex) =
      Pass.all.map fun p =>
        { renderPass := s.renderPass p
          framebuffer := s.framebuffer imageIndex p
          pipelines := [s.pipeline p]
          descriptorSets := [(s.pipelineLayout p, [(s.descriptorSets p)[ctx.GetCurrentFrame]?])] } := by
  rw [RecordCommands_passes]
  rfl

open MotionBlurExample in
theorem CreatePipelineLayouts_infos (self : MotionBlurExample) (d : Device)
    (r : Device × MotionBlurExample) (h : self.CreatePipelineLayouts d = .ok r) (p : Pass) :
    r.1.pipelineLayoutInfo (r.2.pipelineLayout p) = some [self.descriptorSetLayout p] := by
  simp only [CreatePipelineLayouts, vkCreatePipelineLayout, bind_assoc, check_request_bind,
    pure_bind, pure_ok] at h
  obtain ⟨-, -, -, -, rfl⟩ := h
  cases p <;>
    simp [Device.pipelineLayoutInfo, pipelineLayoutStep, List.foldl_append,
      MotionBlurExample.pipelineLayout, MotionBlurExample.descriptorSetLayout, Nat.add_assoc]

theorem Initialize_pipelineLayouts (self : MotionBlurExample) (fs : FileSystem)
    (ctx : VulkanContext) (d : Device) (r : Device × MotionBlurExample)
    (h : self.Initialize fs ctx d = .ok r) (p : Pass) :
    r.1.pipelineLayoutInfo (r.2.pipelineLayout p) = some [r.2.descriptorSetLayout p] := by
  obtain ⟨d3, s3, d4, s4, d5, s5, d6, s6, -, h5, -, -, y5, -, hsl, hl, -, -⟩ :=
    Initialize_tail self fs ctx d r h
  rw [y5.pipelineLayoutInfo (by decide), hl p, hsl p]
  exact CreatePipelineLayouts_infos s4 d4 (d5, s5) h5 p

/-- C29: after a successful `Initialize`, for a frame slot below 2 and an image index below the
number of swapchain images, `RecordCommands` records five passes, and each of them begins a
render pass on a framebuffer that was created for that render pass, binds one pipeline, which was
created for that render pass, and binds one descriptor set, naming the pipeline layout that the
pipeline was created with; that pipeline layout was created with one descriptor set layout, the
one the bound set was allocated with; and the bindings written into the set (index and descriptor
type, latest write per binding, in writing order) are exactly the bindings of that set layout. -/
theorem passes_bind_compatible_objects (self : MotionBlurExample) (fs : FileSystem)
    (ctx : VulkanContext) (d : Device) (r : Device × MotionBlurExample)
    (h : self.Initialize fs ctx d = .ok r) (imageIndex : Nat)
    (hi : imageIndex < ctx.swapChainImageViews.length)
    (hc : ctx.GetCurrentFrame < VulkanContext.MAX_FRAMES_IN_FLIGHT) :
    (recordedObjects (r.2.RecordCommands ctx [] imageIndex)).length = 5 ∧
    ∀ b ∈ recordedObjects (r.2.RecordCommands ctx [] imageIndex),
      ∃ fb fbInfo pipeline pInfo layout set setLayout bindings writes,
        b.framebuffer = some fb ∧ b.pipelines = [pipeline] ∧
        b.descriptorSets = [(layout, [some set])] ∧
        r.1.framebufferInfo fb = some fbInfo ∧ fbInfo.renderPass = b.renderPass ∧
        r.1.pipelineInfo pipeline = some pInfo ∧ pInfo.renderPass = b.renderPass ∧
        pInfo.layout = layout ∧
        r.1.pipelineLayoutInfo layout = some [setLayout] ∧
        r.1.setLayout set = some setLayout ∧
        r.1.setLayoutBindings setLayout = some bindings ∧
        r.1.descriptorSet set = some writes ∧
        writes.map (fun w => (w.dstBinding, w.descriptorType)) =
          bindings.map (fun b => (b.binding, b.descriptorType)) := by
  rw [recordedObjects_RecordCommands]
  refine ⟨rfl, ?_⟩
  intro b hb
  simp only [List.mem_map] at hb
  obtain ⟨p, -, rfl⟩ := hb
  have w := Initialize_wired self fs ctx d r h
  have pf := Initialize_poolFilled self fs ctx d r h
  obtain ⟨fb, fbInfo, hfb, hfbi, hfrp, -⟩ := w.framebuffers p imageIndex (fun _ => hi)
  obtain ⟨pInfo, hpi, hprp, hpl, -⟩ := Initialize_pipelines self fs ctx d r h p
  obtain ⟨d11, s11, h12, -⟩ := Initialize_before_sets self fs ctx d r h
  obtain ⟨e12, -⟩ := CreateDescriptorSets_ok _ _ _ h12
  have hlen := (w.sets p).1
  have hlt : ctx.GetCurrentFrame < (r.2.descriptorSets p).length := by rw [hlen]; exact hc
  have hset : (r.2.descriptorSets p)[ctx.GetCurrentFrame]? =
      some ((r.2.descriptorSets p)[ctx.GetCurrentFrame]) := List.getElem?_eq_getElem hlt
  obtain ⟨hsl, -, writes, hw, hwb⟩ :=
    CreateDescriptorSets_sets s11 d11 r h12 p ctx.GetCurrentFrame _ hset
  have hsl' : s11.descriptorSetLayout p = r.2.descriptorSetLayout p := by
    rw [e12]
    cases p <;> rfl
  refine ⟨fb, fbInfo, r.2.pipeline p, pInfo, r.2.pipelineLayout p,
    (r.2.descriptorSets p)[ctx.GetCurrentFrame], r.2.descriptorSetLayout p, p.layoutBindings,
    writes, hfb, rfl, ?_, hfbi, hfrp, hpi, hprp, hpl,
    Initialize_pipelineLayouts self fs ctx d r h p, ?_, pf.bindings p, hw, hwb⟩
  · simp only [hset]
  · rw [hsl, hsl']

set_option maxRecDepth 100000 in
theorem passes_bind_compatible_objects_witness :
    ∃ r, MotionBlurExample.Initialize {} demoFiles demoContext demoDevice = .ok r ∧
      (recordedObjects (r.2.RecordCommands demoContext [] 1)).length = 5 ∧
      ∀ b ∈ recordedObjects (r.2.RecordCommands demoContext [] 1),
        ∃ fb fbInfo pipeline pInfo layout set setLayout bindings writes,
          b.framebuffer = some fb ∧ b.pipelines = [pipeline] ∧
          b.descriptorSets = [(layout, [some set])] ∧
          r.1.framebufferInfo fb = some fbInfo ∧ fbInfo.renderPass = b.renderPass ∧
          r.1.pipelineInfo pipeline = some pInfo ∧ pInfo.renderPass = b.renderPass ∧
          pInfo.layout = layout ∧
          r.1.pipelineLayoutInfo layout = some [setLayout] ∧
          r.1.setLayout set = some setLayout ∧
          r.1.setLayoutBindings setLayout = some bindings ∧
          r.1.descriptorSet set = some writes ∧
          writes.map (fun w => (w.dstBinding, w.descriptorType)) =
            bindings.map (fun b => (b.binding, b.descriptorType)) := by
  have hok : (MotionBlurExample.Initialize {} demoFiles demoContext demoDevice).isOk = true := rfl
  cases h : MotionBlurExample.Initialize {} demoFiles demoContext demoDevice with
  | error e => rw [h] at hok; cases hok
  | ok r =>
    exact ⟨r, rfl, passes_bind_compatible_objects {} demoFiles demoContext demoDevice r h 1
      (by decide) (by decide)⟩

theorem recreations_persistent (resizes : List VulkanContext) (ctx : VulkanContext) (d : Device)
    (s : MotionBlurExample) (r : VulkanContext × Device × MotionBlurExample)
    (h : recreations resizes ctx d s = .ok r) : r.2.2.persistent = s.persistent := by
  induction resizes generalizing ctx d s with
  | nil =>
    simp only [recreations, Except.ok.injEq] at h
    subst h
    rfl
  | cons c cs ih =>
    simp only [recreations, bind_ok_iff, Prod.exists] at h
    obtain ⟨d1, s1, h1, h2⟩ := h
    rw [ih c d1 s1 h2]
    exact (RecreateSwapChain_shape c d s (d1, s1) h1).2.2.2.1

/-- C30: after a successful `Initialize` followed by any number of successful swapchain
recreations (`OnSwapChainCleanup`, then `OnSwapChainRecreated`), each of the five descriptor-set
vectors and each of the six uniform-buffer vectors has exactly `MAX_FRAMES_IN_FLIGHT` = 2
elements and `swapChainFramebuffers` has as many elements as the swapchain has image views; so
under the current swapchain, for every frame slot `c < 2` and every image index below the
number of swapchain images, every vector element that `RecordCommands` reads (the swapchain
framebuffer and the five descriptor sets) and every one that `Update` reads (the two mapped
blocks) is within the vector. -/
theorem indexing_in_bounds (self : MotionBlurExample) (fs : FileSystem) (ctx : VulkanContext)
    (resizes : List VulkanContext) (d : Device) (r : VulkanContext × Device × MotionBlurExample)
    (h : startThenResize self fs ctx resizes d = .ok r) :
    VulkanContext.MAX_FRAMES_IN_FLIGHT = 2 ∧
    (∀ p, (r.2.2.descriptorSets p).length = VulkanContext.MAX_FRAMES_IN_FLIGHT) ∧
    (∀ l ∈ r.2.2.uniformHandles, l.length = VulkanContext.MAX_FRAMES_IN_FLIGHT) ∧
    r.2.2.swapChainFramebuffers.length = r.1.swapChainImageViews.length ∧
    ∀ c imageIndex, c < VulkanContext.MAX_FRAMES_IN_FLIGHT →
      imageIndex < r.1.swapChainImageViews.length →
      (∀ cmd ∈ r.2.2.RecordCommands { r.1 with currentFrame := c } [] imageIndex,
        cmd.inBounds = true) ∧
      ∀ (d' : Device) (deltaTime : FloatVal), ∃ calls,
        (r.2.2.Update { r.1 with currentFrame := c } d' deltaTime).1.log = d'.log ++ calls ∧
        calls.length = 2 ∧ ∀ call ∈ calls, call.inBounds = true := by
  obtain ⟨-, w⟩ := startThenResize_wired self fs ctx resizes d r h
  simp only [startThenResize, bind_ok_iff, Prod.exists] at h
  obtain ⟨d0, s0, h0, hrec⟩ := h
  obtain ⟨n, -, -, -, -, -, u1, u2, u3, u4, u5, u6, -⟩ := Initialize_uniforms self fs ctx d (d0, s0) h0
  simp only at u1 u2 u3 u4 u5 u6
  obtain ⟨-, -, -, -, -, hu, -⟩ := persistent_fields (recreations_persistent resizes ctx d0 s0 r hrec)
  have hu' : r.2.2.uniformHandles =
      [[n + 1, n + 5], [n + 2, n + 6], [n + 2, n + 6], [n + 3, n + 7], [n + 4, n + 8],
        [n + 4, n + 8]] := by
    rw [hu]
    simp only [MotionBlurExample.uniformHandles, u1, u2, u3, u4, u5, u6]
  have hsets : ∀ p, (r.2.2.descriptorSets p).length = VulkanContext.MAX_FRAMES_IN_FLIGHT :=
    fun p => (w.sets p).1
  refine ⟨rfl, hsets, ?_, w.swapChainCount, ?_⟩
  · intro l hl
    rw [hu'] at hl
    simp only [List.mem_cons, List.mem_singleton, List.not_mem_nil, or_false] at hl
    rcases hl with rfl | rfl | rfl | rfl | rfl | rfl <;> rfl
  · intro c imageIndex hc hi
    constructor
    · intro cmd hcmd
      rw [RecordCommands_passes] at hcmd
      simp only [List.mem_flatMap] at hcmd
      obtain ⟨p, -, hp⟩ := hcmd
      have hfb : (r.2.2.framebuffer imageIndex p).isSome = true := by
        cases p <;> simp only [MotionBlurExample.framebuffer, Option.isSome_some]
        rw [List.getElem?_eq_getElem (by rw [w.swapChainCount]; exact hi)]
        rfl
      have hset : ((r.2.2.descriptorSets p)[c]?).isSome = true := by
        rw [List.getElem?_eq_getElem (by rw [hsets p]; exact hc)]
        rfl
      simp only [passCommands, VulkanContext.GetCurrentFrame, List.mem_append, List.mem_cons,
        List.mem_singleton, List.not_mem_nil, or_false] at hp
      rcases hp with ((rfl | rfl) | hp) | rfl | rfl | rfl
      · exact hfb
      · rfl
      · cases p <;> simp only [List.mem_cons, List.mem_singleton, List.not_mem_nil, or_false] at hp
        all_goals first
          | (subst hp; rfl)
          | (rcases hp with rfl | rfl <;> rfl)
      · simp only [Cmd.inBounds, List.all_cons, List.all_nil, Bool.and_true]
        exact hset
      · cases p <;> rfl
      · rfl
    · intro d' deltaTime
      obtain ⟨mvp, -, hupd⟩ := Update_eq r.2.2 { r.1 with currentFrame := c } d' deltaTime
      have h3 := congrArg (fun l : List (List Handle) => l[2]?) hu'
      have h6 := congrArg (fun l : List (List Handle) => l[5]?) hu'
      simp only [MotionBlurExample.uniformHandles, List.getElem?_cons_succ, List.getElem?_cons_zero,
        Option.some.injEq] at h3 h6
      have hc' : c = 0 ∨ c = 1 := by
        have : c < 2 := hc
        omega
      rw [hupd]
      refine ⟨_, rfl, rfl, ?_⟩
      intro call hcall
      simp only [List.mem_cons, List.mem_singleton, List.not_mem_nil, or_false] at hcall
      rcases hcall with rfl | rfl <;> simp only [Call.inBounds, h3, h6] <;>
        rcases hc' with rfl | rfl <;> rfl

set_option maxRecDepth 100000 in
theorem indexing_in_bounds_witness :
    ∃ r, startThenResize {} demoFiles demoContext [resizedContext] demoDevice = .ok r ∧
      r.2.2.swapChainFramebuffers.length = 3 ∧
      (∀ cmd ∈ r.2.2.RecordCommands { r.1 with currentFrame := 1 } [] 2, cmd.inBounds = true) ∧
      ∃ calls, (r.2.2.Update { r.1 with currentFrame := 1 } r.2.1 (.lit (1/60))).1.log =
          r.2.1.log ++ calls ∧ calls.length = 2 ∧ ∀ call ∈ calls, call.inBounds = true := by
  have hok : (startThenResize {} demoFiles demoContext [resizedContext] demoDevice).isOk = true := rfl
  cases h : startThenResize {} demoFiles demoContext [resizedContext] demoDevice with
  | error e => rw [h] at hok; cases hok
  | ok r =>
    obtain ⟨-, -, -, hlen, hall⟩ :=
      indexing_in_bounds {} demoFiles demoContext [resizedContext] demoDevice r h
    have hviews : r.1.swapChainImageViews.length = 3 := by
      have e : (match startThenResize {} demoFiles demoContext [resizedContext] demoDevice with
          | .ok r => r.1.swapChainImageViews.length
          | .error _ => 0) = 3 := rfl
      simpa only [h] using e
    obtain ⟨hrec, hupd⟩ := hall 1 2 (by decide) (by rw [hviews]; decide)
    exact ⟨r, rfl, by rw [hlen, hviews], hrec, hupd r.2.1 (.lit (1/60))⟩

theorem objEvents_append (a b : List Call) : objEvents (a ++ b) = objEvents a ++ objEvents b := by
  simp [objEvents, List.flatMap_append]

theorem DestroyedOnce.extend {ev : List ObjEvent} {h : Nat} (hd : DestroyedOnce ev h)
    (more : List ObjEvent) (h1 : .create h ∉ more) (h2 : .destroy h ∉ more) :
    DestroyedOnce (ev ++ more) h := by
  obtain ⟨c1, c2, c3⟩ := hd
  have m1 : ObjEvent.create h ∈ ev := List.count_pos_iff.mp (by rw [c1]; decide)
  have m2 : ObjEvent.destroy h ∈ ev := List.count_pos_iff.mp (by rw [c2]; decide)
  refine ⟨?_, ?_, ?_⟩
  · rw [List.count_append, c1, List.count_eq_zero.mpr h1]
  · rw [List.count_append, c2, List.count_eq_zero.mpr h2]
  · rw [List.indexOf_append_of_mem m1, List.indexOf_append_of_mem m2]
    exact c3

theorem Tracked.congr {ev : List ObjEvent} {n : Nat} {held held' : Nat → Prop}
    (t : Tracked ev n held) (h : ∀ x, held x ↔ held' x) : Tracked ev n held' := by
  have : held = held' := funext fun x => propext (h x)
  rw [← this]
  exact t

theorem Tracked.raise {ev : List ObjEvent} {n n' : Nat} {held : Nat → Prop}
    (t : Tracked ev n held) (h : n ≤ n') : Tracked ev n' held :=
  ⟨fun x hx => Nat.le_trans (t.bound x hx) h, t.live, t.done⟩

theorem Tracked.nil (n : Nat) : Tracked [] n (fun _ => False) :=
  ⟨fun _ hx => by simp at hx, fun _ hx => hx.elim, fun _ hx => by simp at hx⟩

theorem Tracked.create {ev : List ObjEvent} {n : Nat} {held : Nat → Prop}
    (t : Tracked ev n held) (h : Nat) (hn : n < h) :
    Tracked (ev ++ [.create h]) h (fun x => held x ∨ x = h) := by
  have hc : ObjEvent.create h ∉ ev := fun hm => absurd (t.bound h (Or.inl hm)) (by omega)
  have hd : ObjEvent.destroy h ∉ ev := fun hm => absurd (t.bound h (Or.inr hm)) (by omega)
  refine ⟨?_, ?_, ?_⟩
  · intro x hx
    simp only [List.mem_append, List.mem_singleton, ObjEvent.create.injEq, reduceCtorEq,
      or_false] at hx
    rcases hx with (hx | rfl) | hx
    · exact Nat.le_of_lt (Nat.lt_of_le_of_lt (t.bound x (Or.inl hx)) hn)
    · exact Nat.le_refl _
    · exact Nat.le_of_lt (Nat.lt_of_le_of_lt (t.bound x (Or.inr hx)) hn)
  · intro x hx
    rcases hx with hx | rfl
    · obtain ⟨l1, l2⟩ := t.live x hx
      have hne : x ≠ h := by
        rintro rfl
        exact hc (List.count_pos_iff.mp (by rw [l1]; decide))
      refine ⟨?_, ?_⟩
      · rw [List.count_append, l1, List.count_eq_zero.mpr (by simp [hne])]
      · simp [l2]
    · refine ⟨?_, ?_⟩
      · rw [List.count_append, List.count_eq_zero.mpr hc]
        simp
      · simp [hd]
  · intro x hx hnh
    have hne : x ≠ h := fun e => hnh (Or.inr e)
    have hx' : ObjEvent.create x ∈ ev := by
      simpa [hne] using hx
    exact (t.done x hx' (fun hh => hnh (Or.inl hh))).extend _ (by simp [hne]) (by simp)

theorem Tracked.destroy {ev : List ObjEvent} {n : Nat} {held : Nat → Prop}
    (t : Tracked ev n held) (h : Nat) (hh : held h) :
    Tracked (ev ++ [.destroy h]) n (fun x => held x ∧ x ≠ h) := by
  obtain ⟨l1, l2⟩ := t.live h hh
  have hc : ObjEvent.create h ∈ ev := List.count_pos_iff.mp (by rw [l1]; decide)
  refine ⟨?_, ?_, ?_⟩
  · intro x hx
    simp only [List.mem_append, List.mem_singleton, ObjEvent.destroy.injEq, reduceCtorEq,
      or_false] at hx
    rcases hx with hx | hx | rfl
    · exact t.bound x (Or.inl hx)
    · exact t.bound x (Or.inr hx)
    · exact t.bound x (Or.inl hc)
  · intro x hx
    obtain ⟨k1, k2⟩ := t.live x hx.1
    refine ⟨?_, ?_⟩
    · rw [List.count_append, k1]
      simp
    · simp [k2, hx.2]
  · intro x hx hnh
    have hx' : ObjEvent.create x ∈ ev := by simpa using hx
    by_cases e : x = h
    · subst e
      refine ⟨?_, ?_, ?_⟩
      · rw [List.count_append, l1]
        simp
      · rw [List.count_append, List.count_eq_zero.mpr l2]
        simp
      · rw [List.indexOf_append_of_mem hc, List.indexOf_append_of_not_mem l2]
        exact Nat.lt_of_lt_of_le (List.indexOf_lt_length.mpr hc) (Nat.le_add_right _ _)
    · have : ¬ held x := fun hx2 => hnh ⟨hx2, e⟩
      exact (t.done x hx' this).extend _ (by simp) (by simp [e])

theorem Tracked.stray {ev : List ObjEvent} {n : Nat} {held : Nat → Prop}
    (t : Tracked ev n held) (h : Nat) (hn : h ≤ n) (hc : ObjEvent.create h ∉ ev) :
    Tracked (ev ++ [.destroy h]) n held := by
  refine ⟨?_, ?_, ?_⟩
  · intro x hx
    simp only [List.mem_append, List.mem_singleton, ObjEvent.destroy.injEq, reduceCtorEq,
      or_false] at hx
    rcases hx with hx | hx | rfl
    · exact t.bound x (Or.inl hx)
    · exact t.bound x (Or.inr hx)
    · exact hn
  · intro x hx
    obtain ⟨k1, k2⟩ := t.live x hx
    have hne : x ≠ h := by
      rintro rfl
      exact hc (List.count_pos_iff.mp (by rw [k1]; decide))
    refine ⟨?_, ?_⟩
    · rw [List.count_append, k1]
      simp
    · simp [k2, hne]
  · intro x hx hnh
    have hx' : ObjEvent.create x ∈ ev := by simpa using hx
    have hne : x ≠ h := by
      rintro rfl
      exact hc hx'
    exact (t.done x hx' hnh).extend _ (by simp) (by simp [hne])

theorem Tracked.creates {ev : List ObjEvent} {n : Nat} {held : Nat → Prop}
    (t : Tracked ev n held) (k : Nat) :
    Tracked (ev ++ (List.range' (n + 1) k).map ObjEvent.create) (n + k)
      (fun x => held x ∨ (n < x ∧ x ≤ n + k)) := by
  induction k generalizing ev n held with
  | zero =>
    simp only [List.range'_zero, List.map_nil, List.append_nil, Nat.add_zero]
    exact t.congr (fun x => ⟨Or.inl, fun h => h.elim id (fun h => by omega)⟩)
  | succ k ih =>
    have t1 := t.create (n + 1) (Nat.lt_succ_self n)
    have t2 := ih t1
    rw [List.range'_succ, List.map_cons]
    have e : ev ++ ObjEvent.create (n + 1) :: (List.range' (n + 1 + 1) k).map ObjEvent.create =
        ev ++ [ObjEvent.create (n + 1)] ++ (List.range' (n + 1 + 1) k).map ObjEvent.create := by
      simp
    rw [e, show n + (k + 1) = n + 1 + k by omega]
    refine t2.congr (fun x => ⟨?_, ?_⟩)
    · rintro ((h | h) | h)
      · exact Or.inl h
      · exact Or.inr (by omega)
      · exact Or.inr (by omega)
    · rintro (h | h)
      · exact Or.inl (Or.inl h)
      · by_cases e : x = n + 1
        · exact Or.inl (Or.inr e)
        · exact Or.inr (by omega)

theorem Tracked.destroys {ev : List ObjEvent} {n : Nat} {held : Nat → Prop}
    (t : Tracked ev n held) (hs : List Nat) (hnd : hs.Nodup) (hheld : ∀ x ∈ hs, held x) :
    Tracked (ev ++ hs.map ObjEvent.destroy) n (fun x => held x ∧ x ∉ hs) := by
  induction hs generalizing ev held with
  | nil =>
    simp only [List.map_nil, List.append_nil]
    exact t.congr (fun x => by simp)
  | cons h hs ih =>
    obtain ⟨hnot, hnd'⟩ := List.nodup_cons.mp hnd
    have t1 := t.destroy h (hheld h (List.mem_cons_self _ _))
    have t2 := ih t1 hnd' (fun x hx =>
      ⟨hheld x (List.mem_cons_of_mem _ hx), fun e => hnot (e ▸ hx)⟩)
    rw [List.map_cons]
    have e : ev ++ ObjEvent.destroy h :: hs.map ObjEvent.destroy =
        ev ++ [ObjEvent.destroy h] ++ hs.map ObjEvent.destroy := by simp
    rw [e]
    exact t2.congr (fun x => by
      simp only [List.mem_cons, not_or]
      tauto)

theorem Tracked.strays {ev : List ObjEvent} {n : Nat} {held : Nat → Prop}
    (t : Tracked ev n held) (hs : List Nat) (h : ∀ x ∈ hs, x ≤ n ∧ ObjEvent.create x ∉ ev) :
    Tracked (ev ++ hs.map ObjEvent.destroy) n held := by
  induction hs generalizing ev with
  | nil => simpa using t
  | cons x hs ih =>
    obtain ⟨h1, h2⟩ := h x (List.mem_cons_self _ _)
    have t1 := t.stray x h1 h2
    have t2 := ih t1 (fun y hy => by
      obtain ⟨k1, k2⟩ := h y (List.mem_cons_of_mem _ hy)
      exact ⟨k1, by simpa using k2⟩)
    rw [List.map_cons]
    have e : ev ++ ObjEvent.destroy x :: hs.map ObjEvent.destroy =
        ev ++ [ObjEvent.destroy x] ++ hs.map ObjEvent.destroy := by simp
    rw [e]
    exact t2

theorem objEvents_of_kind (calls : List Call) (h : ∀ c ∈ calls, c.kind ∈ untrackedKinds) :
    objEvents calls = [] := by
  induction calls with
  | nil => rfl
  | cons c cs ih =>
    have hc := h c (List.mem_cons_self _ _)
    have hcs : ∀ c ∈ cs, c.kind ∈ untrackedKinds := fun c hc => h c (List.mem_cons_of_mem _ hc)
    have e : objEvents (c :: cs) = objEvents [c] ++ objEvents cs := objEvents_append [c] cs
    rw [e, ih hcs, List.append_nil]
    cases c <;> first | rfl | (simp [Call.kind, untrackedKinds] at hc)

theorem Device.Emits.idle (d : Device) : d.Emits d [] := ⟨[], by simp, rfl⟩

theorem Device.Emits.chain {r m d : Device} {e1 e2 : List ObjEvent}
    (h1 : m.Emits d e1) (h2 : r.Emits m e2) : r.Emits d (e1 ++ e2) := by
  obtain ⟨c1, l1, k1⟩ := h1
  obtain ⟨c2, l2, k2⟩ := h2
  exact ⟨c1 ++ c2, by rw [l2, l1, List.append_assoc], by rw [objEvents_append, k1, k2]⟩

theorem Device.Extends.emits {r d : Device} {ks : List CallKind} (h : r.Extends d ks)
    (hk : ks ⊆ untrackedKinds) : r.Emits d [] := by
  obtain ⟨calls, hlog, hkind⟩ := h
  exact ⟨calls, hlog, objEvents_of_kind calls (fun c hc => hk (hkind c hc))⟩

theorem objEvents_swapChainCalls (rp : Handle) (ext : VkExtent2D) (views : List Nat) (first : Nat) :
    objEvents (swapChainFramebufferCalls rp ext views first) =
      (List.range' first views.length).map ObjEvent.create := by
  induction views generalizing first with
  | nil => rfl
  | cons v vs ih =>
    have e : swapChainFramebufferCalls rp ext (v :: vs) first =
        [Call.vkCreateFramebuffer (swapChainFramebufferInfo rp ext v) first] ++
          swapChainFramebufferCalls rp ext vs (first + 1) := rfl
    rw [e, objEvents_append, ih, List.length_cons, List.range'_succ, List.map_cons]
    rfl

theorem CreateRenderTargets_emits (self : MotionBlurExample) (ctx : VulkanContext) (d : Device)
    (r : Device × MotionBlurExample) (h : self.CreateRenderTargets ctx d = .ok r) :
    r.1.Emits d ((List.range' (d.next + 1) 18).map ObjEvent.create) := by
  have e := CreateRenderTargets_ok _ _ _ _ h
  subst e
  refine ⟨_, rfl, ?_⟩
  simp [objEvents, List.range', Nat.add_assoc]

theorem CreateFramebuffers_emits (self : MotionBlurExample) (ctx : VulkanContext) (d : Device)
    (r : Device × MotionBlurExample) (h : self.CreateFramebuffers ctx d = .ok r) :
    r.1.Emits d ((List.range' (d.next + 1) (ctx.swapChainImageViews.length + 4)).map
      ObjEvent.create) := by
  have e := CreateFramebuffers_ok _ _ _ _ h
  subst e
  refine ⟨_, by simp only [List.append_assoc]; rfl, ?_⟩
  rw [objEvents_append, objEvents_swapChainCalls]
  have := List.range'_append (d.next + 1) ctx.swapChainImageViews.length 4 1
  rw [Nat.add_comm 4, Nat.one_mul] at this
  rw [← this, List.map_append]
  simp [objEvents, List.range', Nat.add_assoc, Nat.add_comm, Nat.add_left_comm]

open MotionBlurExample in
theorem CreatePipelines_emits (self : MotionBlurExample) (fs : FileSystem) (ctx : VulkanContext)
    (d : Device) (r : Device × MotionBlurExample) (h : self.CreatePipelines fs ctx d = .ok r) :
    r.1.Emits d [] := by
  simp only [CreatePipelines, utils.CreatePipeline, vkCreateGraphicsPipelines, vkDestroyShaderModule,
    Device.emit, bind_assoc, throwsAt_ReadFile_bind, throwsAt_CreateShaderModule_bind,
    throwsAt_check_request_bind, pure_bind,
    pure_ok] at h
  obtain ⟨_, -, _, -, -, -, -, _, -, _, -, -, -, -, _, -, _, -, -, -, -, _, -, _, -, -, -, -,
    _, -, _, -, -, -, -, rfl⟩ := h
  exact ⟨_, by simp only [List.append_assoc]; rfl, by simp [objEvents]⟩

theorem CreateTriangleVertexBuffer_emits (self : MotionBlurExample) (ctx : VulkanContext)
    (d : Device) (r : Device × MotionBlurExample) (h : self.CreateTriangleVertexBuffer ctx d = .ok r) :
    r.1.Emits d [.destroy (d.next + 2)] ∧ r.1.next = d.next + 4 := by
  refine ⟨⟨_, CreateTriangleVertexBuffer_log _ _ _ _ h, by simp [objEvents]⟩, ?_⟩
  simp only [MotionBlurExample.CreateTriangleVertexBuffer, vkMapMemory, memcpy, vkUnmapMemory,
    vkDestroyBuffer, vkFreeMemory, VulkanContext.CopyBuffer, Device.emit, bind_assoc,
    CreateBuffer_bind, pure_bind, pure_ok] at h
  obtain ⟨-, -, rfl⟩ := h
  simp [Nat.add_assoc]

theorem FullscreenQuad_Initialize_emits (self : FullscreenQuad) (ctx : VulkanContext)
    (d : Device) (r : Device × FullscreenQuad) (hi : self.initialized = false)
    (h : self.Initialize ctx d = .ok r) :
    r.1.Emits d [.destroy (d.next + 2), .destroy (d.next + 6)] ∧ r.1.next = d.next + 8 := by
  refine ⟨⟨_, (FullscreenQuad_Initialize_log _ _ _ _ hi h).2, by simp [objEvents]⟩, ?_⟩
  unfold FullscreenQuad.Initialize at h
  simp only [hi, Bool.false_eq_true, if_false, vkMapMemory, memcpy, vkUnmapMemory, vkDestroyBuffer,
    vkFreeMemory, VulkanContext.CopyBuffer, Device.emit, bind_assoc, CreateBuffer_bind, pure_bind,
    pure_ok] at h
  obtain ⟨-, -, -, -, rfl⟩ := h
  simp [Nat.add_assoc]

theorem Cleanup_emits (self : MotionBlurExample) (d : Device) (b0 b1 m0 m1 p0 p1 q0 q1 : Handle)
    (hb : self.mvpUniformBuffers = [b0, b1]) (hm : self.mvpUniformBuffersMemory = [m0, m1])
    (hp : self.postProcessUniformBuffers = [p0, p1])
    (hq : self.postProcessUniformBuffersMemory = [q0, q1])
    (hi : self.fullscreenQuad.initialized = true) :
    ∃ rf, self.Cleanup d = .ok rf ∧
      rf.1.Emits d
        (objEvents (self.renderTargets.flatMap RenderTarget.cleanupCalls) ++
          objEvents (cleanupFramebufferCalls self.swapChainFramebuffers self.offscreenFramebuffers) ++
          [m0, q0, m1, q1, self.triangleVertexBufferMemory, self.fullscreenQuad.indexBufferMemory,
            self.fullscreenQuad.vertexBufferMemory].map ObjEvent.destroy) := by
  simp only [MotionBlurExample.Cleanup, range_frames, List.forIn_cons, List.forIn_nil, hb, hm, hp, hq,
    elemAt, List.getElem?_cons_zero, List.getElem?_cons_succ, renderTarget_cleanup_eq,
    cleanupFramebuffers_eq, FullscreenQuad.Cleanup, hi, vkDestroySampler, vkDestroyPipeline,
    vkDestroyPipelineLayout, vkDestroyRenderPass, vkDestroyDescriptorSetLayout,
    vkDestroyDescriptorPool, vkDestroyBuffer, vkFreeMemory, Device.emit, bind_assoc, pure_bind,
    Bool.not_true, Bool.false_eq_true, if_false]
  simp only [bind, Except.bind, pure, Except.pure]
  refine ⟨_, rfl, _, by simp only [List.append_assoc]; rfl, ?_⟩
  simp only [objEvents_append, MotionBlurExample.renderTargets, List.flatMap_cons,
    List.flatMap_nil, RenderTarget.cleanupCalls, cleanupFramebufferCalls,
    MotionBlurExample.offscreenFramebuffers, List.append_assoc, List.append_nil]
  simp [objEvents]

theorem range'_split (s m n : Nat) :
    List.range' s (m + n) = List.range' s m ++ List.range' (s + m) n := by
  rw [Nat.add_comm m n, ← List.range'_append s m n 1, Nat.one_mul]

theorem objEvents_destroyFramebuffers (fbs : List Handle) :
    objEvents (fbs.map Call.vkDestroyFramebuffer) = fbs.map ObjEvent.destroy := by
  induction fbs with
  | nil => rfl
  | cons fb fbs ih =>
    have e : objEvents ((fb :: fbs).map Call.vkDestroyFramebuffer) =
        objEvents [Call.vkDestroyFramebuffer fb] ++ objEvents (fbs.map Call.vkDestroyFramebuffer) :=
      objEvents_append [Call.vkDestroyFramebuffer fb] _
    rw [e, ih]
    rfl

theorem Generation.framebufferEvents {s : MotionBlurExample} {a b m : Nat} (g : Generation s a b m) :
    objEvents (cleanupFramebufferCalls s.swapChainFramebuffers s.offscreenFramebuffers) =
      (List.range' (b + 1) (m + 4)).map ObjEvent.destroy := by
  rw [cleanupFramebufferCalls, g.swapChain, g.offscreen, ← List.map_append,
    objEvents_destroyFramebuffers]
  have := List.range'_append (b + 1) m 4 1
  rw [Nat.add_comm 4, Nat.one_mul] at this
  rw [← this]
  simp [List.range', List.filter, Nat.add_assoc, Nat.add_comm, Nat.add_left_comm]

theorem Generation.targetEvents {s : MotionBlurExample} {a b m : Nat} (g : Generation s a b m) :
    objEvents (s.renderTargets.flatMap RenderTarget.cleanupCalls) =
      [a + 3, a + 1, a + 2, a + 6, a + 4, a + 5, a + 9, a + 7, a + 8, a + 12, a + 10, a + 11,
        a + 15, a + 13, a + 14, a + 18, a + 16, a + 17].map ObjEvent.destroy := by
  rw [g.cleanupCalls]
  rfl

theorem OnSwapChainRecreated_emits (self : MotionBlurExample) (ctx : VulkanContext)
    (d : Device) (r : Device × MotionBlurExample) (h : self.OnSwapChainRecreated ctx d = .ok r) :
    r.1.Emits d (objEvents (self.renderTargets.flatMap RenderTarget.cleanupCalls) ++
      (List.range' (d.next + 1) (18 + (ctx.swapChainImageViews.length + 4))).map
        ObjEvent.create) := by
  simp only [MotionBlurExample.OnSwapChainRecreated, bind_ok_iff, Prod.exists] at h
  obtain ⟨d2, s2, h2, d7, s7, h7, h12⟩ := h
  rw [CleanupRenderTargets_eq] at h2
  have m2 := CreateRenderTargets_emits _ _ _ _ h2
  have e2 := CreateRenderTargets_ok _ _ _ _ h2
  have m7 := CreateFramebuffers_emits _ _ _ _ h7
  have m12 := (CreateDescriptorSets_extends _ _ _ h12).emits (by decide)
  simp only [Prod.mk.injEq] at e2
  have hd2 : d2.next = d.next + 18 := by rw [e2.1]
  simp only at m2 m7
  rw [hd2] at m7
  have m0 : Device.Emits { d with log := d.log ++ self.renderTargets.flatMap RenderTarget.cleanupCalls }
      d (objEvents (self.renderTargets.flatMap RenderTarget.cleanupCalls)) := ⟨_, rfl, rfl⟩
  have mr : (vkResetDescriptorPool d7 s7.descriptorPool).Emits d7 [] :=
    ⟨[Call.vkResetDescriptorPool s7.descriptorPool], rfl, rfl⟩
  have all := (((m0.chain m2).chain m7).chain mr).chain m12
  rw [range'_split, List.map_append]
  have e : d.next + 1 + 18 = d.next + 18 + 1 := by omega
  rw [e]
  simpa [List.append_assoc] using all

theorem RecreateSwapChain_emits (ctx' : VulkanContext) (d : Device) (s : MotionBlurExample)
    (r : Device × MotionBlurExample) (h : RecreateSwapChain ctx' d s = .ok r) :
    r.1.Emits d
      (objEvents (cleanupFramebufferCalls s.swapChainFramebuffers s.offscreenFramebuffers) ++
        objEvents (s.renderTargets.flatMap RenderTarget.cleanupCalls) ++
        (List.range' (d.next + 1) (18 + (ctx'.swapChainImageViews.length + 4))).map
          ObjEvent.create) := by
  simp only [RecreateSwapChain] at h
  rw [OnSwapChainCleanup_eq] at h
  have m := OnSwapChainRecreated_emits _ _ _ _ h
  have m0 : Device.Emits
      { d with log := d.log ++
        cleanupFramebufferCalls s.swapChainFramebuffers s.offscreenFramebuffers } d
      (objEvents (cleanupFramebufferCalls s.swapChainFramebuffers s.offscreenFramebuffers)) :=
    ⟨_, rfl, rfl⟩
  have all := m0.chain m
  simpa [List.append_assoc, MotionBlurExample.renderTargets] using all

theorem Tracked.fresh {ev : List ObjEvent} {n : Nat} {held : Nat → Prop} (t : Tracked ev n held)
    (x : Nat) (hx : n < x) : ObjEvent.create x ∉ ev :=
  fun hm => absurd (t.bound x (Or.inl hm)) (Nat.not_le.mpr hx)

theorem held_generation_iff (a b m x : Nat) :
    ((False ∨ (a < x ∧ x ≤ a + 18)) ∨ (b < x ∧ x ≤ b + (m + 4))) ↔
      ((a < x ∧ x ≤ a + 18) ∨ (b < x ∧ x ≤ b + m + 4)) := by
  constructor
  · rintro ((h | h) | h)
    · exact h.elim
    · exact Or.inl h
    · exact Or.inr ⟨h.1, by omega⟩
  · rintro (h | h)
    · exact Or.inl (Or.inr h)
    · exact Or.inr ⟨h.1, by omega⟩

theorem create_not_mem_destroys (x : Nat) (hs : List Nat) :
    ObjEvent.create x ∉ hs.map ObjEvent.destroy := by
  simp

set_option maxHeartbeats 1000000 in
theorem Initialize_settled (self : MotionBlurExample) (fs : FileSystem) (ctx : VulkanContext)
    (d : Device) (r : Device × MotionBlurExample) (hq : self.fullscreenQuad.initialized = false)
    (h : self.Initialize fs ctx d = .ok r) :
    ∃ a b, Settled d r.1 r.2 a b ctx.swapChainImageViews.length := by
  simp only [MotionBlurExample.Initialize, bind_ok_iff, messageOnly_ok, Prod.exists, pure_ok] at h
  obtain ⟨d1, s1, h1, d2, s2, h2, d3, s3, h3, d4, s4, h4, d5, s5, h5, d6, s6, h6, d7, s7, h7,
    d8, s8, h8, d9, q9, h9, d10, s10, h10, d11, s11, h11, d12, s12, h12, rfl⟩ := h
  have e1 := CreateSamplers_ok _ _ _ h1
  have e2 := CreateRenderTargets_ok _ _ _ _ h2
  have e3 := (CreateRenderPasses_ok _ _ _ _ h3)
  obtain ⟨e4, n4⟩ := CreateDescriptorSetLayouts_ok _ _ _ h4
  obtain ⟨e5, n5⟩ := CreatePipelineLayouts_ok _ _ _ h5
  obtain ⟨e6, n6⟩ := CreatePipelines_ok _ _ _ _ _ h6
  have e7 := CreateFramebuffers_ok _ _ _ _ h7
  obtain ⟨e8, -, -⟩ := CreateTriangleVertexBuffer_ok _ _ _ _ h8
  obtain ⟨e10, -, -⟩ := CreateUniformBuffers_ok _ _ _ _ h10
  obtain ⟨n10, -⟩ := CreateUniformBuffers_next _ _ _ _ h10
  obtain ⟨e11, n11, -⟩ := CreateDescriptorPool_ok _ _ _ h11
  obtain ⟨e12, n12, -⟩ := CreateDescriptorSets_ok _ _ _ h12
  simp only [Prod.mk.injEq] at e1 e2 e3 e4 e5 e6 e7 e8 e10 e11 e12
  simp only at n4 n5 n6 n10 n11 n12
  have hq8 : s8.fullscreenQuad.initialized = false := by
    rw [e8, e7.2, e6, e5, e4, e3.2, e2.2, e1]
    exact hq
  obtain ⟨e9, -⟩ := FullscreenQuad_Initialize_log _ _ _ _ hq8 h9
  simp only at e9
  -- events of the twelve steps
  have m1 := (CreateSamplers_extends _ _ _ h1).emits (by decide)
  have m2 := CreateRenderTargets_emits _ _ _ _ h2
  have m3 := (CreateRenderPasses_extends _ _ _ _ h3).emits (by decide)
  have m4 := (CreateDescriptorSetLayouts_extends _ _ _ h4).emits (by decide)
  have m5 := (CreatePipelineLayouts_extends _ _ _ h5).emits (by decide)
  have m6 := CreatePipelines_emits _ _ _ _ _ h6
  have m7 := CreateFramebuffers_emits _ _ _ _ h7
  obtain ⟨m8, n8⟩ := CreateTriangleVertexBuffer_emits _ _ _ _ h8
  obtain ⟨m9, n9⟩ := FullscreenQuad_Initialize_emits _ _ _ _ hq8 h9
  have m10 := (CreateUniformBuffers_extends _ _ _ _ h10).emits (by decide)
  have m11 := (CreateDescriptorPool_extends _ _ _ h11).emits (by decide)
  have m12 := (CreateDescriptorSets_extends _ _ _ h12).emits (by decide)
  simp only at m1 m2 m3 m4 m5 m6 m7 m8 m9 m10 m11 m12 n8 n9
  have all := ((((((((((m1.chain m2).chain m3).chain m4).chain m5).chain m6).chain m7).chain
    m8).chain m9).chain m10).chain m11).chain m12
  have hd2 : d2.next = d1.next + 18 := by rw [e2.1]
  have hd3 : d3.next = d2.next + 5 := by rw [e3.1]
  have hd7 : d7.next = d6.next + ctx.swapChainImageViews.length + 4 := by rw [e7.1]
  have hle : d7.next + 12 ≤ d12.next := by omega
  -- the balance of the events
  have t1 := (Tracked.nil d1.next).creates 18
  have t2 := (t1.raise (show d1.next + 18 ≤ d6.next by omega)).creates
    (ctx.swapChainImageViews.length + 4)
  have hfresh : ∀ x, d7.next < x → ObjEvent.create x ∉
      [] ++ (List.range' (d1.next + 1) 18).map ObjEvent.create ++
        (List.range' (d6.next + 1) (ctx.swapChainImageViews.length + 4)).map ObjEvent.create :=
    fun x hx => t2.fresh x (by omega)
  have t3 := (t2.raise (show d6.next + (ctx.swapChainImageViews.length + 4) ≤ d12.next by omega)).strays
    [d7.next + 2, d8.next + 2, d8.next + 6] (fun x hx => by
      simp only [List.mem_cons, List.mem_singleton, List.not_mem_nil, or_false] at hx
      rcases hx with rfl | rfl | rfl
      · exact ⟨by omega, hfresh _ (by omega)⟩
      · exact ⟨by omega, hfresh _ (by omega)⟩
      · exact ⟨by omega, hfresh _ (by omega)⟩)
  refine ⟨d1.next, d6.next, ?_, ⟨by omega, by show _ ≤ d12.next; omega⟩, ?_, ?_, ?_⟩
  · constructor
    · rw [e12, e11, e10, e8, e7.2, e6, e5, e4, e3.2, e2.2]
      rfl
    · rw [e12, e11, e10, e8, e7.2]
    · rw [e12, e11, e10, e8, e7.2]
      rfl
  · intro l hl
    rw [e12, e11, e10] at hl
    simp only [MotionBlurExample.uniformHandles, List.mem_cons, List.mem_singleton,
      List.not_mem_nil, or_false] at hl
    rcases hl with rfl | rfl | rfl | rfl | rfl | rfl <;> rfl
  · rw [e12, e11, e10]
    show q9.initialized = true
    rw [e9]
  · refine ⟨_, ?_, t3.congr (fun x => held_generation_iff _ _ _ x), ?_⟩
    · simpa [List.append_assoc] using all
    · intro x hx
      rw [e12, e11, e10] at hx
      simp only [MotionBlurExample.bufferMemories, e9, e8, List.mem_append, List.mem_cons,
        List.mem_singleton, List.not_mem_nil, or_false] at hx
      have key : ∀ y : Nat, d7.next < y → y ≤ d12.next → y ≤ d12.next ∧ ObjEvent.create y ∉
          [] ++ (List.range' (d1.next + 1) 18).map ObjEvent.create ++
            (List.range' (d6.next + 1) (ctx.swapChainImageViews.length + 4)).map ObjEvent.create ++
            [d7.next + 2, d8.next + 2, d8.next + 6].map ObjEvent.destroy := by
        intro y h1 h2
        refine ⟨h2, fun hm => ?_⟩
        rcases List.mem_append.mp hm with hm | hm
        · exact hfresh y h1 hm
        · exact create_not_mem_destroys _ _ hm
      rcases hx with ((rfl | rfl) | (rfl | rfl)) | (rfl | rfl | rfl)
      · exact key _ (by omega) (by omega)
      · exact key _ (by omega) (by omega)
      · exact key _ (by omega) (by omega)
      · exact key _ (by omega) (by omega)
      · exact key _ (by omega) (by omega)
      · exact key _ (by omega) (by omega)
      · exact key _ (by omega) (by omega)

theorem persistent_bufferMemories {s' s : MotionBlurExample} (h : s'.persistent = s.persistent) :
    s'.bufferMemories = s.bufferMemories := by
  have u2 := congrArg MotionBlurExample.mvpUniformBuffersMemory h
  have u5 := congrArg MotionBlurExample.postProcessUniformBuffersMemory h
  have t2 := congrArg MotionBlurExample.triangleVertexBufferMemory h
  have q1 := congrArg MotionBlurExample.fullscreenQuad h
  simp only [MotionBlurExample.persistent] at u2 u5 t2 q1
  simp only [MotionBlurExample.bufferMemories, u2, u5, t2, q1]

theorem mem_targetHandles (a x : Nat) :
    x ∈ [a + 3, a + 1, a + 2, a + 6, a + 4, a + 5, a + 9, a + 7, a + 8, a + 12, a + 10, a + 11,
        a + 15, a + 13, a + 14, a + 18, a + 16, a + 17] ↔ a < x ∧ x ≤ a + 18 := by
  simp only [List.mem_cons, List.mem_singleton, List.not_mem_nil, or_false]
  omega

theorem nodup_targetHandles (a : Nat) :
    [a + 3, a + 1, a + 2, a + 6, a + 4, a + 5, a + 9, a + 7, a + 8, a + 12, a + 10, a + 11,
        a + 15, a + 13, a + 14, a + 18, a + 16, a + 17].Nodup := by
  simp [List.nodup_cons]

theorem Tracked.release {ev : List ObjEvent} {n a b m : Nat}
    (t : Tracked ev n (fun x => (a < x ∧ x ≤ a + 18) ∨ (b < x ∧ x ≤ b + m + 4)))
    (hab : a + 18 ≤ b) :
    Tracked (ev ++ (List.range' (b + 1) (m + 4)).map ObjEvent.destroy ++
      [a + 3, a + 1, a + 2, a + 6, a + 4, a + 5, a + 9, a + 7, a + 8, a + 12, a + 10, a + 11,
        a + 15, a + 13, a + 14, a + 18, a + 16, a + 17].map ObjEvent.destroy) n
      (fun _ => False) := by
  have t1 := t.destroys (List.range' (b + 1) (m + 4)) (List.nodup_range' _ _) (fun x hx => by
    rw [List.mem_range'_1] at hx
    exact Or.inr ⟨by omega, by omega⟩)
  have t2 := t1.destroys _ (nodup_targetHandles a) (fun x hx => by
    have hx' := (mem_targetHandles a x).mp hx
    refine ⟨Or.inl hx', fun hm => ?_⟩
    rw [List.mem_range'_1] at hm
    omega)
  refine t2.congr (fun x => ⟨fun h => ?_, fun h => h.elim⟩)
  obtain ⟨⟨h1, h2⟩, h3⟩ := h
  rcases h1 with h1 | h1
  · exact h3 ((mem_targetHandles a x).mpr h1)
  · exact h2 (List.mem_range'_1.mpr ⟨by omega, by omega⟩)

theorem Tracked.releaseTargetsFirst {ev : List ObjEvent} {n a b m : Nat}
    (t : Tracked ev n (fun x => (a < x ∧ x ≤ a + 18) ∨ (b < x ∧ x ≤ b + m + 4)))
    (hab : a + 18 ≤ b) :
    Tracked (ev ++
      [a + 3, a + 1, a + 2, a + 6, a + 4, a + 5, a + 9, a + 7, a + 8, a + 12, a + 10, a + 11,
        a + 15, a + 13, a + 14, a + 18, a + 16, a + 17].map ObjEvent.destroy ++
      (List.range' (b + 1) (m + 4)).map ObjEvent.destroy) n
      (fun _ => False) := by
  have t1 := t.destroys _ (nodup_targetHandles a) (fun x hx =>
    Or.inl ((mem_targetHandles a x).mp hx))
  have t2 := t1.destroys (List.range' (b + 1) (m + 4)) (List.nodup_range' _ _) (fun x hx => by
    have hx' := List.mem_range'_1.mp hx
    refine ⟨Or.inr ⟨by omega, by omega⟩, fun hm => ?_⟩
    have := (mem_targetHandles a x).mp hm
    omega)
  refine t2.congr (fun x => ⟨fun h => ?_, fun h => h.elim⟩)
  obtain ⟨⟨h1, h2⟩, h3⟩ := h
  rcases h1 with h1 | h1
  · exact h2 ((mem_targetHandles a x).mpr h1)
  · exact h3 (List.mem_range'_1.mpr ⟨by omega, by omega⟩)

theorem held_rebuilt_iff (n m x : Nat) :
    (False ∨ (n < x ∧ x ≤ n + (18 + (m + 4)))) ↔
      ((n < x ∧ x ≤ n + 18) ∨ (n + 18 < x ∧ x ≤ n + 18 + m + 4)) := by
  constructor
  · rintro (h | h)
    · exact h.elim
    · by_cases e : x ≤ n + 18
      · exact Or.inl ⟨h.1, e⟩
      · exact Or.inr ⟨by omega, by omega⟩
  · rintro (h | h)
    · exact Or.inr ⟨h.1, by omega⟩
    · exact Or.inr ⟨by omega, by omega⟩

theorem RecreateSwapChain_settled (ctx' : VulkanContext) (d r : Device) (s : MotionBlurExample)
    (a b m : Nat) (r' : Device × MotionBlurExample) (h : RecreateSwapChain ctx' r s = .ok r')
    (st : Settled d r s a b m) :
    Settled d r'.1 r'.2 r.next (r.next + 18) ctx'.swapChainImageViews.length := by
  obtain ⟨-, g', hn, hper, -, -⟩ := RecreateSwapChain_shape ctx' r s r' h
  have em' := RecreateSwapChain_emits ctx' r s r' h
  rw [st.generation.framebufferEvents, st.generation.targetEvents] at em'
  obtain ⟨ev, em, t, aux⟩ := st.events
  have t1 := ((t.release st.order.1).creates (18 + (ctx'.swapChainImageViews.length + 4))).congr
    (fun x => held_rebuilt_iff r.next ctx'.swapChainImageViews.length x)
  have t2 := t1.raise (show r.next + (18 + (ctx'.swapChainImageViews.length + 4)) ≤ r'.1.next by
    rw [hn]; omega)
  obtain ⟨-, -, -, -, -, hu, -, -, hquad, -⟩ := persistent_fields hper
  refine ⟨g', ⟨Nat.le_refl _, by rw [hn]; omega⟩, ?_, ?_, ?_⟩
  · rw [hu]
    exact st.uniforms
  · rw [hquad]
    exact st.quad
  · refine ⟨_, ?_, t2, ?_⟩
    · have all := em.chain em'
      simpa [List.append_assoc] using all
    · intro x hx
      rw [persistent_bufferMemories hper] at hx
      obtain ⟨h1, h2⟩ := aux x hx
      refine ⟨Nat.le_trans h1 (by rw [hn]; omega), fun hm => ?_⟩
      simp only [List.mem_append] at hm
      rcases hm with ((hm | hm) | hm) | hm
      · exact h2 hm
      · exact create_not_mem_destroys _ _ hm
      · exact create_not_mem_destroys _ _ hm
      · simp only [List.mem_map, ObjEvent.create.injEq, exists_eq_right, List.mem_range'_1] at hm
        exact absurd h1 (Nat.not_le.mpr hm.1)

theorem recreations_settled (resizes : List VulkanContext) (ctx : VulkanContext) (d r : Device)
    (s : MotionBlurExample) (a b m : Nat) (r' : VulkanContext × Device × MotionBlurExample)
    (h : recreations resizes ctx r s = .ok r') (st : Settled d r s a b m)
    (hm : m = ctx.swapChainImageViews.length) :
    ∃ a' b', Settled d r'.2.1 r'.2.2 a' b' r'.1.swapChainImageViews.length := by
  induction resizes generalizing ctx r s a b m with
  | nil =>
    simp only [recreations, Except.ok.injEq] at h
    subst h
    subst hm
    exact ⟨a, b, st⟩
  | cons c cs ih =>
    simp only [recreations, bind_ok_iff, Prod.exists] at h
    obtain ⟨d1, s1, h1, h2⟩ := h
    exact ih c d1 s1 _ _ _ h2 (RecreateSwapChain_settled c d r s a b m (d1, s1) h1 st) rfl

theorem Generation.held {s : MotionBlurExample} {a b m : Nat} (g : Generation s a b m) (x : Nat) :
    x ∈ s.generationHandles ↔ ((a < x ∧ x ≤ a + 18) ∨ (b < x ∧ x ≤ b + m + 4)) := by
  have h := g.targets
  simp only [MotionBlurExample.renderTargets, List.map_cons, List.map_nil, List.cons.injEq,
    Prod.mk.injEq, and_true] at h
  obtain ⟨⟨i1, m1, v1⟩, ⟨i2, m2, v2⟩, ⟨i3, m3, v3⟩, ⟨i4, m4, v4⟩, ⟨i5, m5, v5⟩, ⟨i6, m6, v6⟩⟩ := h
  have e1 : x ∈ (s.renderTargets.flatMap fun t => [t.image, t.memory, t.view]) ↔
      (a < x ∧ x ≤ a + 18) := by
    simp only [MotionBlurExample.renderTargets, List.flatMap_cons, List.flatMap_nil,
      List.append_nil, List.cons_append, List.nil_append, i1, m1, v1, i2, m2, v2, i3, m3,
      v3, i4, m4, v4, i5, m5, v5, i6, m6, v6, List.mem_cons, List.mem_singleton,
      List.not_mem_nil, or_false]
    omega
  have e2 : x ∈ s.offscreenFramebuffers ++ s.swapChainFramebuffers ↔
      (b < x ∧ x ≤ b + m + 4) := by
    rw [g.offscreen, g.swapChain]
    simp only [List.mem_append, List.mem_cons, List.mem_singleton, List.not_mem_nil, or_false,
      List.mem_range'_1]
    omega
  simp only [MotionBlurExample.generationHandles, List.append_assoc]
  rw [List.mem_append, e1, e2]

theorem framebuffer_mem_generationHandles (s : MotionBlurExample) (imageIndex : Nat) (p : Pass)
    (fb : Handle) (h : s.framebuffer imageIndex p = some fb) : fb ∈ s.generationHandles := by
  simp only [MotionBlurExample.generationHandles, List.append_assoc, List.mem_append]
  right
  cases p
  case Final =>
    right
    exact List.getElem?_mem h
  all_goals
    left
    simp only [MotionBlurExample.framebuffer, Option.some.injEq] at h
    simp [MotionBlurExample.offscreenFramebuffers, ← h]

theorem recorded_framebuffer_mem (s : MotionBlurExample) (ctx : VulkanContext) (imageIndex : Nat)
    (rp fb : Handle) (area : VkRect2D) (clears : List VkClearValue)
    (h : Cmd.vkCmdBeginRenderPass rp (some fb) area clears ∈ s.RecordCommands ctx [] imageIndex) :
    fb ∈ s.generationHandles := by
  rw [RecordCommands_passes, List.mem_flatMap] at h
  obtain ⟨p, -, hp⟩ := h
  have e : s.framebuffer imageIndex p = some fb := by
    cases p <;> simp [passCommands] at hp <;> exact hp.2.1.symm
  exact framebuffer_mem_generationHandles s imageIndex p fb e

theorem Wired.sampled_mem {ctx : VulkanContext} {d : Device} {s : MotionBlurExample}
    (w : Wired ctx d s) (p : Pass) (set : Handle) (hs : set ∈ s.descriptorSets p) (v : Handle)
    (hv : v ∈ d.sampledViews set) : v ∈ s.generationHandles := by
  have e := (w.sets p).2 set hs 0
  have hm : some v ∈ (d.sampledViews set).map some := List.mem_map_of_mem _ hv
  rw [e] at hm
  simp only [MotionBlurExample.generationHandles, List.append_assoc, List.mem_append]
  left
  cases p with
  | GBuffer => simp [Pass.samples] at hm
  | MotionApply =>
    simp [Pass.samples, MotionBlurExample.view] at hm
    rcases hm with hm | hm | hm <;> simp [MotionBlurExample.renderTargets, ← hm]
  | BlurVertical =>
    simp [Pass.samples, MotionBlurExample.view] at hm
    rcases hm with hm | hm | hm <;> simp [MotionBlurExample.renderTargets, ← hm]
  | BlurHorizontal =>
    simp [Pass.samples, MotionBlurExample.view] at hm
    rcases hm with hm | hm | hm <;> simp [MotionBlurExample.renderTargets, ← hm]
  | Final =>
    simp [Pass.samples, MotionBlurExample.view] at hm
    rcases hm with hm | hm <;> simp [MotionBlurExample.renderTargets, ← hm]

theorem Settled.live {d r : Device} {s : MotionBlurExample} {a b m : Nat}
    (st : Settled d r s a b m) :
    ∃ calls, r.log = d.log ++ calls ∧
      (∀ x ∈ s.generationHandles,
        (objEvents calls).count (.create x) = 1 ∧ ObjEvent.destroy x ∉ objEvents calls) ∧
      ∀ x, ObjEvent.create x ∈ objEvents calls → x ∉ s.generationHandles →
        DestroyedOnce (objEvents calls) x := by
  obtain ⟨ev, ⟨calls, hl, he⟩, t, -⟩ := st.events
  refine ⟨calls, hl, ?_, ?_⟩
  · intro x hx
    rw [he]
    exact t.live x ((st.generation.held x).mp hx)
  · intro x hx hn
    rw [he] at hx ⊢
    exact t.done x hx (fun hh => hn ((st.generation.held x).mpr hh))

theorem Settled.cleanup {d r : Device} {s : MotionBlurExample} {a b m : Nat}
    (st : Settled d r s a b m) (calls : List Call) (hl : r.log = d.log ++ calls) :
    ∃ rf last, s.Cleanup r = .ok rf ∧ rf.1.log = d.log ++ (calls ++ last) ∧
      ∀ x : Handle, ObjEvent.create x ∈ objEvents (calls ++ last) →
        DestroyedOnce (objEvents (calls ++ last)) x := by
  have u := st.uniforms
  simp only [MotionBlurExample.uniformHandles, List.mem_cons, List.mem_singleton,
    List.not_mem_nil, or_false, forall_eq_or_imp, forall_eq,
    VulkanContext.MAX_FRAMES_IN_FLIGHT] at u
  obtain ⟨u1, u2, -, u4, u5, -⟩ := u
  obtain ⟨b0, b1, hb⟩ := List.length_eq_two.mp u1
  obtain ⟨m0, m1, hm⟩ := List.length_eq_two.mp u2
  obtain ⟨p0, p1, hp⟩ := List.length_eq_two.mp u4
  obtain ⟨q0, q1, hq⟩ := List.length_eq_two.mp u5
  obtain ⟨rf, hrf, last, hlast, hev⟩ := Cleanup_emits s r b0 b1 m0 m1 p0 p1 q0 q1 hb hm hp hq st.quad
  rw [st.generation.targetEvents, st.generation.framebufferEvents] at hev
  obtain ⟨ev, ⟨calls0, hl0, he0⟩, t, aux⟩ := st.events
  have ec : calls0 = calls := List.append_cancel_left (hl0.symm.trans hl)
  subst ec
  have t1 := t.releaseTargetsFirst st.order.1
  have t2 := t1.strays [m0, q0, m1, q1, s.triangleVertexBufferMemory,
    s.fullscreenQuad.indexBufferMemory, s.fullscreenQuad.vertexBufferMemory] (fun x hx => by
      have hx' : (x : Handle) ∈ s.bufferMemories := by
        simp only [MotionBlurExample.bufferMemories, hm, hq]
        simp only [List.mem_cons, List.mem_singleton, List.not_mem_nil, or_false] at hx
        simp only [List.mem_append, List.mem_cons, List.mem_singleton, List.not_mem_nil, or_false]
        tauto
      obtain ⟨k1, k2⟩ := aux x hx'
      refine ⟨k1, fun hmem => ?_⟩
      simp only [List.mem_append] at hmem
      rcases hmem with (hmem | hmem) | hmem
      · exact k2 hmem
      · exact create_not_mem_destroys _ _ hmem
      · exact create_not_mem_destroys _ _ hmem)
  have e : objEvents (calls0 ++ last) =
      ev ++ [a + 3, a + 1, a + 2, a + 6, a + 4, a + 5, a + 9, a + 7, a + 8, a + 12, a + 10, a + 11,
        a + 15, a + 13, a + 14, a + 18, a + 16, a + 17].map ObjEvent.destroy ++
      (List.range' (b + 1) (m + 4)).map ObjEvent.destroy ++
      [m0, q0, m1, q1, s.triangleVertexBufferMemory, s.fullscreenQuad.indexBufferMemory,
        s.fullscreenQuad.vertexBufferMemory].map ObjEvent.destroy := by
    rw [objEvents_append, he0, hev]
    simp only [List.append_assoc]
  refine ⟨rf, last, hrf, ?_, ?_⟩
  · rw [hlast, hl, List.append_assoc]
  · intro x hx
    rw [e] at hx ⊢
    exact t2.done x hx (fun hh => hh)

/-- C25: take a state whose full-screen quad is not yet initialised (as in a freshly constructed
object), a successful `Initialize` and any number of successful swapchain recreations
(`OnSwapChainCleanup`; `OnSwapChainRecreated`), and let `calls` be the driver calls made so far.
Among the creations and destructions of render-target images, memory and views and of
framebuffers in `calls`: every handle of the generation the state holds (image, memory and view
of the six render targets, the four offscreen framebuffers, one framebuffer per swapchain image)
has been created exactly once and not destroyed; every other handle that was created has been
destroyed exactly once, after its creation; every framebuffer that `RecordCommands` begins a
render pass on, and every view sampled through a descriptor set of the state, is a handle of
that generation; and `Cleanup` then succeeds, after which every handle that was created since the
start has been destroyed exactly once, after its creation. -/
theorem generation_handles_destroyed_exactly_once (self : MotionBlurExample) (fs : FileSystem)
    (ctx : VulkanContext) (resizes : List VulkanContext) (d : Device)
    (r : VulkanContext × Device × MotionBlurExample)
    (hq : self.fullscreenQuad.initialized = false)
    (h : startThenResize self fs ctx resizes d = .ok r) :
    ∃ calls, r.2.1.log = d.log ++ calls ∧
      (∀ x ∈ r.2.2.generationHandles,
        (objEvents calls).count (.create x) = 1 ∧ ObjEvent.destroy x ∉ objEvents calls) ∧
      (∀ x, ObjEvent.create x ∈ objEvents calls → x ∉ r.2.2.generationHandles →
        DestroyedOnce (objEvents calls) x) ∧
      (∀ imageIndex rp fb area clears,
        Cmd.vkCmdBeginRenderPass rp (some fb) area clears ∈
            r.2.2.RecordCommands r.1 [] imageIndex →
          fb ∈ r.2.2.generationHandles) ∧
      (∀ p, ∀ set ∈ r.2.2.descriptorSets p, ∀ v ∈ r.2.1.sampledViews set,
        v ∈ r.2.2.generationHandles) ∧
      ∃ rf last, r.2.2.Cleanup r.2.1 = .ok rf ∧ rf.1.log = d.log ++ (calls ++ last) ∧
        ∀ x, ObjEvent.create x ∈ objEvents (calls ++ last) →
          DestroyedOnce (objEvents (calls ++ last)) x := by
  obtain ⟨-, w⟩ := startThenResize_wired self fs ctx resizes d r h
  simp only [startThenResize, bind_ok_iff, Prod.exists] at h
  obtain ⟨d0, s0, h0, hrec⟩ := h
  obtain ⟨a0, b0, st0⟩ := Initialize_settled self fs ctx d (d0, s0) hq h0
  obtain ⟨a, b, st⟩ := recreations_settled resizes ctx d d0 s0 a0 b0 _ r hrec st0 rfl
  obtain ⟨calls, hl, live, done⟩ := st.live
  exact ⟨calls, hl, live, done,
    fun imageIndex rp fb area clears hc =>
      recorded_framebuffer_mem r.2.2 r.1 imageIndex rp fb area clears hc,
    fun p set hs v hv => w.sampled_mem p set hs v hv, st.cleanup calls hl⟩

set_option maxRecDepth 100000 in
theorem generation_handles_destroyed_exactly_once_witness :
    ({} : MotionBlurExample).fullscreenQuad.initialized = false ∧
    ∃ r, startThenResize {} demoFiles demoContext [resizedContext] demoDevice = .ok r ∧
      r.2.2.generationHandles.length = 25 ∧
      ∃ calls, r.2.1.log = demoDevice.log ++ calls ∧
        (∀ x ∈ r.2.2.generationHandles,
          (objEvents calls).count (.create x) = 1 ∧ ObjEvent.destroy x ∉ objEvents calls) ∧
        ∃ rf last, r.2.2.Cleanup r.2.1 = .ok rf ∧ rf.1.log = demoDevice.log ++ (calls ++ last) ∧
          ∀ x, ObjEvent.create x ∈ objEvents (calls ++ last) →
            DestroyedOnce (objEvents (calls ++ last)) x := by
  have hok : (startThenResize {} demoFiles demoContext [resizedContext] demoDevice).isOk = true := rfl
  have hlen : (match startThenResize {} demoFiles demoContext [resizedContext] demoDevice with
    | .ok r => r.2.2.generationHandles.length
    | .error _ => 0) = 25 := rfl
  cases h : startThenResize {} demoFiles demoContext [resizedContext] demoDevice with
  | error e => rw [h] at hok; cases hok
  | ok r =>
    simp only [h] at hlen
    obtain ⟨calls, hl, live, -, -, -, fin⟩ :=
      generation_handles_destroyed_exactly_once {} demoFiles demoContext [resizedContext]
        demoDevice r rfl h
    exact ⟨rfl, r, rfl, hlen, calls, hl, live, fin⟩

theorem ok_bind {ε α β : Type} (a : α) (f : α → Except ε β) : (Except.ok a >>= f) = f a := rfl

theorem error_bind {ε α β : Type} (e : ε) (f : α → Except ε β) :
    (Except.error e >>= f) = .error e := rfl

theorem createdPipelines_append (a b : List Call) :
    createdPipelines (a ++ b) = createdPipelines a ++ createdPipelines b := by
  simp [createdPipelines, List.filterMap_append]

theorem CreatePipeline_trace (fs : FileSystem) (ctx : VulkanContext) (d : Device)
    (config : PipelineConfig) :
    (∃ p d' info calls, utils.CreatePipeline fs ctx d config = .ok (p, d') ∧
      d'.log = d.log ++ calls ∧ createdPipelines calls = [(p, info)] ∧
      info.renderPass = config.renderPass ∧ d'.failing = d.failing ∧
      (∃ code, utils.ReadFile fs config.vertShaderPath = .ok code) ∧
      (∃ code, utils.ReadFile fs config.fragShaderPath = .ok code)) ∨
    (∃ e d' calls, utils.CreatePipeline fs ctx d config = .error (e, d') ∧
      d'.log = d.log ++ calls ∧ createdPipelines calls = [] ∧
      (utils.ReadFile fs config.vertShaderPath = .error e ∨
        ((∃ code, utils.ReadFile fs config.vertShaderPath = .ok code) ∧
          utils.ReadFile fs config.fragShaderPath = .error e) ∨
        d.failing ≠ [])) := by
  cases h1 : utils.ReadFile fs config.vertShaderPath with
  | error e =>
    right
    refine ⟨e, d, [], ?_, by simp, rfl, Or.inl rfl⟩
    simp only [utils.CreatePipeline, h1, throwsAt]
    rfl
  | ok c1 =>
    cases h2 : utils.ReadFile fs config.fragShaderPath with
    | error e =>
      right
      refine ⟨e, d, [], ?_, by simp, rfl, Or.inr (Or.inl ⟨⟨c1, rfl⟩, rfl⟩)⟩
      simp only [utils.CreatePipeline, h1, h2, throwsAt]
      rfl
    | ok c2 =>
      by_cases f1 : d.next ∈ d.failing
      · right
        refine ⟨"failed to create shader module!", d, [], ?_, by simp, rfl,
          Or.inr (Or.inr (List.ne_nil_of_mem f1))⟩
        simp only [utils.CreatePipeline, h1, h2, throwsAt, VulkanContext.CreateShaderModule, check,
          Device.request, f1, if_true]
        rfl
      · by_cases f2 : d.next + 1 ∈ d.failing
        · right
          have e : utils.CreatePipeline fs ctx d config =
              .error ("failed to create shader module!",
                { next := d.next + 1, failing := d.failing,
                  log := d.log ++ [Call.CreateShaderModule c1 (d.next + 1)] }) := by
            simp only [utils.CreatePipeline, h1, h2, throwsAt, VulkanContext.CreateShaderModule,
              check, Device.request, f1, f2, if_true, if_false, ok_bind, error_bind]
          exact ⟨_, _, _, e, rfl, rfl, Or.inr (Or.inr (List.ne_nil_of_mem f2))⟩
        · by_cases f3 : d.next + 1 + 1 ∈ d.failing
          · right
            have e : utils.CreatePipeline fs ctx d config =
                .error ("Failed to create graphics pipeline!",
                  { next := d.next + 1 + 1, failing := d.failing,
                    log := d.log ++ [Call.CreateShaderModule c1 (d.next + 1)] ++
                      [Call.CreateShaderModule c2 (d.next + 1 + 1)] }) := by
              simp only [utils.CreatePipeline, h1, h2, throwsAt, VulkanContext.CreateShaderModule,
                check, Device.request, vkCreateGraphicsPipelines, f1, f2, f3, if_true, if_false,
                ok_bind, error_bind]
            exact ⟨_, _, _, e, List.append_assoc _ _ _, rfl,
              Or.inr (Or.inr (List.ne_nil_of_mem f3))⟩
          · left
            simp only [utils.CreatePipeline, h1, h2, throwsAt, VulkanContext.CreateShaderModule,
              check, Device.request, vkCreateGraphicsPipelines, vkDestroyShaderModule, Device.emit,
              f1, f2, f3, if_true, if_false, ok_bind, error_bind, pure, Except.pure]
            refine ⟨_, _, ?info, ?calls, rfl, ?hl, ?hc, ?hr, rfl, ⟨c1, rfl⟩, ⟨c2, rfl⟩⟩
            case hl =>
              simp only [List.append_assoc]
              exact rfl
            case hc => exact rfl
            case hr => exact rfl

theorem bind_error_iff {ε α β : Type} (x : Except ε α) (f : α → Except ε β) (e : ε) :
    (x >>= f) = .error e ↔ x = .error e ∨ ∃ a, x = .ok a ∧ f a = .error e := by
  cases x with
  | error e0 => simp [bind, Except.bind]
  | ok a => simp [bind, Except.bind]

theorem throwsAt_error {α : Type} (d d' : Device) (x : Except String α) (e : String) :
    throwsAt d x = .error (e, d') ↔ x = .error e ∧ d' = d := by
  cases x with
  | error e0 =>
    simp only [throwsAt, Except.error.injEq, Prod.mk.injEq]
    constructor
    · rintro ⟨rfl, rfl⟩
      exact ⟨rfl, rfl⟩
    · rintro ⟨rfl, rfl⟩
      exact ⟨rfl, rfl⟩
  | ok a => simp [throwsAt]

theorem check_request_error (d : Device) (n : Nat) (call : Handle → Call) (msg e : String)
    (h : check (d.request n call) msg = .error e) : d.failing ≠ [] := by
  unfold check Device.request at h
  split_ifs at h with hf
  exact List.ne_nil_of_mem hf

theorem CreatePipeline_error (fs : FileSystem) (ctx : VulkanContext) (d : Device)
    (config : PipelineConfig) (e : String) (d' : Device)
    (h : utils.CreatePipeline fs ctx d config = .error (e, d')) :
    ∃ calls, d'.log = d.log ++ calls ∧ createdPipelines calls = [] ∧
      (utils.ReadFile fs config.vertShaderPath = .error e ∨
        ((∃ code, utils.ReadFile fs config.vertShaderPath = .ok code) ∧
          utils.ReadFile fs config.fragShaderPath = .error e) ∨
        d.failing ≠ []) := by
  rcases CreatePipeline_trace fs ctx d config with
    ⟨p, d2, info, calls, h2, -⟩ | ⟨e2, d2, calls, h2, l, c, why⟩
  · rw [h2] at h
    cases h
  · rw [h2] at h
    cases h
    exact ⟨calls, l, c, why⟩

theorem CreatePipeline_done (fs : FileSystem) (ctx : VulkanContext) (d : Device)
    (config : PipelineConfig) (p : Handle) (d' : Device)
    (h : utils.CreatePipeline fs ctx d config = .ok (p, d')) :
    ∃ info calls, d'.log = d.log ++ calls ∧ createdPipelines calls = [(p, info)] ∧
      info.renderPass = config.renderPass ∧ d'.failing = d.failing ∧
      (∃ code, utils.ReadFile fs config.vertShaderPath = .ok code) ∧
      (∃ code, utils.ReadFile fs config.fragShaderPath = .ok code) := by
  rcases CreatePipeline_trace fs ctx d config with
    ⟨p2, d2, info, calls, h2, l, c, r, f, v, g⟩ | ⟨e2, d2, calls, h2, -⟩
  · rw [h2] at h
    cases h
    exact ⟨info, calls, l, c, r, f, v, g⟩
  · rw [h2] at h
    cases h

open MotionBlurExample in
theorem CreatePipelines_failed (self : MotionBlurExample) (fs : FileSystem) (ctx : VulkanContext)
    (d : Device) (e : String) (d' : Device)
    (h : self.CreatePipelines fs ctx d = .error (e, d')) :
    ∃ j calls v f, j < 5 ∧ d'.log = d.log ++ calls ∧
      (createdPipelines calls).map (fun c => c.2.renderPass) =
        (Pass.all.map self.renderPass).take j ∧
      (∀ name ∈ shaderPaths.take (2 * j), ∃ code, utils.ReadFile fs name = .ok code) ∧
      shaderPaths[2 * j]? = some v ∧ shaderPaths[2 * j + 1]? = some f ∧
      (utils.ReadFile fs v = .error e ∨
        ((∃ code, utils.ReadFile fs v = .ok code) ∧ utils.ReadFile fs f = .error e) ∨
        d.failing ≠ []) := by
  simp only [CreatePipelines, bind_error_iff, throwsAt_error, throwsAt_ok, Prod.exists,
    VulkanContext.CreateShaderModule, check_request_ok, vkCreateGraphicsPipelines,
    vkDestroyShaderModule, Device.emit] at h
  rcases h with ⟨r1, rfl⟩ | ⟨c1, r1, ⟨r2, rfl⟩ | ⟨c2, r2, ⟨q1, rfl⟩ | ⟨m1, D1, ⟨-, e1⟩, ⟨q2, rfl⟩ |
    ⟨m2, D2, ⟨-, e2⟩, ⟨q3, rfl⟩ | ⟨p1, D3, ⟨-, e3⟩, hB1 | ⟨p2, D4, k2, hB2 | ⟨p3, D5, k3, hB3 |
    ⟨p4, D6, k4, hB4 | ⟨p5, D7, k5, hlast⟩⟩⟩⟩⟩⟩⟩⟩⟩
  · exact ⟨0, [], _, _, by decide, by simp, rfl, by simp, rfl, rfl, Or.inl r1⟩
  · exact ⟨0, [], _, _, by decide, by simp, rfl, by simp, rfl, rfl, Or.inr (Or.inl ⟨⟨c1, r1⟩, r2⟩)⟩
  · exact ⟨0, [], _, _, by decide, by simp, rfl, by simp, rfl, rfl,
      Or.inr (Or.inr (check_request_error _ _ _ _ _ q1))⟩
  · cases e1
    have why := check_request_error _ _ _ _ _ q2
    exact ⟨0, [_], _, _, by decide, rfl, rfl, by simp, rfl, rfl, Or.inr (Or.inr why)⟩
  · cases e1
    cases e2
    have why := check_request_error _ _ _ _ _ q3
    exact ⟨0, [_, _], _, _, by decide, List.append_assoc _ _ _, rfl, by simp, rfl, rfl,
      Or.inr (Or.inr why)⟩
  all_goals
    cases e1
    cases e2
    cases e3
  · obtain ⟨calls, l, c, why⟩ := CreatePipeline_error _ _ _ _ _ _ hB1
    simp only [List.append_assoc] at l
    refine ⟨1, d'.log.drop d.log.length, _, _, by decide, ?_, ?_, ?_, rfl, rfl, why⟩
    · rw [l, List.drop_left]
    · rw [l, List.drop_left]
      simp only [createdPipelines_append, c]
      rfl
    · simp only [shaderPaths, Nat.reduceMul, List.take_succ_cons, List.take_zero,
        List.forall_mem_cons, List.not_mem_nil, false_implies, implies_true, and_true]
      exact ⟨⟨c1, r1⟩, ⟨c2, r2⟩⟩
  · obtain ⟨i2, calls2, l2, c2', rp2, f2, v2, g2⟩ := CreatePipeline_done _ _ _ _ _ _ k2
    obtain ⟨calls, l, c, why⟩ := CreatePipeline_error _ _ _ _ _ _ hB2
    rw [l2] at l
    rw [f2] at why
    simp only [List.append_assoc] at l
    refine ⟨2, d'.log.drop d.log.length, _, _, by decide, ?_, ?_, ?_, rfl, rfl, why⟩
    · rw [l, List.drop_left]
    · rw [l, List.drop_left]
      simp only [createdPipelines_append, c, c2', List.map_append, List.map_cons, List.map_nil,
        rp2]
      rfl
    · simp only [shaderPaths, Nat.reduceMul, List.take_succ_cons, List.take_zero,
        List.forall_mem_cons, List.not_mem_nil, false_implies, implies_true, and_true]
      exact ⟨⟨c1, r1⟩, ⟨c2, r2⟩, v2, g2⟩
  · obtain ⟨i2, calls2, l2, c2', rp2, f2, v2, g2⟩ := CreatePipeline_done _ _ _ _ _ _ k2
    obtain ⟨i3, calls3, l3, c3', rp3, f3, v3, g3⟩ := CreatePipeline_done _ _ _ _ _ _ k3
    obtain ⟨calls, l, c, why⟩ := CreatePipeline_error _ _ _ _ _ _ hB3
    rw [l3, l2] at l
    rw [f3, f2] at why
    simp only [List.append_assoc] at l
    refine ⟨3, d'.log.drop d.log.length, _, _, by decide, ?_, ?_, ?_, rfl, rfl, why⟩
    · rw [l, List.drop_left]
    · rw [l, List.drop_left]
      simp only [createdPipelines_append, c, c2', c3', List.map_append, List.map_cons,
        List.map_nil, rp2, rp3]
      rfl
    · simp only [shaderPaths, Nat.reduceMul, List.take_succ_cons, List.take_zero,
        List.forall_mem_cons, List.not_mem_nil, false_implies, implies_true, and_true]
      exact ⟨⟨c1, r1⟩, ⟨c2, r2⟩, v2, g2, v3, g3⟩
  · obtain ⟨i2, calls2, l2, c2', rp2, f2, v2, g2⟩ := CreatePipeline_done _ _ _ _ _ _ k2
    obtain ⟨i3, calls3, l3, c3', rp3, f3, v3, g3⟩ := CreatePipeline_done _ _ _ _ _ _ k3
    obtain ⟨i4, calls4, l4, c4', rp4, f4, v4, g4⟩ := CreatePipeline_done _ _ _ _ _ _ k4
    obtain ⟨calls, l, c, why⟩ := CreatePipeline_error _ _ _ _ _ _ hB4
    rw [l4, l3, l2] at l
    rw [f4, f3, f2] at why
    simp only [List.append_assoc] at l
    refine ⟨4, d'.log.drop d.log.length, _, _, by decide, ?_, ?_, ?_, rfl, rfl, why⟩
    · rw [l, List.drop_left]
    · rw [l, List.drop_left]
      simp only [createdPipelines_append, c, c2', c3', c4', List.map_append, List.map_cons,
        List.map_nil, rp2, rp3, rp4]
      rfl
    · simp only [shaderPaths, Nat.reduceMul, List.take_succ_cons, List.take_zero,
        List.forall_mem_cons, List.not_mem_nil, false_implies, implies_true, and_true]
      exact ⟨⟨c1, r1⟩, ⟨c2, r2⟩, v2, g2, v3, g3, v4, g4⟩
  · cases hlast

theorem mem_take_of_getElem? {α : Type} (l : List α) (x : α) (n m : Nat) (h : l[n]? = some x)
    (hm : n < m) : x ∈ l.take m := by
  have e : (l.take m)[n]? = some x := by
    rw [List.getElem?_take_of_lt hm]
    exact h
  exact List.getElem?_mem e

/-- C17, amended: when the file named `filename` cannot be opened, `ReadFile` fails with the
message "Failed to open file: " followed by the name and returns no buffer. Consequently
`CreatePipeline` fails when one of its two shader files is missing, and the driver state at the
throw is the one it was called with: it has made no call, so it has created no pipeline; the
message is that of the missing file when that is the vertex shader, or the fragment shader with
a readable vertex shader. `CreatePipelines` fails when any of the ten shader files is missing, and
the pipelines created by then are those of the first passes in the order G-Buffer, Motion-Apply,
Blur-Vertical, Blur-Horizontal, Final, up to but not including the pass of the missing file: none
for that pass or a later one. When the driver refuses nothing and every file read before the
missing one can be read, the message is that of the missing file and the pipelines of all passes
before its pass have been created. -/
theorem missing_shader_file_fails_before_its_pipeline (fs : FileSystem) (ctx : VulkanContext)
    (d : Device) (filename : String) (hmissing : fs.files.lookup filename = none) :
    utils.ReadFile fs filename = .error ("Failed to open file: " ++ filename) ∧
    (∀ config : PipelineConfig, config.vertShaderPath = filename →
      utils.CreatePipeline fs ctx d config = .error ("Failed to open file: " ++ filename, d)) ∧
    (∀ config : PipelineConfig, config.fragShaderPath = filename →
      ∃ e, utils.CreatePipeline fs ctx d config = .error (e, d) ∧
        ((∃ code, utils.ReadFile fs config.vertShaderPath = .ok code) →
          e = "Failed to open file: " ++ filename)) ∧
    (∀ self : MotionBlurExample, filename ∈ shaderPaths →
      ∃ e d' calls, self.CreatePipelines fs ctx d = .error (e, d') ∧ d'.log = d.log ++ calls ∧
        List.IsPrefix ((createdPipelines calls).map fun c => c.2.renderPass)
          ((Pass.all.map self.renderPass).take (shaderPaths.indexOf filename / 2)) ∧
        (d.failing = [] →
          (∀ name ∈ shaderPaths.take (shaderPaths.indexOf filename),
            ∃ code, utils.ReadFile fs name = .ok code) →
          e = "Failed to open file: " ++ filename ∧
          (createdPipelines calls).map (fun c => c.2.renderPass) =
            (Pass.all.map self.renderPass).take (shaderPaths.indexOf filename / 2))) := by
  have hr := ReadFile_missing fs filename hmissing
  refine ⟨hr, ?_, ?_, ?_⟩
  · rintro config rfl
    simp only [utils.CreatePipeline, hr, throwsAt]
    rfl
  · rintro config rfl
    cases hv : utils.ReadFile fs config.vertShaderPath with
    | error e =>
      refine ⟨e, ?_, fun ⟨code, hc⟩ => by cases hc⟩
      simp only [utils.CreatePipeline, hv, throwsAt]
      rfl
    | ok code =>
      refine ⟨_, ?_, fun _ => rfl⟩
      simp only [utils.CreatePipeline, hv, hr, throwsAt]
      rfl
  · intro self hmem
    cases h : self.CreatePipelines fs ctx d with
    | ok r =>
      obtain ⟨code, hc⟩ := CreatePipelines_reads self fs ctx d r h filename hmem
      rw [hr] at hc
      cases hc
    | error err =>
      obtain ⟨e, d'⟩ := err
      obtain ⟨j, calls, v, f, hj, l, c, files, hv, hf, why⟩ :=
        CreatePipelines_failed self fs ctx d e d' h
      have hidx := List.getElem?_indexOf hmem
      have unread : ∀ name, utils.ReadFile fs name = .error ("Failed to open file: " ++ filename) →
          ¬ ∃ code, utils.ReadFile fs name = .ok code := by
        rintro name h1 ⟨code, h2⟩
        rw [h1] at h2
        cases h2
      have hjk : j ≤ shaderPaths.indexOf filename / 2 := by
        by_contra hlt
        have : shaderPaths.indexOf filename < 2 * j := by omega
        exact unread filename hr (files filename (mem_take_of_getElem? _ _ _ _ hidx this))
      refine ⟨e, d', calls, rfl, l, ?_, ?_⟩
      · rw [c]
        exact List.take_prefix_take_left _ hjk
      · intro hd hfirst
        have key : shaderPaths.indexOf filename / 2 = j ∧ e = "Failed to open file: " ++ filename := by
          rcases why with hve | ⟨hvo, hfe⟩ | hne
          · have h1 : shaderPaths.indexOf filename ≤ 2 * j := by
              by_contra hlt
              obtain ⟨code, hc⟩ := hfirst v (mem_take_of_getElem? _ _ _ _ hv (by omega))
              rw [hve] at hc
              cases hc
            have h2 : shaderPaths.indexOf filename = 2 * j := by omega
            rw [h2, hv] at hidx
            cases hidx
            rw [hr] at hve
            cases hve
            exact ⟨by omega, rfl⟩
          · have h1 : shaderPaths.indexOf filename ≤ 2 * j + 1 := by
              by_contra hlt
              obtain ⟨code, hc⟩ := hfirst f (mem_take_of_getElem? _ _ _ _ hf (by omega))
              rw [hfe] at hc
              cases hc
            have h2 : shaderPaths.indexOf filename ≠ 2 * j := by
              intro h2
              rw [h2, hv] at hidx
              cases hidx
              exact unread _ hr hvo
            have h3 : shaderPaths.indexOf filename = 2 * j + 1 := by omega
            rw [h3, hf] at hidx
            cases hidx
            rw [hr] at hfe
            cases hfe
            exact ⟨by omega, rfl⟩
          · exact absurd hd hne
        rw [key.1]
        exact ⟨key.2, c⟩

set_option maxRecDepth 100000 in
/-- C17 as stated fails: in the sample file system without the fragment shader of the final
pass, `CreatePipelines` fails with "Failed to open file: shaders/final_apply.frag.spv", but when
the exception is thrown the driver has created four pipelines, the handles 3, 6, 9 and 12, for
the render passes of the first four passes. -/
theorem pipelines_created_before_missing_file :
    filesWithoutFinalFragment.files.lookup "shaders/final_apply.frag.spv" = none ∧
    ∃ d', MotionBlurExample.CreatePipelines
          { renderPassGBuffer := 21, renderPassMotionApply := 22, renderPassBlurVertical := 23,
            renderPassBlurHorizontal := 24, renderPassFinal := 25 }
          filesWithoutFinalFragment demoContext demoDevice =
        .error ("Failed to open file: shaders/final_apply.frag.spv", d') ∧
      (createdPipelines d'.log).map (fun c => (c.1, c.2.renderPass)) =
        [(3, 21), (6, 22), (9, 23), (12, 24)] := by
  refine ⟨by decide, ?_⟩
  cases h : MotionBlurExample.CreatePipelines
      { renderPassGBuffer := 21, renderPassMotionApply := 22, renderPassBlurVertical := 23,
        renderPassBlurHorizontal := 24, renderPassFinal := 25 }
      filesWithoutFinalFragment demoContext demoDevice with
  | ok r =>
    have hok : (MotionBlurExample.CreatePipelines
      { renderPassGBuffer := 21, renderPassMotionApply := 22, renderPassBlurVertical := 23,
        renderPassBlurHorizontal := 24, renderPassFinal := 25 }
      filesWithoutFinalFragment demoContext demoDevice).isOk = false := rfl
    rw [h] at hok
    cases hok
  | error err =>
    have e : (match MotionBlurExample.CreatePipelines
        { renderPassGBuffer := 21, renderPassMotionApply := 22, renderPassBlurVertical := 23,
          renderPassBlurHorizontal := 24, renderPassFinal := 25 }
        filesWithoutFinalFragment demoContext demoDevice with
      | .error err => (err.1, (createdPipelines err.2.log).map (fun c => (c.1, c.2.renderPass)))
      | .ok _ => ("", [])) =
        ("Failed to open file: shaders/final_apply.frag.spv",
          [(3, 21), (6, 22), (9, 23), (12, 24)]) := rfl
    simp only [h, Prod.mk.injEq] at e
    obtain ⟨msg, d'⟩ := err
    obtain ⟨e1, e2⟩ := e
    simp only at e1 e2
    subst e1
    exact ⟨d', rfl, e2⟩

set_option maxRecDepth 100000 in
/-- C17 amended, for the sample file system without the fragment shader of the final pass, on a
driver that refuses nothing. -/
theorem missing_shader_file_fails_before_its_pipeline_witness :
    utils.ReadFile filesWithoutFinalFragment "shaders/final_apply.frag.spv" =
      .error "Failed to open file: shaders/final_apply.frag.spv" ∧
    utils.CreatePipeline filesWithoutFinalFragment demoContext demoDevice
        { vertShaderPath := "shaders/final_apply.vert.spv",
          fragShaderPath := "shaders/final_apply.frag.spv" } =
      .error ("Failed to open file: shaders/final_apply.frag.spv", demoDevice) ∧
    ∃ d' calls, MotionBlurExample.CreatePipelines
          { renderPassGBuffer := 21, renderPassMotionApply := 22, renderPassBlurVertical := 23,
            renderPassBlurHorizontal := 24, renderPassFinal := 25 }
          filesWithoutFinalFragment demoContext demoDevice =
        .error ("Failed to open file: shaders/final_apply.frag.spv", d') ∧
      d'.log = demoDevice.log ++ calls ∧
      (createdPipelines calls).map (fun c => c.2.renderPass) = [21, 22, 23, 24] := by
  obtain ⟨h1, -, h3, h4⟩ :=
    missing_shader_file_fails_before_its_pipeline filesWithoutFinalFragment demoContext demoDevice
      "shaders/final_apply.frag.spv" (by decide)
  obtain ⟨e, h5, h6⟩ := h3
    { vertShaderPath := "shaders/final_apply.vert.spv",
      fragShaderPath := "shaders/final_apply.frag.spv" } rfl
  have e6 := h6 ⟨_, rfl⟩
  obtain ⟨e', d', calls, k1, k2, -, k4⟩ := h4
    { renderPassGBuffer := 21, renderPassMotionApply := 22, renderPassBlurVertical := 23,
      renderPassBlurHorizontal := 24, renderPassFinal := 25 } (by decide)
  obtain ⟨k5, k6⟩ := k4 rfl (by
    intro name hn
    have hn' : name ∈ shaderPaths.take 9 := hn
    simp only [shaderPaths, List.take_succ_cons, List.take_zero, List.mem_cons,
      List.not_mem_nil, or_false] at hn'
    rcases hn' with rfl | rfl | rfl | rfl | rfl | rfl | rfl | rfl | rfl <;> exact ⟨_, rfl⟩)
  refine ⟨h1, ?_, d', calls, ?_, k2, ?_⟩
  · rw [h5, e6]
    rfl
  · rw [k1, k5]
    rfl
  · rw [k6]
    rfl

theorem FullscreenQuad_Initialize_buffers (quad : FullscreenQuad) (ctx : VulkanContext)
    (d : Device) (r : Device × FullscreenQuad) (hi : quad.initialized = false)
    (h : quad.Initialize ctx d = .ok r) :
    r.1.bufferBytes r.2.vertexBuffer = some (FullscreenQuad.vertexData.bytes.map some) ∧
    r.1.bufferBytes r.2.indexBuffer = some (FullscreenQuad.indexData.bytes.map some) := by
  obtain ⟨e2, elog⟩ := FullscreenQuad_Initialize_log quad ctx d r hi h
  have split : ∀ (a b c d e f g h i j k l m n o p : Call),
      [a, b, c, d, e, f, g, h, i, j, k, l, m, n, o, p] =
        [a, b, c, d, e, f, g, h] ++ [i, j, k, l, m, n, o, p] :=
    fun _ _ _ _ _ _ _ _ _ _ _ _ _ _ _ _ => rfl
  constructor
  · have hv := bufferBytes_upload d.memory FullscreenQuad.vertexData 64
      VK_BUFFER_USAGE_TRANSFER_SRC_BIT
      (VK_MEMORY_PROPERTY_HOST_VISIBLE_BIT ||| VK_MEMORY_PROPERTY_HOST_COHERENT_BIT)
      (VK_BUFFER_USAGE_TRANSFER_DST_BIT ||| VK_BUFFER_USAGE_VERTEX_BUFFER_BIT)
      VK_MEMORY_PROPERTY_DEVICE_LOCAL_BIT 0 (d.next + 1) (d.next + 2) (d.next + 3) (d.next + 4)
      rfl (by simp)
    have ho := bufferBytes_upload_other _ FullscreenQuad.indexData 12
      VK_BUFFER_USAGE_TRANSFER_SRC_BIT
      (VK_MEMORY_PROPERTY_HOST_VISIBLE_BIT ||| VK_MEMORY_PROPERTY_HOST_COHERENT_BIT)
      (VK_BUFFER_USAGE_TRANSFER_DST_BIT ||| VK_BUFFER_USAGE_INDEX_BUFFER_BIT)
      VK_MEMORY_PROPERTY_DEVICE_LOCAL_BIT 0 (d.next + 5) (d.next + 6) (d.next + 7) (d.next + 8)
      (d.next + 3) (d.next + 4) _ hv (by simp) (by simp) (by simp)
    rw [e2]
    simp only [Device.bufferBytes, Device.memory, elog, List.foldl_append]
    rw [split, List.foldl_append]
    exact congrArg (Option.map Prod.snd) ho
  · have hx := bufferBytes_upload
      ([ Call.CreateBuffer 64 VK_BUFFER_USAGE_TRANSFER_SRC_BIT
          (VK_MEMORY_PROPERTY_HOST_VISIBLE_BIT ||| VK_MEMORY_PROPERTY_HOST_COHERENT_BIT)
          (d.next + 1) (d.next + 2),
        Call.vkMapMemory (d.next + 2) 0 64,
        Call.memcpy (d.next + 2) FullscreenQuad.vertexData 64,
        Call.vkUnmapMemory (d.next + 2),
        Call.CreateBuffer 64 (VK_BUFFER_USAGE_TRANSFER_DST_BIT ||| VK_BUFFER_USAGE_VERTEX_BUFFER_BIT)
          VK_MEMORY_PROPERTY_DEVICE_LOCAL_BIT (d.next + 3) (d.next + 4),
        Call.CopyBuffer (d.next + 1) (d.next + 3) 64,
        Call.vkDestroyBuffer (d.next + 1),
        Call.vkFreeMemory (d.next + 2) ].foldl memoryStep d.memory)
      FullscreenQuad.indexData 12
      VK_BUFFER_USAGE_TRANSFER_SRC_BIT
      (VK_MEMORY_PROPERTY_HOST_VISIBLE_BIT ||| VK_MEMORY_PROPERTY_HOST_COHERENT_BIT)
      (VK_BUFFER_USAGE_TRANSFER_DST_BIT ||| VK_BUFFER_USAGE_INDEX_BUFFER_BIT)
      VK_MEMORY_PROPERTY_DEVICE_LOCAL_BIT 0 (d.next + 5) (d.next + 6) (d.next + 7) (d.next + 8)
      rfl (by simp)
    rw [e2]
    simp only [Device.bufferBytes, Device.memory, elog, List.foldl_append]
    rw [split, List.foldl_append]
    exact congrArg (Option.map Prod.snd) hx

/-- C23: the full-screen quad has 4 vertices and the 6 indices 0,1,2,0,2,3, each below 4. After
a successful `FullscreenQuad::Initialize` of a quad not yet initialised, `Bind` followed by `Draw`
binds the vertex buffer and the index buffer of the quad, the latter at offset 0 with index type
uint16, and issues one indexed draw of 6 indices from first index 0 with vertex offset 0; the
vertex buffer then holds 64 bytes and the index buffer 12; the six indices that the draw reads
from the index buffer are 0,1,2,0,2,3, which assembles the triangles (0,1,2) and (0,2,3); and with
`v0 .. v3` the positions that the vertex fetch reads from the vertex buffer, every point
`(x, y)` with `-1 ≤ x ≤ 1` and `-1 ≤ y ≤ 1` (in any ordered field, in particular the reals) lies
in triangle `(v0, v1, v2)` or in triangle `(v0, v2, v3)`. -/
theorem fullscreen_quad_covers_viewport (quad : FullscreenQuad) (ctx : VulkanContext)
    (d : Device) (r : Device × FullscreenQuad) (cmd : List Cmd)
    (hfresh : quad.initialized = false) (h : quad.Initialize ctx d = .ok r) :
    FullscreenQuad.vertices.length = 4 ∧
    FullscreenQuad.indices = [0, 1, 2, 0, 2, 3] ∧ FullscreenQuad.indices.length = 6 ∧
    (∀ i ∈ FullscreenQuad.indices, i < FullscreenQuad.vertices.length) ∧
    r.2.Draw (r.2.Bind cmd) = cmd ++ [Cmd.vkCmdBindVertexBuffers 0 [r.2.vertexBuffer] [0],
      Cmd.vkCmdBindIndexBuffer r.2.indexBuffer 0 .VK_INDEX_TYPE_UINT16,
      Cmd.vkCmdDrawIndexed 6 1 0 0 0] ∧
    ∃ vertexBytes indexBytes,
      r.1.bufferBytes r.2.vertexBuffer = some vertexBytes ∧
      r.1.bufferBytes r.2.indexBuffer = some indexBytes ∧
      vertexBytes.length = 64 ∧ indexBytes.length = 12 ∧
      fetchIndices indexBytes 0 0 6 = [some 0, some 1, some 2, some 0, some 2, some 3] ∧
      assembleTriangles ((fetchIndices indexBytes 0 0 6).filterMap id) 0 6 =
        [(0, 1, 2), (0, 2, 3)] ∧
      ∃ v0 v1 v2 v3, fetchPosition vertexBytes 0 = some v0 ∧
        fetchPosition vertexBytes 1 = some v1 ∧ fetchPosition vertexBytes 2 = some v2 ∧
        fetchPosition vertexBytes 3 = some v3 ∧
        ∀ (K : Type) [LinearOrderedField K] (x y : K), -1 ≤ x → x ≤ 1 → -1 ≤ y → y ≤ 1 →
          inTriangle (castPoint K v0) (castPoint K v1) (castPoint K v2) (x, y) ∨
          inTriangle (castPoint K v0) (castPoint K v2) (castPoint K v3) (x, y) := by
  obtain ⟨hv, hx⟩ := FullscreenQuad_Initialize_buffers quad ctx d r hfresh h
  have hidx : fetchIndices (FullscreenQuad.indexData.bytes.map some) 0 0 6 =
      [some 0, some 1, some 2, some 0, some 2, some 3] := by decide
  refine ⟨rfl, rfl, rfl, by decide, ?_, _, _, hv, hx, rfl, rfl, hidx, ?_,
    (-1, -1), (1, -1), (1, 1), (-1, 1), by decide, by decide, by decide, by decide, ?_⟩
  · simp [FullscreenQuad.Bind, FullscreenQuad.Draw, vkCmdBindVertexBuffers, vkCmdBindIndexBuffer,
      vkCmdDrawIndexed]
  · rw [hidx]
    decide
  · intro K _ x y hx0 hx1 hy0 hy1
    simp only [inTriangle, edgeFunction, castPoint, Rat.cast_neg, Rat.cast_one]
    rcases le_total y x with hxy | hxy
    · left
      left
      refine ⟨?_, ?_, ?_⟩ <;> linarith
    · right
      left
      refine ⟨?_, ?_, ?_⟩ <;> linarith

/-- C23, for the quad initialised on the sample driver and the point (1/2, -1/3). -/
theorem fullscreen_quad_covers_viewport_witness :
    ∃ r, FullscreenQuad.Initialize {} demoContext demoDevice = .ok r ∧
      ∃ vertexBytes, r.1.bufferBytes r.2.vertexBuffer = some vertexBytes ∧
        ∃ v0 v1 v2 v3, fetchPosition vertexBytes 0 = some v0 ∧
          fetchPosition vertexBytes 1 = some v1 ∧ fetchPosition vertexBytes 2 = some v2 ∧
          fetchPosition vertexBytes 3 = some v3 ∧
          (inTriangle (castPoint ℚ v0) (castPoint ℚ v1) (castPoint ℚ v2) (1 / 2, -1 / 3) ∨
            inTriangle (castPoint ℚ v0) (castPoint ℚ v2) (castPoint ℚ v3) (1 / 2, -1 / 3)) := by
  have hok : (FullscreenQuad.Initialize {} demoContext demoDevice).isOk = true := rfl
  cases h : FullscreenQuad.Initialize {} demoContext demoDevice with
  | error e => rw [h] at hok; cases hok
  | ok r =>
    obtain ⟨-, -, -, -, -, vb, ib, hvb, -, -, -, -, -, v0, v1, v2, v3, h0, h1, h2, h3, hc⟩ :=
      fullscreen_quad_covers_viewport {} demoContext demoDevice r [] rfl h
    exact ⟨r, rfl, vb, hvb, v0, v1, v2, v3, h0, h1, h2, h3,
      hc ℚ (1 / 2) (-1 / 3) (by norm_num) (by norm_num) (by norm_num) (by norm_num)⟩

end vkdemo
